import Mathlib

/-!
# holdMyTask: the conversation session engine

A shallow embedding of the Telegram task-manager bot: the in-memory session
service (`src/services/sessionService.js`), the registration, join, project and
task flows of the three controllers (`src/controllers`), the document schemas
they save (`src/models`) and the update router of `app.js`.

## How the program is embedded

* Every handler of the bot is an `async` function that reads and writes the
  session store, queries the database and calls the Bot API.  Handlers are
  state transformers over a `World` record.  A handler either returns or
  throws, and in both cases the world it leaves behind is kept: an exception
  does not undo earlier writes.
* Each awaited database query and each Bot API call is one call that the
  collaborator may reject.  The world carries the behaviour of both
  collaborators (`dbFails`, `apiFails`) and counts the calls made so far, so a
  result can assume that no call fails, or say which call does.
* `try`/`catch` is `tryCatch`.  A `return promise` inside a `try` block is not
  awaited there, so its rejection is not caught: such blocks yield the action
  left to run (`tryCatchReturn`).
* The clock read by `Date.now()` is the field `now`; it does not move while one
  handler runs.
* Saving a document applies its schema: trimmed texts, required `name`, unique
  `telegramId`, the three values of `status`.
* Texts are sequences of code points; lower-casing maps the letters `A`..`Z`.
  The rendering of dates inside message texts is not modelled.
* The listeners of `app.js` are `onCommand`, `onCallbackQuery` and `onMessage`.
  The Bot API client emits `message` for every message and calls the listener
  of every `onText` pattern found in its text (`listenerRuns`).  The functions
  of the controllers that no listener reaches (`deleteProject`,
  `showProjectTeam`) are not embedded.
* Time is a number of milliseconds and the model runs in UTC: a calendar day is
  a block of `86400000` milliseconds, so the start of a day, the same clock time
  on the next day and the sweeps of the notification service
  (`src/services/notificationService.js`) are arithmetic on that number.
-/

set_option autoImplicit false

namespace HoldMyTask

/-! ## `src/utils/emoji.js` -/

namespace emoji

def project : String := "📁"
def newProject : String := "🆕"
def editProject : String := "✏️"
def deleteProject : String := "🗑️"
def projects : String := "📂"
def user : String := "👤"
def team : String := "👥"
def addUser : String := "➕"
def editUser : String := "🔄"
def deleteUser : String := "❌"
def task : String := "📝"
def tasks : String := "📋"
def todo : String := "📌"
def inProgress : String := "⏳"
def done : String := "✅"
def feature : String := "⭐"
def research : String := "🔍"
def bug : String := "🐞"
def editTask : String := "✏️"
def deleteTask : String := "🗑️"
def lowPriority : String := "🟢"
def mediumPriority : String := "🟡"
def highPriority : String := "🔴"
def calendar : String := "📅"
def clock : String := "⏰"
def deadline : String := "⏱️"
def success : String := "✅"
def error : String := "❌"
def warning : String := "⚠️"
def info : String := "💡"
def help : String := "❓"
def notification : String := "🔔"
def back : String := "⬅️"
def next : String := "➡️"
def select : String := "✔️"
def cancel : String := "❌"
def settings : String := "⚙️"
def search : String := "🔍"
def menu : String := "📋"

end emoji

/-! ## String primitives of the host language -/

/-- The method `String.prototype.startsWith`. -/
def startsWith (s p : String) : Bool := p.data.isPrefixOf s.data

/-- Splitting a character list at every occurrence of a separator. -/
def splitChars (sep : Char) : List Char → List (List Char)
  | [] => [[]]
  | c :: cs =>
    if c = sep then [] :: splitChars sep cs
    else
      match splitChars sep cs with
      | [] => [[c]]
      | h :: t => (c :: h) :: t

/-- The method `String.prototype.split` for a one-character separator. -/
def split (s : String) (sep : Char) : List String :=
  (splitChars sep s.data).map String.mk

/-- Lower-casing of one character.  Only the letters `A`..`Z` are mapped;
the case mapping of characters outside ASCII is not part of the model. -/
def lowerChar (c : Char) : Char :=
  if 65 ≤ c.toNat ∧ c.toNat ≤ 90 then Char.ofNat (c.toNat + 32) else c

/-- The method `String.prototype.toLowerCase` (ASCII case mapping). -/
def toLowerCase (s : String) : String := String.mk (s.data.map lowerChar)

/-- White space removed by `String.prototype.trim`. -/
def isTrimChar (c : Char) : Bool :=
  c.toNat ∈ [9, 10, 11, 12, 13, 32, 160, 5760, 8232, 8233, 8239, 8287, 12288, 65279]
    || (8192 ≤ c.toNat && c.toNat ≤ 8202)

/-- The method `String.prototype.trim`. -/
def trim (s : String) : String :=
  String.mk ((s.data.dropWhile isTrimChar).reverse.dropWhile isTrimChar).reverse

/-! ## Session data -/

/-- A calendar date `YYYY-MM-DD`; a `Date` built from such a text denotes
midnight UTC of that day. -/
structure CalDate where
  year : Nat
  month : Nat
  day : Nat
  deriving DecidableEq, Repr

/-- Values stored in the `data` bag of a session. -/
inductive Value where
  | null
  | str (s : String)
  | objectId (id : Nat)
  | date (d : CalDate)
  deriving DecidableEq, Repr

/-- A session object `{ state, data, lastActivity }`.  `state = none` is the
JavaScript `null`; `data` is the object used as a string-keyed bag. -/
structure Session where
  state : Option String
  data : List (String × Value)
  lastActivity : Nat
  deriving DecidableEq, Repr

/-- Property read `obj[key]`; `none` is `undefined`. -/
def lookupKey {κ ν : Type} [DecidableEq κ] (k : κ) : List (κ × ν) → Option ν
  | [] => none
  | (a, v) :: rest => if a = k then some v else lookupKey k rest

/-- Property write `obj[key] = value`. -/
def upsert {κ ν : Type} [DecidableEq κ] (k : κ) (v : ν) : List (κ × ν) → List (κ × ν)
  | [] => [(k, v)]
  | (a, b) :: rest => if a = k then (k, v) :: rest else (a, b) :: upsert k v rest

/-- The object `this.sessions`, keyed by Telegram user id. -/
abbrev Store := List (Nat × Session)

/-! ## `src/services/sessionService.js`

`now` is the value read from `Date.now()`. -/

namespace SessionService

/-- Method `getSession(userId)`: returns the store after the call and the session
object now held for `userId`. -/
def getSession (sessions : Store) (now : Nat) (userId : Nat) : Store × Session :=
  let sessions1 :=
    match lookupKey userId sessions with
    | none => upsert userId { state := none, data := [], lastActivity := now } sessions
    | some _ => sessions
  match lookupKey userId sessions1 with
  | some s =>
    let s1 := { s with lastActivity := now }
    (upsert userId s1 sessions1, s1)
  | none =>
    -- not reachable: the entry was created above
    let s1 : Session := { state := none, data := [], lastActivity := now }
    (upsert userId s1 sessions1, s1)

/-- Method `setState(userId, state)`. -/
def setState (sessions : Store) (now : Nat) (userId : Nat) (state : Option String) :
    Store × Session :=
  let r := getSession sessions now userId
  let s1 := { r.2 with state := state }
  (upsert userId s1 r.1, s1)

/-- Method `setData(userId, key, value)`. -/
def setData (sessions : Store) (now : Nat) (userId : Nat) (key : String) (value : Value) :
    Store × Session :=
  let r := getSession sessions now userId
  let s1 := { r.2 with data := upsert key value r.2.data }
  (upsert userId s1 r.1, s1)

/-- Method `clearSession(userId)`. -/
def clearSession (sessions : Store) (now : Nat) (userId : Nat) : Store :=
  match lookupKey userId sessions with
  | some _ => upsert userId { state := none, data := [], lastActivity := now } sessions
  | none => sessions

/-- Method `cleanupSessions(maxAgeMs)`. -/
def cleanupSessions (sessions : Store) (now : Nat) (maxAgeMs : Nat) : Store :=
  sessions.filter (fun e => ¬ (now - e.2.lastActivity > maxAgeMs))

end SessionService

/-! ## `src/models`: the persisted documents

Object ids are numbers; `renderId` is their 24-digit hexadecimal text, the
form in which an id appears inside callback payloads. -/

/-- A document of the `User` collection. -/
structure User where
  id : Nat
  telegramId : Nat
  name : String
  surname : Option String
  role : Option String
  contact : Option String
  projects : List Nat
  pendingProjects : List Nat
  createdAt : Nat
  deriving DecidableEq, Repr

/-- A document of the `Project` collection. -/
structure Project where
  id : Nat
  name : String
  description : String
  adminId : Nat
  createdAt : Nat
  workDays : List String
  deriving DecidableEq, Repr

/-- A document of the `Task` collection. -/
structure Task where
  id : Nat
  name : String
  description : String
  projectId : Nat
  assignedTo : Option Nat
  dueDate : Option Nat
  taskType : String
  roleType : String
  priority : String
  effort : Nat
  status : String
  createdBy : Nat
  createdAt : Nat
  completedAt : Option Nat
  deriving DecidableEq, Repr

/-- One hexadecimal digit. -/
def hexDigit (d : Nat) : Char :=
  if d < 10 then Char.ofNat (48 + d) else Char.ofNat (87 + d)

/-- The 24 hexadecimal digits of an object id. -/
def renderIdChars (id : Nat) : List Char :=
  (List.range 24).map (fun i => hexDigit (id / 16 ^ (23 - i) % 16))

/-- The text of an object id, as produced by interpolating it in a string. -/
def renderId (id : Nat) : String := String.mk (renderIdChars id)

/-- Value of one hexadecimal digit character, either case. -/
def hexValue (c : Char) : Option Nat :=
  if 48 ≤ c.toNat ∧ c.toNat ≤ 57 then some (c.toNat - 48)
  else if 97 ≤ c.toNat ∧ c.toNat ≤ 102 then some (c.toNat - 87)
  else if 65 ≤ c.toNat ∧ c.toNat ≤ 70 then some (c.toNat - 55)
  else none

/-- Reading a number in a given base from digit characters, most significant first. -/
def readDigits (base : Nat) (digit : Char → Option Nat) : List Char → Nat → Option Nat
  | [], acc => some acc
  | c :: cs, acc =>
    match digit c with
    | some d => readDigits base digit cs (acc * base + d)
    | none => none

/-- Casting a text to an object id: exactly 24 hexadecimal digits. -/
def parseId (s : String) : Option Nat :=
  if s.data.length = 24 then readDigits 16 hexValue s.data 0 else none

/-- Decimal value of a digit character. -/
def decValue (c : Char) : Option Nat :=
  if 48 ≤ c.toNat ∧ c.toNat ≤ 57 then some (c.toNat - 48) else none

/-- The longest leading run of digits of a text. -/
def leadingDigits (digit : Char → Option Nat) (cs : List Char) : List Char :=
  cs.takeWhile (fun c => (digit c).isSome)

/-- The function `parseInt(text)`: leading white space is skipped, a sign and a
`0x` mark are accepted, the longest run of digits is read; `none` is `NaN`.  The
argument is absent when the payload has too few fields. -/
def parseInt (text : Option String) : Option Int :=
  match text with
  | none => none
  | some s =>
    let cs := s.data.dropWhile isTrimChar
    let (neg, cs) :=
      match cs with
      | '-' :: rest => (true, rest)
      | '+' :: rest => (false, rest)
      | _ => (false, cs)
    let (base, digit, cs) :=
      match cs with
      | '0' :: 'x' :: rest => (16, hexValue, rest)
      | '0' :: 'X' :: rest => (16, hexValue, rest)
      | _ => (10, decValue, cs)
    match leadingDigits digit cs with
    | [] => none
    | ds =>
      match readDigits base digit ds 0 with
      | some n => some (if neg then - (n : Int) else (n : Int))
      | none => none

/-! ## The world a handler runs in -/

/-- The `reply_markup` of an outgoing message. -/
inductive Markup where
  | none
  | keyboard (rows : List (List String))
  | inline (rows : List (List (String × String)))
  deriving DecidableEq, Repr

/-- A message delivered by `bot.sendMessage(chatId, text, options)`. -/
structure Outgoing where
  chatId : Int
  text : String
  markdown : Bool
  markup : Markup
  deriving DecidableEq, Repr

/-- An acknowledgement made by `bot.answerCallbackQuery(id, options)`. -/
structure Answer where
  queryId : String
  text : Option String
  deriving DecidableEq, Repr

/-- An update of kind `callback_query`. -/
structure CallbackQuery where
  id : String
  data : String
  chatId : Int
  userId : Nat
  deriving DecidableEq, Repr

/-- Everything a handler can read or change: the clock, the session store, the
three collections, the messages and acknowledgements delivered so far, and
the behaviour of the two collaborators.  `dbFails n` tells whether the `n`-th
database call rejects, `apiFails n` whether the `n`-th Bot API call rejects. -/
structure World where
  now : Nat
  sessions : Store
  users : List User
  projects : List Project
  tasks : List Task
  nextId : Nat
  outbox : List Outgoing
  answers : List Answer
  dbFails : Nat → Bool
  dbCalls : Nat
  apiFails : Nat → Bool
  apiCalls : Nat

/-- Outcome of running a handler: it returned a value, or it threw. -/
inductive Res (α : Type) where
  | ok (val : α) (w : World)
  | thrown (w : World)

/-- The world left behind by a handler. -/
def Res.world {α : Type} : Res α → World
  | .ok _ w => w
  | .thrown w => w

/-- Handlers: state transformers that may throw. -/
def M (α : Type) : Type := World → Res α

instance : Monad M where
  pure a := fun w => .ok a w
  bind m f := fun w =>
    match m w with
    | .ok a w1 => f a w1
    | .thrown w1 => .thrown w1

/-- Statement `throw`. -/
def raise {α : Type} : M α := fun w => .thrown w

/-- Block `try { body } catch (error) { handler }`. -/
def tryCatch {α : Type} (body handler : M α) : M α := fun w =>
  match body w with
  | .ok a w1 => .ok a w1
  | .thrown w1 => handler w1

def getWorld : M World := fun w => .ok w w

def modifyWorld (f : World → World) : M Unit := fun w => .ok () (f w)

/-- One round trip to the database. -/
def dbCall : M Unit := fun w =>
  if w.dbFails w.dbCalls then .thrown { w with dbCalls := w.dbCalls + 1 }
  else .ok () { w with dbCalls := w.dbCalls + 1 }

/-- One round trip to the Bot API. -/
def apiCall : M Unit := fun w =>
  if w.apiFails w.apiCalls then .thrown { w with apiCalls := w.apiCalls + 1 }
  else .ok () { w with apiCalls := w.apiCalls + 1 }

/-- Call `bot.sendMessage(chatId, text, options)`. -/
def sendMessage (chatId : Int) (text : String) (markdown : Bool) (markup : Markup) : M Unit := do
  apiCall
  modifyWorld (fun w => { w with outbox := w.outbox ++ [⟨chatId, text, markdown, markup⟩] })

/-- Call `bot.answerCallbackQuery(id, options)`. -/
def answerCallbackQuery (queryId : String) (text : Option String) : M Unit := do
  apiCall
  modifyWorld (fun w => { w with answers := w.answers ++ [⟨queryId, text⟩] })

/-! ### The session service as seen by the handlers -/

namespace sessionService

def getSession (userId : Nat) : M Session := fun w =>
  let r := SessionService.getSession w.sessions w.now userId
  .ok r.2 { w with sessions := r.1 }

def setState (userId : Nat) (state : Option String) : M Unit := fun w =>
  .ok () { w with sessions := (SessionService.setState w.sessions w.now userId state).1 }

def setData (userId : Nat) (key : String) (value : Value) : M Unit := fun w =>
  .ok () { w with sessions := (SessionService.setData w.sessions w.now userId key value).1 }

def clearSession (userId : Nat) : M Unit := fun w =>
  .ok () { w with sessions := SessionService.clearSession w.sessions w.now userId }

end sessionService

/-- A block `try { body } catch (error) { handler }` in which either block
may end with `return promise`.  The returned promise is not awaited inside the
block, so it settles outside it: each block yields the action left to run. -/
def tryCatchReturn {α : Type} (body handler : M (M α)) : M α := do
  let rest ← tryCatch body handler
  rest

/-- The end of a block reached without `return promise`. -/
def done : M (M Unit) := pure (pure ())

/-! ### Database queries

A query is one database call; a failed call rejects.  Unique-index and
schema validation failures reject as well. -/

def User.findOne (telegramId : Nat) : M (Option User) := do
  dbCall
  let w ← getWorld
  pure (w.users.find? (fun u => u.telegramId = telegramId))

/-- Query `User.find({ projects: { $ne: projectId } })`. -/
def User.findNotIn (projectId : Nat) : M (List User) := do
  dbCall
  let w ← getWorld
  pure (w.users.filter (fun u => projectId ∉ u.projects))

/-- Query `User.countDocuments({ projects: projectId })`. -/
def User.countDocuments (projectId : Nat) : M Nat := do
  dbCall
  let w ← getWorld
  pure (w.users.filter (fun u => projectId ∈ u.projects)).length

/-- Saving a new `User` document: `name` is required, every text field is
trimmed, `telegramId` is unique. -/
def User.create (telegramId : Nat) (name surname role contact : Option String) : M Unit := do
  match name.map trim with
  | none => raise
  | some n =>
    if n = "" then raise
    else do
      dbCall
      let w ← getWorld
      if w.users.any (fun u => u.telegramId = telegramId) then raise
      else
        modifyWorld (fun w =>
          let user : User :=
            { id := w.nextId, telegramId := telegramId, name := n,
              surname := surname.map trim, role := role.map trim, contact := contact.map trim,
              projects := [], pendingProjects := [], createdAt := w.now }
          { w with users := w.users ++ [user], nextId := w.nextId + 1 })

/-- Method `user.save()` on a document read from the collection. -/
def User.save (user : User) : M Unit := do
  dbCall
  modifyWorld (fun w => { w with
    users := w.users.map (fun u => if u.id = user.id then user else u) })

/-- Query `Project.find({ _id: { $in: ids } })`. -/
def Project.findIn (ids : List Nat) : M (List Project) := do
  dbCall
  let w ← getWorld
  pure (w.projects.filter (fun p => p.id ∈ ids))

/-- Query `Project.findOne({ name })`. -/
def Project.findOne (name : String) : M (Option Project) := do
  dbCall
  let w ← getWorld
  pure (w.projects.find? (fun p => p.name = name))

def Project.findByObjectId (id : Nat) : M (Option Project) := do
  dbCall
  let w ← getWorld
  pure (w.projects.find? (fun p => p.id = id))

/-- Query `Project.findById(text)` with an id taken from a callback payload: a
text that is not an object id is rejected by the cast, a missing one finds
nothing. -/
def Project.findById (idText : Option String) : M (Option Project) :=
  match idText with
  | none => do dbCall; pure none
  | some s =>
    match parseId s with
    | none => raise
    | some id => Project.findByObjectId id

/-- Building `new Project({ name, description, adminId })` and saving it: `name` is
required, both texts are trimmed.  Returns the saved document. -/
def Project.create (name : Option String) (description : String) (adminId : Nat) :
    M Project := do
  match name.map trim with
  | none => raise
  | some n =>
    if n = "" then raise
    else do
      dbCall
      let w ← getWorld
      let project : Project :=
        { id := w.nextId, name := n, description := trim description, adminId := adminId,
          createdAt := w.now,
          workDays := ["Monday", "Tuesday", "Wednesday", "Thursday", "Friday"] }
      modifyWorld (fun w => { w with
        projects := w.projects ++ [project], nextId := w.nextId + 1 })
      pure project

/-- Query `Task.find({ assignedTo })`, optionally with `status: { $ne: 'done' }`. -/
def Task.findAssigned (userObjectId : Nat) (notDone : Bool) : M (List Task) := do
  dbCall
  let w ← getWorld
  pure (w.tasks.filter (fun t =>
    t.assignedTo = some userObjectId ∧ (notDone = true → t.status ≠ "done")))

/-- Query `Task.findById(text)`, see `Project.findById`. -/
def Task.findById (idText : Option String) : M (Option Task) :=
  match idText with
  | none => do dbCall; pure none
  | some s =>
    match parseId s with
    | none => raise
    | some id => do
      dbCall
      let w ← getWorld
      pure (w.tasks.find? (fun t => t.id = id))

/-- Method `task.save()` on a document read from the collection: `status` must be
one of the three values of the schema. -/
def Task.save (task : Task) : M Unit := do
  if task.status ∈ ["todo", "in-progress", "done"] then do
    dbCall
    modifyWorld (fun w => { w with
      tasks := w.tasks.map (fun t => if t.id = task.id then task else t) })
  else raise

/-- The part of `populate('projectId')` the handlers read: the name of the project
of a task, when that project exists. -/
def populatedProjectName (w : World) (t : Task) : Option String :=
  (w.projects.find? (fun p => p.id = t.projectId)).map (fun p => p.name)

/-! ## `src/utils/keyboard.js` -/

namespace keyboard

def createKeyboard (buttons : List (List String)) : Markup := .keyboard buttons

def createInlineKeyboard (buttons : List (List (String × String))) : Markup := .inline buttons

def mainMenuKeyboard : Markup :=
  createKeyboard
    [[emoji.projects ++ " Projects", emoji.tasks ++ " Tasks"],
     [emoji.team ++ " Team", emoji.settings ++ " Settings"]]

def backButton : Markup := createKeyboard [[emoji.back ++ " Back to Menu"]]

end keyboard

/-- The text on the Cancel button, which every flow step compares its input with. -/
def cancelText : String := emoji.cancel ++ " Cancel"

/-- Reading a text field of the session data. -/
def textField (data : List (String × Value)) (key : String) : Option String :=
  match lookupKey key data with
  | some (.str s) => some s
  | _ => none

/-! ### Dates in messages

A `Date` is its number of milliseconds since the start of 1970; the model runs
in UTC, so the local calendar day of a date is its UTC day. -/

/-- Leap years of the Gregorian calendar. -/
def isLeapYear (year : Nat) : Bool :=
  (year % 4 = 0 ∧ year % 100 ≠ 0) ∨ year % 400 = 0

def daysInMonth (year month : Nat) : Nat :=
  if month = 2 then (if isLeapYear year then 29 else 28)
  else if month ∈ [4, 6, 9, 11] then 30
  else 31

def daysInYear (year : Nat) : Nat := if isLeapYear year then 366 else 365

/-- The year in which a day falls and the number of the day within that year,
for a day given by its number counted from the first day of `year`; `fuel`
bounds the number of years passed over. -/
def yearOfDay : Nat → Nat → Nat → Nat × Nat
  | 0, year, day => (year, day)
  | fuel + 1, year, day =>
    if day < daysInYear year then (year, day)
    else yearOfDay fuel (year + 1) (day - daysInYear year)

/-- The month in which a day of a year falls and the number of the day within
that month, for a day given by its number counted from the first day of
`month`. -/
def monthOfDay : Nat → Nat → Nat → Nat → Nat × Nat
  | 0, _, month, day => (month, day)
  | fuel + 1, year, month, day =>
    if day < daysInMonth year month then (month, day)
    else monthOfDay fuel year (month + 1) (day - daysInMonth year month)

/-- The calendar day of a `Date`. -/
def calendarDay (ms : Nat) : CalDate :=
  let yd := yearOfDay (ms / 86400000) 1970 (ms / 86400000)
  let md := monthOfDay 12 yd.1 1 yd.2
  { year := yd.1, month := md.1, day := md.2 + 1 }

/-- A number written with at least `width` digits. -/
def padZero (width n : Nat) : String :=
  String.mk (List.replicate (width - (toString n).length) '0') ++ toString n

/-- The text of `moment(date).format('YYYY-MM-DD')`.  The date library is not
among the sources; the format names the year in four digits, the month and the
day of the month in two digits each. -/
def formatYMD (ms : Nat) : String :=
  padZero 4 (calendarDay ms).year ++ "-" ++ padZero 2 (calendarDay ms).month ++ "-"
    ++ padZero 2 (calendarDay ms).day

/-- The day of the week of a `Date`, as the host abbreviates it; the first day of
1970 was a Thursday. -/
def weekdayName (ms : Nat) : String :=
  (["Sun", "Mon", "Tue", "Wed", "Thu", "Fri", "Sat"].get? ((ms / 86400000 + 4) % 7)).getD ""

def monthName (month : Nat) : String :=
  (["Jan", "Feb", "Mar", "Apr", "May", "Jun", "Jul", "Aug", "Sep", "Oct", "Nov",
    "Dec"].get? (month - 1)).getD ""

/-- The text of `date.toDateString()`, such as `Thu Jan 01 1970`. -/
def toDateString (ms : Nat) : String :=
  weekdayName ms ++ " " ++ monthName (calendarDay ms).month ++ " "
    ++ padZero 2 (calendarDay ms).day ++ " " ++ padZero 4 (calendarDay ms).year

/-! ## `src/controllers/userController.js` -/

namespace USER_STATES

def REGISTERING : String := "registering_user"
def WAITING_NAME : String := "waiting_user_name"
def WAITING_SURNAME : String := "waiting_user_surname"
def WAITING_ROLE : String := "waiting_user_role"
def WAITING_CONTACT : String := "waiting_user_contact"
def WAITING_JOIN_PROJECT : String := "waiting_join_project"
def EDITING : String := "editing_user"

end USER_STATES

namespace userController

/-- The keyboard `[[Skip, Cancel]]` shown at the optional steps. -/
def skipCancelKeyboard : Markup := keyboard.createKeyboard [["Skip", cancelText]]

def registerUser (chatId : Int) (userId : Nat) (_username : Option String) : M Unit :=
  tryCatchReturn
    (do
      let existingUser ← User.findOne userId
      match existingUser with
      | some u =>
        pure (sendMessage chatId
          (emoji.info ++ " You are already registered as *" ++ u.name ++ "* "
            ++ (u.surname.getD "") ++ ".") true .none)
      | none => do
        sessionService.setState userId (some USER_STATES.WAITING_NAME)
        sendMessage chatId (emoji.user ++ " *Registration*\n\nPlease enter your first name:")
          true (keyboard.createKeyboard [[cancelText]])
        done)
    (do
      sendMessage chatId
        (emoji.error ++ " There was an error during registration. Please try again later.")
        false .none
      done)

/-- The reply of the registration steps to the Cancel button. -/
def registrationCancelled (chatId : Int) (userId : Nat) : M Unit := do
  sessionService.clearSession userId
  sendMessage chatId (emoji.cancel ++ " Registration cancelled.") false keyboard.mainMenuKeyboard

def handleNameInput (chatId : Int) (userId : Nat) (text : String) : M Unit :=
  if text = cancelText then registrationCancelled chatId userId
  else do
    sessionService.setState userId (some USER_STATES.WAITING_SURNAME)
    sessionService.setData userId "name" (.str text)
    sendMessage chatId
      (emoji.user ++ " Great! Now please enter your surname (or \"skip\" to skip):")
      false skipCancelKeyboard

def handleSurnameInput (chatId : Int) (userId : Nat) (text : String) : M Unit :=
  if text = cancelText then registrationCancelled chatId userId
  else do
    let surname := if text = "Skip" then "" else text
    sessionService.setState userId (some USER_STATES.WAITING_ROLE)
    sessionService.setData userId "surname" (.str surname)
    sendMessage chatId
      (emoji.user ++ " Thanks! What is your role? (e.g., Developer, Designer, etc.):")
      false
      (keyboard.createKeyboard
        [["Developer", "Designer"], ["Manager", "Tester", "Other"], ["Skip", cancelText]])

def handleRoleInput (chatId : Int) (userId : Nat) (text : String) : M Unit :=
  if text = cancelText then registrationCancelled chatId userId
  else do
    let role := if text = "Skip" then "" else text
    sessionService.setState userId (some USER_STATES.WAITING_CONTACT)
    sessionService.setData userId "role" (.str role)
    sendMessage chatId
      (emoji.user ++ " Almost done! Please provide your contact information "
        ++ "(email, phone, or Telegram username):")
      false skipCancelKeyboard

def handleContactInput (chatId : Int) (userId : Nat) (text : String)
    (username : Option String) : M Unit :=
  if text = cancelText then registrationCancelled chatId userId
  else do
    let session ← sessionService.getSession userId
    let name := textField session.data "name"
    let surname := textField session.data "surname"
    let role := textField session.data "role"
    let contact := if text = "Skip" then username.getD "" else text
    tryCatch
      (do
        User.create userId name surname role (some contact)
        sessionService.clearSession userId
        sendMessage chatId
          (emoji.success ++ " *Registration Successful!*\n\nWelcome, "
            ++ (name.getD "undefined")
            ++ "! You can now use the task management features.")
          true keyboard.mainMenuKeyboard)
      (do
        sendMessage chatId
          (emoji.error ++ " There was an error during registration. Please try again later.")
          false .none
        sessionService.clearSession userId)

def showUserProfile (chatId : Int) (userId : Nat) : M Unit :=
  tryCatchReturn
    (do
      let user ← User.findOne userId
      match user with
      | none =>
        pure (sendMessage chatId
          (emoji.error ++ " You are not registered. Please use /start to register.")
          false .none)
      | some user => do
        let projects ← Project.findIn user.projects
        let projectsText :=
          if projects.length > 0 then
            "\n\n*Projects:*\n" ++ "\n".intercalate (projects.map (fun p => "- " ++ p.name))
          else ""
        let message :=
          "\n" ++ emoji.user ++ " *Your Profile*\n\n*Name:* " ++ user.name ++ " "
            ++ (user.surname.getD "undefined") ++ "\n"
            ++ (match user.role with
                | some r => if r = "" then "" else "*Role:* " ++ r ++ "\n"
                | none => "") ++ "\n"
            ++ (match user.contact with
                | some c => if c = "" then "" else "*Contact:* " ++ c ++ "\n"
                | none => "") ++ "\n"
            ++ "*Joined:* " ++ toDateString user.createdAt ++ "\n" ++ projectsText ++ "\n"
        sendMessage chatId message true
          (keyboard.createInlineKeyboard
            [[(emoji.editUser ++ " Edit Profile", "edit_profile")],
             [(emoji.back ++ " Back to Menu", "back_to_menu")]])
        done)
    (do
      sendMessage chatId
        (emoji.error ++ " There was an error loading your profile. Please try again later.")
        false .none
      done)

def startJoinProject (chatId : Int) (userId : Nat) : M Unit :=
  tryCatchReturn
    (do
      let user ← User.findOne userId
      match user with
      | none =>
        pure (sendMessage chatId
          (emoji.error ++ " You are not registered. Please use /start to register.")
          false .none)
      | some _ => do
        sessionService.setState userId (some USER_STATES.WAITING_JOIN_PROJECT)
        sendMessage chatId
          (emoji.project ++ " *Join Project*\n\nPlease enter the project name you want to join:")
          true (keyboard.createKeyboard [[cancelText]])
        done)
    (do
      sendMessage chatId
        (emoji.error ++ " There was an error processing your request. Please try again later.")
        false .none
      done)

def handleJoinProjectInput (chatId : Int) (userId : Nat) (text : String) : M Unit :=
  if text = cancelText then do
    sessionService.clearSession userId
    sendMessage chatId (emoji.cancel ++ " Join project cancelled.") false
      keyboard.mainMenuKeyboard
  else
    tryCatchReturn
      (do
        let project ← Project.findOne text
        match project with
        | none =>
          pure (sendMessage chatId
            (emoji.error ++ " Project \"" ++ text
              ++ "\" not found. Please check the name and try again.")
            false (keyboard.createKeyboard [[cancelText]]))
        | some project => do
          let user ← User.findOne userId
          match user with
          | none => raise
          | some user =>
            if project.id ∈ user.projects then do
              sessionService.clearSession userId
              pure (sendMessage chatId
                (emoji.info ++ " You are already a member of this project.")
                false keyboard.mainMenuKeyboard)
            else if project.id ∈ user.pendingProjects then do
              sessionService.clearSession userId
              pure (sendMessage chatId
                (emoji.info ++ " You already have a pending request to join this project.")
                false keyboard.mainMenuKeyboard)
            else do
              User.save { user with pendingProjects := user.pendingProjects ++ [project.id] }
              tryCatch
                (sendMessage (project.adminId : Int)
                  (emoji.notification ++ " *Join Request*\n\nUser *" ++ user.name ++ "* "
                    ++ (user.surname.getD "") ++ " has requested to join your project \""
                    ++ project.name ++ "\".")
                  true
                  (keyboard.createInlineKeyboard
                    [[(emoji.select ++ " Approve",
                        "approve_join:" ++ renderId project.id ++ ":" ++ toString user.telegramId),
                      (emoji.cancel ++ " Reject",
                        "reject_join:" ++ renderId project.id ++ ":"
                          ++ toString user.telegramId)]]))
                (pure ())
              sessionService.clearSession userId
              sendMessage chatId
                (emoji.success ++ " Your request to join \"" ++ project.name
                  ++ "\" has been sent to the project admin. "
                  ++ "You will be notified when they respond.")
                false keyboard.mainMenuKeyboard
              done)
      (do
        sendMessage chatId
          (emoji.error ++ " There was an error processing your request. Please try again later.")
          false .none
        sessionService.clearSession userId
        done)

/-- Query `User.findOne({ telegramId })` with a number read by `parseInt`; `NaN` is
rejected by the cast. -/
def findUserByNumber (telegramId : Option Int) : M (Option User) :=
  match telegramId with
  | none => raise
  | some z => do
    dbCall
    let w ← getWorld
    pure (w.users.find? (fun u => (u.telegramId : Int) = z))

/-- Shared body of `approveJoinRequest` and `rejectJoinRequest`: the two differ in
the texts and in whether the project is added to `projects`. -/
def resolveJoinRequest (approve : Bool) (chatId : Int) (adminId : Nat)
    (projectId : Option String) (requestUserId : Option Int) : M Unit :=
  tryCatchReturn
    (do
      let project ← Project.findById projectId
      match project with
      | none => pure (sendMessage chatId (emoji.error ++ " Project not found.") false .none)
      | some project =>
        if project.adminId ≠ adminId then
          pure (sendMessage chatId
            (emoji.error ++ " Only the project admin can "
              ++ (if approve then "approve" else "reject") ++ " join requests.")
            false .none)
        else do
          let requestUser ← findUserByNumber requestUserId
          match requestUser with
          | none => pure (sendMessage chatId (emoji.error ++ " User not found.") false .none)
          | some requestUser =>
            if project.id ∉ requestUser.pendingProjects then
              pure (sendMessage chatId (emoji.error ++ " No pending request found.") false .none)
            else do
              let pending :=
                requestUser.pendingProjects.filter
                  (fun p => some (renderId p) ≠ projectId)
              User.save
                (if approve then
                  { requestUser with
                    pendingProjects := pending,
                    projects := requestUser.projects ++ [project.id] }
                else { requestUser with pendingProjects := pending })
              sendMessage chatId
                (emoji.success ++ " You have "
                  ++ (if approve then "approved " else "rejected ")
                  ++ requestUser.name ++ " " ++ (requestUser.surname.getD "")
                  ++ (if approve then " to join \"" else "'s request to join \"")
                  ++ project.name ++ "\".")
                false .none
              tryCatch
                (sendMessage (requestUserId.getD 0)
                  (emoji.notification ++ " Your request to join the project \""
                    ++ project.name
                    ++ (if approve then "\" has been approved! You are now a team member."
                        else "\" has been rejected."))
                  false .none)
                (pure ())
              done)
    (do
      sendMessage chatId
        (emoji.error ++ " There was an error processing your request. Please try again later.")
        false .none
      done)

def approveJoinRequest (chatId : Int) (adminId : Nat) (projectId : Option String)
    (requestUserId : Option Int) : M Unit :=
  resolveJoinRequest true chatId adminId projectId requestUserId

def rejectJoinRequest (chatId : Int) (adminId : Nat) (projectId : Option String)
    (requestUserId : Option Int) : M Unit :=
  resolveJoinRequest false chatId adminId projectId requestUserId

def startAddMember (chatId : Int) (adminId : Nat) (projectId : Option String) : M Unit :=
  tryCatchReturn
    (do
      let project ← Project.findById projectId
      match project with
      | none => pure (sendMessage chatId (emoji.error ++ " Project not found.") false .none)
      | some project =>
        if project.adminId ≠ adminId then
          pure (sendMessage chatId
            (emoji.error ++ " Only the project admin can add members.") false .none)
        else do
          let users ← User.findNotIn project.id
          if users.length = 0 then
            pure (sendMessage chatId
              (emoji.info
                ++ " There are no registered users that can be added to this project.")
              false .none)
          else do
            let buttons := users.map (fun u =>
              [(u.name ++ " " ++ (u.surname.getD ""),
                "add_member_confirm:" ++ (projectId.getD "") ++ ":" ++ toString u.telegramId)])
            sendMessage chatId
              (emoji.addUser ++ " *Add Team Member*\n\nSelect a user to add to \""
                ++ project.name ++ "\":")
              true
              (keyboard.createInlineKeyboard
                (buttons ++ [[(emoji.back ++ " Back", "view_team:" ++ (projectId.getD ""))]]))
            done)
    (do
      sendMessage chatId
        (emoji.error ++ " There was an error processing your request. Please try again later.")
        false .none
      done)

def handleUserCallback (q : CallbackQuery) : M Unit := do
  answerCallbackQuery q.id none
  if startsWith q.data "approve_join:" then
    approveJoinRequest q.chatId q.userId ((split q.data ':').get? 1)
      (parseInt ((split q.data ':').get? 2))
  else if startsWith q.data "reject_join:" then
    rejectJoinRequest q.chatId q.userId ((split q.data ':').get? 1)
      (parseInt ((split q.data ':').get? 2))
  else if startsWith q.data "add_member:" then
    startAddMember q.chatId q.userId ((split q.data ':').get? 1)
  else pure ()

end userController

/-! ## `src/controllers/projectController.js` -/

namespace PROJECT_STATES

def CREATING : String := "creating_project"
def WAITING_NAME : String := "waiting_project_name"
def WAITING_DESCRIPTION : String := "waiting_project_description"
def EDITING : String := "editing_project"
def DELETING : String := "deleting_project"

end PROJECT_STATES

namespace projectController

def showProjectsMenu (chatId : Int) (userId : Nat) : M Unit := do
  sessionService.setState userId none
  let user ← User.findOne userId
  match user with
  | none =>
    sendMessage chatId (emoji.error ++ " You are not registered. Please use /start to register.")
      false .none
  | some user => do
    let buttons : List (List String) :=
      [[emoji.newProject ++ " Create New Project"], [emoji.back ++ " Back to Menu"]]
    let projectButtons ←
      if user.projects.length > 0 then do
        let projects ← Project.findIn user.projects
        pure (projects.map (fun p => [emoji.project ++ " " ++ p.name]))
      else pure []
    sendMessage chatId
      (emoji.projects ++ " *Projects*\n\nSelect a project or create a new one:")
      true (keyboard.createKeyboard (projectButtons ++ buttons))

def startProjectCreation (chatId : Int) (userId : Nat) : M Unit := do
  sessionService.setState userId (some PROJECT_STATES.WAITING_NAME)
  sendMessage chatId
    (emoji.newProject ++ " *Create New Project*\n\nPlease enter a name for your project:")
    true (keyboard.createKeyboard [[cancelText]])

def handleProjectNameInput (chatId : Int) (userId : Nat) (text : String) : M Unit :=
  if text = cancelText then do
    sessionService.clearSession userId
    showProjectsMenu chatId userId
  else do
    sessionService.setState userId (some PROJECT_STATES.WAITING_DESCRIPTION)
    sessionService.setData userId "projectName" (.str text)
    sendMessage chatId
      (emoji.editProject
        ++ " Please enter a description for your project (or type \"skip\" to skip):")
      true (keyboard.createKeyboard [["Skip", cancelText]])

def handleProjectDescriptionInput (chatId : Int) (userId : Nat) (text : String) : M Unit :=
  if text = cancelText then do
    sessionService.clearSession userId
    showProjectsMenu chatId userId
  else do
    let session ← sessionService.getSession userId
    let projectName := textField session.data "projectName"
    let projectDescription :=
      if text = "Skip" ∨ toLowerCase text = "skip" then "" else text
    tryCatchReturn
      (do
        let user ← User.findOne userId
        match user with
        | none => do
          sessionService.clearSession userId
          pure (sendMessage chatId
            (emoji.error
              ++ " You need to be registered to create a project. Use /start to register.")
            false .none)
        | some user => do
          let project ← Project.create projectName projectDescription userId
          User.save { user with projects := user.projects ++ [project.id] }
          sessionService.clearSession userId
          sendMessage chatId
            (emoji.success ++ " Project *" ++ (projectName.getD "undefined")
              ++ "* created successfully!")
            true .none
          pure (showProjectsMenu chatId userId))
      (do
        sendMessage chatId
          (emoji.error ++ " There was an error creating your project. Please try again later.")
          false .none
        sessionService.clearSession userId
        pure (showProjectsMenu chatId userId))

/-- String replacement `text.replace(pattern, '')`: the first occurrence of the
pattern is removed. -/
def removeFirst (pattern : List Char) : List Char → List Char
  | [] => []
  | c :: cs =>
    if pattern.isPrefixOf (c :: cs) then (c :: cs).drop pattern.length
    else c :: removeFirst pattern cs

def showProjectDetails (chatId : Int) (userId : Nat) (projectName : String) : M Unit :=
  tryCatchReturn
    (do
      let cleanProjectName :=
        String.mk (removeFirst (emoji.project ++ " ").data projectName.data)
      let project ← Project.findOne cleanProjectName
      match project with
      | none => pure (sendMessage chatId (emoji.error ++ " Project not found.") false .none)
      | some project => do
        let teamMembers ← User.countDocuments project.id
        let isAdmin : Bool := project.adminId = userId
        let adminButtons : List (List (String × String)) :=
          if isAdmin then
            [[(emoji.editProject ++ " Edit", "edit_project:" ++ renderId project.id),
              (emoji.deleteProject ++ " Delete", "delete_project:" ++ renderId project.id)]]
          else []
        let buttons := adminButtons ++
          [[(emoji.team ++ " View Team", "view_team:" ++ renderId project.id),
            (emoji.tasks ++ " View Tasks", "view_tasks:" ++ renderId project.id)]]
        let message :=
          "\n" ++ emoji.project ++ " *" ++ project.name ++ "*\n\n"
            ++ (if project.description = "" then ""
                else emoji.info ++ " *Description:* " ++ project.description ++ "\n") ++ "\n"
            ++ emoji.team ++ " *Team Members:* " ++ toString teamMembers ++ "\n"
            ++ emoji.calendar ++ " *Work Days:* " ++ ", ".intercalate project.workDays ++ "\n"
            ++ emoji.info ++ " *Created:* " ++ toDateString project.createdAt ++ "\n"
            ++ (if isAdmin then "\n" ++ emoji.warning ++ " You are the admin of this project."
                else "") ++ "\n"
        sendMessage chatId message true (keyboard.createInlineKeyboard buttons)
        done)
    (do
      sendMessage chatId
        (emoji.error ++ " There was an error showing project details. Please try again later.")
        false .none
      done)

/-- Shared body of `startProjectEdit` and `confirmProjectDeletion`: find the project
named by the payload, refuse a caller who is not its admin, otherwise set the
session state, store the payload id under `projectId` and send the prompt. -/
def adminStep (chatId : Int) (userId : Nat) (projectId : Option String)
    (notAdmin : String) (state : String) (prompt : Project → Outgoing)
    (failure : String) : M Unit :=
  tryCatchReturn
    (do
      let project ← Project.findById projectId
      match project with
      | none => pure (sendMessage chatId (emoji.error ++ " Project not found.") false .none)
      | some project =>
        if project.adminId ≠ userId then
          pure (sendMessage chatId (emoji.error ++ notAdmin) false .none)
        else do
          sessionService.setState userId (some state)
          sessionService.setData userId "projectId" (.str (projectId.getD ""))
          sendMessage chatId (prompt project).text (prompt project).markdown
            (prompt project).markup
          done)
    (do
      sendMessage chatId (emoji.error ++ failure) false .none
      done)

def startProjectEdit (chatId : Int) (userId : Nat) (projectId : Option String) : M Unit :=
  adminStep chatId userId projectId " Only the project admin can edit this project."
    PROJECT_STATES.EDITING
    (fun _ =>
      { chatId := chatId,
        text := emoji.editProject ++ " *Edit Project*\n\nWhat would you like to edit?",
        markdown := true,
        markup := keyboard.createInlineKeyboard
          [[(emoji.editProject ++ " Edit Name", "edit_project_name:" ++ (projectId.getD "")),
            (emoji.editProject ++ " Edit Description",
              "edit_project_desc:" ++ (projectId.getD ""))],
           [(emoji.back ++ " Back", "view_project:" ++ (projectId.getD ""))]] })
    " There was an error starting the edit process. Please try again later."

def confirmProjectDeletion (chatId : Int) (userId : Nat) (projectId : Option String) :
    M Unit :=
  adminStep chatId userId projectId " Only the project admin can delete this project."
    PROJECT_STATES.DELETING
    (fun project =>
      { chatId := chatId,
        text := emoji.warning
          ++ " *Delete Project*\n\nAre you sure you want to delete the project \""
          ++ project.name ++ "\"? This action cannot be undone.",
        markdown := true,
        markup := keyboard.createInlineKeyboard
          [[(emoji.select ++ " Yes, delete",
              "confirm_delete_project:" ++ (projectId.getD "")),
            (emoji.cancel ++ " No, cancel",
              "cancel_delete_project:" ++ (projectId.getD ""))]] })
    " There was an error processing your request. Please try again later."

def handleProjectCallback (q : CallbackQuery) : M Unit := do
  answerCallbackQuery q.id none
  if startsWith q.data "edit_project:" then
    startProjectEdit q.chatId q.userId ((split q.data ':').get? 1)
  else if startsWith q.data "delete_project:" then
    confirmProjectDeletion q.chatId q.userId ((split q.data ':').get? 1)
  else pure ()

end projectController

/-! ## `src/controllers/taskController.js` -/

namespace TASK_STATES

def CREATING : String := "creating_task"
def WAITING_NAME : String := "waiting_task_name"
def WAITING_DESCRIPTION : String := "waiting_task_description"
def WAITING_DUE_DATE : String := "waiting_task_due_date"
def WAITING_TASK_TYPE : String := "waiting_task_type"
def WAITING_ROLE_TYPE : String := "waiting_task_role_type"
def WAITING_PRIORITY : String := "waiting_task_priority"
def WAITING_EFFORT : String := "waiting_task_effort"
def WAITING_ASSIGNEE : String := "waiting_task_assignee"
def EDITING : String := "editing_task"
def DELETING : String := "deleting_task"

end TASK_STATES

/-- Reading a text of the exact shape `dddd-dd-dd`. -/
def readYMD (text : String) : Option CalDate :=
  match text.data with
  | [y1, y2, y3, y4, '-', m1, m2, '-', d1, d2] =>
    match readDigits 10 decValue [y1, y2, y3, y4] 0, readDigits 10 decValue [m1, m2] 0,
        readDigits 10 decValue [d1, d2] 0 with
    | some y, some m, some d => some ⟨y, m, d⟩
    | _, _, _ => none
  | _ => none

/-- Modelled from the spec: the strict date check `moment(text, 'YYYY-MM-DD',
true).isValid()` belongs to the date library, which is not among the sources.
The spec asks for an unambiguous calendar date in the fixed `YYYY-MM-DD`
format: four, two and two digits, a month from 1 to 12 and a day that exists in
that month. -/
def isValidDate (text : String) : Bool :=
  match readYMD text with
  | some d => 1 ≤ d.month ∧ d.month ≤ 12 ∧ 1 ≤ d.day ∧ d.day ≤ daysInMonth d.year d.month
  | none => false

/-- Start of the day of a timestamp, in milliseconds; the model runs in UTC. -/
def startOfDay (ms : Nat) : Nat := ms - ms % 86400000

namespace taskController

def showTasksMenu (chatId : Int) (userId : Nat) : M Unit := do
  sessionService.setState userId none
  let user ← User.findOne userId
  match user with
  | none =>
    sendMessage chatId (emoji.error ++ " You are not registered. Please use /start to register.")
      false .none
  | some user =>
    let buttons : List (List String) :=
      [[emoji.task ++ " My Tasks"],
       [emoji.todo ++ " To Do", emoji.inProgress ++ " In Progress"],
       [emoji.done ++ " Done"],
       [emoji.back ++ " Back to Menu"]]
    let createButton : List (List String) :=
      if user.projects.length > 0 then [[emoji.task ++ " Create New Task"]] else []
    sendMessage chatId (emoji.tasks ++ " *Tasks*\n\nSelect an option:") true
      (keyboard.createKeyboard (createButton ++ buttons))

/-- The prompt for the task name, sent when the project of the new task is known. -/
def askTaskName (chatId : Int) : M Unit :=
  sendMessage chatId (emoji.task ++ " *Create New Task*\n\nPlease enter a name for your task:")
    true (keyboard.createKeyboard [[cancelText]])

def startTaskCreation (chatId : Int) (userId : Nat) : M Unit :=
  tryCatchReturn
    (do
      let user ← User.findOne userId
      match user with
      | none =>
        pure (sendMessage chatId
          (emoji.error ++ " You are not registered. Please use /start to register.")
          false .none)
      | some user =>
        match user.projects with
        | [] =>
          pure (sendMessage chatId
            (emoji.error ++ " You need to be a member of at least one project to create tasks.")
            false .none)
        | [projectId] => do
          sessionService.setState userId (some TASK_STATES.WAITING_NAME)
          sessionService.setData userId "projectId" (.objectId projectId)
          askTaskName chatId
          done
        | _ => do
          let projects ← Project.findIn user.projects
          let buttons := projects.map (fun p => [(p.name, "create_task:" ++ renderId p.id)])
          sendMessage chatId
            (emoji.task ++ " *Create New Task*\n\nPlease select a project for this task:")
            true
            (keyboard.createInlineKeyboard
              (buttons ++ [[(cancelText, "cancel_task_creation")]]))
          done)
    (do
      sendMessage chatId
        (emoji.error ++ " There was an error starting task creation. Please try again later.")
        false .none
      done)

def handleTaskNameInput (chatId : Int) (userId : Nat) (text : String) : M Unit :=
  if text = cancelText then do
    sessionService.clearSession userId
    showTasksMenu chatId userId
  else do
    sessionService.setState userId (some TASK_STATES.WAITING_DESCRIPTION)
    sessionService.setData userId "taskName" (.str text)
    sendMessage chatId
      (emoji.task ++ " Please enter a description for your task (or type \"skip\" to skip):")
      false (keyboard.createKeyboard [["Skip", cancelText]])

def handleTaskDescriptionInput (chatId : Int) (userId : Nat) (text : String) : M Unit :=
  if text = cancelText then do
    sessionService.clearSession userId
    showTasksMenu chatId userId
  else do
    let description := if text = "Skip" then "" else text
    sessionService.setState userId (some TASK_STATES.WAITING_DUE_DATE)
    sessionService.setData userId "taskDescription" (.str description)
    sendMessage chatId
      (emoji.calendar
        ++ " Please enter a due date for the task (format: YYYY-MM-DD) or type \"skip\" to skip:")
      false (keyboard.createKeyboard [["Skip", cancelText]])

/-- The tail of `handleTaskDueDateInput`: store the due date and ask for the type. -/
def storeDueDate (chatId : Int) (userId : Nat) (dueDate : Value) : M Unit := do
  sessionService.setState userId (some TASK_STATES.WAITING_TASK_TYPE)
  sessionService.setData userId "taskDueDate" dueDate
  sendMessage chatId (emoji.task ++ " Please select the task type:") false
    (keyboard.createKeyboard
      [[emoji.feature ++ " Feature", emoji.research ++ " Research", emoji.bug ++ " Bug"],
       [cancelText]])

def handleTaskDueDateInput (chatId : Int) (userId : Nat) (text : String) : M Unit :=
  if text = cancelText then do
    sessionService.clearSession userId
    showTasksMenu chatId userId
  else if text ≠ "Skip" then
    if ¬ isValidDate text then
      sendMessage chatId
        (emoji.error
          ++ " Invalid date format. Please use the format YYYY-MM-DD or type \"skip\" to skip.")
        false (keyboard.createKeyboard [["Skip", cancelText]])
    else
      match readYMD text with
      | some d => storeDueDate chatId userId (.date d)
      | none => storeDueDate chatId userId .null
  else storeDueDate chatId userId .null

def priorityEmoji (priority : String) : String :=
  if priority = "high" then emoji.highPriority
  else if priority = "medium" then emoji.mediumPriority
  else emoji.lowPriority

def showTodayTasks (chatId : Int) (userId : Nat) : M Unit :=
  tryCatchReturn
    (do
      let user ← User.findOne userId
      match user with
      | none =>
        pure (sendMessage chatId
          (emoji.error ++ " You are not registered. Please use /start to register.")
          false .none)
      | some user => do
        let tasks ← Task.findAssigned user.id true
        let w ← getWorld
        let today := startOfDay w.now
        let todayTasks := tasks.filter (fun t =>
          match t.dueDate with
          | none => false
          | some due => startOfDay due ≤ today)
        if todayTasks.length = 0 then
          pure (sendMessage chatId (emoji.info ++ " You have no tasks scheduled for today.")
            false keyboard.backButton)
        else do
          let lines := todayTasks.enum.map (fun (index, t) =>
            toString (index + 1) ++ ". "
              ++ (if t.status = "todo" then emoji.todo else emoji.inProgress) ++ " "
              ++ priorityEmoji t.priority ++ " *" ++ t.name ++ "*\n"
              ++ "   Project: " ++ ((populatedProjectName w t).getD "Unknown Project") ++ "\n"
              ++ "   Status: " ++ t.status ++ "\n"
              ++ (match t.dueDate with
                  | some due =>
                    "   Due: " ++ toDateString due ++ " "
                      ++ (if due < today then "⚠️ OVERDUE" else "") ++ "\n"
                  | none => "")
              ++ "\n")
          sendMessage chatId
            (emoji.calendar ++ " *Your Tasks For Today*\n\n" ++ String.join lines)
            true keyboard.backButton
          done)
    (do
      sendMessage chatId
        (emoji.error ++ " There was an error loading your tasks. Please try again later.")
        false .none
      done)

/-- The text of the task card built by `showTaskDetails`. -/
def taskDetailsText (task : Task) (project : Project) (assignee : Option User)
    (creator : User) : String :=
  emoji.task ++ " *" ++ task.name ++ "*\n\n"
    ++ (if task.description = "" then "" else task.description ++ "\n\n")
    ++ emoji.project ++ " *Project:* " ++ project.name ++ "\n"
    ++ (if task.status = "todo" then emoji.todo
        else if task.status = "in-progress" then emoji.inProgress else emoji.done)
    ++ " *Status:* " ++ task.status ++ "\n"
    ++ (if task.taskType = "feature" then emoji.feature
        else if task.taskType = "research" then emoji.research else emoji.bug)
    ++ " *Type:* " ++ task.taskType ++ "\n"
    ++ priorityEmoji task.priority ++ " *Priority:* " ++ task.priority ++ "\n"
    ++ (match task.dueDate with
        | some due => emoji.deadline ++ " *Due Date:* " ++ toDateString due ++ "\n"
        | none => "")
    ++ (if task.effort = 0 then ""
        else emoji.clock ++ " *Effort:* " ++ toString task.effort ++ " day(s)\n")
    ++ (if task.roleType = "" then "" else emoji.user ++ " *Role:* " ++ task.roleType ++ "\n")
    ++ (match assignee with
        | some a =>
          emoji.user ++ " *Assigned To:* " ++ a.name ++ " " ++ (a.surname.getD "") ++ "\n"
        | none => emoji.user ++ " *Assigned To:* Unassigned\n")
    ++ emoji.info ++ " *Created By:* " ++ creator.name ++ " " ++ (creator.surname.getD "") ++ "\n"
    ++ emoji.calendar ++ " *Created:* " ++ toDateString task.createdAt ++ "\n"
    ++ (match task.completedAt with
        | some t => emoji.done ++ " *Completed:* " ++ toDateString t ++ "\n"
        | none => "")

/-- The inline keyboard built by `showTaskDetails`. -/
def taskDetailsButtons (task : Task) (isAdmin isAssignee : Bool) :
    List (List (String × String)) :=
  let statusButtons : List (String × String) :=
    (if task.status ≠ "todo" then
      [(emoji.todo ++ " To Do", "task_status:" ++ renderId task.id ++ ":todo")] else [])
    ++ (if task.status ≠ "in-progress" then
      [(emoji.inProgress ++ " In Progress",
        "task_status:" ++ renderId task.id ++ ":in-progress")] else [])
    ++ (if task.status ≠ "done" then
      [(emoji.done ++ " Done", "task_status:" ++ renderId task.id ++ ":done")] else [])
  (if isAdmin ∨ isAssignee then
    (if statusButtons.length > 0 then [statusButtons] else [])
    ++ (if isAdmin then
      [[(emoji.editTask ++ " Edit", "edit_task:" ++ renderId task.id),
        (emoji.deleteTask ++ " Delete", "delete_task:" ++ renderId task.id)]] else [])
   else [])
  ++ [[(emoji.back ++ " Back", "back_to_tasks")]]

def showTaskDetails (chatId : Int) (userId : Nat) (taskId : Option String) : M Unit :=
  tryCatchReturn
    (do
      let task ← Task.findById taskId
      match task with
      | none => pure (sendMessage chatId (emoji.error ++ " Task not found.") false .none)
      | some task => do
        let w ← getWorld
        let populatedProject := w.projects.find? (fun p => p.id = task.projectId)
        let assignee := task.assignedTo.bind (fun a => w.users.find? (fun u => u.id = a))
        let creator := w.users.find? (fun u => u.id = task.createdBy)
        let user ← User.findOne userId
        match user, populatedProject with
        | some user, some populatedProject =>
          if populatedProject.id ∉ user.projects then
            pure (sendMessage chatId (emoji.error ++ " You don't have access to this task.")
              false .none)
          else do
            let project ← Project.findByObjectId populatedProject.id
            match project, creator with
            | some project, some creator => do
              let isAdmin : Bool := project.adminId = userId
              let isAssignee : Bool :=
                match assignee with
                | some a => a.id = user.id
                | none => false
              sendMessage chatId (taskDetailsText task populatedProject assignee creator) true
                (keyboard.createInlineKeyboard (taskDetailsButtons task isAdmin isAssignee))
              done
            | _, _ => raise
        | _, _ => raise)
    (do
      sendMessage chatId
        (emoji.error ++ " There was an error loading the task details. Please try again later.")
        false .none
      done)

/-- The assignment made by `updateTaskStatus` to the task it is about to save.  A
payload without a status field leaves the status unset, which reads back as the
default of the schema. -/
def withStatus (task : Task) (newStatus : Option String) (now : Nat) : Task :=
  { task with
    status := newStatus.getD "todo",
    completedAt :=
      if newStatus = some "done" ∧ task.status ≠ "done" then some now
      else if newStatus ≠ some "done" then none
      else task.completedAt }

def updateTaskStatus (chatId : Int) (userId : Nat) (taskId newStatus : Option String) :
    M Unit :=
  tryCatchReturn
    (do
      let task ← Task.findById taskId
      match task with
      | none => pure (sendMessage chatId (emoji.error ++ " Task not found.") false .none)
      | some task => do
        let user ← User.findOne userId
        let project ← Project.findByObjectId task.projectId
        match user with
        | none => raise
        | some user =>
          if task.projectId ∉ user.projects then
            pure (sendMessage chatId (emoji.error ++ " You don't have access to this task.")
              false .none)
          else
            match project with
            | none => raise
            | some project =>
              let isAdmin : Bool := project.adminId = userId
              let isAssignee : Bool := task.assignedTo = some user.id
              if ¬ isAdmin ∧ ¬ isAssignee then
                pure (sendMessage chatId
                  (emoji.error
                    ++ " Only the project admin or the assignee can update this task.")
                  false .none)
              else do
                let w ← getWorld
                Task.save (withStatus task newStatus w.now)
                showTaskDetails chatId userId taskId
                if newStatus = some "done" ∧ task.status ≠ "done" ∧ ¬ isAdmin then
                  tryCatch
                    (sendMessage (project.adminId : Int)
                      (emoji.notification ++ " *Task Completed*\n\nTask \"" ++ task.name
                        ++ "\" in project \"" ++ project.name
                        ++ "\" has been marked as done by "
                        ++ user.name ++ " " ++ (user.surname.getD "") ++ ".")
                      true .none)
                    (pure ())
                else pure ()
                done)
    (do
      sendMessage chatId
        (emoji.error ++ " There was an error updating the task status. Please try again later.")
        false .none
      done)

def handleTaskCallback (q : CallbackQuery) : M Unit := do
  answerCallbackQuery q.id none
  if startsWith q.data "create_task:" then do
    sessionService.setState q.userId (some TASK_STATES.WAITING_NAME)
    sessionService.setData q.userId "projectId" (.str (((split q.data ':').get? 1).getD ""))
    askTaskName q.chatId
  else if q.data = "cancel_task_creation" then do
    sessionService.clearSession q.userId
    showTasksMenu q.chatId q.userId
  else if startsWith q.data "task_status:" then
    updateTaskStatus q.chatId q.userId ((split q.data ':').get? 1) ((split q.data ':').get? 2)
  else pure ()

/-- One section of the list sent by `showMyTasks`. -/
def taskSection (w : World) (title dateLabel : String) (date : Task → Option Nat)
    (noDate : String) (tasks : List Task) (last : Bool) : String :=
  if tasks.length > 0 then
    title ++ " (" ++ toString tasks.length ++ ")*\n"
      ++ String.join (tasks.enum.map (fun (index, t) =>
        toString (index + 1) ++ ". *" ++ t.name ++ "*\n"
          ++ "   Project: " ++ ((populatedProjectName w t).getD "Unknown Project")
          ++ " | " ++ dateLabel ++ ": "
          ++ (match date t with
              | some d => formatYMD d
              | none => noDate) ++ "\n"))
      ++ (if last then "" else "\n")
  else ""

def showMyTasks (chatId : Int) (userId : Nat) : M Unit :=
  tryCatchReturn
    (do
      let user ← User.findOne userId
      match user with
      | none =>
        pure (sendMessage chatId
          (emoji.error ++ " You are not registered. Please use /start to register.")
          false .none)
      | some user => do
        let tasks ← Task.findAssigned user.id false
        let w ← getWorld
        if tasks.length = 0 then
          pure (sendMessage chatId (emoji.info ++ " You have no tasks assigned to you.")
            false keyboard.backButton)
        else if tasks.any (fun t => t.status ∉ ["todo", "in-progress", "done"]) then raise
        else do
          sendMessage chatId
            (emoji.task ++ " *Your Tasks*\n\n"
              ++ taskSection w (emoji.todo ++ " *To Do") "Due" (fun t => t.dueDate)
                  "No due date" (tasks.filter (fun t => t.status = "todo")) false
              ++ taskSection w (emoji.inProgress ++ " *In Progress") "Due" (fun t => t.dueDate)
                  "No due date" (tasks.filter (fun t => t.status = "in-progress")) false
              ++ taskSection w (emoji.done ++ " *Done") "Completed" (fun t => t.completedAt)
                  "Unknown" (tasks.filter (fun t => t.status = "done")) true)
            true keyboard.backButton
          done)
    (do
      sendMessage chatId
        (emoji.error ++ " There was an error loading your tasks. Please try again later.")
        false .none
      done)

end taskController

/-! ## `app.js`: the update router -/

/-- An update of kind `message`; `text` is absent for a message without text. -/
structure Message where
  text : Option String
  chatId : Int
  userId : Nat
  username : Option String
  deriving DecidableEq, Repr

/-- The commands registered with `bot.onText`. -/
inductive Command where
  | start | help | projects | tasks | today | profile | join
  deriving DecidableEq, Repr

/-- The listener registered for each command. -/
def onCommand (c : Command) (msg : Message) : M Unit :=
  match c with
  | .start => do
    sendMessage msg.chatId
      (emoji.info ++ " *Welcome to Task Manager Bot!*\n\n"
        ++ "This bot helps you manage projects and tasks with your team.")
      true keyboard.mainMenuKeyboard
    userController.registerUser msg.chatId msg.userId msg.username
  | .help =>
    sendMessage msg.chatId
      (emoji.help ++ " *Task Manager Bot Help*\n\n"
        ++ "Here are the available commands:\n\n"
        ++ "/start - Start the bot and register\n"
        ++ "/help - Show this help message\n"
        ++ "/projects - Manage your projects\n"
        ++ "/tasks - Manage your tasks\n"
        ++ "/team - View your team\n"
        ++ "/today - Show tasks for today\n"
        ++ "/profile - View your profile\n"
        ++ "/join - Join a project")
      true .none
  | .projects => projectController.showProjectsMenu msg.chatId msg.userId
  | .tasks => taskController.showTasksMenu msg.chatId msg.userId
  | .today => taskController.showTodayTasks msg.chatId msg.userId
  | .profile => userController.showUserProfile msg.chatId msg.userId
  | .join => userController.startJoinProject msg.chatId msg.userId

/-- The three prefix groups of the `callback_query` listener and its default. -/
inductive CallbackRoute where
  | project | user | task | notImplemented
  deriving DecidableEq, Repr

/-- The choice made by the `callback_query` listener. -/
def callbackRoute (data : String) : CallbackRoute :=
  if startsWith data "edit_project:" ∨ startsWith data "delete_project:"
      ∨ startsWith data "view_project:" ∨ startsWith data "back_to_project:"
      ∨ startsWith data "confirm_delete_project:" ∨ startsWith data "cancel_delete_project:"
      ∨ startsWith data "edit_project_name:" ∨ startsWith data "edit_project_desc:" then
    .project
  else if startsWith data "view_team:" ∨ startsWith data "approve_join:"
      ∨ startsWith data "reject_join:" ∨ startsWith data "add_member:"
      ∨ startsWith data "add_member_confirm:" ∨ data = "edit_profile"
      ∨ data = "back_to_menu" then
    .user
  else if startsWith data "create_task:" ∨ data = "cancel_task_creation"
      ∨ startsWith data "task_status:" ∨ startsWith data "edit_task:"
      ∨ startsWith data "delete_task:" ∨ data = "back_to_tasks" then
    .task
  else .notImplemented

/-- The listener `bot.on('callback_query', ...)`. -/
def onCallbackQuery (q : CallbackQuery) : M Unit :=
  match callbackRoute q.data with
  | .project => projectController.handleProjectCallback q
  | .user => userController.handleUserCallback q
  | .task => taskController.handleTaskCallback q
  | .notImplemented =>
    answerCallbackQuery q.id (some "This button is not implemented yet.")

/-- The handlers the `message` listener can hand a text to. -/
inductive Route where
  | handleNameInput | handleSurnameInput | handleRoleInput | handleContactInput
  | handleJoinProjectInput
  | handleProjectNameInput | handleProjectDescriptionInput
  | handleTaskNameInput | handleTaskDescriptionInput | handleTaskDueDateInput
  | showProjectsMenu | showTasksMenu | showMyTasks | startTaskCreation
  | startProjectCreation | showProjectDetails | backToMenu
  | unrecognized
  deriving DecidableEq, Repr

/-- The chain of tests of the `message` listener: first the session state, then
the labels of the menu buttons, then the default. -/
def route (state : Option String) (text : String) : Route :=
  if state = some USER_STATES.WAITING_NAME then .handleNameInput
  else if state = some USER_STATES.WAITING_SURNAME then .handleSurnameInput
  else if state = some USER_STATES.WAITING_ROLE then .handleRoleInput
  else if state = some USER_STATES.WAITING_CONTACT then .handleContactInput
  else if state = some USER_STATES.WAITING_JOIN_PROJECT then .handleJoinProjectInput
  else if state = some PROJECT_STATES.WAITING_NAME then .handleProjectNameInput
  else if state = some PROJECT_STATES.WAITING_DESCRIPTION then .handleProjectDescriptionInput
  else if state = some TASK_STATES.WAITING_NAME then .handleTaskNameInput
  else if state = some TASK_STATES.WAITING_DESCRIPTION then .handleTaskDescriptionInput
  else if state = some TASK_STATES.WAITING_DUE_DATE then .handleTaskDueDateInput
  else if text = emoji.projects ++ " Projects" then .showProjectsMenu
  else if text = emoji.tasks ++ " Tasks" then .showTasksMenu
  else if text = emoji.task ++ " My Tasks" then .showMyTasks
  else if text = emoji.task ++ " Create New Task" then .startTaskCreation
  else if text = emoji.newProject ++ " Create New Project" then .startProjectCreation
  else if startsWith text (emoji.project ++ " ") then .showProjectDetails
  else if text = emoji.back ++ " Back to Menu" then .backToMenu
  else .unrecognized

/-- The call made by the `message` listener once the handler is chosen. -/
def dispatch (r : Route) (chatId : Int) (userId : Nat) (text : String)
    (username : Option String) : M Unit :=
  match r with
  | .handleNameInput => userController.handleNameInput chatId userId text
  | .handleSurnameInput => userController.handleSurnameInput chatId userId text
  | .handleRoleInput => userController.handleRoleInput chatId userId text
  | .handleContactInput => userController.handleContactInput chatId userId text username
  | .handleJoinProjectInput => userController.handleJoinProjectInput chatId userId text
  | .handleProjectNameInput => projectController.handleProjectNameInput chatId userId text
  | .handleProjectDescriptionInput =>
    projectController.handleProjectDescriptionInput chatId userId text
  | .handleTaskNameInput => taskController.handleTaskNameInput chatId userId text
  | .handleTaskDescriptionInput => taskController.handleTaskDescriptionInput chatId userId text
  | .handleTaskDueDateInput => taskController.handleTaskDueDateInput chatId userId text
  | .showProjectsMenu => projectController.showProjectsMenu chatId userId
  | .showTasksMenu => taskController.showTasksMenu chatId userId
  | .showMyTasks => taskController.showMyTasks chatId userId
  | .startTaskCreation => taskController.startTaskCreation chatId userId
  | .startProjectCreation => projectController.startProjectCreation chatId userId
  | .showProjectDetails => projectController.showProjectDetails chatId userId text
  | .backToMenu => do
    sessionService.clearSession userId
    sendMessage chatId (emoji.menu ++ " *Main Menu*") true keyboard.mainMenuKeyboard
  | .unrecognized =>
    sendMessage chatId
      (emoji.error ++ " I don't understand that command. "
        ++ "Please use the menu options or type /help to see available commands.")
      false .none

/-- The listener `bot.on('message', ...)`. -/
def onMessage (msg : Message) : M Unit :=
  match msg.text with
  | none => pure ()
  | some text =>
    if startsWith text "/" then pure ()
    else if text = "" then pure ()
    else do
      let session ← sessionService.getSession msg.userId
      dispatch (route session.state text) msg.chatId msg.userId text msg.username

/-- One run of a listener of the bot. -/
inductive Input where
  | message (msg : Message)
  | command (c : Command) (msg : Message)
  | callbackQuery (q : CallbackQuery)
  deriving DecidableEq, Repr

def handle (i : Input) : M Unit :=
  match i with
  | .message msg => onMessage msg
  | .command c msg => onCommand c msg
  | .callbackQuery q => onCallbackQuery q

/-- The world after a sequence of listener runs, one after the other; a run that
throws leaves its world to the next one. -/
def runAll (inputs : List Input) (w : World) : World :=
  inputs.foldl (fun w i => (handle i w).world) w

/-! ## Relations between the world before and after a handler -/

/-- The handler `m` takes every world to a world related to it by `R`, whether it
returns or throws. -/
structure Step {α : Type} (R : World → World → Prop) (m : M α) : Prop where
  keeps : ∀ w, R w (m w).world

/-- A block that yields the action left to run: the block and the action it
yields are both steps of `R`. -/
structure StepRet {α : Type} (R : World → World → Prop) (m : M (M α)) : Prop where
  block : Step R m
  rest : ∀ w rest w1, m w = .ok rest w1 → Step R rest

/-- The relation `R` is a preorder that the bookkeeping of calls, the delivered
messages and the acknowledgements do not affect. -/
structure Quiet (R : World → World → Prop) : Prop where
  refl : ∀ w, R w w
  trans : ∀ a b c, R a b → R b c → R a c
  dbCalls : ∀ w n, R w { w with dbCalls := n }
  apiCalls : ∀ w n, R w { w with apiCalls := n }
  outbox : ∀ w o, R w { w with outbox := o }
  answers : ∀ w a, R w { w with answers := a }

/-- A quiet relation that everything the handlers write does not affect: the
session store, the `User` and `Project` collections, and the replacement of a
task by a task of the same id. -/
structure Bystander (R : World → World → Prop) extends Quiet R : Prop where
  sessions : ∀ w s, R w { w with sessions := s }
  users : ∀ w u n, R w { w with users := u, nextId := n }
  projects : ∀ w p n, R w { w with projects := p, nextId := n }
  taskSave : ∀ w (task : Task),
    R w { w with tasks := w.tasks.map (fun t => if t.id = task.id then task else t) }

/-- The observation `π` of the world is the same before and after. -/
def Same {β : Type} (π : World → β) : World → World → Prop := fun w w1 => π w1 = π w

/-! ## `src/services/notificationService.js` -/

/-- The part of `populate('assignedTo')` the service reads: the user a task is
assigned to, when that user exists. -/
def populatedAssignee (w : World) (t : Task) : Option User :=
  match t.assignedTo with
  | some id => w.users.find? (fun u => u.id = id)
  | none => none

/-- The order in which `for (const key in object)` visits an object whose keys
are numbers: the keys that are array indices (below `2^32 - 1`) in ascending
order, then the other keys in the order in which they were added. -/
def forInOrder {α : Type} (entries : List (Nat × α)) : List (Nat × α) :=
  (entries.filter (fun e => e.1 < 4294967295)).insertionSort (fun a b => a.1 ≤ b.1)
    ++ entries.filter (fun e => ¬ e.1 < 4294967295)

namespace NotificationService

/-- The filter `{ dueDate: { $lt: today }, status: { $ne: 'done' } }`; a task
without due date does not match a comparison. -/
def overdueFilter (today : Nat) (t : Task) : Bool :=
  (match t.dueDate with
    | some due => decide (due < today)
    | none => false)
    && decide (t.status ≠ "done")

/-- The filter `{ dueDate: { $gte: tomorrow, $lt: dayAfterTomorrow }, status: { $ne: 'done' } }`. -/
def upcomingFilter (tomorrow dayAfterTomorrow : Nat) (t : Task) : Bool :=
  (match t.dueDate with
    | some due => decide (tomorrow ≤ due) && decide (due < dayAfterTomorrow)
    | none => false)
    && decide (t.status ≠ "done")

/-- Query `Task.find(filter).populate('projectId').populate('assignedTo')`. -/
def findTasks (filter : Task → Bool) : M (List Task) := do
  dbCall
  let w ← getWorld
  pure (w.tasks.filter filter)

/-- The loop that fills `tasksByUser`: a task whose assignee exists is pushed on
the list kept under the Telegram id of that assignee, created empty at the first
task. -/
def groupByUser (w : World) (tasks : List Task) : List (Nat × List Task) :=
  tasks.foldl
    (fun tasksByUser task =>
      match populatedAssignee w task with
      | some user =>
        upsert user.telegramId
          ((lookupKey user.telegramId tasksByUser).getD [] ++ [task]) tasksByUser
      | none => tasksByUser)
    []

/-- The text of the overdue reminder for the tasks of one user. -/
def overdueMessage (w : World) (tasks : List Task) : String :=
  emoji.notification ++ " *Overdue Tasks Reminder*\n\n"
    ++ "You have " ++ toString tasks.length ++ " overdue task(s):\n\n"
    ++ String.join (tasks.enum.map (fun (index, task) =>
        toString (index + 1) ++ ". *" ++ task.name ++ "*\n"
          ++ "   Project: " ++ ((populatedProjectName w task).getD "Unknown Project") ++ "\n"
          ++ "   Due Date: " ++ formatYMD (task.dueDate.getD w.now) ++ "\n"
          ++ "   Status: " ++ task.status ++ "\n\n"))

/-- The text of the reminder of the tasks of one user that are due tomorrow. -/
def upcomingMessage (w : World) (tasks : List Task) : String :=
  emoji.notification ++ " *Upcoming Tasks Reminder*\n\n"
    ++ "You have " ++ toString tasks.length ++ " task(s) due tomorrow:\n\n"
    ++ String.join (tasks.enum.map (fun (index, task) =>
        toString (index + 1) ++ ". *" ++ task.name ++ "*\n"
          ++ "   Project: " ++ ((populatedProjectName w task).getD "Unknown Project") ++ "\n"
          ++ "   Status: " ++ task.status ++ "\n\n"))

/-- The loop `for (const userId in tasksByUser)`: one message for each key, sent
inside its own `try` block. -/
def notifyEach (message : List Task → String) : List (Nat × List Task) → M Unit
  | [] => pure ()
  | (userId, tasks) :: rest =>
    if tasks.length = 0 then notifyEach message rest
    else do
      tryCatch (sendMessage (userId : Int) (message tasks) true .none) (pure ())
      notifyEach message rest

/-- Method `checkOverdueTasks()`. -/
def checkOverdueTasks : M Unit :=
  tryCatch
    (do
      let w0 ← getWorld
      let today := startOfDay w0.now
      let overdueTasks ← findTasks (overdueFilter today)
      let w ← getWorld
      notifyEach (overdueMessage w) (forInOrder (groupByUser w overdueTasks)))
    (pure ())

/-- Method `checkUpcomingTasks()`. -/
def checkUpcomingTasks : M Unit :=
  tryCatch
    (do
      let w0 ← getWorld
      let tomorrow := startOfDay (w0.now + 86400000)
      let dayAfterTomorrow := tomorrow + 86400000
      let upcomingTasks ← findTasks (upcomingFilter tomorrow dayAfterTomorrow)
      let w ← getWorld
      notifyEach (upcomingMessage w) (forInOrder (groupByUser w upcomingTasks)))
    (pure ())

/-- The timers armed by `scheduleDaily`: `setTimeout` after `delay` milliseconds,
then `setInterval` with period `every`. -/
structure Timer where
  delay : Nat
  every : Nat
  deriving DecidableEq, Repr

/-- The value of `scheduledTime` when the timer is armed: the day of `now` at
`hour:minute:00`, moved to the next day when that is not after `now`. -/
def scheduledTime (now hour minute : Nat) : Nat :=
  let scheduled := startOfDay now + hour * 3600000 + minute * 60000
  if scheduled ≤ now then scheduled + 86400000 else scheduled

/-- Method `scheduleDaily(hour, minute, callback)`, called at time `now`. -/
def scheduleDaily (now hour minute : Nat) : Timer :=
  { delay := scheduledTime now hour minute - now, every := 24 * 60 * 60 * 1000 }

end NotificationService

/-! ## The text listeners of the Bot API client -/

/-- The test `regexp.exec(text)` for a regular expression that is a plain text
without anchors, such as the one written for the command `start`: the pattern
occurs somewhere in the text. -/
def occursIn (p s : String) : Bool :=
  s.data.tails.any (fun t => p.data.isPrefixOf t)

/-- The text looked for by the regular expression given to `bot.onText` for each
command. -/
def Command.pattern : Command → String
  | .start => "/start"
  | .help => "/help"
  | .projects => "/projects"
  | .tasks => "/tasks"
  | .today => "/today"
  | .profile => "/profile"
  | .join => "/join"

/-- The commands, in the order in which `app.js` registers them. -/
def commands : List Command :=
  [.start, .help, .projects, .tasks, .today, .profile, .join]

/-- The commands whose listener the client calls for a text: it tries every
registered regular expression on the text and calls the listener of each one
that matches. -/
def matchedCommands (text : String) : List Command :=
  commands.filter (fun c => occursIn c.pattern text)

/-- The listener runs set off by one message: the client emits `message` for
every message, then calls the `onText` listeners that match its text. -/
def listenerRuns (msg : Message) : List Input :=
  .message msg ::
    (match msg.text with
      | some text => (matchedCommands text).map (fun c => .command c msg)
      | none => [])

/-- The `message` listener goes past its two guards: the text does not begin
with `/` and is not empty. -/
def reachesDispatch (text : String) : Bool :=
  !(startsWith text "/") && text != ""

/-! ## Relations that see the acknowledgements -/

/-- The relation `R` is a preorder that nothing but an acknowledgement affects:
the bookkeeping of calls, the delivered messages, the session store and what
the handlers write to the collections. -/
structure Calm (R : World → World → Prop) : Prop where
  refl : ∀ w, R w w
  trans : ∀ a b c, R a b → R b c → R a c
  dbCalls : ∀ w n, R w { w with dbCalls := n }
  apiCalls : ∀ w n, R w { w with apiCalls := n }
  outbox : ∀ w o, R w { w with outbox := o }
  sessions : ∀ w s, R w { w with sessions := s }
  users : ∀ w u n, R w { w with users := u, nextId := n }
  projects : ∀ w p n, R w { w with projects := p, nextId := n }
  taskSave : ∀ w (task : Task),
    R w { w with tasks := w.tasks.map (fun t => if t.id = task.id then task else t) }

/-! ## Vocabulary of the results -/

/-- The steps the `message` listener dispatches on, each with the handler of
that step. -/
def flowSteps : List (String × Route) :=
  [(USER_STATES.WAITING_NAME, .handleNameInput),
   (USER_STATES.WAITING_SURNAME, .handleSurnameInput),
   (USER_STATES.WAITING_ROLE, .handleRoleInput),
   (USER_STATES.WAITING_CONTACT, .handleContactInput),
   (USER_STATES.WAITING_JOIN_PROJECT, .handleJoinProjectInput),
   (PROJECT_STATES.WAITING_NAME, .handleProjectNameInput),
   (PROJECT_STATES.WAITING_DESCRIPTION, .handleProjectDescriptionInput),
   (TASK_STATES.WAITING_NAME, .handleTaskNameInput),
   (TASK_STATES.WAITING_DESCRIPTION, .handleTaskDescriptionInput),
   (TASK_STATES.WAITING_DUE_DATE, .handleTaskDueDateInput)]

/-- The handlers reached through the label of a menu button. -/
def menuRoutes : List Route :=
  [.showProjectsMenu, .showTasksMenu, .showMyTasks, .startTaskCreation,
   .startProjectCreation, .showProjectDetails, .backToMenu]

/-- The texts the `message` listener recognises as menu buttons. -/
def isMenuLabel (text : String) : Bool :=
  text ∈ [emoji.projects ++ " Projects", emoji.tasks ++ " Tasks", emoji.task ++ " My Tasks",
      emoji.task ++ " Create New Task", emoji.newProject ++ " Create New Project",
      emoji.back ++ " Back to Menu"]
    || startsWith text (emoji.project ++ " ")

/-- A message that shows a menu: it carries a reply keyboard. -/
def Outgoing.isMenu (o : Outgoing) : Bool :=
  match o.markup with
  | .keyboard _ => true
  | _ => false

/-- A text equal to `skip` up to the case of its letters. -/
def isSkipWord (text : String) : Bool :=
  text.data.map Char.toLower = ['s', 'k', 'i', 'p']

/-- A world with the given sessions and collections, in which no call fails. -/
def quietWorld (sessions : Store) (users : List User) (projects : List Project) : World :=
  { now := 1000, sessions := sessions, users := users, projects := projects, tasks := [],
    nextId := 100, outbox := [], answers := [], dbFails := fun _ => false, dbCalls := 0,
    apiFails := fun _ => false, apiCalls := 0 }

/-- A registered user with Telegram id 7, member of the given projects. -/
def sampleUser (projects : List Nat) : User :=
  { id := 1, telegramId := 7, name := "Ada", surname := some "L", role := some "Developer",
    contact := some "ada", projects := projects, pendingProjects := [], createdAt := 0 }

/-- A project of which user 7 is the admin. -/
def sampleProject (id : Nat) (name : String) : Project :=
  { id := id, name := name, description := "", adminId := 7, createdAt := 0,
    workDays := ["Monday", "Tuesday", "Wednesday", "Thursday", "Friday"] }

/-- A text message of user 7. -/
def sampleMessage (text : String) : Message :=
  { text := some text, chatId := 7, userId := 7, username := some "ada" }

/-- A session in the given state. -/
def sessionIn (state : String) (data : List (String × Value)) : Session :=
  { state := some state, data := data, lastActivity := 0 }

/-- The session of `u` is the cleared session `{state: null, data: {}}` after the
handler if it was before; the clock is not moved. -/
def KeepsCleared (u : Nat) : World → World → Prop := fun w w1 =>
  w1.now = w.now
    ∧ (lookupKey u w.sessions = some { state := none, data := [], lastActivity := w.now } →
        lookupKey u w1.sessions = some { state := none, data := [], lastActivity := w.now })

/-- The flow handlers of the user controller: the registration steps and the
join-project step. -/
def userFlowRoutes : List Route :=
  [.handleNameInput, .handleSurnameInput, .handleRoleInput, .handleContactInput,
   .handleJoinProjectInput]

/-- The flow handlers of the project controller. -/
def projectFlowRoutes : List Route :=
  [.handleProjectNameInput, .handleProjectDescriptionInput]

/-- The flow handlers of the task controller. -/
def taskFlowRoutes : List Route :=
  [.handleTaskNameInput, .handleTaskDescriptionInput, .handleTaskDueDateInput]

/-- Only the session store and the bookkeeping of calls and deliveries differ
between the two worlds. -/
def AtMostSessions : World → World → Prop := fun w w1 =>
  ∃ s d a o ans, w1 = { w with sessions := s, dbCalls := d, apiCalls := a, outbox := o,
                               answers := ans }

/-- The project-creation flow run to its end: the button, then the name, then the
description, each handled in the world left by the previous one. -/
def runProjectCreation (chatId : Int) (userId : Nat) (name description : String)
    (w : World) : World :=
  (projectController.handleProjectDescriptionInput chatId userId description
    (projectController.handleProjectNameInput chatId userId name
      (projectController.startProjectCreation chatId userId w).world).world).world


/-! ## Whole runs -/

/-- One join request: the text `/join`, then the name of the project, each with
the listener runs it sets off. -/
def joinRequest (chatId : Int) (userId : Nat) (username : Option String) (name : String) :
    List Input :=
  listenerRuns { text := some "/join", chatId := chatId, userId := userId,
                 username := username }
    ++ listenerRuns { text := some name, chatId := chatId, userId := userId,
                      username := username }

/-- The prompt sent to the admin of a project when a user asks to join it. -/
def joinPrompt (project : Project) (user : User) : Outgoing :=
  { chatId := (project.adminId : Int),
    text := emoji.notification ++ " *Join Request*\n\nUser *" ++ user.name ++ "* "
      ++ (user.surname.getD "") ++ " has requested to join your project \""
      ++ project.name ++ "\".",
    markdown := true,
    markup := keyboard.createInlineKeyboard
      [[(emoji.select ++ " Approve",
          "approve_join:" ++ renderId project.id ++ ":" ++ toString user.telegramId),
        (emoji.cancel ++ " Reject",
          "reject_join:" ++ renderId project.id ++ ":" ++ toString user.telegramId)]] }

/-- A message that asks to approve or reject a join request. -/
def Outgoing.isJoinPrompt (o : Outgoing) : Bool :=
  match o.markup with
  | .inline rows => rows.any (fun row => row.any (fun b => startsWith b.2 "approve_join:"))
  | _ => false

/-- The registration flow run to its end: the worlds left by `registerUser` and
by the handlers of the four texts, each run in the world left by the previous
one. -/
def registrationWorlds (chatId : Int) (userId : Nat) (username : Option String)
    (name surname role contact : String) (w : World) : List World :=
  let w1 := (userController.registerUser chatId userId username w).world
  let w2 := (userController.handleNameInput chatId userId name w1).world
  let w3 := (userController.handleSurnameInput chatId userId surname w2).world
  let w4 := (userController.handleRoleInput chatId userId role w3).world
  let w5 := (userController.handleContactInput chatId userId contact username w4).world
  [w1, w2, w3, w4, w5]

/-- The state of the session of a user, when the store holds one. -/
def stateOf (userId : Nat) (w : World) : Option (Option String) :=
  (lookupKey userId w.sessions).map (fun s => s.state)

/-- A number of join requests for the same project name, one after the other. -/
def joinRequests (n : Nat) (chatId : Int) (userId : Nat) (username : Option String)
    (name : String) : List Input :=
  (List.replicate n (joinRequest chatId userId username name)).flatten

/-- A registered user with Telegram id 8, member of no project. -/
def sampleGuest : User :=
  { id := 2, telegramId := 8, name := "Bob", surname := some "", role := some "",
    contact := some "bob", projects := [], pendingProjects := [], createdAt := 0 }

/-- The messages of a join request that finds the request already pending. -/
def pendingReply (c : Int) : List Outgoing :=
  [⟨c, emoji.project ++ " *Join Project*\n\nPlease enter the project name you want to join:",
      true, keyboard.createKeyboard [[cancelText]]⟩,
   ⟨c, emoji.info ++ " You already have a pending request to join this project.",
      false, keyboard.mainMenuKeyboard⟩]

/-- The messages of the first join request. -/
def firstReply (c : Int) (project : Project) (user : User) : List Outgoing :=
  [⟨c, emoji.project ++ " *Join Project*\n\nPlease enter the project name you want to join:",
      true, keyboard.createKeyboard [[cancelText]]⟩,
   joinPrompt project user,
   ⟨c, emoji.success ++ " Your request to join \"" ++ project.name
        ++ "\" has been sent to the project admin. "
        ++ "You will be notified when they respond.",
      false, keyboard.mainMenuKeyboard⟩]

/-- The Telegram id under which the sweeps of the notification service file a
task: that of the user the task is assigned to, when that user exists. -/
def assigneeOf (w : World) (t : Task) : Option Nat :=
  (populatedAssignee w t).map (fun u => u.telegramId)

/-- The message of a sweep to the user with Telegram id `userId`. -/
def reminder (message : List Task → String) (group : Nat × List Task) : Outgoing :=
  { chatId := (group.1 : Int), text := message group.2, markdown := true, markup := .none }

/-- A task of project 50 created by user 1. -/
def sampleTask (id : Nat) (name : String) (assignedTo : Option Nat) (dueDate : Option Nat)
    (status : String) : Task :=
  { id := id, name := name, description := "", projectId := 50, assignedTo := assignedTo,
    dueDate := dueDate, taskType := "feature", roleType := "", priority := "medium",
    effort := 1, status := status, createdBy := 1, createdAt := 0, completedAt := none }

/-- A world on the fourth day of the epoch, five seconds after midnight, in which
no call fails: two users, one project, and tasks due the day before, on the day,
the day after, and two days before. -/
def sweepWorld : World :=
  { now := 3 * 86400000 + 5000, sessions := [],
    users := [sampleUser [50], { sampleGuest with projects := [50] }],
    projects := [sampleProject 50 "Alpha"],
    tasks :=
      [sampleTask 60 "late" (some 1) (some (2 * 86400000)) "todo",
       sampleTask 61 "today" (some 1) (some (3 * 86400000)) "todo",
       sampleTask 62 "soon" (some 2) (some (4 * 86400000)) "in-progress",
       sampleTask 63 "finished" (some 1) (some 86400000) "done",
       sampleTask 64 "later" (some 1) (some 86400000) "todo"],
    nextId := 100, outbox := [], answers := [], dbFails := fun _ => false, dbCalls := 0,
    apiFails := fun _ => false, apiCalls := 0 }

/-- The groups of a sweep whose message is delivered, when `first` is the number
of the Bot API call that sends the message of the first group: the sends are
numbered in the order of the groups, and `fails` tells which of them reject. -/
def delivered {α : Type} (fails : Nat → Bool) (first : Nat) : List α → List α
  | [] => []
  | e :: rest =>
    if fails first then delivered fails (first + 1) rest
    else e :: delivered fails (first + 1) rest

/-- The world `sweepWorld` with one more overdue task, assigned to user 8, and a
Bot API that rejects its first call. -/
def flakyWorld : World :=
  { sweepWorld with
    tasks := sweepWorld.tasks ++ [sampleTask 65 "old" (some 2) (some 86400000) "todo"],
    apiFails := fun n => n == 0 }

/-- The `callback_data` templates written in the three controllers: each is
followed by an object id (and, for some, by further fields). -/
def payloadStems : List String :=
  ["edit_project:", "delete_project:", "view_team:", "view_tasks:", "edit_project_name:",
   "edit_project_desc:", "view_project:", "confirm_delete_project:",
   "cancel_delete_project:", "create_task:", "task_status:", "edit_task:", "delete_task:",
   "add_member:", "back_to_project:", "approve_join:", "reject_join:",
   "add_member_confirm:"]

/-- The `callback_data` values of the controllers that carry no id. -/
def fixedPayloads : List String :=
  ["cancel_task_creation", "back_to_tasks", "edit_profile", "back_to_menu"]

/-- User 7 has typed the project name "Alpha" and is asked for the description;
the third database call from now on fails. -/
def brokenSaveWorld : World :=
  { quietWorld
      [(7, sessionIn PROJECT_STATES.WAITING_DESCRIPTION [("projectName", .str "Alpha")])]
      [sampleUser []] [] with
    dbFails := fun n => n == 2 }

/-- User 8 has asked to join project 50, of which user 7 is the admin. -/
def pendingWorld : World :=
  quietWorld [] [sampleUser [50], { sampleGuest with pendingProjects := [50] }]
    [sampleProject 50 "Alpha"]

/-- The `data` object of the session of a user; the empty object when the store
holds no session for the user. -/
def dataOf (userId : Nat) (w : World) : List (String × Value) :=
  ((lookupKey userId w.sessions).map (fun s => s.data)).getD []

/-- The state and the `data` object of the session of a user. -/
def sessionView (userId : Nat) (w : World) : Option (Option String × List (String × Value)) :=
  (lookupKey userId w.sessions).map (fun s => (s.state, s.data))

/-- The first step of each of the four flows. -/
def flowEntries : List String :=
  [USER_STATES.WAITING_NAME, PROJECT_STATES.WAITING_NAME, TASK_STATES.WAITING_NAME,
   USER_STATES.WAITING_JOIN_PROJECT]

/-- A project creation left after the name was given, followed by `/join`. -/
def interruptedCreation : List Input :=
  [.message (sampleMessage (emoji.newProject ++ " Create New Project")),
   .message (sampleMessage "Alpha"),
   .command .join (sampleMessage "/join")]

/-- A project creation left after the name was given, followed by the button
that starts a task. -/
def interruptedForTask : List Input :=
  [.message (sampleMessage (emoji.newProject ++ " Create New Project")),
   .message (sampleMessage "Alpha"),
   .command .tasks (sampleMessage "/tasks"),
   .message (sampleMessage (emoji.task ++ " Create New Task"))]

/-- The keys that are to be set in each state: the fields collected by the
earlier steps of the flow. -/
def requiredKeys (state : Option String) : List String :=
  if state = some USER_STATES.WAITING_SURNAME then ["name"]
  else if state = some USER_STATES.WAITING_ROLE then ["name", "surname"]
  else if state = some USER_STATES.WAITING_CONTACT then ["name", "surname", "role"]
  else if state = some PROJECT_STATES.WAITING_DESCRIPTION then ["projectName"]
  else if state = some TASK_STATES.WAITING_NAME then ["projectId"]
  else if state = some TASK_STATES.WAITING_DESCRIPTION then ["projectId", "taskName"]
  else if state = some TASK_STATES.WAITING_DUE_DATE then
    ["projectId", "taskName", "taskDescription"]
  else []

/-- The collected fields that the handlers read as texts. -/
def textKeys : List String :=
  ["name", "surname", "role", "projectName", "taskName", "taskDescription"]

/-- The key is set in the `data` of the session: a text field reads as a text,
any other key has a value. -/
def Session.holds (s : Session) (key : String) : Bool :=
  if key ∈ textKeys then (textField s.data key).isSome else (lookupKey key s.data).isSome

/-- Every key required by the state of the session is set in its `data`. -/
def Session.complete (s : Session) : Bool :=
  (requiredKeys s.state).all (fun k => s.holds k)

/-- Every session of the store is complete. -/
def StateDeterminesKeys (w : World) : Prop :=
  ∀ u s, lookupKey u w.sessions = some s → s.complete = true

/-- A quiet relation that the writes to the collections do not affect and that
admits the session operations of the handlers: reading, clearing, writing a
text under any key or a value under a key that is not a text field, moving to
a state that requires no key, and moving to a state that requires one key
together with writing that key. -/
structure Careful (R : World → World → Prop) extends Quiet R : Prop where
  users : ∀ w u n, R w { w with users := u, nextId := n }
  projects : ∀ w p n, R w { w with projects := p, nextId := n }
  taskSave : ∀ w (task : Task),
    R w { w with tasks := w.tasks.map (fun t => if t.id = task.id then task else t) }
  getSession : ∀ w u,
    R w { w with sessions := (SessionService.getSession w.sessions w.now u).1 }
  clearSession : ∀ w u,
    R w { w with sessions := SessionService.clearSession w.sessions w.now u }
  setText : ∀ w u k t,
    R w { w with sessions := (SessionService.setData w.sessions w.now u k (.str t)).1 }
  setOther : ∀ w u k v, k ∉ textKeys →
    R w { w with sessions := (SessionService.setData w.sessions w.now u k v).1 }
  setFree : ∀ w u s, requiredKeys s = [] →
    R w { w with sessions := (SessionService.setState w.sessions w.now u s).1 }
  openerText : ∀ w u s k t, requiredKeys s = [k] →
    R w { w with
      sessions := (SessionService.setData
        (SessionService.setState w.sessions w.now u s).1 w.now u k (.str t)).1 }
  openerOther : ∀ w u s k v, requiredKeys s = [k] → k ∉ textKeys →
    R w { w with
      sessions := (SessionService.setData
        (SessionService.setState w.sessions w.now u s).1 w.now u k v).1 }

/-- A registration carried through, a project creation, and a task creation
left at the due date. -/
def threeFlows : List Input :=
  [.command .start (sampleMessage "/start"),
   .message (sampleMessage "Ada"),
   .message (sampleMessage "L"),
   .message (sampleMessage "Developer"),
   .message (sampleMessage "ada"),
   .message (sampleMessage (emoji.newProject ++ " Create New Project")),
   .message (sampleMessage "Alpha"),
   .message (sampleMessage "Skip"),
   .message (sampleMessage (emoji.task ++ " Create New Task")),
   .message (sampleMessage "write"),
   .message (sampleMessage "Skip")]

/-- The payload is the text in which the bot writes the id it names. -/
def Canonical (text : String) : Prop :=
  ∀ q, parseId text = some q → renderId q = text

/-- The `projects` and `pendingProjects` lists of every user are duplicate-free
and share no id. -/
def ListsClean (w : World) : Prop :=
  ∀ x ∈ w.users,
    x.projects.Nodup ∧ x.pendingProjects.Nodup ∧ ∀ i ∈ x.projects, i ∉ x.pendingProjects

/-- The id given to the next document is fresh: it is above every id held in a
membership list and above the id of every project. -/
def IdsBelowNext (w : World) : Prop :=
  (∀ x ∈ w.users, ∀ i ∈ x.projects ++ x.pendingProjects, i < w.nextId)
    ∧ ∀ p ∈ w.projects, p.id < w.nextId

/-- The two conditions together. -/
def MembershipOk (w : World) : Prop := ListsClean w ∧ IdsBelowNext w

/-- The operations that write the membership lists: the last step of a project
creation, a join request, and the two buttons of the join-request message, whose
payload is the text of the project id. -/
inductive MemberOp where
  | create (chatId : Int) (userId : Nat) (description : String)
  | request (chatId : Int) (userId : Nat) (projectName : String)
  | approve (chatId : Int) (adminId : Nat) (projectId : Nat) (requestUserId : Option Int)
  | reject (chatId : Int) (adminId : Nat) (projectId : Nat) (requestUserId : Option Int)
  deriving DecidableEq, Repr

/-- The handler behind each operation. -/
def MemberOp.run : MemberOp → M Unit
  | .create c u t => projectController.handleProjectDescriptionInput c u t
  | .request c u t => userController.handleJoinProjectInput c u t
  | .approve c a p r => userController.approveJoinRequest c a (some (renderId p)) r
  | .reject c a p r => userController.rejectJoinRequest c a (some (renderId p)) r

/-- The world after a sequence of operations, whatever fails on the way. -/
def runOps (ops : List MemberOp) (w : World) : World :=
  ops.foldl (fun w op => (op.run w).world) w

/-- The membership lists of the users, by Telegram id. -/
def memberLists (w : World) : List (Nat × List Nat × List Nat) :=
  w.users.map (fun x => (x.telegramId, x.projects, x.pendingProjects))

/-- User 8 creates a project; then users 8 and 9 ask to join project 50, and the
admin approves the first request and rejects the second. -/
def membershipStory : List MemberOp :=
  [.create 8 8 "mine", .request 8 8 "Alpha", .request 9 9 "Alpha",
   .approve 7 7 50 (some 8), .reject 7 7 50 (some 9)]

/-- The world of the story: user 7 is the admin of project 50, users 8 and 9 are
registered, and user 8 has typed the name of a new project. -/
def storyWorld : World :=
  quietWorld
    [(8, sessionIn PROJECT_STATES.WAITING_DESCRIPTION [("projectName", .str "Beta")])]
    [sampleUser [50], sampleGuest,
     { sampleGuest with id := 3, telegramId := 9, name := "Cy" }]
    [sampleProject 50 "Alpha"]

/-! ## Facts about the key/value lists -/

theorem lookupKey_upsert_same {κ ν : Type} [DecidableEq κ] (k : κ) (v : ν)
    (l : List (κ × ν)) : lookupKey k (upsert k v l) = some v := by
  induction l with
  | nil => simp [upsert, lookupKey]
  | cons hd tl ih =>
    obtain ⟨a, b⟩ := hd
    by_cases h : a = k
    · simp [upsert, lookupKey, h]
    · simp [upsert, lookupKey, h, ih]

theorem lookupKey_upsert_ne {κ ν : Type} [DecidableEq κ] (k j : κ) (v : ν)
    (l : List (κ × ν)) (h : j ≠ k) : lookupKey j (upsert k v l) = lookupKey j l := by
  induction l with
  | nil => simp [upsert, lookupKey, Ne.symm h]
  | cons hd tl ih =>
    obtain ⟨a, b⟩ := hd
    by_cases hk : a = k
    · subst hk
      simp [upsert, lookupKey, Ne.symm h]
    · by_cases hj : a = j
      · subst hj
        simp [upsert, lookupKey, hk]
      · simp [upsert, lookupKey, hk, hj, ih]

/-! ## Session service: results -/

/-- C1: `getSession(u)` is total and always yields a session object that is
the one stored for `u` afterwards; for a user without a session it is the
fresh `{state: null, data: {}}`, for a user with a session the state and data
are the stored ones, and in both cases `lastActivity` is the current time. -/
theorem C1_getSession_total (sessions : Store) (now u : Nat) :
    lookupKey u (SessionService.getSession sessions now u).1
        = some (SessionService.getSession sessions now u).2
      ∧ (SessionService.getSession sessions now u).2.lastActivity = now
      ∧ (lookupKey u sessions = none →
          (SessionService.getSession sessions now u).2.state = none
            ∧ (SessionService.getSession sessions now u).2.data = [])
      ∧ (∀ s, lookupKey u sessions = some s →
          (SessionService.getSession sessions now u).2.state = s.state
            ∧ (SessionService.getSession sessions now u).2.data = s.data) := by
  unfold SessionService.getSession
  cases h : lookupKey u sessions with
  | none => simp [lookupKey_upsert_same]
  | some s => simp [h, lookupKey_upsert_same]


/-! ## Running handlers: basic facts -/

@[simp] theorem pure_run {α : Type} (a : α) (w : World) : (pure a : M α) w = .ok a w := rfl

@[simp] theorem bind_run {α β : Type} (m : M α) (f : α → M β) (w : World) :
    (m >>= f) w = match m w with
      | .ok a w1 => f a w1
      | .thrown w1 => .thrown w1 := rfl

@[simp] theorem world_ok {α : Type} (a : α) (w : World) : (Res.ok a w).world = w := rfl

@[simp] theorem world_thrown {α : Type} (w : World) : (Res.thrown w : Res α).world = w := rfl

@[simp] theorem getSession_run (u : Nat) (w : World) :
    sessionService.getSession u w
      = .ok (SessionService.getSession w.sessions w.now u).2
          { w with sessions := (SessionService.getSession w.sessions w.now u).1 } := rfl

@[simp] theorem setState_run (u : Nat) (s : Option String) (w : World) :
    sessionService.setState u s w
      = .ok () { w with sessions := (SessionService.setState w.sessions w.now u s).1 } := rfl

@[simp] theorem setData_run (u : Nat) (k : String) (v : Value) (w : World) :
    sessionService.setData u k v w
      = .ok () { w with sessions := (SessionService.setData w.sessions w.now u k v).1 } := rfl

@[simp] theorem clearSession_run (u : Nat) (w : World) :
    sessionService.clearSession u w
      = .ok () { w with sessions := SessionService.clearSession w.sessions w.now u } := rfl

section step
variable {α γ : Type} {R : World → World → Prop}

theorem step_pure (hq : Quiet R) (a : α) : Step R (pure a : M α) := ⟨fun w => hq.refl w⟩

theorem step_raise (hq : Quiet R) : Step R (raise : M α) := ⟨fun w => hq.refl w⟩

theorem step_getWorld (hq : Quiet R) : Step R getWorld := ⟨fun w => hq.refl w⟩

theorem step_bind (hq : Quiet R) {m : M α} {f : α → M γ} (hm : Step R m)
    (hf : ∀ a, Step R (f a)) : Step R (m >>= f) := by
  constructor
  intro w
  have h := hm.keeps w
  cases hmw : m w with
  | ok a w1 =>
    rw [hmw] at h
    simp only [bind_run, hmw]
    exact hq.trans _ _ _ h ((hf a).keeps w1)
  | thrown w1 =>
    rw [hmw] at h
    simpa [hmw] using h

theorem step_tryCatch (hq : Quiet R) {body handler : M α} (hb : Step R body)
    (hh : Step R handler) : Step R (tryCatch body handler) := by
  constructor
  intro w
  have h := hb.keeps w
  unfold tryCatch
  cases hmw : body w with
  | ok a w1 =>
    rw [hmw] at h
    simpa using h
  | thrown w1 =>
    rw [hmw] at h
    exact hq.trans _ _ _ h (hh.keeps w1)

theorem stepRet_pure (hq : Quiet R) {rest : M α} (h : Step R rest) :
    StepRet R (pure rest : M (M α)) := by
  refine ⟨step_pure hq _, ?_⟩
  intro w rest1 w1 hw
  simp only [pure_run, Res.ok.injEq] at hw
  rw [← hw.1]
  exact h

theorem stepRet_done (hq : Quiet R) : StepRet R done := stepRet_pure hq (step_pure hq ())

theorem stepRet_raise (hq : Quiet R) : StepRet R (raise : M (M α)) := by
  refine ⟨step_raise hq, ?_⟩
  intro w rest w1 hw
  simp [raise] at hw

theorem stepRet_bind (hq : Quiet R) {m : M γ} {f : γ → M (M α)} (hm : Step R m)
    (hf : ∀ a, StepRet R (f a)) : StepRet R (m >>= f) := by
  refine ⟨step_bind hq hm (fun a => (hf a).block), ?_⟩
  intro w rest w1 hw
  simp only [bind_run] at hw
  cases hmw : m w with
  | ok a w2 =>
    rw [hmw] at hw
    exact (hf a).rest w2 rest w1 hw
  | thrown w2 =>
    rw [hmw] at hw
    simp at hw

theorem stepRet_tryCatch (hq : Quiet R) {body handler : M (M α)} (hb : StepRet R body)
    (hh : StepRet R handler) : StepRet R (tryCatch body handler) := by
  refine ⟨step_tryCatch hq hb.block hh.block, ?_⟩
  intro w rest w1 hw
  unfold tryCatch at hw
  cases hmw : body w with
  | ok a w2 =>
    rw [hmw] at hw
    simp only [Res.ok.injEq] at hw
    rw [← hw.1]
    exact hb.rest w a w2 hmw
  | thrown w2 =>
    rw [hmw] at hw
    exact hh.rest w2 rest w1 hw

theorem step_tryCatchReturn (hq : Quiet R) {body handler : M (M α)} (hb : StepRet R body)
    (hh : StepRet R handler) : Step R (tryCatchReturn body handler) := by
  have h := stepRet_tryCatch hq hb hh
  constructor
  intro w
  unfold tryCatchReturn
  have h1 := h.block.keeps w
  cases hmw : tryCatch body handler w with
  | ok rest w1 =>
    rw [hmw] at h1
    simp only [bind_run, hmw]
    exact hq.trans _ _ _ h1 ((h.rest w rest w1 hmw).keeps w1)
  | thrown w1 =>
    rw [hmw] at h1
    simpa [hmw] using h1

theorem step_modifyWorld {f : World → World} (h : ∀ w, R w (f w)) :
    Step R (modifyWorld f) := ⟨fun w => h w⟩

theorem step_dbCall (hq : Quiet R) : Step R dbCall := by
  constructor
  intro w
  unfold dbCall
  by_cases hf : w.dbFails w.dbCalls = true
  · simpa [hf] using hq.dbCalls w _
  · simpa [hf] using hq.dbCalls w _

theorem step_apiCall (hq : Quiet R) : Step R apiCall := by
  constructor
  intro w
  unfold apiCall
  by_cases hf : w.apiFails w.apiCalls = true
  · simpa [hf] using hq.apiCalls w _
  · simpa [hf] using hq.apiCalls w _

theorem step_sendMessage (hq : Quiet R) (c : Int) (t : String) (m : Bool) (k : Markup) :
    Step R (sendMessage c t m k) :=
  step_bind hq (step_apiCall hq) (fun _ => step_modifyWorld (fun w => hq.outbox w _))

theorem step_answerCallbackQuery (hq : Quiet R) (i : String) (t : Option String) :
    Step R (answerCallbackQuery i t) :=
  step_bind hq (step_apiCall hq) (fun _ => step_modifyWorld (fun w => hq.answers w _))

theorem step_query (hq : Quiet R) (f : World → α) :
    Step R (dbCall >>= fun _ => getWorld >>= fun w => pure (f w)) :=
  step_bind hq (step_dbCall hq)
    (fun _ => step_bind hq (step_getWorld hq) (fun _ => step_pure hq _))

theorem step_User_findOne (hq : Quiet R) (t : Nat) : Step R (User.findOne t) :=
  step_query hq _

theorem step_User_findNotIn (hq : Quiet R) (p : Nat) : Step R (User.findNotIn p) :=
  step_query hq _

theorem step_User_countDocuments (hq : Quiet R) (p : Nat) : Step R (User.countDocuments p) :=
  step_query hq _

theorem step_Project_findIn (hq : Quiet R) (ids : List Nat) : Step R (Project.findIn ids) :=
  step_query hq _

theorem step_Project_findOne (hq : Quiet R) (n : String) : Step R (Project.findOne n) :=
  step_query hq _

theorem step_Project_findByObjectId (hq : Quiet R) (i : Nat) :
    Step R (Project.findByObjectId i) :=
  step_query hq _

theorem step_Project_findById (hq : Quiet R) (i : Option String) :
    Step R (Project.findById i) := by
  unfold Project.findById
  split
  · exact step_bind hq (step_dbCall hq) (fun _ => step_pure hq _)
  · split
    · exact step_raise hq
    · exact step_Project_findByObjectId hq _

theorem step_Task_findAssigned (hq : Quiet R) (u : Nat) (b : Bool) :
    Step R (Task.findAssigned u b) :=
  step_query hq _

theorem step_Task_findById (hq : Quiet R) (i : Option String) : Step R (Task.findById i) := by
  unfold Task.findById
  split
  · exact step_bind hq (step_dbCall hq) (fun _ => step_pure hq _)
  · split
    · exact step_raise hq
    · exact step_query hq _

theorem step_findUserByNumber (hq : Quiet R) (z : Option Int) :
    Step R (userController.findUserByNumber z) := by
  unfold userController.findUserByNumber
  split
  · exact step_raise hq
  · exact step_query hq _

theorem step_getSession_of {u : Nat}
    (hs : ∀ w, R w { w with sessions := (SessionService.getSession w.sessions w.now u).1 }) :
    Step R (sessionService.getSession u) := ⟨fun w => hs w⟩

theorem step_setState_of {u : Nat} {s : Option String}
    (hs : ∀ w, R w { w with sessions := (SessionService.setState w.sessions w.now u s).1 }) :
    Step R (sessionService.setState u s) := ⟨fun w => hs w⟩

theorem step_setData_of {u : Nat} {k : String} {v : Value}
    (hs : ∀ w, R w { w with sessions := (SessionService.setData w.sessions w.now u k v).1 }) :
    Step R (sessionService.setData u k v) := ⟨fun w => hs w⟩

theorem step_clearSession_of {u : Nat}
    (hs : ∀ w, R w { w with sessions := SessionService.clearSession w.sessions w.now u }) :
    Step R (sessionService.clearSession u) := ⟨fun w => hs w⟩

theorem step_getSession (hs : ∀ w s, R w { w with sessions := s }) (u : Nat) :
    Step R (sessionService.getSession u) := ⟨fun w => hs w _⟩

theorem step_setState (hs : ∀ w s, R w { w with sessions := s }) (u : Nat)
    (s : Option String) : Step R (sessionService.setState u s) := ⟨fun w => hs w _⟩

theorem step_setData (hs : ∀ w s, R w { w with sessions := s }) (u : Nat) (k : String)
    (v : Value) : Step R (sessionService.setData u k v) := ⟨fun w => hs w _⟩

theorem step_clearSession (hs : ∀ w s, R w { w with sessions := s }) (u : Nat) :
    Step R (sessionService.clearSession u) := ⟨fun w => hs w _⟩

theorem step_User_save (hq : Quiet R) (hu : ∀ w u n, R w { w with users := u, nextId := n })
    (u : User) : Step R (User.save u) :=
  step_bind hq (step_dbCall hq) (fun _ => step_modifyWorld (fun w => hu w _ w.nextId))

theorem step_User_create (hq : Quiet R)
    (hu : ∀ w u n, R w { w with users := u, nextId := n }) (t : Nat)
    (a b c d : Option String) : Step R (User.create t a b c d) := by
  unfold User.create
  split
  · exact step_raise hq
  · split
    · exact step_raise hq
    · refine step_bind hq (step_dbCall hq) (fun _ => step_bind hq (step_getWorld hq) ?_)
      intro w
      split
      · exact step_raise hq
      · exact step_modifyWorld (fun w => hu w _ _)

theorem step_Project_create (hq : Quiet R)
    (hp : ∀ w p n, R w { w with projects := p, nextId := n }) (a : Option String)
    (d : String) (u : Nat) : Step R (Project.create a d u) := by
  unfold Project.create
  split
  · exact step_raise hq
  · split
    · exact step_raise hq
    · refine step_bind hq (step_dbCall hq) (fun _ => step_bind hq (step_getWorld hq) ?_)
      intro w
      exact step_bind hq (step_modifyWorld (fun w => hp w _ _)) (fun _ => step_pure hq _)

theorem step_Task_save (hq : Quiet R)
    (ht : ∀ w (task : Task),
      R w { w with tasks := w.tasks.map (fun t => if t.id = task.id then task else t) })
    (task : Task) : Step R (Task.save task) := by
  unfold Task.save
  split
  · exact step_bind hq (step_dbCall hq) (fun _ => step_modifyWorld (fun w => ht w task))
  · exact step_raise hq

end step


/-! ## Every handler is a step of every relation its writes do not affect -/

section handlers
variable {R : World → World → Prop}

theorem step_showUserProfile (hq : Quiet R) (c : Int) (u : Nat) :
    Step R (userController.showUserProfile c u) := by
  unfold userController.showUserProfile
  repeat (first
    | with_reducible exact step_pure hq _
    | with_reducible exact step_raise hq
    | with_reducible exact stepRet_done hq
    | with_reducible exact stepRet_raise hq
    | with_reducible exact step_getWorld hq
    | with_reducible exact step_sendMessage hq _ _ _ _
    | with_reducible exact step_answerCallbackQuery hq _ _
    | with_reducible exact step_User_findOne hq _
    | with_reducible exact step_User_findNotIn hq _
    | with_reducible exact step_User_countDocuments hq _
    | with_reducible exact step_Project_findIn hq _
    | with_reducible exact step_Project_findOne hq _
    | with_reducible exact step_Project_findByObjectId hq _
    | with_reducible exact step_Project_findById hq _
    | with_reducible exact step_Task_findAssigned hq _ _
    | with_reducible exact step_Task_findById hq _
    | with_reducible exact step_findUserByNumber hq _
    | with_reducible apply step_tryCatchReturn hq
    | with_reducible apply step_tryCatch hq
    | with_reducible apply stepRet_pure hq
    | with_reducible apply stepRet_bind hq
    | with_reducible apply step_bind hq
    | intro _
    | split
    | dsimp only)

theorem step_showProjectDetails (hq : Quiet R) (c : Int) (u : Nat) (t : String) :
    Step R (projectController.showProjectDetails c u t) := by
  unfold projectController.showProjectDetails
  repeat (first
    | with_reducible exact step_pure hq _
    | with_reducible exact step_raise hq
    | with_reducible exact stepRet_done hq
    | with_reducible exact stepRet_raise hq
    | with_reducible exact step_getWorld hq
    | with_reducible exact step_sendMessage hq _ _ _ _
    | with_reducible exact step_answerCallbackQuery hq _ _
    | with_reducible exact step_User_findOne hq _
    | with_reducible exact step_User_findNotIn hq _
    | with_reducible exact step_User_countDocuments hq _
    | with_reducible exact step_Project_findIn hq _
    | with_reducible exact step_Project_findOne hq _
    | with_reducible exact step_Project_findByObjectId hq _
    | with_reducible exact step_Project_findById hq _
    | with_reducible exact step_Task_findAssigned hq _ _
    | with_reducible exact step_Task_findById hq _
    | with_reducible exact step_findUserByNumber hq _
    | with_reducible apply step_tryCatchReturn hq
    | with_reducible apply step_tryCatch hq
    | with_reducible apply stepRet_pure hq
    | with_reducible apply stepRet_bind hq
    | with_reducible apply step_bind hq
    | intro _
    | split
    | dsimp only)

theorem step_showTodayTasks (hq : Quiet R) (c : Int) (u : Nat) :
    Step R (taskController.showTodayTasks c u) := by
  unfold taskController.showTodayTasks
  repeat (first
    | with_reducible exact step_pure hq _
    | with_reducible exact step_raise hq
    | with_reducible exact stepRet_done hq
    | with_reducible exact stepRet_raise hq
    | with_reducible exact step_getWorld hq
    | with_reducible exact step_sendMessage hq _ _ _ _
    | with_reducible exact step_answerCallbackQuery hq _ _
    | with_reducible exact step_User_findOne hq _
    | with_reducible exact step_User_findNotIn hq _
    | with_reducible exact step_User_countDocuments hq _
    | with_reducible exact step_Project_findIn hq _
    | with_reducible exact step_Project_findOne hq _
    | with_reducible exact step_Project_findByObjectId hq _
    | with_reducible exact step_Project_findById hq _
    | with_reducible exact step_Task_findAssigned hq _ _
    | with_reducible exact step_Task_findById hq _
    | with_reducible exact step_findUserByNumber hq _
    | with_reducible apply step_tryCatchReturn hq
    | with_reducible apply step_tryCatch hq
    | with_reducible apply stepRet_pure hq
    | with_reducible apply stepRet_bind hq
    | with_reducible apply step_bind hq
    | intro _
    | split
    | dsimp only)

theorem step_showTaskDetails (hq : Quiet R) (c : Int) (u : Nat) (o : Option String) :
    Step R (taskController.showTaskDetails c u o) := by
  unfold taskController.showTaskDetails
  repeat (first
    | with_reducible exact step_pure hq _
    | with_reducible exact step_raise hq
    | with_reducible exact stepRet_done hq
    | with_reducible exact stepRet_raise hq
    | with_reducible exact step_getWorld hq
    | with_reducible exact step_sendMessage hq _ _ _ _
    | with_reducible exact step_answerCallbackQuery hq _ _
    | with_reducible exact step_User_findOne hq _
    | with_reducible exact step_User_findNotIn hq _
    | with_reducible exact step_User_countDocuments hq _
    | with_reducible exact step_Project_findIn hq _
    | with_reducible exact step_Project_findOne hq _
    | with_reducible exact step_Project_findByObjectId hq _
    | with_reducible exact step_Project_findById hq _
    | with_reducible exact step_Task_findAssigned hq _ _
    | with_reducible exact step_Task_findById hq _
    | with_reducible exact step_findUserByNumber hq _
    | with_reducible apply step_tryCatchReturn hq
    | with_reducible apply step_tryCatch hq
    | with_reducible apply stepRet_pure hq
    | with_reducible apply stepRet_bind hq
    | with_reducible apply step_bind hq
    | intro _
    | split
    | dsimp only)

theorem step_showMyTasks (hq : Quiet R) (c : Int) (u : Nat) :
    Step R (taskController.showMyTasks c u) := by
  unfold taskController.showMyTasks
  repeat (first
    | with_reducible exact step_pure hq _
    | with_reducible exact step_raise hq
    | with_reducible exact stepRet_done hq
    | with_reducible exact stepRet_raise hq
    | with_reducible exact step_getWorld hq
    | with_reducible exact step_sendMessage hq _ _ _ _
    | with_reducible exact step_answerCallbackQuery hq _ _
    | with_reducible exact step_User_findOne hq _
    | with_reducible exact step_User_findNotIn hq _
    | with_reducible exact step_User_countDocuments hq _
    | with_reducible exact step_Project_findIn hq _
    | with_reducible exact step_Project_findOne hq _
    | with_reducible exact step_Project_findByObjectId hq _
    | with_reducible exact step_Project_findById hq _
    | with_reducible exact step_Task_findAssigned hq _ _
    | with_reducible exact step_Task_findById hq _
    | with_reducible exact step_findUserByNumber hq _
    | with_reducible apply step_tryCatchReturn hq
    | with_reducible apply step_tryCatch hq
    | with_reducible apply stepRet_pure hq
    | with_reducible apply stepRet_bind hq
    | with_reducible apply step_bind hq
    | intro _
    | split
    | dsimp only)

theorem step_startAddMember (hq : Quiet R) (c : Int) (u : Nat) (o : Option String) :
    Step R (userController.startAddMember c u o) := by
  unfold userController.startAddMember
  repeat (first
    | with_reducible exact step_pure hq _
    | with_reducible exact step_raise hq
    | with_reducible exact stepRet_done hq
    | with_reducible exact stepRet_raise hq
    | with_reducible exact step_getWorld hq
    | with_reducible exact step_sendMessage hq _ _ _ _
    | with_reducible exact step_answerCallbackQuery hq _ _
    | with_reducible exact step_User_findOne hq _
    | with_reducible exact step_User_findNotIn hq _
    | with_reducible exact step_User_countDocuments hq _
    | with_reducible exact step_Project_findIn hq _
    | with_reducible exact step_Project_findOne hq _
    | with_reducible exact step_Project_findByObjectId hq _
    | with_reducible exact step_Project_findById hq _
    | with_reducible exact step_Task_findAssigned hq _ _
    | with_reducible exact step_Task_findById hq _
    | with_reducible exact step_findUserByNumber hq _
    | with_reducible apply step_tryCatchReturn hq
    | with_reducible apply step_tryCatch hq
    | with_reducible apply stepRet_pure hq
    | with_reducible apply stepRet_bind hq
    | with_reducible apply step_bind hq
    | intro _
    | split
    | dsimp only)

theorem step_askTaskName (hq : Quiet R) (c : Int) :
    Step R (taskController.askTaskName c) := by
  unfold taskController.askTaskName
  repeat (first
    | with_reducible exact step_pure hq _
    | with_reducible exact step_raise hq
    | with_reducible exact stepRet_done hq
    | with_reducible exact stepRet_raise hq
    | with_reducible exact step_getWorld hq
    | with_reducible exact step_sendMessage hq _ _ _ _
    | with_reducible exact step_answerCallbackQuery hq _ _
    | with_reducible exact step_User_findOne hq _
    | with_reducible exact step_User_findNotIn hq _
    | with_reducible exact step_User_countDocuments hq _
    | with_reducible exact step_Project_findIn hq _
    | with_reducible exact step_Project_findOne hq _
    | with_reducible exact step_Project_findByObjectId hq _
    | with_reducible exact step_Project_findById hq _
    | with_reducible exact step_Task_findAssigned hq _ _
    | with_reducible exact step_Task_findById hq _
    | with_reducible exact step_findUserByNumber hq _
    | with_reducible apply step_tryCatchReturn hq
    | with_reducible apply step_tryCatch hq
    | with_reducible apply stepRet_pure hq
    | with_reducible apply stepRet_bind hq
    | with_reducible apply step_bind hq
    | intro _
    | split
    | dsimp only)

theorem step_showProjectsMenu (hq : Quiet R)
    (c : Int) (u : Nat)
    (hs : ∀ w, R w { w with sessions := (SessionService.setState w.sessions w.now u none).1 }) :
    Step R (projectController.showProjectsMenu c u) := by
  unfold projectController.showProjectsMenu
  repeat (first
    | with_reducible exact step_pure hq _
    | with_reducible exact step_raise hq
    | with_reducible exact stepRet_done hq
    | with_reducible exact stepRet_raise hq
    | with_reducible exact step_getWorld hq
    | with_reducible exact step_sendMessage hq _ _ _ _
    | with_reducible exact step_answerCallbackQuery hq _ _
    | with_reducible exact step_User_findOne hq _
    | with_reducible exact step_User_findNotIn hq _
    | with_reducible exact step_User_countDocuments hq _
    | with_reducible exact step_Project_findIn hq _
    | with_reducible exact step_Project_findOne hq _
    | with_reducible exact step_Project_findByObjectId hq _
    | with_reducible exact step_Project_findById hq _
    | with_reducible exact step_Task_findAssigned hq _ _
    | with_reducible exact step_Task_findById hq _
    | with_reducible exact step_findUserByNumber hq _
    | with_reducible exact step_setState_of hs
    | with_reducible apply step_tryCatchReturn hq
    | with_reducible apply step_tryCatch hq
    | with_reducible apply stepRet_pure hq
    | with_reducible apply stepRet_bind hq
    | with_reducible apply step_bind hq
    | intro _
    | split
    | dsimp only)

theorem step_showTasksMenu (hq : Quiet R)
    (c : Int) (u : Nat)
    (hs : ∀ w, R w { w with sessions := (SessionService.setState w.sessions w.now u none).1 }) :
    Step R (taskController.showTasksMenu c u) := by
  unfold taskController.showTasksMenu
  repeat (first
    | with_reducible exact step_pure hq _
    | with_reducible exact step_raise hq
    | with_reducible exact stepRet_done hq
    | with_reducible exact stepRet_raise hq
    | with_reducible exact step_getWorld hq
    | with_reducible exact step_sendMessage hq _ _ _ _
    | with_reducible exact step_answerCallbackQuery hq _ _
    | with_reducible exact step_User_findOne hq _
    | with_reducible exact step_User_findNotIn hq _
    | with_reducible exact step_User_countDocuments hq _
    | with_reducible exact step_Project_findIn hq _
    | with_reducible exact step_Project_findOne hq _
    | with_reducible exact step_Project_findByObjectId hq _
    | with_reducible exact step_Project_findById hq _
    | with_reducible exact step_Task_findAssigned hq _ _
    | with_reducible exact step_Task_findById hq _
    | with_reducible exact step_findUserByNumber hq _
    | with_reducible exact step_setState_of hs
    | with_reducible apply step_tryCatchReturn hq
    | with_reducible apply step_tryCatch hq
    | with_reducible apply stepRet_pure hq
    | with_reducible apply stepRet_bind hq
    | with_reducible apply step_bind hq
    | intro _
    | split
    | dsimp only)

theorem step_registerUser (hb : Bystander R) (c : Int) (u : Nat) (o : Option String) :
    Step R (userController.registerUser c u o) := by
  have hq := hb.toQuiet
  unfold userController.registerUser
  repeat (first
    | with_reducible exact step_pure hq _
    | with_reducible exact step_raise hq
    | with_reducible exact stepRet_done hq
    | with_reducible exact stepRet_raise hq
    | with_reducible exact step_getWorld hq
    | with_reducible exact step_sendMessage hq _ _ _ _
    | with_reducible exact step_answerCallbackQuery hq _ _
    | with_reducible exact step_User_findOne hq _
    | with_reducible exact step_User_findNotIn hq _
    | with_reducible exact step_User_countDocuments hq _
    | with_reducible exact step_Project_findIn hq _
    | with_reducible exact step_Project_findOne hq _
    | with_reducible exact step_Project_findByObjectId hq _
    | with_reducible exact step_Project_findById hq _
    | with_reducible exact step_Task_findAssigned hq _ _
    | with_reducible exact step_Task_findById hq _
    | with_reducible exact step_findUserByNumber hq _
    | with_reducible exact step_getSession hb.sessions _
    | with_reducible exact step_setState hb.sessions _ _
    | with_reducible exact step_setData hb.sessions _ _ _
    | with_reducible exact step_clearSession hb.sessions _
    | with_reducible exact step_User_save hq hb.users _
    | with_reducible exact step_User_create hq hb.users _ _ _ _ _
    | with_reducible exact step_Project_create hq hb.projects _ _ _
    | with_reducible exact step_Task_save hq hb.taskSave _
    | with_reducible apply step_tryCatchReturn hq
    | with_reducible apply step_tryCatch hq
    | with_reducible apply stepRet_pure hq
    | with_reducible apply stepRet_bind hq
    | with_reducible apply step_bind hq
    | intro _
    | split
    | dsimp only)

theorem step_registrationCancelled (hb : Bystander R) (c : Int) (u : Nat) :
    Step R (userController.registrationCancelled c u) := by
  have hq := hb.toQuiet
  unfold userController.registrationCancelled
  repeat (first
    | with_reducible exact step_pure hq _
    | with_reducible exact step_raise hq
    | with_reducible exact stepRet_done hq
    | with_reducible exact stepRet_raise hq
    | with_reducible exact step_getWorld hq
    | with_reducible exact step_sendMessage hq _ _ _ _
    | with_reducible exact step_answerCallbackQuery hq _ _
    | with_reducible exact step_User_findOne hq _
    | with_reducible exact step_User_findNotIn hq _
    | with_reducible exact step_User_countDocuments hq _
    | with_reducible exact step_Project_findIn hq _
    | with_reducible exact step_Project_findOne hq _
    | with_reducible exact step_Project_findByObjectId hq _
    | with_reducible exact step_Project_findById hq _
    | with_reducible exact step_Task_findAssigned hq _ _
    | with_reducible exact step_Task_findById hq _
    | with_reducible exact step_findUserByNumber hq _
    | with_reducible exact step_getSession hb.sessions _
    | with_reducible exact step_setState hb.sessions _ _
    | with_reducible exact step_setData hb.sessions _ _ _
    | with_reducible exact step_clearSession hb.sessions _
    | with_reducible exact step_User_save hq hb.users _
    | with_reducible exact step_User_create hq hb.users _ _ _ _ _
    | with_reducible exact step_Project_create hq hb.projects _ _ _
    | with_reducible exact step_Task_save hq hb.taskSave _
    | with_reducible apply step_tryCatchReturn hq
    | with_reducible apply step_tryCatch hq
    | with_reducible apply stepRet_pure hq
    | with_reducible apply stepRet_bind hq
    | with_reducible apply step_bind hq
    | intro _
    | split
    | dsimp only)

theorem step_handleNameInput (hb : Bystander R) (c : Int) (u : Nat) (t : String) :
    Step R (userController.handleNameInput c u t) := by
  have hq := hb.toQuiet
  unfold userController.handleNameInput
  repeat (first
    | with_reducible exact step_pure hq _
    | with_reducible exact step_raise hq
    | with_reducible exact stepRet_done hq
    | with_reducible exact stepRet_raise hq
    | with_reducible exact step_getWorld hq
    | with_reducible exact step_sendMessage hq _ _ _ _
    | with_reducible exact step_answerCallbackQuery hq _ _
    | with_reducible exact step_User_findOne hq _
    | with_reducible exact step_User_findNotIn hq _
    | with_reducible exact step_User_countDocuments hq _
    | with_reducible exact step_Project_findIn hq _
    | with_reducible exact step_Project_findOne hq _
    | with_reducible exact step_Project_findByObjectId hq _
    | with_reducible exact step_Project_findById hq _
    | with_reducible exact step_Task_findAssigned hq _ _
    | with_reducible exact step_Task_findById hq _
    | with_reducible exact step_findUserByNumber hq _
    | with_reducible exact step_getSession hb.sessions _
    | with_reducible exact step_setState hb.sessions _ _
    | with_reducible exact step_setData hb.sessions _ _ _
    | with_reducible exact step_clearSession hb.sessions _
    | with_reducible exact step_User_save hq hb.users _
    | with_reducible exact step_User_create hq hb.users _ _ _ _ _
    | with_reducible exact step_Project_create hq hb.projects _ _ _
    | with_reducible exact step_Task_save hq hb.taskSave _
    | with_reducible exact step_registrationCancelled hb _ _
    | with_reducible apply step_tryCatchReturn hq
    | with_reducible apply step_tryCatch hq
    | with_reducible apply stepRet_pure hq
    | with_reducible apply stepRet_bind hq
    | with_reducible apply step_bind hq
    | intro _
    | split
    | dsimp only)

theorem step_handleSurnameInput (hb : Bystander R) (c : Int) (u : Nat) (t : String) :
    Step R (userController.handleSurnameInput c u t) := by
  have hq := hb.toQuiet
  unfold userController.handleSurnameInput
  repeat (first
    | with_reducible exact step_pure hq _
    | with_reducible exact step_raise hq
    | with_reducible exact stepRet_done hq
    | with_reducible exact stepRet_raise hq
    | with_reducible exact step_getWorld hq
    | with_reducible exact step_sendMessage hq _ _ _ _
    | with_reducible exact step_answerCallbackQuery hq _ _
    | with_reducible exact step_User_findOne hq _
    | with_reducible exact step_User_findNotIn hq _
    | with_reducible exact step_User_countDocuments hq _
    | with_reducible exact step_Project_findIn hq _
    | with_reducible exact step_Project_findOne hq _
    | with_reducible exact step_Project_findByObjectId hq _
    | with_reducible exact step_Project_findById hq _
    | with_reducible exact step_Task_findAssigned hq _ _
    | with_reducible exact step_Task_findById hq _
    | with_reducible exact step_findUserByNumber hq _
    | with_reducible exact step_getSession hb.sessions _
    | with_reducible exact step_setState hb.sessions _ _
    | with_reducible exact step_setData hb.sessions _ _ _
    | with_reducible exact step_clearSession hb.sessions _
    | with_reducible exact step_User_save hq hb.users _
    | with_reducible exact step_User_create hq hb.users _ _ _ _ _
    | with_reducible exact step_Project_create hq hb.projects _ _ _
    | with_reducible exact step_Task_save hq hb.taskSave _
    | with_reducible exact step_registrationCancelled hb _ _
    | with_reducible apply step_tryCatchReturn hq
    | with_reducible apply step_tryCatch hq
    | with_reducible apply stepRet_pure hq
    | with_reducible apply stepRet_bind hq
    | with_reducible apply step_bind hq
    | intro _
    | split
    | dsimp only)

theorem step_handleRoleInput (hb : Bystander R) (c : Int) (u : Nat) (t : String) :
    Step R (userController.handleRoleInput c u t) := by
  have hq := hb.toQuiet
  unfold userController.handleRoleInput
  repeat (first
    | with_reducible exact step_pure hq _
    | with_reducible exact step_raise hq
    | with_reducible exact stepRet_done hq
    | with_reducible exact stepRet_raise hq
    | with_reducible exact step_getWorld hq
    | with_reducible exact step_sendMessage hq _ _ _ _
    | with_reducible exact step_answerCallbackQuery hq _ _
    | with_reducible exact step_User_findOne hq _
    | with_reducible exact step_User_findNotIn hq _
    | with_reducible exact step_User_countDocuments hq _
    | with_reducible exact step_Project_findIn hq _
    | with_reducible exact step_Project_findOne hq _
    | with_reducible exact step_Project_findByObjectId hq _
    | with_reducible exact step_Project_findById hq _
    | with_reducible exact step_Task_findAssigned hq _ _
    | with_reducible exact step_Task_findById hq _
    | with_reducible exact step_findUserByNumber hq _
    | with_reducible exact step_getSession hb.sessions _
    | with_reducible exact step_setState hb.sessions _ _
    | with_reducible exact step_setData hb.sessions _ _ _
    | with_reducible exact step_clearSession hb.sessions _
    | with_reducible exact step_User_save hq hb.users _
    | with_reducible exact step_User_create hq hb.users _ _ _ _ _
    | with_reducible exact step_Project_create hq hb.projects _ _ _
    | with_reducible exact step_Task_save hq hb.taskSave _
    | with_reducible exact step_registrationCancelled hb _ _
    | with_reducible apply step_tryCatchReturn hq
    | with_reducible apply step_tryCatch hq
    | with_reducible apply stepRet_pure hq
    | with_reducible apply stepRet_bind hq
    | with_reducible apply step_bind hq
    | intro _
    | split
    | dsimp only)

theorem step_handleContactInput (hb : Bystander R) (c : Int) (u : Nat) (t : String) (o : Option String) :
    Step R (userController.handleContactInput c u t o) := by
  have hq := hb.toQuiet
  unfold userController.handleContactInput
  repeat (first
    | with_reducible exact step_pure hq _
    | with_reducible exact step_raise hq
    | with_reducible exact stepRet_done hq
    | with_reducible exact stepRet_raise hq
    | with_reducible exact step_getWorld hq
    | with_reducible exact step_sendMessage hq _ _ _ _
    | with_reducible exact step_answerCallbackQuery hq _ _
    | with_reducible exact step_User_findOne hq _
    | with_reducible exact step_User_findNotIn hq _
    | with_reducible exact step_User_countDocuments hq _
    | with_reducible exact step_Project_findIn hq _
    | with_reducible exact step_Project_findOne hq _
    | with_reducible exact step_Project_findByObjectId hq _
    | with_reducible exact step_Project_findById hq _
    | with_reducible exact step_Task_findAssigned hq _ _
    | with_reducible exact step_Task_findById hq _
    | with_reducible exact step_findUserByNumber hq _
    | with_reducible exact step_getSession hb.sessions _
    | with_reducible exact step_setState hb.sessions _ _
    | with_reducible exact step_setData hb.sessions _ _ _
    | with_reducible exact step_clearSession hb.sessions _
    | with_reducible exact step_User_save hq hb.users _
    | with_reducible exact step_User_create hq hb.users _ _ _ _ _
    | with_reducible exact step_Project_create hq hb.projects _ _ _
    | with_reducible exact step_Task_save hq hb.taskSave _
    | with_reducible exact step_registrationCancelled hb _ _
    | with_reducible apply step_tryCatchReturn hq
    | with_reducible apply step_tryCatch hq
    | with_reducible apply stepRet_pure hq
    | with_reducible apply stepRet_bind hq
    | with_reducible apply step_bind hq
    | intro _
    | split
    | dsimp only)

theorem step_startJoinProject (hb : Bystander R) (c : Int) (u : Nat) :
    Step R (userController.startJoinProject c u) := by
  have hq := hb.toQuiet
  unfold userController.startJoinProject
  repeat (first
    | with_reducible exact step_pure hq _
    | with_reducible exact step_raise hq
    | with_reducible exact stepRet_done hq
    | with_reducible exact stepRet_raise hq
    | with_reducible exact step_getWorld hq
    | with_reducible exact step_sendMessage hq _ _ _ _
    | with_reducible exact step_answerCallbackQuery hq _ _
    | with_reducible exact step_User_findOne hq _
    | with_reducible exact step_User_findNotIn hq _
    | with_reducible exact step_User_countDocuments hq _
    | with_reducible exact step_Project_findIn hq _
    | with_reducible exact step_Project_findOne hq _
    | with_reducible exact step_Project_findByObjectId hq _
    | with_reducible exact step_Project_findById hq _
    | with_reducible exact step_Task_findAssigned hq _ _
    | with_reducible exact step_Task_findById hq _
    | with_reducible exact step_findUserByNumber hq _
    | with_reducible exact step_getSession hb.sessions _
    | with_reducible exact step_setState hb.sessions _ _
    | with_reducible exact step_setData hb.sessions _ _ _
    | with_reducible exact step_clearSession hb.sessions _
    | with_reducible exact step_User_save hq hb.users _
    | with_reducible exact step_User_create hq hb.users _ _ _ _ _
    | with_reducible exact step_Project_create hq hb.projects _ _ _
    | with_reducible exact step_Task_save hq hb.taskSave _
    | with_reducible apply step_tryCatchReturn hq
    | with_reducible apply step_tryCatch hq
    | with_reducible apply stepRet_pure hq
    | with_reducible apply stepRet_bind hq
    | with_reducible apply step_bind hq
    | intro _
    | split
    | dsimp only)

theorem step_handleJoinProjectInput (hb : Bystander R) (c : Int) (u : Nat) (t : String) :
    Step R (userController.handleJoinProjectInput c u t) := by
  have hq := hb.toQuiet
  unfold userController.handleJoinProjectInput
  repeat (first
    | with_reducible exact step_pure hq _
    | with_reducible exact step_raise hq
    | with_reducible exact stepRet_done hq
    | with_reducible exact stepRet_raise hq
    | with_reducible exact step_getWorld hq
    | with_reducible exact step_sendMessage hq _ _ _ _
    | with_reducible exact step_answerCallbackQuery hq _ _
    | with_reducible exact step_User_findOne hq _
    | with_reducible exact step_User_findNotIn hq _
    | with_reducible exact step_User_countDocuments hq _
    | with_reducible exact step_Project_findIn hq _
    | with_reducible exact step_Project_findOne hq _
    | with_reducible exact step_Project_findByObjectId hq _
    | with_reducible exact step_Project_findById hq _
    | with_reducible exact step_Task_findAssigned hq _ _
    | with_reducible exact step_Task_findById hq _
    | with_reducible exact step_findUserByNumber hq _
    | with_reducible exact step_getSession hb.sessions _
    | with_reducible exact step_setState hb.sessions _ _
    | with_reducible exact step_setData hb.sessions _ _ _
    | with_reducible exact step_clearSession hb.sessions _
    | with_reducible exact step_User_save hq hb.users _
    | with_reducible exact step_User_create hq hb.users _ _ _ _ _
    | with_reducible exact step_Project_create hq hb.projects _ _ _
    | with_reducible exact step_Task_save hq hb.taskSave _
    | with_reducible apply step_tryCatchReturn hq
    | with_reducible apply step_tryCatch hq
    | with_reducible apply stepRet_pure hq
    | with_reducible apply stepRet_bind hq
    | with_reducible apply step_bind hq
    | intro _
    | split
    | dsimp only)

theorem step_resolveJoinRequest (hb : Bystander R) (b : Bool) (c : Int) (u : Nat) (o : Option String) (z : Option Int) :
    Step R (userController.resolveJoinRequest b c u o z) := by
  have hq := hb.toQuiet
  unfold userController.resolveJoinRequest
  repeat (first
    | with_reducible exact step_pure hq _
    | with_reducible exact step_raise hq
    | with_reducible exact stepRet_done hq
    | with_reducible exact stepRet_raise hq
    | with_reducible exact step_getWorld hq
    | with_reducible exact step_sendMessage hq _ _ _ _
    | with_reducible exact step_answerCallbackQuery hq _ _
    | with_reducible exact step_User_findOne hq _
    | with_reducible exact step_User_findNotIn hq _
    | with_reducible exact step_User_countDocuments hq _
    | with_reducible exact step_Project_findIn hq _
    | with_reducible exact step_Project_findOne hq _
    | with_reducible exact step_Project_findByObjectId hq _
    | with_reducible exact step_Project_findById hq _
    | with_reducible exact step_Task_findAssigned hq _ _
    | with_reducible exact step_Task_findById hq _
    | with_reducible exact step_findUserByNumber hq _
    | with_reducible exact step_getSession hb.sessions _
    | with_reducible exact step_setState hb.sessions _ _
    | with_reducible exact step_setData hb.sessions _ _ _
    | with_reducible exact step_clearSession hb.sessions _
    | with_reducible exact step_User_save hq hb.users _
    | with_reducible exact step_User_create hq hb.users _ _ _ _ _
    | with_reducible exact step_Project_create hq hb.projects _ _ _
    | with_reducible exact step_Task_save hq hb.taskSave _
    | with_reducible apply step_tryCatchReturn hq
    | with_reducible apply step_tryCatch hq
    | with_reducible apply stepRet_pure hq
    | with_reducible apply stepRet_bind hq
    | with_reducible apply step_bind hq
    | intro _
    | split
    | dsimp only)

theorem step_handleUserCallback (hb : Bystander R) (q : CallbackQuery) :
    Step R (userController.handleUserCallback q) := by
  have hq := hb.toQuiet
  unfold userController.handleUserCallback userController.approveJoinRequest userController.rejectJoinRequest
  repeat (first
    | with_reducible exact step_pure hq _
    | with_reducible exact step_raise hq
    | with_reducible exact stepRet_done hq
    | with_reducible exact stepRet_raise hq
    | with_reducible exact step_getWorld hq
    | with_reducible exact step_sendMessage hq _ _ _ _
    | with_reducible exact step_answerCallbackQuery hq _ _
    | with_reducible exact step_User_findOne hq _
    | with_reducible exact step_User_findNotIn hq _
    | with_reducible exact step_User_countDocuments hq _
    | with_reducible exact step_Project_findIn hq _
    | with_reducible exact step_Project_findOne hq _
    | with_reducible exact step_Project_findByObjectId hq _
    | with_reducible exact step_Project_findById hq _
    | with_reducible exact step_Task_findAssigned hq _ _
    | with_reducible exact step_Task_findById hq _
    | with_reducible exact step_findUserByNumber hq _
    | with_reducible exact step_getSession hb.sessions _
    | with_reducible exact step_setState hb.sessions _ _
    | with_reducible exact step_setData hb.sessions _ _ _
    | with_reducible exact step_clearSession hb.sessions _
    | with_reducible exact step_User_save hq hb.users _
    | with_reducible exact step_User_create hq hb.users _ _ _ _ _
    | with_reducible exact step_Project_create hq hb.projects _ _ _
    | with_reducible exact step_Task_save hq hb.taskSave _
    | with_reducible exact step_resolveJoinRequest hb _ _ _ _ _
    | with_reducible exact step_startAddMember hq _ _ _
    | with_reducible apply step_tryCatchReturn hq
    | with_reducible apply step_tryCatch hq
    | with_reducible apply stepRet_pure hq
    | with_reducible apply stepRet_bind hq
    | with_reducible apply step_bind hq
    | intro _
    | split
    | dsimp only)

theorem step_startProjectCreation (hb : Bystander R) (c : Int) (u : Nat) :
    Step R (projectController.startProjectCreation c u) := by
  have hq := hb.toQuiet
  unfold projectController.startProjectCreation
  repeat (first
    | with_reducible exact step_pure hq _
    | with_reducible exact step_raise hq
    | with_reducible exact stepRet_done hq
    | with_reducible exact stepRet_raise hq
    | with_reducible exact step_getWorld hq
    | with_reducible exact step_sendMessage hq _ _ _ _
    | with_reducible exact step_answerCallbackQuery hq _ _
    | with_reducible exact step_User_findOne hq _
    | with_reducible exact step_User_findNotIn hq _
    | with_reducible exact step_User_countDocuments hq _
    | with_reducible exact step_Project_findIn hq _
    | with_reducible exact step_Project_findOne hq _
    | with_reducible exact step_Project_findByObjectId hq _
    | with_reducible exact step_Project_findById hq _
    | with_reducible exact step_Task_findAssigned hq _ _
    | with_reducible exact step_Task_findById hq _
    | with_reducible exact step_findUserByNumber hq _
    | with_reducible exact step_getSession hb.sessions _
    | with_reducible exact step_setState hb.sessions _ _
    | with_reducible exact step_setData hb.sessions _ _ _
    | with_reducible exact step_clearSession hb.sessions _
    | with_reducible exact step_User_save hq hb.users _
    | with_reducible exact step_User_create hq hb.users _ _ _ _ _
    | with_reducible exact step_Project_create hq hb.projects _ _ _
    | with_reducible exact step_Task_save hq hb.taskSave _
    | with_reducible apply step_tryCatchReturn hq
    | with_reducible apply step_tryCatch hq
    | with_reducible apply stepRet_pure hq
    | with_reducible apply stepRet_bind hq
    | with_reducible apply step_bind hq
    | intro _
    | split
    | dsimp only)

theorem step_handleProjectNameInput (hb : Bystander R) (c : Int) (u : Nat) (t : String) :
    Step R (projectController.handleProjectNameInput c u t) := by
  have hq := hb.toQuiet
  unfold projectController.handleProjectNameInput
  repeat (first
    | with_reducible exact step_pure hq _
    | with_reducible exact step_raise hq
    | with_reducible exact stepRet_done hq
    | with_reducible exact stepRet_raise hq
    | with_reducible exact step_getWorld hq
    | with_reducible exact step_sendMessage hq _ _ _ _
    | with_reducible exact step_answerCallbackQuery hq _ _
    | with_reducible exact step_User_findOne hq _
    | with_reducible exact step_User_findNotIn hq _
    | with_reducible exact step_User_countDocuments hq _
    | with_reducible exact step_Project_findIn hq _
    | with_reducible exact step_Project_findOne hq _
    | with_reducible exact step_Project_findByObjectId hq _
    | with_reducible exact step_Project_findById hq _
    | with_reducible exact step_Task_findAssigned hq _ _
    | with_reducible exact step_Task_findById hq _
    | with_reducible exact step_findUserByNumber hq _
    | with_reducible exact step_getSession hb.sessions _
    | with_reducible exact step_setState hb.sessions _ _
    | with_reducible exact step_setData hb.sessions _ _ _
    | with_reducible exact step_clearSession hb.sessions _
    | with_reducible exact step_User_save hq hb.users _
    | with_reducible exact step_User_create hq hb.users _ _ _ _ _
    | with_reducible exact step_Project_create hq hb.projects _ _ _
    | with_reducible exact step_Task_save hq hb.taskSave _
    | with_reducible exact step_showProjectsMenu hq _ _ (fun w => hb.sessions w _)
    | with_reducible apply step_tryCatchReturn hq
    | with_reducible apply step_tryCatch hq
    | with_reducible apply stepRet_pure hq
    | with_reducible apply stepRet_bind hq
    | with_reducible apply step_bind hq
    | intro _
    | split
    | dsimp only)

theorem step_handleProjectDescriptionInput (hb : Bystander R) (c : Int) (u : Nat) (t : String) :
    Step R (projectController.handleProjectDescriptionInput c u t) := by
  have hq := hb.toQuiet
  unfold projectController.handleProjectDescriptionInput
  repeat (first
    | with_reducible exact step_pure hq _
    | with_reducible exact step_raise hq
    | with_reducible exact stepRet_done hq
    | with_reducible exact stepRet_raise hq
    | with_reducible exact step_getWorld hq
    | with_reducible exact step_sendMessage hq _ _ _ _
    | with_reducible exact step_answerCallbackQuery hq _ _
    | with_reducible exact step_User_findOne hq _
    | with_reducible exact step_User_findNotIn hq _
    | with_reducible exact step_User_countDocuments hq _
    | with_reducible exact step_Project_findIn hq _
    | with_reducible exact step_Project_findOne hq _
    | with_reducible exact step_Project_findByObjectId hq _
    | with_reducible exact step_Project_findById hq _
    | with_reducible exact step_Task_findAssigned hq _ _
    | with_reducible exact step_Task_findById hq _
    | with_reducible exact step_findUserByNumber hq _
    | with_reducible exact step_getSession hb.sessions _
    | with_reducible exact step_setState hb.sessions _ _
    | with_reducible exact step_setData hb.sessions _ _ _
    | with_reducible exact step_clearSession hb.sessions _
    | with_reducible exact step_User_save hq hb.users _
    | with_reducible exact step_User_create hq hb.users _ _ _ _ _
    | with_reducible exact step_Project_create hq hb.projects _ _ _
    | with_reducible exact step_Task_save hq hb.taskSave _
    | with_reducible exact step_showProjectsMenu hq _ _ (fun w => hb.sessions w _)
    | with_reducible apply step_tryCatchReturn hq
    | with_reducible apply step_tryCatch hq
    | with_reducible apply stepRet_pure hq
    | with_reducible apply stepRet_bind hq
    | with_reducible apply step_bind hq
    | intro _
    | split
    | dsimp only)

theorem step_adminStep (hb : Bystander R) (c : Int) (u : Nat) (o : Option String) (a : String) (s : String) (p : Project → Outgoing) (f : String) :
    Step R (projectController.adminStep c u o a s p f) := by
  have hq := hb.toQuiet
  unfold projectController.adminStep
  repeat (first
    | with_reducible exact step_pure hq _
    | with_reducible exact step_raise hq
    | with_reducible exact stepRet_done hq
    | with_reducible exact stepRet_raise hq
    | with_reducible exact step_getWorld hq
    | with_reducible exact step_sendMessage hq _ _ _ _
    | with_reducible exact step_answerCallbackQuery hq _ _
    | with_reducible exact step_User_findOne hq _
    | with_reducible exact step_User_findNotIn hq _
    | with_reducible exact step_User_countDocuments hq _
    | with_reducible exact step_Project_findIn hq _
    | with_reducible exact step_Project_findOne hq _
    | with_reducible exact step_Project_findByObjectId hq _
    | with_reducible exact step_Project_findById hq _
    | with_reducible exact step_Task_findAssigned hq _ _
    | with_reducible exact step_Task_findById hq _
    | with_reducible exact step_findUserByNumber hq _
    | with_reducible exact step_getSession hb.sessions _
    | with_reducible exact step_setState hb.sessions _ _
    | with_reducible exact step_setData hb.sessions _ _ _
    | with_reducible exact step_clearSession hb.sessions _
    | with_reducible exact step_User_save hq hb.users _
    | with_reducible exact step_User_create hq hb.users _ _ _ _ _
    | with_reducible exact step_Project_create hq hb.projects _ _ _
    | with_reducible exact step_Task_save hq hb.taskSave _
    | with_reducible apply step_tryCatchReturn hq
    | with_reducible apply step_tryCatch hq
    | with_reducible apply stepRet_pure hq
    | with_reducible apply stepRet_bind hq
    | with_reducible apply step_bind hq
    | intro _
    | split
    | dsimp only)

theorem step_handleProjectCallback (hb : Bystander R) (q : CallbackQuery) :
    Step R (projectController.handleProjectCallback q) := by
  have hq := hb.toQuiet
  unfold projectController.handleProjectCallback projectController.startProjectEdit projectController.confirmProjectDeletion
  repeat (first
    | with_reducible exact step_pure hq _
    | with_reducible exact step_raise hq
    | with_reducible exact stepRet_done hq
    | with_reducible exact stepRet_raise hq
    | with_reducible exact step_getWorld hq
    | with_reducible exact step_sendMessage hq _ _ _ _
    | with_reducible exact step_answerCallbackQuery hq _ _
    | with_reducible exact step_User_findOne hq _
    | with_reducible exact step_User_findNotIn hq _
    | with_reducible exact step_User_countDocuments hq _
    | with_reducible exact step_Project_findIn hq _
    | with_reducible exact step_Project_findOne hq _
    | with_reducible exact step_Project_findByObjectId hq _
    | with_reducible exact step_Project_findById hq _
    | with_reducible exact step_Task_findAssigned hq _ _
    | with_reducible exact step_Task_findById hq _
    | with_reducible exact step_findUserByNumber hq _
    | with_reducible exact step_getSession hb.sessions _
    | with_reducible exact step_setState hb.sessions _ _
    | with_reducible exact step_setData hb.sessions _ _ _
    | with_reducible exact step_clearSession hb.sessions _
    | with_reducible exact step_User_save hq hb.users _
    | with_reducible exact step_User_create hq hb.users _ _ _ _ _
    | with_reducible exact step_Project_create hq hb.projects _ _ _
    | with_reducible exact step_Task_save hq hb.taskSave _
    | with_reducible exact step_adminStep hb _ _ _ _ _ _ _
    | with_reducible apply step_tryCatchReturn hq
    | with_reducible apply step_tryCatch hq
    | with_reducible apply stepRet_pure hq
    | with_reducible apply stepRet_bind hq
    | with_reducible apply step_bind hq
    | intro _
    | split
    | dsimp only)

theorem step_startTaskCreation (hb : Bystander R) (c : Int) (u : Nat) :
    Step R (taskController.startTaskCreation c u) := by
  have hq := hb.toQuiet
  unfold taskController.startTaskCreation
  repeat (first
    | with_reducible exact step_pure hq _
    | with_reducible exact step_raise hq
    | with_reducible exact stepRet_done hq
    | with_reducible exact stepRet_raise hq
    | with_reducible exact step_getWorld hq
    | with_reducible exact step_sendMessage hq _ _ _ _
    | with_reducible exact step_answerCallbackQuery hq _ _
    | with_reducible exact step_User_findOne hq _
    | with_reducible exact step_User_findNotIn hq _
    | with_reducible exact step_User_countDocuments hq _
    | with_reducible exact step_Project_findIn hq _
    | with_reducible exact step_Project_findOne hq _
    | with_reducible exact step_Project_findByObjectId hq _
    | with_reducible exact step_Project_findById hq _
    | with_reducible exact step_Task_findAssigned hq _ _
    | with_reducible exact step_Task_findById hq _
    | with_reducible exact step_findUserByNumber hq _
    | with_reducible exact step_getSession hb.sessions _
    | with_reducible exact step_setState hb.sessions _ _
    | with_reducible exact step_setData hb.sessions _ _ _
    | with_reducible exact step_clearSession hb.sessions _
    | with_reducible exact step_User_save hq hb.users _
    | with_reducible exact step_User_create hq hb.users _ _ _ _ _
    | with_reducible exact step_Project_create hq hb.projects _ _ _
    | with_reducible exact step_Task_save hq hb.taskSave _
    | with_reducible exact step_showTasksMenu hq _ _ (fun w => hb.sessions w _)
    | with_reducible exact step_askTaskName hq _
    | with_reducible apply step_tryCatchReturn hq
    | with_reducible apply step_tryCatch hq
    | with_reducible apply stepRet_pure hq
    | with_reducible apply stepRet_bind hq
    | with_reducible apply step_bind hq
    | intro _
    | split
    | dsimp only)

theorem step_handleTaskNameInput (hb : Bystander R) (c : Int) (u : Nat) (t : String) :
    Step R (taskController.handleTaskNameInput c u t) := by
  have hq := hb.toQuiet
  unfold taskController.handleTaskNameInput
  repeat (first
    | with_reducible exact step_pure hq _
    | with_reducible exact step_raise hq
    | with_reducible exact stepRet_done hq
    | with_reducible exact stepRet_raise hq
    | with_reducible exact step_getWorld hq
    | with_reducible exact step_sendMessage hq _ _ _ _
    | with_reducible exact step_answerCallbackQuery hq _ _
    | with_reducible exact step_User_findOne hq _
    | with_reducible exact step_User_findNotIn hq _
    | with_reducible exact step_User_countDocuments hq _
    | with_reducible exact step_Project_findIn hq _
    | with_reducible exact step_Project_findOne hq _
    | with_reducible exact step_Project_findByObjectId hq _
    | with_reducible exact step_Project_findById hq _
    | with_reducible exact step_Task_findAssigned hq _ _
    | with_reducible exact step_Task_findById hq _
    | with_reducible exact step_findUserByNumber hq _
    | with_reducible exact step_getSession hb.sessions _
    | with_reducible exact step_setState hb.sessions _ _
    | with_reducible exact step_setData hb.sessions _ _ _
    | with_reducible exact step_clearSession hb.sessions _
    | with_reducible exact step_User_save hq hb.users _
    | with_reducible exact step_User_create hq hb.users _ _ _ _ _
    | with_reducible exact step_Project_create hq hb.projects _ _ _
    | with_reducible exact step_Task_save hq hb.taskSave _
    | with_reducible exact step_showTasksMenu hq _ _ (fun w => hb.sessions w _)
    | with_reducible exact step_askTaskName hq _
    | with_reducible apply step_tryCatchReturn hq
    | with_reducible apply step_tryCatch hq
    | with_reducible apply stepRet_pure hq
    | with_reducible apply stepRet_bind hq
    | with_reducible apply step_bind hq
    | intro _
    | split
    | dsimp only)

theorem step_handleTaskDescriptionInput (hb : Bystander R) (c : Int) (u : Nat) (t : String) :
    Step R (taskController.handleTaskDescriptionInput c u t) := by
  have hq := hb.toQuiet
  unfold taskController.handleTaskDescriptionInput
  repeat (first
    | with_reducible exact step_pure hq _
    | with_reducible exact step_raise hq
    | with_reducible exact stepRet_done hq
    | with_reducible exact stepRet_raise hq
    | with_reducible exact step_getWorld hq
    | with_reducible exact step_sendMessage hq _ _ _ _
    | with_reducible exact step_answerCallbackQuery hq _ _
    | with_reducible exact step_User_findOne hq _
    | with_reducible exact step_User_findNotIn hq _
    | with_reducible exact step_User_countDocuments hq _
    | with_reducible exact step_Project_findIn hq _
    | with_reducible exact step_Project_findOne hq _
    | with_reducible exact step_Project_findByObjectId hq _
    | with_reducible exact step_Project_findById hq _
    | with_reducible exact step_Task_findAssigned hq _ _
    | with_reducible exact step_Task_findById hq _
    | with_reducible exact step_findUserByNumber hq _
    | with_reducible exact step_getSession hb.sessions _
    | with_reducible exact step_setState hb.sessions _ _
    | with_reducible exact step_setData hb.sessions _ _ _
    | with_reducible exact step_clearSession hb.sessions _
    | with_reducible exact step_User_save hq hb.users _
    | with_reducible exact step_User_create hq hb.users _ _ _ _ _
    | with_reducible exact step_Project_create hq hb.projects _ _ _
    | with_reducible exact step_Task_save hq hb.taskSave _
    | with_reducible exact step_showTasksMenu hq _ _ (fun w => hb.sessions w _)
    | with_reducible exact step_askTaskName hq _
    | with_reducible apply step_tryCatchReturn hq
    | with_reducible apply step_tryCatch hq
    | with_reducible apply stepRet_pure hq
    | with_reducible apply stepRet_bind hq
    | with_reducible apply step_bind hq
    | intro _
    | split
    | dsimp only)

theorem step_storeDueDate (hb : Bystander R) (c : Int) (u : Nat) (v : Value) :
    Step R (taskController.storeDueDate c u v) := by
  have hq := hb.toQuiet
  unfold taskController.storeDueDate
  repeat (first
    | with_reducible exact step_pure hq _
    | with_reducible exact step_raise hq
    | with_reducible exact stepRet_done hq
    | with_reducible exact stepRet_raise hq
    | with_reducible exact step_getWorld hq
    | with_reducible exact step_sendMessage hq _ _ _ _
    | with_reducible exact step_answerCallbackQuery hq _ _
    | with_reducible exact step_User_findOne hq _
    | with_reducible exact step_User_findNotIn hq _
    | with_reducible exact step_User_countDocuments hq _
    | with_reducible exact step_Project_findIn hq _
    | with_reducible exact step_Project_findOne hq _
    | with_reducible exact step_Project_findByObjectId hq _
    | with_reducible exact step_Project_findById hq _
    | with_reducible exact step_Task_findAssigned hq _ _
    | with_reducible exact step_Task_findById hq _
    | with_reducible exact step_findUserByNumber hq _
    | with_reducible exact step_getSession hb.sessions _
    | with_reducible exact step_setState hb.sessions _ _
    | with_reducible exact step_setData hb.sessions _ _ _
    | with_reducible exact step_clearSession hb.sessions _
    | with_reducible exact step_User_save hq hb.users _
    | with_reducible exact step_User_create hq hb.users _ _ _ _ _
    | with_reducible exact step_Project_create hq hb.projects _ _ _
    | with_reducible exact step_Task_save hq hb.taskSave _
    | with_reducible apply step_tryCatchReturn hq
    | with_reducible apply step_tryCatch hq
    | with_reducible apply stepRet_pure hq
    | with_reducible apply stepRet_bind hq
    | with_reducible apply step_bind hq
    | intro _
    | split
    | dsimp only)

theorem step_handleTaskDueDateInput (hb : Bystander R) (c : Int) (u : Nat) (t : String) :
    Step R (taskController.handleTaskDueDateInput c u t) := by
  have hq := hb.toQuiet
  unfold taskController.handleTaskDueDateInput
  repeat (first
    | with_reducible exact step_pure hq _
    | with_reducible exact step_raise hq
    | with_reducible exact stepRet_done hq
    | with_reducible exact stepRet_raise hq
    | with_reducible exact step_getWorld hq
    | with_reducible exact step_sendMessage hq _ _ _ _
    | with_reducible exact step_answerCallbackQuery hq _ _
    | with_reducible exact step_User_findOne hq _
    | with_reducible exact step_User_findNotIn hq _
    | with_reducible exact step_User_countDocuments hq _
    | with_reducible exact step_Project_findIn hq _
    | with_reducible exact step_Project_findOne hq _
    | with_reducible exact step_Project_findByObjectId hq _
    | with_reducible exact step_Project_findById hq _
    | with_reducible exact step_Task_findAssigned hq _ _
    | with_reducible exact step_Task_findById hq _
    | with_reducible exact step_findUserByNumber hq _
    | with_reducible exact step_getSession hb.sessions _
    | with_reducible exact step_setState hb.sessions _ _
    | with_reducible exact step_setData hb.sessions _ _ _
    | with_reducible exact step_clearSession hb.sessions _
    | with_reducible exact step_User_save hq hb.users _
    | with_reducible exact step_User_create hq hb.users _ _ _ _ _
    | with_reducible exact step_Project_create hq hb.projects _ _ _
    | with_reducible exact step_Task_save hq hb.taskSave _
    | with_reducible exact step_showTasksMenu hq _ _ (fun w => hb.sessions w _)
    | with_reducible exact step_askTaskName hq _
    | with_reducible exact step_storeDueDate hb _ _ _
    | with_reducible apply step_tryCatchReturn hq
    | with_reducible apply step_tryCatch hq
    | with_reducible apply stepRet_pure hq
    | with_reducible apply stepRet_bind hq
    | with_reducible apply step_bind hq
    | intro _
    | split
    | dsimp only)

theorem step_updateTaskStatus (hb : Bystander R) (c : Int) (u : Nat) (o : Option String) (n : Option String) :
    Step R (taskController.updateTaskStatus c u o n) := by
  have hq := hb.toQuiet
  unfold taskController.updateTaskStatus
  repeat (first
    | with_reducible exact step_pure hq _
    | with_reducible exact step_raise hq
    | with_reducible exact stepRet_done hq
    | with_reducible exact stepRet_raise hq
    | with_reducible exact step_getWorld hq
    | with_reducible exact step_sendMessage hq _ _ _ _
    | with_reducible exact step_answerCallbackQuery hq _ _
    | with_reducible exact step_User_findOne hq _
    | with_reducible exact step_User_findNotIn hq _
    | with_reducible exact step_User_countDocuments hq _
    | with_reducible exact step_Project_findIn hq _
    | with_reducible exact step_Project_findOne hq _
    | with_reducible exact step_Project_findByObjectId hq _
    | with_reducible exact step_Project_findById hq _
    | with_reducible exact step_Task_findAssigned hq _ _
    | with_reducible exact step_Task_findById hq _
    | with_reducible exact step_findUserByNumber hq _
    | with_reducible exact step_getSession hb.sessions _
    | with_reducible exact step_setState hb.sessions _ _
    | with_reducible exact step_setData hb.sessions _ _ _
    | with_reducible exact step_clearSession hb.sessions _
    | with_reducible exact step_User_save hq hb.users _
    | with_reducible exact step_User_create hq hb.users _ _ _ _ _
    | with_reducible exact step_Project_create hq hb.projects _ _ _
    | with_reducible exact step_Task_save hq hb.taskSave _
    | with_reducible exact step_showTaskDetails hq _ _ _
    | with_reducible apply step_tryCatchReturn hq
    | with_reducible apply step_tryCatch hq
    | with_reducible apply stepRet_pure hq
    | with_reducible apply stepRet_bind hq
    | with_reducible apply step_bind hq
    | intro _
    | split
    | dsimp only)

theorem step_handleTaskCallback (hb : Bystander R) (q : CallbackQuery) :
    Step R (taskController.handleTaskCallback q) := by
  have hq := hb.toQuiet
  unfold taskController.handleTaskCallback
  repeat (first
    | with_reducible exact step_pure hq _
    | with_reducible exact step_raise hq
    | with_reducible exact stepRet_done hq
    | with_reducible exact stepRet_raise hq
    | with_reducible exact step_getWorld hq
    | with_reducible exact step_sendMessage hq _ _ _ _
    | with_reducible exact step_answerCallbackQuery hq _ _
    | with_reducible exact step_User_findOne hq _
    | with_reducible exact step_User_findNotIn hq _
    | with_reducible exact step_User_countDocuments hq _
    | with_reducible exact step_Project_findIn hq _
    | with_reducible exact step_Project_findOne hq _
    | with_reducible exact step_Project_findByObjectId hq _
    | with_reducible exact step_Project_findById hq _
    | with_reducible exact step_Task_findAssigned hq _ _
    | with_reducible exact step_Task_findById hq _
    | with_reducible exact step_findUserByNumber hq _
    | with_reducible exact step_getSession hb.sessions _
    | with_reducible exact step_setState hb.sessions _ _
    | with_reducible exact step_setData hb.sessions _ _ _
    | with_reducible exact step_clearSession hb.sessions _
    | with_reducible exact step_User_save hq hb.users _
    | with_reducible exact step_User_create hq hb.users _ _ _ _ _
    | with_reducible exact step_Project_create hq hb.projects _ _ _
    | with_reducible exact step_Task_save hq hb.taskSave _
    | with_reducible exact step_showTasksMenu hq _ _ (fun w => hb.sessions w _)
    | with_reducible exact step_askTaskName hq _
    | with_reducible exact step_updateTaskStatus hb _ _ _ _
    | with_reducible apply step_tryCatchReturn hq
    | with_reducible apply step_tryCatch hq
    | with_reducible apply stepRet_pure hq
    | with_reducible apply stepRet_bind hq
    | with_reducible apply step_bind hq
    | intro _
    | split
    | dsimp only)

theorem step_onCommand (hb : Bystander R) (k : Command) (msg : Message) :
    Step R (onCommand k msg) := by
  have hq := hb.toQuiet
  unfold onCommand
  repeat (first
    | with_reducible exact step_pure hq _
    | with_reducible exact step_raise hq
    | with_reducible exact stepRet_done hq
    | with_reducible exact stepRet_raise hq
    | with_reducible exact step_getWorld hq
    | with_reducible exact step_sendMessage hq _ _ _ _
    | with_reducible exact step_answerCallbackQuery hq _ _
    | with_reducible exact step_User_findOne hq _
    | with_reducible exact step_User_findNotIn hq _
    | with_reducible exact step_User_countDocuments hq _
    | with_reducible exact step_Project_findIn hq _
    | with_reducible exact step_Project_findOne hq _
    | with_reducible exact step_Project_findByObjectId hq _
    | with_reducible exact step_Project_findById hq _
    | with_reducible exact step_Task_findAssigned hq _ _
    | with_reducible exact step_Task_findById hq _
    | with_reducible exact step_findUserByNumber hq _
    | with_reducible exact step_getSession hb.sessions _
    | with_reducible exact step_setState hb.sessions _ _
    | with_reducible exact step_setData hb.sessions _ _ _
    | with_reducible exact step_clearSession hb.sessions _
    | with_reducible exact step_User_save hq hb.users _
    | with_reducible exact step_User_create hq hb.users _ _ _ _ _
    | with_reducible exact step_Project_create hq hb.projects _ _ _
    | with_reducible exact step_Task_save hq hb.taskSave _
    | with_reducible exact step_registerUser hb _ _ _
    | with_reducible exact step_showProjectsMenu hq _ _ (fun w => hb.sessions w _)
    | with_reducible exact step_showTasksMenu hq _ _ (fun w => hb.sessions w _)
    | with_reducible exact step_showTodayTasks hq _ _
    | with_reducible exact step_showUserProfile hq _ _
    | with_reducible exact step_startJoinProject hb _ _
    | with_reducible apply step_tryCatchReturn hq
    | with_reducible apply step_tryCatch hq
    | with_reducible apply stepRet_pure hq
    | with_reducible apply stepRet_bind hq
    | with_reducible apply step_bind hq
    | intro _
    | split
    | dsimp only)

theorem step_onCallbackQuery (hb : Bystander R) (q : CallbackQuery) :
    Step R (onCallbackQuery q) := by
  have hq := hb.toQuiet
  unfold onCallbackQuery
  repeat (first
    | with_reducible exact step_pure hq _
    | with_reducible exact step_raise hq
    | with_reducible exact stepRet_done hq
    | with_reducible exact stepRet_raise hq
    | with_reducible exact step_getWorld hq
    | with_reducible exact step_sendMessage hq _ _ _ _
    | with_reducible exact step_answerCallbackQuery hq _ _
    | with_reducible exact step_User_findOne hq _
    | with_reducible exact step_User_findNotIn hq _
    | with_reducible exact step_User_countDocuments hq _
    | with_reducible exact step_Project_findIn hq _
    | with_reducible exact step_Project_findOne hq _
    | with_reducible exact step_Project_findByObjectId hq _
    | with_reducible exact step_Project_findById hq _
    | with_reducible exact step_Task_findAssigned hq _ _
    | with_reducible exact step_Task_findById hq _
    | with_reducible exact step_findUserByNumber hq _
    | with_reducible exact step_getSession hb.sessions _
    | with_reducible exact step_setState hb.sessions _ _
    | with_reducible exact step_setData hb.sessions _ _ _
    | with_reducible exact step_clearSession hb.sessions _
    | with_reducible exact step_User_save hq hb.users _
    | with_reducible exact step_User_create hq hb.users _ _ _ _ _
    | with_reducible exact step_Project_create hq hb.projects _ _ _
    | with_reducible exact step_Task_save hq hb.taskSave _
    | with_reducible exact step_handleProjectCallback hb _
    | with_reducible exact step_handleUserCallback hb _
    | with_reducible exact step_handleTaskCallback hb _
    | with_reducible apply step_tryCatchReturn hq
    | with_reducible apply step_tryCatch hq
    | with_reducible apply stepRet_pure hq
    | with_reducible apply stepRet_bind hq
    | with_reducible apply step_bind hq
    | intro _
    | split
    | dsimp only)

theorem step_dispatch (hb : Bystander R) (r : Route) (c : Int) (u : Nat) (t : String) (o : Option String) :
    Step R (dispatch r c u t o) := by
  have hq := hb.toQuiet
  unfold dispatch
  repeat (first
    | with_reducible exact step_pure hq _
    | with_reducible exact step_raise hq
    | with_reducible exact stepRet_done hq
    | with_reducible exact stepRet_raise hq
    | with_reducible exact step_getWorld hq
    | with_reducible exact step_sendMessage hq _ _ _ _
    | with_reducible exact step_answerCallbackQuery hq _ _
    | with_reducible exact step_User_findOne hq _
    | with_reducible exact step_User_findNotIn hq _
    | with_reducible exact step_User_countDocuments hq _
    | with_reducible exact step_Project_findIn hq _
    | with_reducible exact step_Project_findOne hq _
    | with_reducible exact step_Project_findByObjectId hq _
    | with_reducible exact step_Project_findById hq _
    | with_reducible exact step_Task_findAssigned hq _ _
    | with_reducible exact step_Task_findById hq _
    | with_reducible exact step_findUserByNumber hq _
    | with_reducible exact step_getSession hb.sessions _
    | with_reducible exact step_setState hb.sessions _ _
    | with_reducible exact step_setData hb.sessions _ _ _
    | with_reducible exact step_clearSession hb.sessions _
    | with_reducible exact step_User_save hq hb.users _
    | with_reducible exact step_User_create hq hb.users _ _ _ _ _
    | with_reducible exact step_Project_create hq hb.projects _ _ _
    | with_reducible exact step_Task_save hq hb.taskSave _
    | with_reducible exact step_handleNameInput hb _ _ _
    | with_reducible exact step_handleSurnameInput hb _ _ _
    | with_reducible exact step_handleRoleInput hb _ _ _
    | with_reducible exact step_handleJoinProjectInput hb _ _ _
    | with_reducible exact step_handleProjectNameInput hb _ _ _
    | with_reducible exact step_handleProjectDescriptionInput hb _ _ _
    | with_reducible exact step_handleTaskNameInput hb _ _ _
    | with_reducible exact step_handleTaskDescriptionInput hb _ _ _
    | with_reducible exact step_handleTaskDueDateInput hb _ _ _
    | with_reducible exact step_handleContactInput hb _ _ _ _
    | with_reducible exact step_showProjectsMenu hq _ _ (fun w => hb.sessions w _)
    | with_reducible exact step_showTasksMenu hq _ _ (fun w => hb.sessions w _)
    | with_reducible exact step_showMyTasks hq _ _
    | with_reducible exact step_startTaskCreation hb _ _
    | with_reducible exact step_startProjectCreation hb _ _
    | with_reducible exact step_showProjectDetails hq _ _ _
    | with_reducible apply step_tryCatchReturn hq
    | with_reducible apply step_tryCatch hq
    | with_reducible apply stepRet_pure hq
    | with_reducible apply stepRet_bind hq
    | with_reducible apply step_bind hq
    | intro _
    | split
    | dsimp only)

theorem step_onMessage (hb : Bystander R) (msg : Message) :
    Step R (onMessage msg) := by
  have hq := hb.toQuiet
  unfold onMessage
  repeat (first
    | with_reducible exact step_pure hq _
    | with_reducible exact step_raise hq
    | with_reducible exact stepRet_done hq
    | with_reducible exact stepRet_raise hq
    | with_reducible exact step_getWorld hq
    | with_reducible exact step_sendMessage hq _ _ _ _
    | with_reducible exact step_answerCallbackQuery hq _ _
    | with_reducible exact step_User_findOne hq _
    | with_reducible exact step_User_findNotIn hq _
    | with_reducible exact step_User_countDocuments hq _
    | with_reducible exact step_Project_findIn hq _
    | with_reducible exact step_Project_findOne hq _
    | with_reducible exact step_Project_findByObjectId hq _
    | with_reducible exact step_Project_findById hq _
    | with_reducible exact step_Task_findAssigned hq _ _
    | with_reducible exact step_Task_findById hq _
    | with_reducible exact step_findUserByNumber hq _
    | with_reducible exact step_getSession hb.sessions _
    | with_reducible exact step_setState hb.sessions _ _
    | with_reducible exact step_setData hb.sessions _ _ _
    | with_reducible exact step_clearSession hb.sessions _
    | with_reducible exact step_User_save hq hb.users _
    | with_reducible exact step_User_create hq hb.users _ _ _ _ _
    | with_reducible exact step_Project_create hq hb.projects _ _ _
    | with_reducible exact step_Task_save hq hb.taskSave _
    | with_reducible exact step_dispatch hb _ _ _ _ _
    | with_reducible apply step_tryCatchReturn hq
    | with_reducible apply step_tryCatch hq
    | with_reducible apply stepRet_pure hq
    | with_reducible apply stepRet_bind hq
    | with_reducible apply step_bind hq
    | intro _
    | split
    | dsimp only)

theorem step_handle (hb : Bystander R) (i : Input) :
    Step R (handle i) := by
  have hq := hb.toQuiet
  unfold handle
  repeat (first
    | with_reducible exact step_pure hq _
    | with_reducible exact step_raise hq
    | with_reducible exact stepRet_done hq
    | with_reducible exact stepRet_raise hq
    | with_reducible exact step_getWorld hq
    | with_reducible exact step_sendMessage hq _ _ _ _
    | with_reducible exact step_answerCallbackQuery hq _ _
    | with_reducible exact step_User_findOne hq _
    | with_reducible exact step_User_findNotIn hq _
    | with_reducible exact step_User_countDocuments hq _
    | with_reducible exact step_Project_findIn hq _
    | with_reducible exact step_Project_findOne hq _
    | with_reducible exact step_Project_findByObjectId hq _
    | with_reducible exact step_Project_findById hq _
    | with_reducible exact step_Task_findAssigned hq _ _
    | with_reducible exact step_Task_findById hq _
    | with_reducible exact step_findUserByNumber hq _
    | with_reducible exact step_getSession hb.sessions _
    | with_reducible exact step_setState hb.sessions _ _
    | with_reducible exact step_setData hb.sessions _ _ _
    | with_reducible exact step_clearSession hb.sessions _
    | with_reducible exact step_User_save hq hb.users _
    | with_reducible exact step_User_create hq hb.users _ _ _ _ _
    | with_reducible exact step_Project_create hq hb.projects _ _ _
    | with_reducible exact step_Task_save hq hb.taskSave _
    | with_reducible exact step_onMessage hb _
    | with_reducible exact step_onCommand hb _ _
    | with_reducible exact step_onCallbackQuery hb _
    | with_reducible apply step_tryCatchReturn hq
    | with_reducible apply step_tryCatch hq
    | with_reducible apply stepRet_pure hq
    | with_reducible apply stepRet_bind hq
    | with_reducible apply step_bind hq
    | intro _
    | split
    | dsimp only)

end handlers

/-! ## Observations used by the results -/

theorem quiet_same {β : Type} (π : World → β)
    (h1 : ∀ w n, π { w with dbCalls := n } = π w)
    (h2 : ∀ w n, π { w with apiCalls := n } = π w)
    (h3 : ∀ w o, π { w with outbox := o } = π w)
    (h4 : ∀ w a, π { w with answers := a } = π w) : Quiet (Same π) where
  refl := fun _ => rfl
  trans := fun a b c hab hbc => by
    unfold Same at *
    rw [hbc, hab]
  dbCalls := h1
  apiCalls := h2
  outbox := h3
  answers := h4

theorem quiet_sessions : Quiet (Same (fun w => w.sessions)) :=
  quiet_same _ (fun _ _ => rfl) (fun _ _ => rfl) (fun _ _ => rfl) (fun _ _ => rfl)

theorem sendMessage_sessions (c : Int) (t : String) (m : Bool) (k : Markup) (w : World) :
    (sendMessage c t m k w).world.sessions = w.sessions :=
  (step_sendMessage quiet_sessions c t m k).keeps w

theorem sendMessage_ok (c : Int) (t : String) (m : Bool) (k : Markup) (w : World)
    (h : w.apiFails w.apiCalls = false) :
    sendMessage c t m k w
      = .ok () { w with apiCalls := w.apiCalls + 1, outbox := w.outbox ++ [⟨c, t, m, k⟩] } := by
  simp [sendMessage, apiCall, modifyWorld, h]

/-- The retry branch of `handleTaskDueDateInput`. -/
theorem dueDate_retry (w : World) (chatId : Int) (userId : Nat) (text : String)
    (hcancel : text ≠ cancelText) (hskip : text ≠ "Skip") (hbad : isValidDate text = false) :
    taskController.handleTaskDueDateInput chatId userId text w
      = sendMessage chatId
          (emoji.error
            ++ " Invalid date format. Please use the format YYYY-MM-DD or type \"skip\" to skip.")
          false (keyboard.createKeyboard [["Skip", cancelText]]) w := by
  unfold taskController.handleTaskDueDateInput
  simp [hcancel, hskip, hbad]

/-- C4: at the due-date step, a text that is neither the Cancel label nor `Skip` and
is not a valid `YYYY-MM-DD` calendar date leaves the whole session store as it
was, so the state stays `waiting_task_due_date` and no `taskDueDate` is written;
when the send succeeds the reply is the invalid-format prompt. -/
theorem C4_invalid_due_date_retries (w : World) (chatId : Int) (userId : Nat) (text : String)
    (sess : Session) (hsess : lookupKey userId w.sessions = some sess)
    (_hstate : sess.state = some TASK_STATES.WAITING_DUE_DATE)
    (hcancel : text ≠ cancelText) (hskip : text ≠ "Skip") (hbad : isValidDate text = false) :
    (taskController.handleTaskDueDateInput chatId userId text w).world.sessions = w.sessions
      ∧ lookupKey userId (taskController.handleTaskDueDateInput chatId userId text w).world.sessions
          = some sess
      ∧ (w.apiFails w.apiCalls = false →
          (taskController.handleTaskDueDateInput chatId userId text w).world.outbox
            = w.outbox ++ [⟨chatId,
                emoji.error
                  ++ " Invalid date format. Please use the format YYYY-MM-DD or type \"skip\" to skip.",
                false, keyboard.createKeyboard [["Skip", cancelText]]⟩]) := by
  rw [dueDate_retry w chatId userId text hcancel hskip hbad]
  refine ⟨sendMessage_sessions _ _ _ _ w, ?_, ?_⟩
  · rw [sendMessage_sessions, hsess]
  · intro h
    rw [sendMessage_ok _ _ _ _ w h]
    rfl

/-! ## The session service, step by step -/

namespace SessionService

theorem getSession_of_some {sessions : Store} {now u : Nat} {x : Session}
    (h : lookupKey u sessions = some x) :
    getSession sessions now u
      = (upsert u { x with lastActivity := now } sessions, { x with lastActivity := now }) := by
  simp [getSession, h]

theorem getSession_of_none {sessions : Store} {now u : Nat}
    (h : lookupKey u sessions = none) :
    (getSession sessions now u).2 = { state := none, data := [], lastActivity := now } := by
  simp [getSession, h, lookupKey_upsert_same]

theorem lookup_getSession (sessions : Store) (now u : Nat) :
    lookupKey u (getSession sessions now u).1 = some (getSession sessions now u).2 := by
  unfold getSession
  cases h : lookupKey u sessions with
  | none => simp [lookupKey_upsert_same]
  | some s => simp [h, lookupKey_upsert_same]

theorem getSession_lastActivity (sessions : Store) (now u : Nat) :
    (getSession sessions now u).2.lastActivity = now := by
  unfold getSession
  cases h : lookupKey u sessions with
  | none => simp [lookupKey_upsert_same]
  | some s => simp [h]

theorem lookup_setState (sessions : Store) (now u : Nat) (st : Option String) :
    lookupKey u (setState sessions now u st).1
      = some { (getSession sessions now u).2 with state := st } := by
  simp [setState, lookupKey_upsert_same]

theorem lookup_setData (sessions : Store) (now u : Nat) (k : String) (v : Value) :
    lookupKey u (setData sessions now u k v).1
      = some { (getSession sessions now u).2 with
          data := upsert k v (getSession sessions now u).2.data } := by
  simp [setData, lookupKey_upsert_same]

theorem lookup_clearSession {sessions : Store} {now u : Nat} {x : Session}
    (h : lookupKey u sessions = some x) :
    lookupKey u (clearSession sessions now u)
      = some { state := none, data := [], lastActivity := now } := by
  simp [clearSession, h, lookupKey_upsert_same]

/-- Writing the state and then one key, as every flow step does. -/
theorem lookup_setState_setData (sessions : Store) (now u : Nat) (st : Option String)
    (k : String) (v : Value) :
    lookupKey u (setData (setState sessions now u st).1 now u k v).1
      = some { state := st, data := upsert k v (getSession sessions now u).2.data,
               lastActivity := now } := by
  rw [lookup_setData, getSession_of_some (lookup_setState sessions now u st)]

end SessionService

theorem storeDueDate_sessions (c : Int) (u : Nat) (v : Value) (w : World) :
    (taskController.storeDueDate c u v w).world.sessions
      = (SessionService.setData
          (SessionService.setState w.sessions w.now u (some TASK_STATES.WAITING_TASK_TYPE)).1
          w.now u "taskDueDate" v).1 := by
  simp [taskController.storeDueDate, sendMessage_sessions]

/-- C5, what the code does: the texts `skip` and `SKIP` at the due-date step leave
the session store untouched (they are answered as invalid dates); only the
exact text `Skip` stores `taskDueDate = null` and moves to `waiting_task_type`. -/
theorem C5_only_capitalised_skip_skips (w : World) (chatId : Int) (userId : Nat) :
    (taskController.handleTaskDueDateInput chatId userId "skip" w).world.sessions = w.sessions
      ∧ (taskController.handleTaskDueDateInput chatId userId "SKIP" w).world.sessions
          = w.sessions
      ∧ lookupKey userId
          (taskController.handleTaskDueDateInput chatId userId "Skip" w).world.sessions
          = some { state := some TASK_STATES.WAITING_TASK_TYPE,
                   data := upsert "taskDueDate" Value.null
                     (SessionService.getSession w.sessions w.now userId).2.data,
                   lastActivity := w.now } := by
  refine ⟨?_, ?_, ?_⟩
  · rw [dueDate_retry w chatId userId "skip" (by decide) (by decide) (by decide)]
    exact sendMessage_sessions _ _ _ _ w
  · rw [dueDate_retry w chatId userId "SKIP" (by decide) (by decide) (by decide)]
    exact sendMessage_sessions _ _ _ _ w
  · have h : taskController.handleTaskDueDateInput chatId userId "Skip" w
        = taskController.storeDueDate chatId userId Value.null w := by
      unfold taskController.handleTaskDueDateInput
      simp [show ("Skip" : String) ≠ cancelText by decide]
    rw [h, storeDueDate_sessions, SessionService.lookup_setState_setData]

theorem isMenuLabel_text {text : String} (h : isMenuLabel text = true) :
    startsWith text "/" = false ∧ text ≠ "" := by
  unfold isMenuLabel at h
  rw [Bool.or_eq_true] at h
  rcases h with h | h
  · simp only [List.mem_cons, List.mem_singleton, decide_eq_true_eq, List.not_mem_nil,
      or_false] at h
    rcases h with h | h | h | h | h | h <;> subst h <;> decide
  · unfold startsWith at h
    obtain ⟨cs⟩ := text
    cases cs with
    | nil => simp [emoji.project, List.isPrefixOf] at h
    | cons c rest =>
      have hc : c = '📁' := by
        simp [emoji.project, List.isPrefixOf] at h
        exact h.1.symm
      subst hc
      constructor
      · simp [startsWith, List.isPrefixOf]
      · intro hc
        simp [String.ext_iff] at hc

theorem route_flowStep (text : String) {s : String} {r : Route} (hstep : (s, r) ∈ flowSteps) :
    route (some s) text = r ∧ r ∉ menuRoutes := by
  simp only [flowSteps, List.mem_cons, List.mem_singleton, Prod.mk.injEq, List.not_mem_nil,
    or_false] at hstep
  rcases hstep with h | h | h | h | h | h | h | h | h | h <;> obtain ⟨h1, h2⟩ := h <;>
    subst h1 <;> subst h2 <;>
    simp [route, menuRoutes, USER_STATES.WAITING_NAME, USER_STATES.WAITING_SURNAME,
      USER_STATES.WAITING_ROLE, USER_STATES.WAITING_CONTACT, USER_STATES.WAITING_JOIN_PROJECT,
      PROJECT_STATES.WAITING_NAME, PROJECT_STATES.WAITING_DESCRIPTION, TASK_STATES.WAITING_NAME,
      TASK_STATES.WAITING_DESCRIPTION, TASK_STATES.WAITING_DUE_DATE]

/-- A text that is neither a command nor empty reaches the chain of tests with
the session of its sender. -/
theorem onMessage_eq (msg : Message) (text : String) (htext : msg.text = some text)
    (h1 : startsWith text "/" = false) (h2 : text ≠ "") (w : World) :
    onMessage msg w
      = dispatch (route (SessionService.getSession w.sessions w.now msg.userId).2.state text)
          msg.chatId msg.userId text msg.username
          { w with sessions := (SessionService.getSession w.sessions w.now msg.userId).1 } := by
  unfold onMessage
  simp [htext, h1, h2]

/-- C3: for a session whose state is one of the ten dispatched flow steps and a
text that is the label of a menu button, the chain of tests picks the handler of
that step, which is none of the menu handlers, and the `message` listener is
exactly the call of that handler in the world left by `getSession`. -/
theorem C3_state_match_wins (w : World) (msg : Message) (text : String) (sess : Session)
    (s : String) (r : Route) (hstep : (s, r) ∈ flowSteps) (hlabel : isMenuLabel text = true)
    (htext : msg.text = some text) (hsess : lookupKey msg.userId w.sessions = some sess)
    (hstate : sess.state = some s) :
    route (some s) text = r ∧ r ∉ menuRoutes
      ∧ onMessage msg w
          = dispatch r msg.chatId msg.userId text msg.username
              { w with sessions :=
                  (SessionService.getSession w.sessions w.now msg.userId).1 } := by
  have hroute := route_flowStep text hstep
  refine ⟨hroute.1, hroute.2, ?_⟩
  obtain ⟨h1, h2⟩ := isMenuLabel_text hlabel
  rw [onMessage_eq msg text htext h1 h2 w, SessionService.getSession_of_some hsess]
  simp only [hstate, hroute.1]

theorem handleSurnameInput_sessions (c : Int) (u : Nat) (text : String) (w : World)
    (h : text ≠ cancelText) :
    (userController.handleSurnameInput c u text w).world.sessions
      = (SessionService.setData
          (SessionService.setState w.sessions w.now u (some USER_STATES.WAITING_ROLE)).1
          w.now u "surname" (.str (if text = "Skip" then "" else text))).1 := by
  simp [userController.handleSurnameInput, h, sendMessage_sessions]

theorem handleRoleInput_sessions (c : Int) (u : Nat) (text : String) (w : World)
    (h : text ≠ cancelText) :
    (userController.handleRoleInput c u text w).world.sessions
      = (SessionService.setData
          (SessionService.setState w.sessions w.now u (some USER_STATES.WAITING_CONTACT)).1
          w.now u "role" (.str (if text = "Skip" then "" else text))).1 := by
  simp [userController.handleRoleInput, h, sendMessage_sessions]

theorem handleTaskDescriptionInput_sessions (c : Int) (u : Nat) (text : String) (w : World)
    (h : text ≠ cancelText) :
    (taskController.handleTaskDescriptionInput c u text w).world.sessions
      = (SessionService.setData
          (SessionService.setState w.sessions w.now u (some TASK_STATES.WAITING_DUE_DATE)).1
          w.now u "taskDescription" (.str (if text = "Skip" then "" else text))).1 := by
  simp [taskController.handleTaskDescriptionInput, h, sendMessage_sessions]

theorem textField_upsert (k : String) (s : String) (data : List (String × Value)) :
    textField (upsert k (.str s) data) k = some s := by
  simp [textField, lookupKey_upsert_same]

/-- C6, what the code does: the text `skip` at the surname, role and
task-description steps is stored as the value of the field, and at the contact
step it is saved as the contact of the new user. -/
theorem C6_lowercase_skip_is_stored_literally (w : World) (chatId : Int) (userId : Nat) :
    (∃ s, lookupKey userId
            (userController.handleSurnameInput chatId userId "skip" w).world.sessions = some s
          ∧ s.state = some USER_STATES.WAITING_ROLE
          ∧ textField s.data "surname" = some "skip")
      ∧ (∃ s, lookupKey userId
            (userController.handleRoleInput chatId userId "skip" w).world.sessions = some s
          ∧ s.state = some USER_STATES.WAITING_CONTACT
          ∧ textField s.data "role" = some "skip")
      ∧ (∃ s, lookupKey userId
            (taskController.handleTaskDescriptionInput chatId userId "skip" w).world.sessions
              = some s
          ∧ s.state = some TASK_STATES.WAITING_DUE_DATE
          ∧ textField s.data "taskDescription" = some "skip")
      ∧ ((userController.handleContactInput 7 7 "skip" (some "ada")
            (quietWorld [(7, sessionIn USER_STATES.WAITING_CONTACT [("name", .str "Ada")])]
              [] [])).world.users.map (fun u => u.contact) = [some "skip"]) := by
  refine ⟨?_, ?_, ?_, ?_⟩
  · rw [handleSurnameInput_sessions _ _ _ _ (by decide),
      SessionService.lookup_setState_setData]
    exact ⟨_, rfl, rfl, textField_upsert _ _ _⟩
  · rw [handleRoleInput_sessions _ _ _ _ (by decide),
      SessionService.lookup_setState_setData]
    exact ⟨_, rfl, rfl, textField_upsert _ _ _⟩
  · rw [handleTaskDescriptionInput_sessions _ _ _ _ (by decide),
      SessionService.lookup_setState_setData]
    exact ⟨_, rfl, rfl, textField_upsert _ _ _⟩
  · decide

/-! ## No task is created -/

theorem bystander_taskIds : Bystander (Same (fun w => w.tasks.map (fun t => t.id))) where
  toQuiet := quiet_same _ (fun _ _ => rfl) (fun _ _ => rfl) (fun _ _ => rfl) (fun _ _ => rfl)
  sessions := fun _ _ => rfl
  users := fun _ _ _ => rfl
  projects := fun _ _ _ => rfl
  taskSave := fun w task => by
    show List.map (fun t => t.id)
        (List.map (fun t => if t.id = task.id then task else t) w.tasks)
      = List.map (fun t => t.id) w.tasks
    rw [List.map_map]
    apply List.map_congr_left
    intro t _
    by_cases h : t.id = task.id <;> simp [h]

/-- C8, what the code does: no sequence of messages, commands and callback queries
adds a document to the `Task` collection; the ids of the stored tasks stay the
same, in the same order. -/
theorem C8_no_task_is_ever_created (inputs : List Input) (w : World) :
    (runAll inputs w).tasks.map (fun t => t.id) = w.tasks.map (fun t => t.id) := by
  induction inputs generalizing w with
  | nil => rfl
  | cons i rest ih =>
    have h := (step_handle bystander_taskIds i).keeps w
    show (runAll rest (handle i w).world).tasks.map (fun t => t.id) = _
    rw [ih]
    exact h

/-! ## Calls that succeed -/

theorem dbCall_ok (w : World) (h : w.dbFails w.dbCalls = false) :
    dbCall w = .ok () { w with dbCalls := w.dbCalls + 1 } := by
  simp [dbCall, h]

theorem User_findOne_ok (t : Nat) (w : World) (h : w.dbFails w.dbCalls = false) :
    User.findOne t w
      = .ok (w.users.find? (fun u => u.telegramId = t)) { w with dbCalls := w.dbCalls + 1 } := by
  simp [User.findOne, dbCall_ok w h, getWorld]

theorem Project_findIn_ok (ids : List Nat) (w : World) (h : w.dbFails w.dbCalls = false) :
    Project.findIn ids w
      = .ok (w.projects.filter (fun p => p.id ∈ ids)) { w with dbCalls := w.dbCalls + 1 } := by
  simp [Project.findIn, dbCall_ok w h, getWorld]

/-! ## The cancel button -/

theorem quiet_keepsCleared (u : Nat) : Quiet (KeepsCleared u) where
  refl := fun _ => ⟨rfl, fun h => h⟩
  trans := fun a b c hab hbc =>
    ⟨hbc.1.trans hab.1, fun h => by
      have h1 := hab.2 h
      rw [← hab.1] at h1 ⊢
      exact hbc.2 h1⟩
  dbCalls := fun _ _ => ⟨rfl, fun h => h⟩
  apiCalls := fun _ _ => ⟨rfl, fun h => h⟩
  outbox := fun _ _ => ⟨rfl, fun h => h⟩
  answers := fun _ _ => ⟨rfl, fun h => h⟩

theorem keepsCleared_setState_none (u : Nat) (w : World) :
    KeepsCleared u w
      { w with sessions := (SessionService.setState w.sessions w.now u none).1 } := by
  refine ⟨rfl, fun h => ?_⟩
  show lookupKey u (SessionService.setState w.sessions w.now u none).1 = _
  rw [SessionService.lookup_setState, SessionService.getSession_of_some h]

/-- Clearing the session and then running a handler that keeps it cleared. -/
theorem cleared_after {u : Nat} {rest : M Unit} (hrest : Step (KeepsCleared u) rest)
    (w : World) (x : Session) (h : lookupKey u w.sessions = some x) :
    lookupKey u ((sessionService.clearSession u >>= fun _ => rest) w).world.sessions
      = some { state := none, data := [], lastActivity := w.now } := by
  simp only [bind_run, clearSession_run]
  exact (hrest.keeps _).2 (SessionService.lookup_clearSession h)

theorem cancel_clears (r : Route) (c : Int) (u : Nat) (name : Option String) (w : World)
    (x : Session) (h : lookupKey u w.sessions = some x)
    (hr : r ∈ flowSteps.map (fun p => p.2)) :
    lookupKey u (dispatch r c u cancelText name w).world.sessions
      = some { state := none, data := [], lastActivity := w.now } := by
  have hq := quiet_keepsCleared u
  have hsend : ∀ t m k, Step (KeepsCleared u) (sendMessage c t m k) :=
    fun t m k => step_sendMessage hq c t m k
  have hp := step_showProjectsMenu hq c u (keepsCleared_setState_none u)
  have ht := step_showTasksMenu hq c u (keepsCleared_setState_none u)
  simp only [flowSteps, List.map_cons, List.map_nil, List.mem_cons, List.mem_singleton,
    List.not_mem_nil, or_false] at hr
  rcases hr with hr | hr | hr | hr | hr | hr | hr | hr | hr | hr <;> subst hr
  · simpa [dispatch, userController.handleNameInput, userController.registrationCancelled]
      using cleared_after (hsend _ _ _) w x h
  · simpa [dispatch, userController.handleSurnameInput, userController.registrationCancelled]
      using cleared_after (hsend _ _ _) w x h
  · simpa [dispatch, userController.handleRoleInput, userController.registrationCancelled]
      using cleared_after (hsend _ _ _) w x h
  · simpa [dispatch, userController.handleContactInput, userController.registrationCancelled]
      using cleared_after (hsend _ _ _) w x h
  · simpa [dispatch, userController.handleJoinProjectInput]
      using cleared_after (hsend _ _ _) w x h
  · simpa [dispatch, projectController.handleProjectNameInput]
      using cleared_after hp w x h
  · simpa [dispatch, projectController.handleProjectDescriptionInput]
      using cleared_after hp w x h
  · simpa [dispatch, taskController.handleTaskNameInput]
      using cleared_after ht w x h
  · simpa [dispatch, taskController.handleTaskDescriptionInput]
      using cleared_after ht w x h
  · simpa [dispatch, taskController.handleTaskDueDateInput]
      using cleared_after ht w x h

theorem showProjectsMenu_outbox (c : Int) (u : Nat) (w : World)
    (hdb : ∀ n, w.dbFails n = false) (hapi : ∀ n, w.apiFails n = false) :
    (projectController.showProjectsMenu c u w).world.outbox
      = w.outbox ++ [match w.users.find? (fun x => x.telegramId = u) with
          | none =>
            ⟨c, emoji.error ++ " You are not registered. Please use /start to register.",
              false, .none⟩
          | some user =>
            ⟨c, emoji.projects ++ " *Projects*\n\nSelect a project or create a new one:", true,
              keyboard.createKeyboard
                ((if user.projects.length > 0 then
                    (w.projects.filter (fun p => p.id ∈ user.projects)).map
                      (fun p => [emoji.project ++ " " ++ p.name])
                  else [])
                  ++ [[emoji.newProject ++ " Create New Project"],
                      [emoji.back ++ " Back to Menu"]])⟩] := by
  unfold projectController.showProjectsMenu
  cases hu : w.users.find? (fun x => x.telegramId = u) with
  | none => simp [hu, User_findOne_ok, sendMessage_ok, hapi, hdb]
  | some user =>
    by_cases hp : user.projects.length > 0
    · simp [hu, hp, User_findOne_ok, Project_findIn_ok, sendMessage_ok, hapi, hdb]
    · simp [hu, hp, User_findOne_ok, sendMessage_ok, hapi, hdb]

theorem showTasksMenu_outbox (c : Int) (u : Nat) (w : World)
    (hdb : ∀ n, w.dbFails n = false) (hapi : ∀ n, w.apiFails n = false) :
    (taskController.showTasksMenu c u w).world.outbox
      = w.outbox ++ [match w.users.find? (fun x => x.telegramId = u) with
          | none =>
            ⟨c, emoji.error ++ " You are not registered. Please use /start to register.",
              false, .none⟩
          | some user =>
            ⟨c, emoji.tasks ++ " *Tasks*\n\nSelect an option:", true,
              keyboard.createKeyboard
                ((if user.projects.length > 0 then [[emoji.task ++ " Create New Task"]] else [])
                  ++ [[emoji.task ++ " My Tasks"],
                      [emoji.todo ++ " To Do", emoji.inProgress ++ " In Progress"],
                      [emoji.done ++ " Done"],
                      [emoji.back ++ " Back to Menu"]])⟩] := by
  unfold taskController.showTasksMenu
  cases hu : w.users.find? (fun x => x.telegramId = u) with
  | none => simp [hu, User_findOne_ok, sendMessage_ok, hapi, hdb]
  | some user => simp [hu, User_findOne_ok, sendMessage_ok, hapi, hdb]

theorem cancel_dispatch (r : Route) (c : Int) (u : Nat) (name : Option String) (w : World)
    (hr : r ∈ flowSteps.map (fun p => p.2)) :
    (∃ t, dispatch r c u cancelText name w
          = sendMessage c t false keyboard.mainMenuKeyboard
              { w with sessions := SessionService.clearSession w.sessions w.now u })
      ∨ (r ∉ userFlowRoutes ∧ dispatch r c u cancelText name w
          = projectController.showProjectsMenu c u
              { w with sessions := SessionService.clearSession w.sessions w.now u })
      ∨ (r ∉ userFlowRoutes ∧ dispatch r c u cancelText name w
          = taskController.showTasksMenu c u
              { w with sessions := SessionService.clearSession w.sessions w.now u }) := by
  simp only [flowSteps, List.map_cons, List.map_nil, List.mem_cons, List.mem_singleton,
    List.not_mem_nil, or_false] at hr
  rcases hr with hr | hr | hr | hr | hr | hr | hr | hr | hr | hr <;> subst hr
  · exact Or.inl ⟨emoji.cancel ++ " Registration cancelled.",
      by simp [dispatch, userController.handleNameInput, userController.registrationCancelled]⟩
  · exact Or.inl ⟨emoji.cancel ++ " Registration cancelled.",
      by simp [dispatch, userController.handleSurnameInput,
        userController.registrationCancelled]⟩
  · exact Or.inl ⟨emoji.cancel ++ " Registration cancelled.",
      by simp [dispatch, userController.handleRoleInput, userController.registrationCancelled]⟩
  · exact Or.inl ⟨emoji.cancel ++ " Registration cancelled.",
      by simp [dispatch, userController.handleContactInput,
        userController.registrationCancelled]⟩
  · exact Or.inl ⟨emoji.cancel ++ " Join project cancelled.",
      by simp [dispatch, userController.handleJoinProjectInput]⟩
  · exact Or.inr (Or.inl ⟨by decide,
      by simp [dispatch, projectController.handleProjectNameInput]⟩)
  · exact Or.inr (Or.inl ⟨by decide,
      by simp [dispatch, projectController.handleProjectDescriptionInput]⟩)
  · exact Or.inr (Or.inr ⟨by decide, by simp [dispatch, taskController.handleTaskNameInput]⟩)
  · exact Or.inr (Or.inr ⟨by decide,
      by simp [dispatch, taskController.handleTaskDescriptionInput]⟩)
  · exact Or.inr (Or.inr ⟨by decide,
      by simp [dispatch, taskController.handleTaskDueDateInput]⟩)

theorem cancel_outbox (r : Route) (c : Int) (u : Nat) (name : Option String) (w : World)
    (hr : r ∈ flowSteps.map (fun p => p.2))
    (hdb : ∀ n, w.dbFails n = false) (hapi : ∀ n, w.apiFails n = false) :
    ∃ o, (dispatch r c u cancelText name w).world.outbox = w.outbox ++ [o] ∧ o.chatId = c
      ∧ (r ∈ userFlowRoutes ∨ (w.users.find? (fun x => x.telegramId = u)).isSome = true →
          o.isMenu = true) := by
  rcases cancel_dispatch r c u name w hr with ⟨t, h⟩ | ⟨hnot, h⟩ | ⟨hnot, h⟩
  · refine ⟨⟨c, t, false, keyboard.mainMenuKeyboard⟩, ?_, rfl, fun _ => rfl⟩
    simp [h, sendMessage_ok, hapi]
  · rw [h]
    refine ⟨_, showProjectsMenu_outbox c u _ hdb hapi, ?_, ?_⟩
    · show (match w.users.find? (fun x => x.telegramId = u) with
        | none => _
        | some user => _ : Outgoing).chatId = c
      cases w.users.find? (fun x => x.telegramId = u) <;> rfl
    · intro hreg
      show (match w.users.find? (fun x => x.telegramId = u) with
        | none => _
        | some user => _ : Outgoing).isMenu = true
      rcases hreg with hreg | hreg
      · exact absurd hreg hnot
      · cases hu : w.users.find? (fun x => x.telegramId = u) with
        | none => simp [hu] at hreg
        | some user => rfl
  · rw [h]
    refine ⟨_, showTasksMenu_outbox c u _ hdb hapi, ?_, ?_⟩
    · show (match w.users.find? (fun x => x.telegramId = u) with
        | none => _
        | some user => _ : Outgoing).chatId = c
      cases w.users.find? (fun x => x.telegramId = u) <;> rfl
    · intro hreg
      show (match w.users.find? (fun x => x.telegramId = u) with
        | none => _
        | some user => _ : Outgoing).isMenu = true
      rcases hreg with hreg | hreg
      · exact absurd hreg hnot
      · cases hu : w.users.find? (fun x => x.telegramId = u) with
        | none => simp [hu] at hreg
        | some user => rfl

/-- The reply to the Cancel label at each dispatched step, when no call fails. -/
theorem cancel_reply (r : Route) (c : Int) (u : Nat) (name : Option String) (w : World)
    (hr : r ∈ flowSteps.map (fun p => p.2))
    (hdb : ∀ n, w.dbFails n = false) (hapi : ∀ n, w.apiFails n = false) :
    (dispatch r c u cancelText name w).world.outbox
      = w.outbox ++
        [if r ∈ userFlowRoutes then
          ⟨c, emoji.cancel ++ (if r = .handleJoinProjectInput then " Join project cancelled."
              else " Registration cancelled."), false, keyboard.mainMenuKeyboard⟩
        else
          match w.users.find? (fun x => x.telegramId = u) with
          | none =>
            ⟨c, emoji.error ++ " You are not registered. Please use /start to register.",
              false, .none⟩
          | some user =>
            if r ∈ projectFlowRoutes then
              ⟨c, emoji.projects ++ " *Projects*\n\nSelect a project or create a new one:",
                true,
                keyboard.createKeyboard
                  ((if user.projects.length > 0 then
                      (w.projects.filter (fun p => p.id ∈ user.projects)).map
                        (fun p => [emoji.project ++ " " ++ p.name])
                    else [])
                    ++ [[emoji.newProject ++ " Create New Project"],
                        [emoji.back ++ " Back to Menu"]])⟩
            else
              ⟨c, emoji.tasks ++ " *Tasks*\n\nSelect an option:", true,
                keyboard.createKeyboard
                  ((if user.projects.length > 0 then [[emoji.task ++ " Create New Task"]]
                    else [])
                    ++ [[emoji.task ++ " My Tasks"],
                        [emoji.todo ++ " To Do", emoji.inProgress ++ " In Progress"],
                        [emoji.done ++ " Done"],
                        [emoji.back ++ " Back to Menu"]])⟩] := by
  have hp := showProjectsMenu_outbox c u
    { w with sessions := SessionService.clearSession w.sessions w.now u } hdb hapi
  have ht := showTasksMenu_outbox c u
    { w with sessions := SessionService.clearSession w.sessions w.now u } hdb hapi
  simp only [flowSteps, List.map_cons, List.map_nil, List.mem_cons, List.mem_singleton,
    List.not_mem_nil, or_false] at hr
  rcases hr with hr | hr | hr | hr | hr | hr | hr | hr | hr | hr <;> subst hr
  · simp [dispatch, userController.handleNameInput, userController.registrationCancelled,
      sendMessage_ok, hapi, userFlowRoutes]
  · simp [dispatch, userController.handleSurnameInput, userController.registrationCancelled,
      sendMessage_ok, hapi, userFlowRoutes]
  · simp [dispatch, userController.handleRoleInput, userController.registrationCancelled,
      sendMessage_ok, hapi, userFlowRoutes]
  · simp [dispatch, userController.handleContactInput, userController.registrationCancelled,
      sendMessage_ok, hapi, userFlowRoutes]
  · simp [dispatch, userController.handleJoinProjectInput, sendMessage_ok, hapi,
      userFlowRoutes]
  · have e : dispatch .handleProjectNameInput c u cancelText name w
        = projectController.showProjectsMenu c u
            { w with sessions := SessionService.clearSession w.sessions w.now u } := by
      simp [dispatch, projectController.handleProjectNameInput]
    rw [e, hp]
    cases w.users.find? (fun x => x.telegramId = u) <;> simp [userFlowRoutes, projectFlowRoutes]
  · have e : dispatch .handleProjectDescriptionInput c u cancelText name w
        = projectController.showProjectsMenu c u
            { w with sessions := SessionService.clearSession w.sessions w.now u } := by
      simp [dispatch, projectController.handleProjectDescriptionInput]
    rw [e, hp]
    cases w.users.find? (fun x => x.telegramId = u) <;> simp [userFlowRoutes, projectFlowRoutes]
  · have e : dispatch .handleTaskNameInput c u cancelText name w
        = taskController.showTasksMenu c u
            { w with sessions := SessionService.clearSession w.sessions w.now u } := by
      simp [dispatch, taskController.handleTaskNameInput]
    rw [e, ht]
    cases w.users.find? (fun x => x.telegramId = u) <;> simp [userFlowRoutes, projectFlowRoutes]
  · have e : dispatch .handleTaskDescriptionInput c u cancelText name w
        = taskController.showTasksMenu c u
            { w with sessions := SessionService.clearSession w.sessions w.now u } := by
      simp [dispatch, taskController.handleTaskDescriptionInput]
    rw [e, ht]
    cases w.users.find? (fun x => x.telegramId = u) <;> simp [userFlowRoutes, projectFlowRoutes]
  · have e : dispatch .handleTaskDueDateInput c u cancelText name w
        = taskController.showTasksMenu c u
            { w with sessions := SessionService.clearSession w.sessions w.now u } := by
      simp [dispatch, taskController.handleTaskDueDateInput]
    rw [e, ht]
    cases w.users.find? (fun x => x.telegramId = u) <;> simp [userFlowRoutes, projectFlowRoutes]


theorem flowRoutes_disjoint (r : Route) :
    (r ∈ projectFlowRoutes → r ∉ userFlowRoutes)
      ∧ (r ∈ taskFlowRoutes → r ∉ userFlowRoutes ∧ r ∉ projectFlowRoutes) := by
  cases r <;> decide

/-- C2, as amended: at every step the `message` listener dispatches on (the
registration steps, join-project, project name and description, task name,
description and due date), a text equal to the Cancel label leaves the sender
with the session `{state: null, data: {}}`, whatever the collaborators do.
When no call fails the reply is one message to the same chat: at the
registration and join steps the "cancelled" text with the main-menu keyboard;
at the project and task steps, for a sender who is not registered, the "not
registered" error without keyboard, and for a registered sender the projects
menu, respectively the tasks menu, with its keyboard. -/
theorem C2_cancel_clears_dispatched_steps (w : World) (msg : Message) (sess : Session)
    (s : String) (r : Route) (hstep : (s, r) ∈ flowSteps) (htext : msg.text = some cancelText)
    (hsess : lookupKey msg.userId w.sessions = some sess) (hstate : sess.state = some s) :
    lookupKey msg.userId (onMessage msg w).world.sessions
        = some { state := none, data := [], lastActivity := w.now }
      ∧ ((∀ n, w.dbFails n = false) → (∀ n, w.apiFails n = false) →
          ∃ o, (onMessage msg w).world.outbox = w.outbox ++ [o] ∧ o.chatId = msg.chatId
            ∧ (r ∈ userFlowRoutes
                ∨ (w.users.find? (fun x => x.telegramId = msg.userId)).isSome = true →
                o.isMenu = true)
            ∧ (r ∈ userFlowRoutes →
                o = ⟨msg.chatId,
                      emoji.cancel ++ (if r = .handleJoinProjectInput then
                        " Join project cancelled." else " Registration cancelled."),
                      false, keyboard.mainMenuKeyboard⟩)
            ∧ (r ∈ projectFlowRoutes ∨ r ∈ taskFlowRoutes →
                w.users.find? (fun x => x.telegramId = msg.userId) = none →
                o = ⟨msg.chatId,
                      emoji.error ++ " You are not registered. Please use /start to register.",
                      false, .none⟩)
            ∧ (∀ user, r ∈ projectFlowRoutes →
                w.users.find? (fun x => x.telegramId = msg.userId) = some user →
                o = ⟨msg.chatId,
                      emoji.projects ++ " *Projects*\n\nSelect a project or create a new one:",
                      true,
                      keyboard.createKeyboard
                        ((if user.projects.length > 0 then
                            (w.projects.filter (fun p => p.id ∈ user.projects)).map
                              (fun p => [emoji.project ++ " " ++ p.name])
                          else [])
                          ++ [[emoji.newProject ++ " Create New Project"],
                              [emoji.back ++ " Back to Menu"]])⟩)
            ∧ (∀ user, r ∈ taskFlowRoutes →
                w.users.find? (fun x => x.telegramId = msg.userId) = some user →
                o = ⟨msg.chatId, emoji.tasks ++ " *Tasks*\n\nSelect an option:", true,
                      keyboard.createKeyboard
                        ((if user.projects.length > 0 then
                            [[emoji.task ++ " Create New Task"]]
                          else [])
                          ++ [[emoji.task ++ " My Tasks"],
                              [emoji.todo ++ " To Do", emoji.inProgress ++ " In Progress"],
                              [emoji.done ++ " Done"],
                              [emoji.back ++ " Back to Menu"]])⟩)) := by
  have hroute := (route_flowStep cancelText hstep).1
  have hr : r ∈ flowSteps.map (fun p => p.2) := List.mem_map.mpr ⟨(s, r), hstep, rfl⟩
  have hdis := flowRoutes_disjoint r
  obtain ⟨st, data, la⟩ := sess
  simp only at hstate
  subst hstate
  rw [onMessage_eq msg cancelText htext (by decide) (by decide) w,
    SessionService.getSession_of_some hsess]
  simp only [hroute]
  constructor
  · exact cancel_clears r msg.chatId msg.userId msg.username _ _
      (lookupKey_upsert_same _ _ _) hr
  · intro hdb hapi
    obtain ⟨o, ho, hc, hm⟩ := cancel_outbox r msg.chatId msg.userId msg.username
      { w with
        sessions := upsert msg.userId { state := some s, data := data, lastActivity := w.now }
          w.sessions } hr hdb hapi
    have hrep := cancel_reply r msg.chatId msg.userId msg.username
      { w with
        sessions := upsert msg.userId { state := some s, data := data, lastActivity := w.now }
          w.sessions } hr hdb hapi
    rw [ho] at hrep
    have ho2 := List.singleton_inj.1 (List.append_cancel_left hrep)
    refine ⟨o, ho, hc, hm, ?_, ?_, ?_, ?_⟩
    · intro hu
      rw [ho2]
      simp only [hu, if_true]
    · intro hpt hnone
      have hnu : r ∉ userFlowRoutes := by
        rcases hpt with h | h
        · exact hdis.1 h
        · exact (hdis.2 h).1
      rw [ho2]
      simp only [hnu, if_false, hnone]
    · intro user hp hsome
      rw [ho2]
      simp only [hdis.1 hp, if_false, hsome, hp, if_true]
    · intro user ht hsome
      rw [ho2]
      simp only [(hdis.2 ht).1, (hdis.2 ht).2, if_false, hsome]

/-- C2, an instance: a registered user at the project-description step who sends the
Cancel label ends with a cleared session. -/
theorem C2_cancel_clears_witness :
    lookupKey 7 (onMessage (sampleMessage cancelText)
        (quietWorld [(7, sessionIn PROJECT_STATES.WAITING_DESCRIPTION
          [("projectName", .str "Alpha")])] [sampleUser []] [])).world.sessions
      = some { state := none, data := [], lastActivity := 1000 } :=
  (C2_cancel_clears_dispatched_steps
    (quietWorld [(7, sessionIn PROJECT_STATES.WAITING_DESCRIPTION
      [("projectName", .str "Alpha")])] [sampleUser []] [])
    (sampleMessage cancelText)
    (sessionIn PROJECT_STATES.WAITING_DESCRIPTION [("projectName", .str "Alpha")])
    PROJECT_STATES.WAITING_DESCRIPTION .handleProjectDescriptionInput
    (by decide) rfl (by decide) rfl).1

set_option maxRecDepth 100000 in
/-- C2, as stated, fails: in the step `waiting_task_type` the Cancel label changes
neither the state nor the data and is answered by the "I don't understand"
text without keyboard; and an unregistered user who cancels the project-name
step is answered by the "not registered" text without keyboard. -/
theorem C2_task_type_step_ignores_cancel :
    (lookupKey 7 (onMessage (sampleMessage cancelText)
        (quietWorld [(7, sessionIn TASK_STATES.WAITING_TASK_TYPE
          [("projectId", .objectId 50), ("taskName", .str "Fix")])]
          [sampleUser [50]] [sampleProject 50 "Alpha"])).world.sessions
      = some { state := some TASK_STATES.WAITING_TASK_TYPE,
               data := [("projectId", .objectId 50), ("taskName", .str "Fix")],
               lastActivity := 1000 }
      ∧ (onMessage (sampleMessage cancelText)
        (quietWorld [(7, sessionIn TASK_STATES.WAITING_TASK_TYPE
          [("projectId", .objectId 50), ("taskName", .str "Fix")])]
          [sampleUser [50]] [sampleProject 50 "Alpha"])).world.outbox
        = [⟨7, emoji.error ++ " I don't understand that command. "
              ++ "Please use the menu options or type /help to see available commands.",
            false, .none⟩])
    ∧ (onMessage (sampleMessage cancelText)
        (quietWorld [(7, sessionIn PROJECT_STATES.WAITING_NAME [])] [] [])).world.outbox
        = [⟨7, emoji.error ++ " You are not registered. Please use /start to register.",
            false, .none⟩] := by
  decide

/-! ## Project creation -/

theorem quiet_and {R1 R2 : World → World → Prop} (h1 : Quiet R1) (h2 : Quiet R2) :
    Quiet (fun w w1 => R1 w w1 ∧ R2 w w1) where
  refl := fun w => ⟨h1.refl w, h2.refl w⟩
  trans := fun a b c hab hbc => ⟨h1.trans a b c hab.1 hbc.1, h2.trans a b c hab.2 hbc.2⟩
  dbCalls := fun w n => ⟨h1.dbCalls w n, h2.dbCalls w n⟩
  apiCalls := fun w n => ⟨h1.apiCalls w n, h2.apiCalls w n⟩
  outbox := fun w o => ⟨h1.outbox w o, h2.outbox w o⟩
  answers := fun w a => ⟨h1.answers w a, h2.answers w a⟩

theorem quiet_atMostSessions : Quiet AtMostSessions where
  refl := fun w => ⟨w.sessions, w.dbCalls, w.apiCalls, w.outbox, w.answers, rfl⟩
  trans := fun a b c hab hbc => by
    obtain ⟨s1, d1, a1, o1, n1, e1⟩ := hab
    obtain ⟨s2, d2, a2, o2, n2, e2⟩ := hbc
    exact ⟨s2, d2, a2, o2, n2, by rw [e2, e1]⟩
  dbCalls := fun w n => ⟨w.sessions, n, w.apiCalls, w.outbox, w.answers, rfl⟩
  apiCalls := fun w n => ⟨w.sessions, w.dbCalls, n, w.outbox, w.answers, rfl⟩
  outbox := fun w o => ⟨w.sessions, w.dbCalls, w.apiCalls, o, w.answers, rfl⟩
  answers := fun w a => ⟨w.sessions, w.dbCalls, w.apiCalls, w.outbox, a, rfl⟩

theorem atMostSessions_sessions (w : World) (s : Store) :
    AtMostSessions w { w with sessions := s } :=
  ⟨s, w.dbCalls, w.apiCalls, w.outbox, w.answers, rfl⟩

theorem keepsCleared_clearSession (u : Nat) (w : World) :
    KeepsCleared u w { w with sessions := SessionService.clearSession w.sessions w.now u } :=
  ⟨rfl, fun h => SessionService.lookup_clearSession h⟩

/-- What is left of `handleProjectDescriptionInput` once both documents are saved
and the session is cleared, with its `catch` block. -/
theorem step_afterProjectSaved (c : Int) (u : Nat) (t1 t2 : String) (m1 m2 : Bool)
    (k1 k2 : Markup) :
    Step (fun w w1 => KeepsCleared u w w1 ∧ AtMostSessions w w1)
      (tryCatchReturn
        (sendMessage c t1 m1 k1 >>= fun _ => pure (projectController.showProjectsMenu c u))
        (sendMessage c t2 m2 k2 >>= fun _ => sessionService.clearSession u >>= fun _ =>
          pure (projectController.showProjectsMenu c u))) := by
  have hq := quiet_and (quiet_keepsCleared u) quiet_atMostSessions
  have hmenu := step_showProjectsMenu hq c u
    (fun w => ⟨keepsCleared_setState_none u w, atMostSessions_sessions w _⟩)
  have hclear : Step (fun w w1 => KeepsCleared u w w1 ∧ AtMostSessions w w1)
      (sessionService.clearSession u) :=
    step_clearSession_of (fun w => ⟨keepsCleared_clearSession u w, atMostSessions_sessions w _⟩)
  refine step_tryCatchReturn hq ?_ ?_
  · exact stepRet_bind hq (step_sendMessage hq _ _ _ _) (fun _ => stepRet_pure hq hmenu)
  · exact stepRet_bind hq (step_sendMessage hq _ _ _ _)
      (fun _ => stepRet_bind hq hclear (fun _ => stepRet_pure hq hmenu))

theorem tryCatchReturn_bind_ok {α β : Type} (m : M α) (f : α → M (M β)) (h : M (M β))
    (w w1 : World) (a : α) (hm : m w = .ok a w1) :
    tryCatchReturn (m >>= f) h w = tryCatchReturn (f a) h w1 := by
  simp [tryCatchReturn, tryCatch, hm]

theorem lowerChar_eq (c : Char) : lowerChar c = c.toLower := rfl

theorem isSkipWord_lower {t : String} (h : isSkipWord t = true) : toLowerCase t = "skip" := by
  unfold isSkipWord at h
  unfold toLowerCase
  have e : List.map lowerChar t.data = List.map Char.toLower t.data :=
    List.map_congr_left (fun c _ => lowerChar_eq c)
  rw [e, of_decide_eq_true h]

theorem isSkipWord_ne_cancel {t : String} (h : isSkipWord t = true) : t ≠ cancelText := by
  intro e
  subst e
  revert h
  decide

theorem Project_create_ok (n d : String) (u : Nat) (w : World) (hn : trim n ≠ "")
    (h : w.dbFails w.dbCalls = false) :
    Project.create (some n) d u w
      = .ok { id := w.nextId, name := trim n, description := trim d, adminId := u,
              createdAt := w.now,
              workDays := ["Monday", "Tuesday", "Wednesday", "Thursday", "Friday"] }
          { w with
            projects := w.projects ++
              [{ id := w.nextId, name := trim n, description := trim d, adminId := u,
                 createdAt := w.now,
                 workDays := ["Monday", "Tuesday", "Wednesday", "Thursday", "Friday"] }],
            nextId := w.nextId + 1, dbCalls := w.dbCalls + 1 } := by
  simp [Project.create, hn, dbCall_ok w h, getWorld, modifyWorld]

theorem User_save_ok (user : User) (w : World) (h : w.dbFails w.dbCalls = false) :
    User.save user w
      = .ok () { w with
          users := w.users.map (fun x => if x.id = user.id then user else x),
          dbCalls := w.dbCalls + 1 } := by
  simp [User.save, dbCall_ok w h, modifyWorld]

theorem handleProjectDescriptionInput_saves (c : Int) (u : Nat) (t n : String) (w : World)
    (user : User) (hreg : w.users.find? (fun x => x.telegramId = u) = some user)
    (hname : textField (SessionService.getSession w.sessions w.now u).2.data "projectName"
      = some n)
    (htrim : trim n ≠ "") (hskip : isSkipWord t = true) (hdb : ∀ k, w.dbFails k = false) :
    ∃ S d a o ans, (projectController.handleProjectDescriptionInput c u t w).world
        = { w with
            sessions := S,
            users := w.users.map (fun x =>
              if x.id = user.id then { user with projects := user.projects ++ [w.nextId] }
              else x),
            projects := w.projects ++
              [{ id := w.nextId, name := trim n, description := "", adminId := u,
                 createdAt := w.now,
                 workDays := ["Monday", "Tuesday", "Wednesday", "Thursday", "Friday"] }],
            nextId := w.nextId + 1, dbCalls := d, apiCalls := a, outbox := o, answers := ans }
      ∧ lookupKey u S = some { state := none, data := [], lastActivity := w.now } := by
  unfold projectController.handleProjectDescriptionInput
  simp only [isSkipWord_ne_cancel hskip, isSkipWord_lower hskip, if_false, or_true, if_true,
    bind_run, getSession_run, hname]
  have h1 := User_findOne_ok u
    { w with sessions := (SessionService.getSession w.sessions w.now u).1 } (hdb _)
  rw [tryCatchReturn_bind_ok _ _ _ _ _ _ h1]
  simp only [hreg]
  have h2 := Project_create_ok n "" u
    { w with sessions := (SessionService.getSession w.sessions w.now u).1,
             dbCalls := w.dbCalls + 1 } htrim (hdb _)
  rw [tryCatchReturn_bind_ok _ _ _ _ _ _ h2]
  have h3 := User_save_ok { user with projects := user.projects ++ [w.nextId] }
    { w with sessions := (SessionService.getSession w.sessions w.now u).1,
             projects := w.projects ++
               [{ id := w.nextId, name := trim n, description := trim "", adminId := u,
                  createdAt := w.now,
                  workDays := ["Monday", "Tuesday", "Wednesday", "Thursday", "Friday"] }],
             nextId := w.nextId + 1, dbCalls := w.dbCalls + 1 + 1 } (hdb _)
  rw [tryCatchReturn_bind_ok _ _ _ _ _ _ h3]
  rw [tryCatchReturn_bind_ok _ _ _ _ _ _ (clearSession_run u _)]
  have h := (step_afterProjectSaved c u
      (emoji.success ++ " Project *" ++ (some n).getD "undefined" ++ "* created successfully!")
      (emoji.error ++ " There was an error creating your project. Please try again later.")
      true false .none .none).keeps
    { w with
      sessions := SessionService.clearSession
        (SessionService.getSession w.sessions w.now u).1 w.now u,
      users := w.users.map (fun x =>
        if x.id = user.id then { user with projects := user.projects ++ [w.nextId] } else x),
      projects := w.projects ++
        [{ id := w.nextId, name := trim n, description := trim "", adminId := u,
           createdAt := w.now,
           workDays := ["Monday", "Tuesday", "Wednesday", "Thursday", "Friday"] }],
      nextId := w.nextId + 1, dbCalls := w.dbCalls + 1 + 1 + 1 }
  obtain ⟨⟨_, hc⟩, S, d, a, o, ans, e⟩ := h
  refine ⟨S, d, a, o, ans, ?_, ?_⟩
  · exact e
  · have hs := hc (SessionService.lookup_clearSession
      (SessionService.lookup_getSession w.sessions w.now u))
    rw [e] at hs
    exact hs

theorem sendMessage_world (c : Int) (t : String) (m : Bool) (k : Markup) (w : World) :
    ∃ a o, (sendMessage c t m k w).world = { w with apiCalls := a, outbox := o } := by
  by_cases h : w.apiFails w.apiCalls = true
  · exact ⟨w.apiCalls + 1, w.outbox, by simp [sendMessage, apiCall, h]⟩
  · exact ⟨w.apiCalls + 1, w.outbox ++ [⟨c, t, m, k⟩], by
      simp [sendMessage, apiCall, modifyWorld, h]⟩

theorem startProjectCreation_world (c : Int) (u : Nat) (w : World) :
    ∃ a o, (projectController.startProjectCreation c u w).world
      = { w with
          sessions := (SessionService.setState w.sessions w.now u
            (some PROJECT_STATES.WAITING_NAME)).1,
          apiCalls := a, outbox := o } := by
  unfold projectController.startProjectCreation
  simp only [bind_run, setState_run]
  exact sendMessage_world _ _ _ _ _

theorem handleProjectNameInput_world (c : Int) (u : Nat) (n : String) (w : World)
    (hn : n ≠ cancelText) :
    ∃ a o, (projectController.handleProjectNameInput c u n w).world
      = { w with
          sessions := (SessionService.setData
            (SessionService.setState w.sessions w.now u
              (some PROJECT_STATES.WAITING_DESCRIPTION)).1 w.now u "projectName" (.str n)).1,
          apiCalls := a, outbox := o } := by
  unfold projectController.handleProjectNameInput
  simp only [hn, if_false, bind_run, setState_run, setData_run]
  exact sendMessage_world _ _ _ _ _

/-- C7, as amended: for a registered user, a name that is not the Cancel label and
is not blank, and a description equal to `skip` in any letter case, the
project-creation flow (with database calls that succeed, whatever the Bot API
does) adds exactly one project, named by the trimmed name, with empty
description and the user as admin, appends its id to the project list of the
user, and leaves the session `{state: null, data: {}}`. -/
theorem C7_project_creation_persists (w : World) (chatId : Int) (userId : Nat)
    (n t : String) (user : User)
    (hreg : w.users.find? (fun x => x.telegramId = userId) = some user)
    (hn : n ≠ cancelText) (htrim : trim n ≠ "") (hskip : isSkipWord t = true)
    (hdb : ∀ k, w.dbFails k = false) :
    (runProjectCreation chatId userId n t w).projects
        = w.projects ++
            [{ id := w.nextId, name := trim n, description := "", adminId := userId,
               createdAt := w.now,
               workDays := ["Monday", "Tuesday", "Wednesday", "Thursday", "Friday"] }]
      ∧ (runProjectCreation chatId userId n t w).users
          = w.users.map (fun x =>
              if x.id = user.id then { user with projects := user.projects ++ [w.nextId] }
              else x)
      ∧ lookupKey userId (runProjectCreation chatId userId n t w).sessions
          = some { state := none, data := [], lastActivity := w.now } := by
  unfold runProjectCreation
  obtain ⟨a1, o1, e1⟩ := startProjectCreation_world chatId userId w
  rw [e1]
  obtain ⟨a2, o2, e2⟩ := handleProjectNameInput_world chatId userId n
    { w with
      sessions := (SessionService.setState w.sessions w.now userId
        (some PROJECT_STATES.WAITING_NAME)).1,
      apiCalls := a1, outbox := o1 } hn
  rw [e2]
  obtain ⟨S, d, a, o, ans, e3, hS⟩ := handleProjectDescriptionInput_saves chatId userId t n
    { w with
      sessions := (SessionService.setData
        (SessionService.setState
          (SessionService.setState w.sessions w.now userId
            (some PROJECT_STATES.WAITING_NAME)).1 w.now userId
          (some PROJECT_STATES.WAITING_DESCRIPTION)).1 w.now userId "projectName" (.str n)).1,
      apiCalls := a2, outbox := o2 } user hreg
    (by
      show textField (SessionService.getSession _ w.now userId).2.data "projectName" = some n
      rw [SessionService.getSession_of_some (SessionService.lookup_setData _ _ _ _ _)]
      exact textField_upsert _ _ _)
    htrim hskip hdb
  rw [e3]
  exact ⟨rfl, rfl, hS⟩

/-- C7, an instance: the name `Alpha` and the description `skip`. -/
theorem C7_project_creation_witness :
    (runProjectCreation 7 7 "Alpha" "skip" (quietWorld [] [sampleUser []] [])).projects
      = [{ id := 100, name := "Alpha", description := "", adminId := 7, createdAt := 1000,
           workDays := ["Monday", "Tuesday", "Wednesday", "Thursday", "Friday"] }] :=
  (C7_project_creation_persists (quietWorld [] [sampleUser []] []) 7 7 "Alpha" "skip"
    (sampleUser []) rfl (by decide) (by decide) (by decide) (fun _ => rfl)).1

set_option maxRecDepth 100000 in
/-- C7, as stated, fails: the name ` Alpha` is persisted as `Alpha`, and a name made
of one blank persists no project. -/
theorem C7_name_is_trimmed :
    (runProjectCreation 7 7 " Alpha" "skip" (quietWorld [] [sampleUser []] [])).projects.map
        (fun p => p.name) = ["Alpha"]
      ∧ (runProjectCreation 7 7 " " "skip" (quietWorld [] [sampleUser []] [])).projects = [] := by
  decide

/-! ## Starting a task -/

theorem splitChars_of_not_mem (sep : Char) (l : List Char) (h : sep ∉ l) :
    splitChars sep l = [l] := by
  induction l with
  | nil => rfl
  | cons c cs ih =>
    have hc : c ≠ sep := fun e => h (by simp [e])
    have hcs : sep ∉ cs := fun e => h (by simp [e])
    simp [splitChars, hc, ih hcs]

theorem splitChars_append_sep (sep : Char) (a b : List Char) (h : sep ∉ a) :
    splitChars sep (a ++ sep :: b) = a :: splitChars sep b := by
  induction a with
  | nil => simp [splitChars]
  | cons c cs ih =>
    have hc : c ≠ sep := fun e => h (by simp [e])
    have hcs : sep ∉ cs := fun e => h (by simp [e])
    simp [splitChars, hc, ih hcs]

theorem hexDigit_ne_colon (d : Nat) (h : d < 16) : hexDigit d ≠ ':' := by
  interval_cases d <;> decide

theorem colon_not_mem_renderIdChars (id : Nat) : ':' ∉ renderIdChars id := by
  unfold renderIdChars
  intro h
  rw [List.mem_map] at h
  obtain ⟨i, _, hi⟩ := h
  exact hexDigit_ne_colon _ (Nat.mod_lt _ (by decide)) hi

theorem split_create_task (id : Nat) :
    (split ("create_task:" ++ renderId id) ':').get? 1 = some (renderId id) := by
  have h : ("create_task:" ++ renderId id).data
      = "create_task".data ++ ':' :: renderIdChars id := by
    simp [renderId, String.data_append]
  unfold split
  rw [h, splitChars_append_sep ':' _ _ (by decide),
    splitChars_of_not_mem ':' _ (colon_not_mem_renderIdChars id)]
  rfl

theorem startsWith_append (a b : String) : startsWith (a ++ b) a = true := by
  unfold startsWith
  rw [String.data_append]
  simp

theorem askTaskName_sessions (c : Int) (w : World) :
    (taskController.askTaskName c w).world.sessions = w.sessions :=
  (step_askTaskName quiet_sessions c).keeps w

theorem answerCallbackQuery_ok (i : String) (t : Option String) (w : World)
    (h : w.apiFails w.apiCalls = false) :
    answerCallbackQuery i t w
      = .ok () { w with apiCalls := w.apiCalls + 1, answers := w.answers ++ [⟨i, t⟩] } := by
  simp [answerCallbackQuery, apiCall, modifyWorld, h]

theorem handleTaskCallback_create (q : CallbackQuery) (p : Nat) (w : World)
    (hdata : q.data = "create_task:" ++ renderId p) (hapi : w.apiFails w.apiCalls = false) :
    lookupKey q.userId (taskController.handleTaskCallback q w).world.sessions
      = some { state := some TASK_STATES.WAITING_NAME,
               data := upsert "projectId" (.str (renderId p))
                 (SessionService.getSession w.sessions w.now q.userId).2.data,
               lastActivity := w.now } := by
  unfold taskController.handleTaskCallback
  simp only [bind_run, answerCallbackQuery_ok _ _ w hapi, hdata, startsWith_append, if_true,
    split_create_task, Option.getD_some, setState_run, setData_run, askTaskName_sessions]
  exact SessionService.lookup_setState_setData _ _ _ _ _ _

theorem tryCatchReturn_pure {α : Type} (x : M α) (h : M (M α)) (w : World) :
    tryCatchReturn (pure x) h w = x w := by
  simp [tryCatchReturn, tryCatch]

/-- What is left of a `try` block that ends with one message, with a `catch` block
that sends one message: the session store is not touched. -/
theorem sendInTry_sessions (c : Int) (t1 t2 : String) (m1 m2 : Bool) (k1 k2 : Markup)
    (w : World) :
    (tryCatchReturn (sendMessage c t1 m1 k1 >>= fun _ => done)
      (sendMessage c t2 m2 k2 >>= fun _ => done) w).world.sessions = w.sessions :=
  (step_tryCatchReturn quiet_sessions
    (stepRet_bind quiet_sessions (step_sendMessage quiet_sessions _ _ _ _)
      (fun _ => stepRet_done quiet_sessions))
    (stepRet_bind quiet_sessions (step_sendMessage quiet_sessions _ _ _ _)
      (fun _ => stepRet_done quiet_sessions))).keeps w

theorem sendInTry_ok (c : Int) (t1 : String) (m1 : Bool) (k1 : Markup) (h : M (M Unit))
    (w : World) (hapi : w.apiFails w.apiCalls = false) :
    (tryCatchReturn (sendMessage c t1 m1 k1 >>= fun _ => done) h w).world.outbox
      = w.outbox ++ [⟨c, t1, m1, k1⟩] := by
  simp [tryCatchReturn, tryCatch, sendMessage_ok _ _ _ _ w hapi, done]

theorem startTaskCreation_noProject (c : Int) (u : Nat) (w : World) (user : User)
    (hreg : w.users.find? (fun x => x.telegramId = u) = some user)
    (hdb : w.dbFails w.dbCalls = false) (hp : user.projects = []) :
    taskController.startTaskCreation c u w
      = sendMessage c
          (emoji.error ++ " You need to be a member of at least one project to create tasks.")
          false .none { w with dbCalls := w.dbCalls + 1 } := by
  unfold taskController.startTaskCreation
  rw [tryCatchReturn_bind_ok _ _ _ _ _ _ (User_findOne_ok u w hdb)]
  simp only [hreg, hp]
  exact tryCatchReturn_pure _ _ _

theorem startTaskCreation_oneProject (c : Int) (u p : Nat) (w : World) (user : User)
    (hreg : w.users.find? (fun x => x.telegramId = u) = some user)
    (hdb : w.dbFails w.dbCalls = false) (hp : user.projects = [p]) :
    (taskController.startTaskCreation c u w).world.sessions
      = (SessionService.setData
          (SessionService.setState w.sessions w.now u (some TASK_STATES.WAITING_NAME)).1
          w.now u "projectId" (.objectId p)).1 := by
  unfold taskController.startTaskCreation
  rw [tryCatchReturn_bind_ok _ _ _ _ _ _ (User_findOne_ok u w hdb)]
  simp only [hreg, hp]
  rw [tryCatchReturn_bind_ok _ _ _ _ _ _ (setState_run u _ _),
    tryCatchReturn_bind_ok _ _ _ _ _ _ (setData_run u _ _ _)]
  unfold taskController.askTaskName
  rw [sendInTry_sessions]

theorem startTaskCreation_manyProjects (c : Int) (u : Nat) (w : World) (user : User)
    (hreg : w.users.find? (fun x => x.telegramId = u) = some user)
    (hdb : ∀ k, w.dbFails k = false) (hp : 2 ≤ user.projects.length) :
    taskController.startTaskCreation c u w
      = tryCatchReturn
          (sendMessage c
            (emoji.task ++ " *Create New Task*\n\nPlease select a project for this task:") true
            (keyboard.createInlineKeyboard
              ((w.projects.filter (fun p => p.id ∈ user.projects)).map
                  (fun p => [(p.name, "create_task:" ++ renderId p.id)])
                ++ [[(cancelText, "cancel_task_creation")]])) >>= fun _ => done)
          (sendMessage c
            (emoji.error
              ++ " There was an error starting task creation. Please try again later.")
            false .none >>= fun _ => done)
          { w with dbCalls := w.dbCalls + 1 + 1 } := by
  unfold taskController.startTaskCreation
  rw [tryCatchReturn_bind_ok _ _ _ _ _ _ (User_findOne_ok u w (hdb _))]
  simp only [hreg]
  match hu : user.projects, hp with
  | a :: b :: rest, _ =>
    simp only
    rw [tryCatchReturn_bind_ok _ _ _ _ _ _
      (Project_findIn_ok (a :: b :: rest) { w with dbCalls := w.dbCalls + 1 } (hdb _))]

/-- C9: for a registered user and database calls that succeed, `startTaskCreation`
with no project leaves the session store untouched and sends the error; with
one project it sets the state `waiting_task_name` and stores that project id
under `projectId`; with two or more it leaves the session store untouched and
offers one `create_task:<id>` button per project plus Cancel; and handling such
a callback sets the state `waiting_task_name` with that id under `projectId`. -/
theorem C9_task_creation_by_membership (w : World) (chatId : Int) (userId : Nat) (user : User)
    (hreg : w.users.find? (fun x => x.telegramId = userId) = some user)
    (hdb : ∀ k, w.dbFails k = false) :
    (user.projects = [] →
        (taskController.startTaskCreation chatId userId w).world.sessions = w.sessions
          ∧ (w.apiFails w.apiCalls = false →
              (taskController.startTaskCreation chatId userId w).world.outbox
                = w.outbox ++ [⟨chatId,
                    emoji.error
                      ++ " You need to be a member of at least one project to create tasks.",
                    false, .none⟩]))
      ∧ (∀ p, user.projects = [p] →
          lookupKey userId (taskController.startTaskCreation chatId userId w).world.sessions
            = some { state := some TASK_STATES.WAITING_NAME,
                     data := upsert "projectId" (.objectId p)
                       (SessionService.getSession w.sessions w.now userId).2.data,
                     lastActivity := w.now })
      ∧ (2 ≤ user.projects.length →
          (taskController.startTaskCreation chatId userId w).world.sessions = w.sessions
            ∧ (w.apiFails w.apiCalls = false →
                (taskController.startTaskCreation chatId userId w).world.outbox
                  = w.outbox ++ [⟨chatId,
                      emoji.task
                        ++ " *Create New Task*\n\nPlease select a project for this task:",
                      true,
                      keyboard.createInlineKeyboard
                        ((w.projects.filter (fun p => p.id ∈ user.projects)).map
                            (fun p => [(p.name, "create_task:" ++ renderId p.id)])
                          ++ [[(cancelText, "cancel_task_creation")]])⟩]))
      ∧ (∀ (q : CallbackQuery) (p : Nat), q.data = "create_task:" ++ renderId p →
          w.apiFails w.apiCalls = false →
          lookupKey q.userId (taskController.handleTaskCallback q w).world.sessions
            = some { state := some TASK_STATES.WAITING_NAME,
                     data := upsert "projectId" (.str (renderId p))
                       (SessionService.getSession w.sessions w.now q.userId).2.data,
                     lastActivity := w.now }) := by
  refine ⟨?_, ?_, ?_, ?_⟩
  · intro hp
    rw [startTaskCreation_noProject chatId userId w user hreg (hdb _) hp]
    refine ⟨sendMessage_sessions _ _ _ _ _, fun hapi => ?_⟩
    rw [sendMessage_ok _ _ _ _ { w with dbCalls := w.dbCalls + 1 } hapi]
    rfl
  · intro p hp
    rw [startTaskCreation_oneProject chatId userId p w user hreg (hdb _) hp]
    exact SessionService.lookup_setState_setData _ _ _ _ _ _
  · intro hp
    rw [startTaskCreation_manyProjects chatId userId w user hreg hdb hp]
    refine ⟨sendInTry_sessions _ _ _ _ _ _ _ _, fun hapi => ?_⟩
    exact sendInTry_ok _ _ _ _ _ { w with dbCalls := w.dbCalls + 1 + 1 } hapi
  · intro q p hdata hapi
    exact handleTaskCallback_create q p w hdata hapi

/-- C9, an instance: a member of two projects is offered two buttons and keeps an
empty session store. -/
theorem C9_task_creation_witness :
    (taskController.startTaskCreation 7 7
        (quietWorld [] [sampleUser [50, 51]]
          [sampleProject 50 "Alpha", sampleProject 51 "Beta"])).world.sessions = []
      ∧ (taskController.startTaskCreation 7 7
        (quietWorld [] [sampleUser [50, 51]]
          [sampleProject 50 "Alpha", sampleProject 51 "Beta"])).world.outbox
        = [⟨7, emoji.task ++ " *Create New Task*\n\nPlease select a project for this task:",
            true,
            keyboard.createInlineKeyboard
              [[("Alpha", "create_task:" ++ renderId 50)],
               [("Beta", "create_task:" ++ renderId 51)],
               [(cancelText, "cancel_task_creation")]]⟩] :=
  ⟨((C9_task_creation_by_membership
      (quietWorld [] [sampleUser [50, 51]] [sampleProject 50 "Alpha", sampleProject 51 "Beta"])
      7 7 (sampleUser [50, 51]) rfl (fun _ => rfl)).2.2.1 (by decide)).1,
   ((C9_task_creation_by_membership
      (quietWorld [] [sampleUser [50, 51]] [sampleProject 50 "Alpha", sampleProject 51 "Beta"])
      7 7 (sampleUser [50, 51]) rfl (fun _ => rfl)).2.2.1 (by decide)).2 rfl⟩

/-! ## Commands -/

theorem world_bind_same {α β γ : Type} (π : World → γ) (m : M α) (f : α → M β)
    (hf : ∀ a, Step (Same π) (f a)) (w : World) :
    π ((m >>= f) w).world = π (m w).world := by
  simp only [bind_run]
  cases m w with
  | ok a w1 => exact (hf a).keeps w1
  | thrown w1 => rfl

theorem step_runRet {α : Type} {R : World → World → Prop} (hq : Quiet R) {h : M (M α)}
    (hh : StepRet R h) : Step R (h >>= fun rest => rest) := by
  constructor
  intro w
  have h1 := hh.block.keeps w
  cases hw : h w with
  | ok rest w1 =>
    rw [hw] at h1
    simp only [bind_run, hw]
    exact hq.trans _ _ _ h1 ((hh.rest w rest w1 hw).keeps w1)
  | thrown w1 =>
    rw [hw] at h1
    simpa [hw] using h1

theorem tryCatchReturn_bind_thrown {α β : Type} (m : M α) (f : α → M (M β)) (h : M (M β))
    (w w1 : World) (hm : m w = .thrown w1) :
    tryCatchReturn (m >>= f) h w = (h >>= fun rest => rest) w1 := by
  simp [tryCatchReturn, tryCatch, hm]

theorem sendMessage_cases (c : Int) (t : String) (m : Bool) (k : Markup) (w : World) :
    (∃ a o, sendMessage c t m k w = .ok () { w with apiCalls := a, outbox := o })
      ∨ (∃ a, sendMessage c t m k w = .thrown { w with apiCalls := a }) := by
  by_cases h : w.apiFails w.apiCalls = true
  · exact Or.inr ⟨w.apiCalls + 1, by simp [sendMessage, apiCall, h]⟩
  · exact Or.inl ⟨w.apiCalls + 1, w.outbox ++ [⟨c, t, m, k⟩], by
      simp [sendMessage, apiCall, modifyWorld, h]⟩

theorem User_findOne_cases (t : Nat) (w : World) :
    User.findOne t w
        = .ok (w.users.find? (fun u => u.telegramId = t)) { w with dbCalls := w.dbCalls + 1 }
      ∨ User.findOne t w = .thrown { w with dbCalls := w.dbCalls + 1 } := by
  by_cases h : w.dbFails w.dbCalls = true
  · exact Or.inr (by simp [User.findOne, dbCall, h])
  · exact Or.inl (User_findOne_ok t w (by simpa using h))

/-- A `catch` block that sends one message does not touch the session store. -/
theorem catchSend_sessions (c : Int) (t : String) (m : Bool) (k : Markup) (w : World) :
    (((sendMessage c t m k >>= fun _ => done) >>= fun rest => rest) w).world.sessions
      = w.sessions :=
  (step_runRet quiet_sessions
    (stepRet_bind quiet_sessions (step_sendMessage quiet_sessions c t m k)
      (fun _ => stepRet_done quiet_sessions))).keeps w

theorem registerUser_registered (c : Int) (u : Nat) (name : Option String) (w : World)
    (user : User) (hreg : w.users.find? (fun x => x.telegramId = u) = some user) :
    (userController.registerUser c u name w).world.sessions = w.sessions := by
  unfold userController.registerUser
  rcases User_findOne_cases u w with h | h
  · rw [tryCatchReturn_bind_ok _ _ _ _ _ _ h]
    simp only [hreg]
    rw [tryCatchReturn_pure]
    exact sendMessage_sessions _ _ _ _ _
  · rw [tryCatchReturn_bind_thrown _ _ _ _ _ h]
    exact catchSend_sessions _ _ _ _ _

theorem registerUser_new (c : Int) (u : Nat) (name : Option String) (w : World)
    (hnew : w.users.find? (fun x => x.telegramId = u) = none)
    (hdb : w.dbFails w.dbCalls = false) :
    (userController.registerUser c u name w).world.sessions
      = (SessionService.setState w.sessions w.now u (some USER_STATES.WAITING_NAME)).1 := by
  unfold userController.registerUser
  rw [tryCatchReturn_bind_ok _ _ _ _ _ _ (User_findOne_ok u w hdb)]
  simp only [hnew]
  rw [tryCatchReturn_bind_ok _ _ _ _ _ _ (setState_run u _ _), sendInTry_sessions]

theorem startJoinProject_unregistered (c : Int) (u : Nat) (w : World)
    (hnew : w.users.find? (fun x => x.telegramId = u) = none) :
    (userController.startJoinProject c u w).world.sessions = w.sessions := by
  unfold userController.startJoinProject
  rcases User_findOne_cases u w with h | h
  · rw [tryCatchReturn_bind_ok _ _ _ _ _ _ h]
    simp only [hnew]
    rw [tryCatchReturn_pure]
    exact sendMessage_sessions _ _ _ _ _
  · rw [tryCatchReturn_bind_thrown _ _ _ _ _ h]
    exact catchSend_sessions _ _ _ _ _

theorem startJoinProject_registered (c : Int) (u : Nat) (w : World) (user : User)
    (hreg : w.users.find? (fun x => x.telegramId = u) = some user)
    (hdb : w.dbFails w.dbCalls = false) :
    (userController.startJoinProject c u w).world.sessions
      = (SessionService.setState w.sessions w.now u
          (some USER_STATES.WAITING_JOIN_PROJECT)).1 := by
  unfold userController.startJoinProject
  rw [tryCatchReturn_bind_ok _ _ _ _ _ _ (User_findOne_ok u w hdb)]
  simp only [hreg]
  rw [tryCatchReturn_bind_ok _ _ _ _ _ _ (setState_run u _ _), sendInTry_sessions]

theorem showProjectsMenu_sessions (c : Int) (u : Nat) (w : World) :
    (projectController.showProjectsMenu c u w).world.sessions
      = (SessionService.setState w.sessions w.now u none).1 := by
  have hq := quiet_sessions
  unfold projectController.showProjectsMenu
  refine (world_bind_same (fun w => w.sessions) _ _ ?_ w).trans rfl
  repeat (first
    | with_reducible exact step_pure hq _
    | with_reducible exact step_sendMessage hq _ _ _ _
    | with_reducible exact step_User_findOne hq _
    | with_reducible exact step_Project_findIn hq _
    | with_reducible apply step_bind hq
    | intro _
    | split
    | dsimp only)

theorem showTasksMenu_sessions (c : Int) (u : Nat) (w : World) :
    (taskController.showTasksMenu c u w).world.sessions
      = (SessionService.setState w.sessions w.now u none).1 := by
  have hq := quiet_sessions
  unfold taskController.showTasksMenu
  refine (world_bind_same (fun w => w.sessions) _ _ ?_ w).trans rfl
  repeat (first
    | with_reducible exact step_pure hq _
    | with_reducible exact step_sendMessage hq _ _ _ _
    | with_reducible exact step_User_findOne hq _
    | with_reducible apply step_bind hq
    | intro _
    | split
    | dsimp only)

theorem onStart_registered (msg : Message) (w : World) (user : User)
    (hreg : w.users.find? (fun x => x.telegramId = msg.userId) = some user) :
    (onCommand .start msg w).world.sessions = w.sessions := by
  simp only [onCommand, bind_run]
  rcases sendMessage_cases msg.chatId
      (emoji.info ++ " *Welcome to Task Manager Bot!*\n\n"
        ++ "This bot helps you manage projects and tasks with your team.")
      true keyboard.mainMenuKeyboard w with ⟨a, o, h⟩ | ⟨a, h⟩
  · rw [h]
    exact registerUser_registered msg.chatId msg.userId msg.username
      { w with apiCalls := a, outbox := o } user hreg
  · rw [h]
    rfl

theorem onStart_new (msg : Message) (w : World)
    (hnew : w.users.find? (fun x => x.telegramId = msg.userId) = none)
    (hapi : w.apiFails w.apiCalls = false) (hdb : w.dbFails w.dbCalls = false) :
    (onCommand .start msg w).world.sessions
      = (SessionService.setState w.sessions w.now msg.userId
          (some USER_STATES.WAITING_NAME)).1 := by
  simp only [onCommand, bind_run, sendMessage_ok _ _ _ _ w hapi]
  exact registerUser_new msg.chatId msg.userId msg.username
    { w with apiCalls := w.apiCalls + 1, outbox := _ } hnew hdb

/-- C10, as amended: `/help`, `/today` and `/profile` leave the session store
untouched; `/projects` and `/tasks` reset the state of the sender to null and keep
the data; `/start` leaves the store untouched for a registered user and sets
`waiting_user_name` for a new one; `/join` leaves the store untouched for an
unregistered user and sets `waiting_join_project` for a registered one (the
state is set when the calls before it succeed). -/
theorem C10_commands_and_the_session (w : World) (msg : Message) :
    (onCommand .help msg w).world.sessions = w.sessions
      ∧ (onCommand .today msg w).world.sessions = w.sessions
      ∧ (onCommand .profile msg w).world.sessions = w.sessions
      ∧ lookupKey msg.userId (onCommand .projects msg w).world.sessions
          = some { (SessionService.getSession w.sessions w.now msg.userId).2 with
              state := none }
      ∧ lookupKey msg.userId (onCommand .tasks msg w).world.sessions
          = some { (SessionService.getSession w.sessions w.now msg.userId).2 with
              state := none }
      ∧ (∀ user, w.users.find? (fun x => x.telegramId = msg.userId) = some user →
          (onCommand .start msg w).world.sessions = w.sessions)
      ∧ (w.users.find? (fun x => x.telegramId = msg.userId) = none →
          w.apiFails w.apiCalls = false → w.dbFails w.dbCalls = false →
          lookupKey msg.userId (onCommand .start msg w).world.sessions
            = some { (SessionService.getSession w.sessions w.now msg.userId).2 with
                state := some USER_STATES.WAITING_NAME })
      ∧ (w.users.find? (fun x => x.telegramId = msg.userId) = none →
          (onCommand .join msg w).world.sessions = w.sessions)
      ∧ (∀ user, w.users.find? (fun x => x.telegramId = msg.userId) = some user →
          w.dbFails w.dbCalls = false →
          lookupKey msg.userId (onCommand .join msg w).world.sessions
            = some { (SessionService.getSession w.sessions w.now msg.userId).2 with
                state := some USER_STATES.WAITING_JOIN_PROJECT }) := by
  refine ⟨?_, ?_, ?_, ?_, ?_, ?_, ?_, ?_, ?_⟩
  · exact sendMessage_sessions _ _ _ _ _
  · exact (step_showTodayTasks quiet_sessions msg.chatId msg.userId).keeps w
  · exact (step_showUserProfile quiet_sessions msg.chatId msg.userId).keeps w
  · show lookupKey msg.userId
      (projectController.showProjectsMenu msg.chatId msg.userId w).world.sessions = _
    rw [showProjectsMenu_sessions, SessionService.lookup_setState]
  · show lookupKey msg.userId
      (taskController.showTasksMenu msg.chatId msg.userId w).world.sessions = _
    rw [showTasksMenu_sessions, SessionService.lookup_setState]
  · intro user hreg
    exact onStart_registered msg w user hreg
  · intro hnew hapi hdb
    rw [onStart_new msg w hnew hapi hdb, SessionService.lookup_setState]
  · intro hnew
    exact startJoinProject_unregistered msg.chatId msg.userId w hnew
  · intro user hreg hdb
    show lookupKey msg.userId
      (userController.startJoinProject msg.chatId msg.userId w).world.sessions = _
    rw [startJoinProject_registered msg.chatId msg.userId w user hreg hdb,
      SessionService.lookup_setState]

set_option maxRecDepth 100000 in
/-- C10, as stated, fails: `/projects` sent in the middle of the registration turns
the state `waiting_user_surname` into null, and `/join` sent by a registered user
in the middle of a project creation replaces the state. -/
theorem C10_projects_command_resets_state :
    lookupKey 7 (quietWorld [(7, sessionIn USER_STATES.WAITING_SURNAME
        [("name", .str "Ada")])] [] []).sessions
      = some { state := some USER_STATES.WAITING_SURNAME, data := [("name", .str "Ada")],
               lastActivity := 0 }
    ∧ lookupKey 7 (onCommand .projects (sampleMessage "/projects")
        (quietWorld [(7, sessionIn USER_STATES.WAITING_SURNAME
          [("name", .str "Ada")])] [] [])).world.sessions
      = some { state := none, data := [("name", .str "Ada")], lastActivity := 1000 }
    ∧ lookupKey 7 (onCommand .join (sampleMessage "/join")
        (quietWorld [(7, sessionIn PROJECT_STATES.WAITING_DESCRIPTION
          [("projectName", .str "Alpha")])] [sampleUser []] [])).world.sessions
      = some { state := some USER_STATES.WAITING_JOIN_PROJECT,
               data := [("projectName", .str "Alpha")], lastActivity := 1000 } := by
  decide

/-- C3, an instance: the Tasks label typed at the registration-name step goes to
`handleNameInput`. -/
theorem C3_state_match_witness :
    onMessage (sampleMessage (emoji.tasks ++ " Tasks"))
        (quietWorld [(7, sessionIn USER_STATES.WAITING_NAME [])] [] [])
      = dispatch .handleNameInput 7 7 (emoji.tasks ++ " Tasks") (some "ada")
          { quietWorld [(7, sessionIn USER_STATES.WAITING_NAME [])] [] [] with
            sessions := (SessionService.getSession
              [(7, sessionIn USER_STATES.WAITING_NAME [])] 1000 7).1 } :=
  (C3_state_match_wins (quietWorld [(7, sessionIn USER_STATES.WAITING_NAME [])] [] [])
    (sampleMessage (emoji.tasks ++ " Tasks")) (emoji.tasks ++ " Tasks")
    (sessionIn USER_STATES.WAITING_NAME []) USER_STATES.WAITING_NAME .handleNameInput
    (by decide) (by decide) rfl (by decide) rfl).2.2

/-- C4, an instance: `2024-02-30` is not a valid date and leaves the session of the
sender untouched. -/
theorem C4_invalid_due_date_witness :
    isValidDate "2024-02-30" = false
      ∧ lookupKey 7 (taskController.handleTaskDueDateInput 7 7 "2024-02-30"
          (quietWorld [(7, sessionIn TASK_STATES.WAITING_DUE_DATE
            [("projectId", .objectId 50), ("taskName", .str "Fix")])] [] [])).world.sessions
        = some (sessionIn TASK_STATES.WAITING_DUE_DATE
            [("projectId", .objectId 50), ("taskName", .str "Fix")]) :=
  ⟨by decide,
   (C4_invalid_due_date_retries
    (quietWorld [(7, sessionIn TASK_STATES.WAITING_DUE_DATE
      [("projectId", .objectId 50), ("taskName", .str "Fix")])] [] [])
    7 7 "2024-02-30"
    (sessionIn TASK_STATES.WAITING_DUE_DATE
      [("projectId", .objectId 50), ("taskName", .str "Fix")])
    (by decide) rfl (by decide) (by decide) (by decide)).2.1⟩

/-! ## The session service: writes -/

theorem upsert_keys {κ ν : Type} [DecidableEq κ] (k : κ) (v x : ν) (l : List (κ × ν))
    (h : lookupKey k l = some x) : (upsert k v l).map (fun e => e.1) = l.map (fun e => e.1) := by
  induction l with
  | nil => simp [lookupKey] at h
  | cons hd tl ih =>
    obtain ⟨a, b⟩ := hd
    by_cases hk : a = k
    · simp [upsert, hk]
    · simp only [lookupKey, hk, if_false] at h
      simp [upsert, hk, ih h]

/-- C18: after `setState(u, s)` the session stored for `u` is the returned one, its
state is `s` and its data are the data it had before, empty when the session
did not exist; a second `setState(u, s)`, at any later time, yields the same
state and data. -/
theorem C18_setState_overwrites_state_only (sessions : Store) (now u : Nat)
    (s : Option String) :
    lookupKey u (SessionService.setState sessions now u s).1
        = some (SessionService.setState sessions now u s).2
      ∧ (SessionService.setState sessions now u s).2.state = s
      ∧ (SessionService.setState sessions now u s).2.data
          = (match lookupKey u sessions with
              | some x => x.data
              | none => [])
      ∧ ∀ later : Nat,
          lookupKey u
              (SessionService.setState (SessionService.setState sessions now u s).1 later u s).1
            = some (SessionService.setState
                (SessionService.setState sessions now u s).1 later u s).2
          ∧ (SessionService.setState (SessionService.setState sessions now u s).1 later u s).2.state
              = (SessionService.setState sessions now u s).2.state
          ∧ (SessionService.setState (SessionService.setState sessions now u s).1 later u s).2.data
              = (SessionService.setState sessions now u s).2.data := by
  have h1 := SessionService.lookup_setState sessions now u s
  have hd : (SessionService.setState sessions now u s).2.data
      = (match lookupKey u sessions with
          | some x => x.data
          | none => []) := by
    cases h : lookupKey u sessions with
    | none => simp [SessionService.setState, SessionService.getSession_of_none h]
    | some x => simp [SessionService.setState, SessionService.getSession_of_some h]
  refine ⟨by simp [SessionService.setState, lookupKey_upsert_same], rfl, hd, fun later => ?_⟩
  refine ⟨by simp [SessionService.setState, lookupKey_upsert_same], rfl, ?_⟩
  show (SessionService.getSession (SessionService.setState sessions now u s).1 later u).2.data
    = _
  rw [SessionService.getSession_of_some h1]
  rfl

/-- C19: after `setData(u, k, v)` the session stored for `u` is the returned one
and its data hold `v` under `k`; when the session existed, the state and the
value of every other key are unchanged; when it did not, the state is null and
no other key is set. -/
theorem C19_setData_upserts_one_key (sessions : Store) (now u : Nat) (k : String)
    (v : Value) :
    lookupKey u (SessionService.setData sessions now u k v).1
        = some (SessionService.setData sessions now u k v).2
      ∧ lookupKey k (SessionService.setData sessions now u k v).2.data = some v
      ∧ (∀ x, lookupKey u sessions = some x →
          (SessionService.setData sessions now u k v).2.state = x.state
            ∧ ∀ j, j ≠ k →
                lookupKey j (SessionService.setData sessions now u k v).2.data
                  = lookupKey j x.data)
      ∧ (lookupKey u sessions = none →
          (SessionService.setData sessions now u k v).2.state = none
            ∧ ∀ j, j ≠ k →
                lookupKey j (SessionService.setData sessions now u k v).2.data = none) := by
  refine ⟨by simp [SessionService.setData, lookupKey_upsert_same],
    by simp [SessionService.setData, lookupKey_upsert_same], ?_, ?_⟩
  · intro x hx
    refine ⟨by simp [SessionService.setData, SessionService.getSession_of_some hx], ?_⟩
    intro j hj
    simp [SessionService.setData, SessionService.getSession_of_some hx,
      lookupKey_upsert_ne k j v _ hj]
  · intro hx
    refine ⟨by simp [SessionService.setData, SessionService.getSession_of_none hx], ?_⟩
    intro j hj
    simp [SessionService.setData, SessionService.getSession_of_none hx,
      lookupKey_upsert_ne k j v _ hj, lookupKey]

/-- C20: for a user with a session, `clearSession(u)` leaves the entry of `u` in
the store, holding `{state: null, data: {}}` with the current time, and the
store keeps the same keys in the same order. -/
theorem C20_clearSession_resets_in_place (sessions : Store) (now u : Nat) (x : Session)
    (h : lookupKey u sessions = some x) :
    lookupKey u (SessionService.clearSession sessions now u)
        = some { state := none, data := [], lastActivity := now }
      ∧ (SessionService.clearSession sessions now u).map (fun e => e.1)
          = sessions.map (fun e => e.1) := by
  refine ⟨SessionService.lookup_clearSession h, ?_⟩
  simp only [SessionService.clearSession, h]
  exact upsert_keys u _ x sessions h

/-- C20, an instance: clearing the session of user 7 in a store of two users. -/
theorem C20_clearSession_witness :
    lookupKey 7
        (SessionService.clearSession
          [(3, sessionIn USER_STATES.WAITING_ROLE []),
           (7, sessionIn USER_STATES.WAITING_SURNAME [("name", .str "Ada")])] 1000 7)
        = some { state := none, data := [], lastActivity := 1000 }
      ∧ (SessionService.clearSession
          [(3, sessionIn USER_STATES.WAITING_ROLE []),
           (7, sessionIn USER_STATES.WAITING_SURNAME [("name", .str "Ada")])] 1000 7).map
            (fun e => e.1)
          = [3, 7] :=
  C20_clearSession_resets_in_place
    [(3, sessionIn USER_STATES.WAITING_ROLE []),
     (7, sessionIn USER_STATES.WAITING_SURNAME [("name", .str "Ada")])] 1000 7
    (sessionIn USER_STATES.WAITING_SURNAME [("name", .str "Ada")]) (by decide)

/-! ## The notification service: the first fire time -/

/-- C14: the first fire time is the day of `now` at `hour:minute:00` when that is
after `now`, and otherwise (equality included) the same clock time on the next
day; it is always after `now`, so the delay of the timer is positive, and the
period of the repeating timer is one day.  Called with `(9, 0)` at 10:00 it is
09:00 of the next day, called at 08:00 it is 09:00 of the same day. -/
theorem C14_first_fire_time (now hour minute : Nat) :
    (now < startOfDay now + hour * 3600000 + minute * 60000 →
        NotificationService.scheduledTime now hour minute
          = startOfDay now + hour * 3600000 + minute * 60000)
      ∧ (startOfDay now + hour * 3600000 + minute * 60000 ≤ now →
          NotificationService.scheduledTime now hour minute
            = startOfDay (now + 86400000) + hour * 3600000 + minute * 60000)
      ∧ now < NotificationService.scheduledTime now hour minute
      ∧ 0 < (NotificationService.scheduleDaily now hour minute).delay
      ∧ now + (NotificationService.scheduleDaily now hour minute).delay
          = NotificationService.scheduledTime now hour minute
      ∧ (NotificationService.scheduleDaily now hour minute).every = 86400000
      ∧ (∀ day : Nat,
          NotificationService.scheduledTime (day * 86400000 + 10 * 3600000) 9 0
              = (day + 1) * 86400000 + 9 * 3600000
            ∧ NotificationService.scheduledTime (day * 86400000 + 8 * 3600000) 9 0
              = day * 86400000 + 9 * 3600000) := by
  unfold NotificationService.scheduleDaily NotificationService.scheduledTime startOfDay
  refine ⟨?_, ?_, ?_, ?_, ?_, ?_, ?_⟩
  · intro h
    simp only
    split <;> omega
  · intro h
    simp only
    split <;> omega
  · simp only
    split <;> omega
  · simp only
    split <;> omega
  · simp only
    split <;> omega
  · rfl
  · intro day
    constructor
    · simp only
      split <;> omega
    · simp only
      split <;> omega

/-! ## The two text channels -/

theorem Command.pattern_data (c : Command) : ∃ rest, c.pattern.data = '/' :: rest := by
  cases c <;> exact ⟨_, rfl⟩

theorem occursIn_of_no_slash (c : Command) (s : String) (h : '/' ∉ s.data) :
    occursIn c.pattern s = false := by
  unfold occursIn
  rw [List.any_eq_false]
  intro t ht
  rw [List.mem_tails] at ht
  obtain ⟨rest, hr⟩ := c.pattern_data
  rw [hr]
  cases t with
  | nil => simp [List.isPrefixOf]
  | cons a t1 =>
    have ha : a ≠ '/' := fun e => h (ht.subset (by simp [e]))
    simp [List.isPrefixOf, Ne.symm ha]

theorem onMessage_of_slash (text : String) (chatId : Int) (userId : Nat)
    (username : Option String) (h : startsWith text "/" = true) :
    onMessage ⟨some text, chatId, userId, username⟩ = pure () := by
  simp [onMessage, h]

theorem startsWith_slash_of_no_slash (text : String) (h : '/' ∉ text.data) :
    startsWith text "/" = false := by
  unfold startsWith
  cases hd : text.data with
  | nil => rfl
  | cons a t =>
    have ha : a ≠ '/' := fun e => h (by simp [hd, e])
    show List.isPrefixOf ['/'] (a :: t) = false
    simp [List.isPrefixOf, Ne.symm ha]

/-- C11, as amended: a text that begins with `/` never reaches the free-text
dispatch, and no command listener runs for it exactly when none of the seven
command words occurs in it; a non-empty text without `/` runs no command
listener and is handed to the free-text dispatch; each of the seven command
texts runs exactly its own listener and is ignored by the `message` listener. -/
theorem C11_channels_of_a_text (text : String) (chatId : Int) (userId : Nat)
    (username : Option String) :
    (startsWith text "/" = true →
        onMessage ⟨some text, chatId, userId, username⟩ = pure ()
          ∧ reachesDispatch text = false
          ∧ (matchedCommands text = [] ↔ ∀ c : Command, occursIn c.pattern text = false))
      ∧ (text ≠ "" → '/' ∉ text.data →
          matchedCommands text = []
            ∧ reachesDispatch text = true
            ∧ onMessage ⟨some text, chatId, userId, username⟩
                = (do
                    let session ← sessionService.getSession userId
                    dispatch (route session.state text) chatId userId text username))
      ∧ (∀ c : Command,
          matchedCommands c.pattern = [c]
            ∧ onMessage ⟨some c.pattern, chatId, userId, username⟩ = pure ()) := by
  refine ⟨?_, ?_, ?_⟩
  · intro h
    refine ⟨onMessage_of_slash text chatId userId username h, by simp [reachesDispatch, h], ?_⟩
    unfold matchedCommands
    rw [List.filter_eq_nil_iff]
    constructor
    · intro hall c
      have := hall c (by cases c <;> simp [commands])
      simpa using this
    · intro hall c _
      simp [hall c]
  · intro hne hslash
    have hs := startsWith_slash_of_no_slash text hslash
    refine ⟨?_, by simp [reachesDispatch, hs, hne], by simp [onMessage, hs, hne]⟩
    unfold matchedCommands
    rw [List.filter_eq_nil_iff]
    intro c _
    simp [occursIn_of_no_slash c text hslash]
  · intro c
    cases c <;> exact ⟨by decide, onMessage_of_slash _ chatId userId username (by decide)⟩

/-- C11, as stated, fails: for the text `/foo` the only listener that runs is the
`message` listener, which returns at its first guard, so neither a command
handler nor the free-text dispatch processes the text. -/
theorem C11_unknown_command_reaches_no_channel :
    listenerRuns ⟨some "/foo", 7, 7, none⟩ = [.message ⟨some "/foo", 7, 7, none⟩]
      ∧ matchedCommands "/foo" = []
      ∧ reachesDispatch "/foo" = false
      ∧ onMessage ⟨some "/foo", 7, 7, none⟩ = pure () :=
  ⟨by decide, by decide, by decide, onMessage_of_slash _ _ _ _ (by decide)⟩

/-- C11, a text outside the amended claim: `see /help` does not begin with `/`, so
the free-text dispatch runs, and the pattern of `/help` occurs in it, so the
help listener runs as well. -/
theorem C11_command_word_inside_a_text :
    listenerRuns ⟨some "see /help", 7, 7, none⟩
        = [.message ⟨some "see /help", 7, 7, none⟩, .command .help ⟨some "see /help", 7, 7, none⟩]
      ∧ reachesDispatch "see /help" = true :=
  ⟨by decide, by decide⟩

/-! ## Acknowledgements

Everything a callback handler does after its first statement leaves the
acknowledgements alone. -/

section calm
variable {α γ : Type} {R : World → World → Prop}

theorem calm_pure (hq : Calm R) (a : α) : Step R (pure a : M α) := ⟨fun w => hq.refl w⟩

theorem calm_raise (hq : Calm R) : Step R (raise : M α) := ⟨fun w => hq.refl w⟩

theorem calm_getWorld (hq : Calm R) : Step R getWorld := ⟨fun w => hq.refl w⟩

theorem calm_bind (hq : Calm R) {m : M α} {f : α → M γ} (hm : Step R m)
    (hf : ∀ a, Step R (f a)) : Step R (m >>= f) := by
  constructor
  intro w
  have h := hm.keeps w
  cases hmw : m w with
  | ok a w1 =>
    rw [hmw] at h
    simp only [bind_run, hmw]
    exact hq.trans _ _ _ h ((hf a).keeps w1)
  | thrown w1 =>
    rw [hmw] at h
    simpa [hmw] using h

theorem calm_tryCatch (hq : Calm R) {body handler : M α} (hb : Step R body)
    (hh : Step R handler) : Step R (tryCatch body handler) := by
  constructor
  intro w
  have h := hb.keeps w
  unfold tryCatch
  cases hmw : body w with
  | ok a w1 =>
    rw [hmw] at h
    simpa using h
  | thrown w1 =>
    rw [hmw] at h
    exact hq.trans _ _ _ h (hh.keeps w1)

theorem calmRet_pure (hq : Calm R) {rest : M α} (h : Step R rest) :
    StepRet R (pure rest : M (M α)) := by
  refine ⟨calm_pure hq _, ?_⟩
  intro w rest1 w1 hw
  simp only [pure_run, Res.ok.injEq] at hw
  rw [← hw.1]
  exact h

theorem calmRet_done (hq : Calm R) : StepRet R done := calmRet_pure hq (calm_pure hq ())

theorem calmRet_raise (hq : Calm R) : StepRet R (raise : M (M α)) := by
  refine ⟨calm_raise hq, ?_⟩
  intro w rest w1 hw
  simp [raise] at hw

theorem calmRet_bind (hq : Calm R) {m : M γ} {f : γ → M (M α)} (hm : Step R m)
    (hf : ∀ a, StepRet R (f a)) : StepRet R (m >>= f) := by
  refine ⟨calm_bind hq hm (fun a => (hf a).block), ?_⟩
  intro w rest w1 hw
  simp only [bind_run] at hw
  cases hmw : m w with
  | ok a w2 =>
    rw [hmw] at hw
    exact (hf a).rest w2 rest w1 hw
  | thrown w2 =>
    rw [hmw] at hw
    simp at hw

theorem calmRet_tryCatch (hq : Calm R) {body handler : M (M α)} (hb : StepRet R body)
    (hh : StepRet R handler) : StepRet R (tryCatch body handler) := by
  refine ⟨calm_tryCatch hq hb.block hh.block, ?_⟩
  intro w rest w1 hw
  unfold tryCatch at hw
  cases hmw : body w with
  | ok a w2 =>
    rw [hmw] at hw
    simp only [Res.ok.injEq] at hw
    rw [← hw.1]
    exact hb.rest w a w2 hmw
  | thrown w2 =>
    rw [hmw] at hw
    exact hh.rest w2 rest w1 hw

theorem calm_tryCatchReturn (hq : Calm R) {body handler : M (M α)} (hb : StepRet R body)
    (hh : StepRet R handler) : Step R (tryCatchReturn body handler) := by
  have h := calmRet_tryCatch hq hb hh
  constructor
  intro w
  unfold tryCatchReturn
  have h1 := h.block.keeps w
  cases hmw : tryCatch body handler w with
  | ok rest w1 =>
    rw [hmw] at h1
    simp only [bind_run, hmw]
    exact hq.trans _ _ _ h1 ((h.rest w rest w1 hmw).keeps w1)
  | thrown w1 =>
    rw [hmw] at h1
    simpa [hmw] using h1

theorem calm_modifyWorld {f : World → World} (h : ∀ w, R w (f w)) :
    Step R (modifyWorld f) := ⟨fun w => h w⟩

theorem calm_dbCall (hq : Calm R) : Step R dbCall := by
  constructor
  intro w
  unfold dbCall
  by_cases hf : w.dbFails w.dbCalls = true
  · simpa [hf] using hq.dbCalls w _
  · simpa [hf] using hq.dbCalls w _

theorem calm_apiCall (hq : Calm R) : Step R apiCall := by
  constructor
  intro w
  unfold apiCall
  by_cases hf : w.apiFails w.apiCalls = true
  · simpa [hf] using hq.apiCalls w _
  · simpa [hf] using hq.apiCalls w _

theorem calm_sendMessage (hq : Calm R) (c : Int) (t : String) (m : Bool) (k : Markup) :
    Step R (sendMessage c t m k) :=
  calm_bind hq (calm_apiCall hq) (fun _ => calm_modifyWorld (fun w => hq.outbox w _))

theorem calm_query (hq : Calm R) (f : World → α) :
    Step R (dbCall >>= fun _ => getWorld >>= fun w => pure (f w)) :=
  calm_bind hq (calm_dbCall hq)
    (fun _ => calm_bind hq (calm_getWorld hq) (fun _ => calm_pure hq _))

theorem calm_User_findOne (hq : Calm R) (t : Nat) : Step R (User.findOne t) :=
  calm_query hq _

theorem calm_User_findNotIn (hq : Calm R) (p : Nat) : Step R (User.findNotIn p) :=
  calm_query hq _

theorem calm_Project_findByObjectId (hq : Calm R) (i : Nat) :
    Step R (Project.findByObjectId i) :=
  calm_query hq _

theorem calm_Project_findById (hq : Calm R) (i : Option String) :
    Step R (Project.findById i) := by
  unfold Project.findById
  split
  · exact calm_bind hq (calm_dbCall hq) (fun _ => calm_pure hq _)
  · split
    · exact calm_raise hq
    · exact calm_Project_findByObjectId hq _

theorem calm_Task_findById (hq : Calm R) (i : Option String) : Step R (Task.findById i) := by
  unfold Task.findById
  split
  · exact calm_bind hq (calm_dbCall hq) (fun _ => calm_pure hq _)
  · split
    · exact calm_raise hq
    · exact calm_query hq _

theorem calm_findUserByNumber (hq : Calm R) (z : Option Int) :
    Step R (userController.findUserByNumber z) := by
  unfold userController.findUserByNumber
  split
  · exact calm_raise hq
  · exact calm_query hq _

theorem calm_getSession (hq : Calm R) (u : Nat) : Step R (sessionService.getSession u) :=
  ⟨fun w => hq.sessions w _⟩

theorem calm_setState (hq : Calm R) (u : Nat) (s : Option String) :
    Step R (sessionService.setState u s) := ⟨fun w => hq.sessions w _⟩

theorem calm_setData (hq : Calm R) (u : Nat) (k : String) (v : Value) :
    Step R (sessionService.setData u k v) := ⟨fun w => hq.sessions w _⟩

theorem calm_clearSession (hq : Calm R) (u : Nat) : Step R (sessionService.clearSession u) :=
  ⟨fun w => hq.sessions w _⟩

theorem calm_User_save (hq : Calm R) (u : User) : Step R (User.save u) :=
  calm_bind hq (calm_dbCall hq) (fun _ => calm_modifyWorld (fun w => hq.users w _ w.nextId))

theorem calm_Task_save (hq : Calm R) (task : Task) : Step R (Task.save task) := by
  unfold Task.save
  split
  · exact calm_bind hq (calm_dbCall hq) (fun _ => calm_modifyWorld (fun w => hq.taskSave w task))
  · exact calm_raise hq

end calm

/-! ### The handlers behind the callback router -/

section calmHandlers
variable {R : World → World → Prop}

theorem calm_resolveJoinRequest (hq : Calm R) (b : Bool) (c : Int) (u : Nat) (o : Option String) (z : Option Int) :
    Step R (userController.resolveJoinRequest b c u o z) := by
  unfold userController.resolveJoinRequest
  repeat (first
    | with_reducible exact calm_pure hq _
    | with_reducible exact calm_raise hq
    | with_reducible exact calmRet_done hq
    | with_reducible exact calmRet_raise hq
    | with_reducible exact calm_getWorld hq
    | with_reducible exact calm_sendMessage hq _ _ _ _
    | with_reducible exact calm_User_findOne hq _
    | with_reducible exact calm_User_findNotIn hq _
    | with_reducible exact calm_Project_findByObjectId hq _
    | with_reducible exact calm_Project_findById hq _
    | with_reducible exact calm_Task_findById hq _
    | with_reducible exact calm_findUserByNumber hq _
    | with_reducible exact calm_getSession hq _
    | with_reducible exact calm_setState hq _ _
    | with_reducible exact calm_setData hq _ _ _
    | with_reducible exact calm_clearSession hq _
    | with_reducible exact calm_User_save hq _
    | with_reducible exact calm_Task_save hq _
    | with_reducible apply calm_tryCatchReturn hq
    | with_reducible apply calm_tryCatch hq
    | with_reducible apply calmRet_pure hq
    | with_reducible apply calmRet_bind hq
    | with_reducible apply calm_bind hq
    | intro _
    | split
    | dsimp only)

theorem calm_startAddMember (hq : Calm R) (c : Int) (u : Nat) (o : Option String) :
    Step R (userController.startAddMember c u o) := by
  unfold userController.startAddMember
  repeat (first
    | with_reducible exact calm_pure hq _
    | with_reducible exact calm_raise hq
    | with_reducible exact calmRet_done hq
    | with_reducible exact calmRet_raise hq
    | with_reducible exact calm_getWorld hq
    | with_reducible exact calm_sendMessage hq _ _ _ _
    | with_reducible exact calm_User_findOne hq _
    | with_reducible exact calm_User_findNotIn hq _
    | with_reducible exact calm_Project_findByObjectId hq _
    | with_reducible exact calm_Project_findById hq _
    | with_reducible exact calm_Task_findById hq _
    | with_reducible exact calm_findUserByNumber hq _
    | with_reducible exact calm_getSession hq _
    | with_reducible exact calm_setState hq _ _
    | with_reducible exact calm_setData hq _ _ _
    | with_reducible exact calm_clearSession hq _
    | with_reducible exact calm_User_save hq _
    | with_reducible exact calm_Task_save hq _
    | with_reducible apply calm_tryCatchReturn hq
    | with_reducible apply calm_tryCatch hq
    | with_reducible apply calmRet_pure hq
    | with_reducible apply calmRet_bind hq
    | with_reducible apply calm_bind hq
    | intro _
    | split
    | dsimp only)

theorem calm_adminStep (hq : Calm R) (c : Int) (u : Nat) (o : Option String) (a : String) (s : String) (p : Project → Outgoing) (f : String) :
    Step R (projectController.adminStep c u o a s p f) := by
  unfold projectController.adminStep
  repeat (first
    | with_reducible exact calm_pure hq _
    | with_reducible exact calm_raise hq
    | with_reducible exact calmRet_done hq
    | with_reducible exact calmRet_raise hq
    | with_reducible exact calm_getWorld hq
    | with_reducible exact calm_sendMessage hq _ _ _ _
    | with_reducible exact calm_User_findOne hq _
    | with_reducible exact calm_User_findNotIn hq _
    | with_reducible exact calm_Project_findByObjectId hq _
    | with_reducible exact calm_Project_findById hq _
    | with_reducible exact calm_Task_findById hq _
    | with_reducible exact calm_findUserByNumber hq _
    | with_reducible exact calm_getSession hq _
    | with_reducible exact calm_setState hq _ _
    | with_reducible exact calm_setData hq _ _ _
    | with_reducible exact calm_clearSession hq _
    | with_reducible exact calm_User_save hq _
    | with_reducible exact calm_Task_save hq _
    | with_reducible apply calm_tryCatchReturn hq
    | with_reducible apply calm_tryCatch hq
    | with_reducible apply calmRet_pure hq
    | with_reducible apply calmRet_bind hq
    | with_reducible apply calm_bind hq
    | intro _
    | split
    | dsimp only)

theorem calm_showTasksMenu (hq : Calm R) (c : Int) (u : Nat) :
    Step R (taskController.showTasksMenu c u) := by
  unfold taskController.showTasksMenu
  repeat (first
    | with_reducible exact calm_pure hq _
    | with_reducible exact calm_raise hq
    | with_reducible exact calmRet_done hq
    | with_reducible exact calmRet_raise hq
    | with_reducible exact calm_getWorld hq
    | with_reducible exact calm_sendMessage hq _ _ _ _
    | with_reducible exact calm_User_findOne hq _
    | with_reducible exact calm_User_findNotIn hq _
    | with_reducible exact calm_Project_findByObjectId hq _
    | with_reducible exact calm_Project_findById hq _
    | with_reducible exact calm_Task_findById hq _
    | with_reducible exact calm_findUserByNumber hq _
    | with_reducible exact calm_getSession hq _
    | with_reducible exact calm_setState hq _ _
    | with_reducible exact calm_setData hq _ _ _
    | with_reducible exact calm_clearSession hq _
    | with_reducible exact calm_User_save hq _
    | with_reducible exact calm_Task_save hq _
    | with_reducible apply calm_tryCatchReturn hq
    | with_reducible apply calm_tryCatch hq
    | with_reducible apply calmRet_pure hq
    | with_reducible apply calmRet_bind hq
    | with_reducible apply calm_bind hq
    | intro _
    | split
    | dsimp only)

theorem calm_showTaskDetails (hq : Calm R) (c : Int) (u : Nat) (o : Option String) :
    Step R (taskController.showTaskDetails c u o) := by
  unfold taskController.showTaskDetails
  repeat (first
    | with_reducible exact calm_pure hq _
    | with_reducible exact calm_raise hq
    | with_reducible exact calmRet_done hq
    | with_reducible exact calmRet_raise hq
    | with_reducible exact calm_getWorld hq
    | with_reducible exact calm_sendMessage hq _ _ _ _
    | with_reducible exact calm_User_findOne hq _
    | with_reducible exact calm_User_findNotIn hq _
    | with_reducible exact calm_Project_findByObjectId hq _
    | with_reducible exact calm_Project_findById hq _
    | with_reducible exact calm_Task_findById hq _
    | with_reducible exact calm_findUserByNumber hq _
    | with_reducible exact calm_getSession hq _
    | with_reducible exact calm_setState hq _ _
    | with_reducible exact calm_setData hq _ _ _
    | with_reducible exact calm_clearSession hq _
    | with_reducible exact calm_User_save hq _
    | with_reducible exact calm_Task_save hq _
    | with_reducible apply calm_tryCatchReturn hq
    | with_reducible apply calm_tryCatch hq
    | with_reducible apply calmRet_pure hq
    | with_reducible apply calmRet_bind hq
    | with_reducible apply calm_bind hq
    | intro _
    | split
    | dsimp only)

theorem calm_updateTaskStatus (hq : Calm R) (c : Int) (u : Nat) (o : Option String) (n : Option String) :
    Step R (taskController.updateTaskStatus c u o n) := by
  unfold taskController.updateTaskStatus
  repeat (first
    | with_reducible exact calm_pure hq _
    | with_reducible exact calm_raise hq
    | with_reducible exact calmRet_done hq
    | with_reducible exact calmRet_raise hq
    | with_reducible exact calm_getWorld hq
    | with_reducible exact calm_sendMessage hq _ _ _ _
    | with_reducible exact calm_User_findOne hq _
    | with_reducible exact calm_User_findNotIn hq _
    | with_reducible exact calm_Project_findByObjectId hq _
    | with_reducible exact calm_Project_findById hq _
    | with_reducible exact calm_Task_findById hq _
    | with_reducible exact calm_findUserByNumber hq _
    | with_reducible exact calm_getSession hq _
    | with_reducible exact calm_setState hq _ _
    | with_reducible exact calm_setData hq _ _ _
    | with_reducible exact calm_clearSession hq _
    | with_reducible exact calm_User_save hq _
    | with_reducible exact calm_Task_save hq _
    | with_reducible exact calm_showTaskDetails hq _ _ _
    | with_reducible apply calm_tryCatchReturn hq
    | with_reducible apply calm_tryCatch hq
    | with_reducible apply calmRet_pure hq
    | with_reducible apply calmRet_bind hq
    | with_reducible apply calm_bind hq
    | intro _
    | split
    | dsimp only)

end calmHandlers

/-! ### One acknowledgement for every callback query -/

theorem calm_answers : Calm (Same (fun w => w.answers)) where
  refl := fun _ => rfl
  trans := fun _ _ _ h1 h2 => Eq.trans h2 h1
  dbCalls := fun _ _ => rfl
  apiCalls := fun _ _ => rfl
  outbox := fun _ _ => rfl
  sessions := fun _ _ => rfl
  users := fun _ _ _ => rfl
  projects := fun _ _ _ => rfl
  taskSave := fun _ _ => rfl

/-- A handler that acknowledges first and then leaves the acknowledgements alone:
when the Bot API rejects the acknowledgement the handler stops there, otherwise
exactly that acknowledgement is recorded. -/
theorem acknowledged_once {rest : M Unit} (hrest : Step (Same (fun w => w.answers)) rest)
    (i : String) (t : Option String) (w : World) :
    (w.apiFails w.apiCalls = true →
        (answerCallbackQuery i t >>= fun _ => rest) w
          = .thrown { w with apiCalls := w.apiCalls + 1 })
      ∧ (w.apiFails w.apiCalls = false →
          ((answerCallbackQuery i t >>= fun _ => rest) w).world.answers
            = w.answers ++ [⟨i, t⟩]) := by
  constructor
  · intro h
    simp [answerCallbackQuery, apiCall, h]
  · intro h
    rw [bind_run, answerCallbackQuery_ok i t w h]
    exact hrest.keeps _

theorem handleProjectCallback_acknowledges (q : CallbackQuery) (w : World) :
    (w.apiFails w.apiCalls = true →
        projectController.handleProjectCallback q w
          = .thrown { w with apiCalls := w.apiCalls + 1 })
      ∧ (w.apiFails w.apiCalls = false →
          (projectController.handleProjectCallback q w).world.answers
            = w.answers ++ [⟨q.id, none⟩]) := by
  have hq := calm_answers
  unfold projectController.handleProjectCallback
  apply acknowledged_once
  unfold projectController.startProjectEdit projectController.confirmProjectDeletion
  repeat (first
    | with_reducible exact calm_pure hq _
    | with_reducible exact calm_adminStep hq _ _ _ _ _ _ _
    | split)

theorem handleUserCallback_acknowledges (q : CallbackQuery) (w : World) :
    (w.apiFails w.apiCalls = true →
        userController.handleUserCallback q w
          = .thrown { w with apiCalls := w.apiCalls + 1 })
      ∧ (w.apiFails w.apiCalls = false →
          (userController.handleUserCallback q w).world.answers
            = w.answers ++ [⟨q.id, none⟩]) := by
  have hq := calm_answers
  unfold userController.handleUserCallback
  apply acknowledged_once
  unfold userController.approveJoinRequest userController.rejectJoinRequest
  repeat (first
    | with_reducible exact calm_pure hq _
    | with_reducible exact calm_resolveJoinRequest hq _ _ _ _ _
    | with_reducible exact calm_startAddMember hq _ _ _
    | split)

theorem handleTaskCallback_acknowledges (q : CallbackQuery) (w : World) :
    (w.apiFails w.apiCalls = true →
        taskController.handleTaskCallback q w
          = .thrown { w with apiCalls := w.apiCalls + 1 })
      ∧ (w.apiFails w.apiCalls = false →
          (taskController.handleTaskCallback q w).world.answers
            = w.answers ++ [⟨q.id, none⟩]) := by
  have hq := calm_answers
  unfold taskController.handleTaskCallback
  apply acknowledged_once
  unfold taskController.askTaskName
  repeat (first
    | with_reducible exact calm_pure hq _
    | with_reducible exact calm_sendMessage hq _ _ _ _
    | with_reducible exact calm_setState hq _ _
    | with_reducible exact calm_setData hq _ _ _
    | with_reducible exact calm_clearSession hq _
    | with_reducible exact calm_showTasksMenu hq _ _
    | with_reducible exact calm_updateTaskStatus hq _ _ _ _
    | with_reducible apply calm_bind hq
    | intro _
    | split)

/-- C12: the first Bot API call of the callback router is the acknowledgement of
the query.  When the API rejects it the listener stops there, having made that
one call; when the API accepts it, the acknowledgements recorded by the run are
exactly that one, whatever the handler behind it does and whatever fails later;
and for a payload outside the three groups the acknowledgement carries the
"not implemented" text and nothing else changes. -/
theorem C12_one_acknowledgement_per_query (q : CallbackQuery) (w : World) :
    (w.apiFails w.apiCalls = true →
        onCallbackQuery q w = .thrown { w with apiCalls := w.apiCalls + 1 })
      ∧ (w.apiFails w.apiCalls = false →
          ∃ text, (onCallbackQuery q w).world.answers = w.answers ++ [⟨q.id, text⟩])
      ∧ (callbackRoute q.data = .notImplemented → w.apiFails w.apiCalls = false →
          onCallbackQuery q w
            = .ok () { w with
                apiCalls := w.apiCalls + 1,
                answers := w.answers
                  ++ [⟨q.id, some "This button is not implemented yet."⟩] }) := by
  unfold onCallbackQuery
  refine ⟨?_, ?_, ?_⟩
  · intro h
    cases callbackRoute q.data with
    | project => exact (handleProjectCallback_acknowledges q w).1 h
    | user => exact (handleUserCallback_acknowledges q w).1 h
    | task => exact (handleTaskCallback_acknowledges q w).1 h
    | notImplemented => simp [answerCallbackQuery, apiCall, h]
  · intro h
    cases callbackRoute q.data with
    | project => exact ⟨none, (handleProjectCallback_acknowledges q w).2 h⟩
    | user => exact ⟨none, (handleUserCallback_acknowledges q w).2 h⟩
    | task => exact ⟨none, (handleTaskCallback_acknowledges q w).2 h⟩
    | notImplemented =>
      refine ⟨some "This button is not implemented yet.", ?_⟩
      show (answerCallbackQuery q.id (some "This button is not implemented yet.") w).world.answers
        = _
      rw [answerCallbackQuery_ok _ _ w h]
      rfl
  · intro hr h
    rw [hr]
    exact answerCallbackQuery_ok _ _ w h

/-! ## Repeated join requests -/

/-- The message that asks for the name of the project to join. -/
theorem startJoinProject_ok (c : Int) (u : Nat) (w : World) (user : User)
    (hreg : w.users.find? (fun x => x.telegramId = u) = some user)
    (hdb : w.dbFails w.dbCalls = false) (hapi : w.apiFails w.apiCalls = false) :
    userController.startJoinProject c u w
      = .ok ()
          { w with
            sessions := (SessionService.setState w.sessions w.now u
              (some USER_STATES.WAITING_JOIN_PROJECT)).1,
            dbCalls := w.dbCalls + 1,
            apiCalls := w.apiCalls + 1,
            outbox := w.outbox ++
              [⟨c, emoji.project
                  ++ " *Join Project*\n\nPlease enter the project name you want to join:",
                true, keyboard.createKeyboard [[cancelText]]⟩] } := by
  simp [userController.startJoinProject, tryCatchReturn, tryCatch, User.findOne, dbCall,
    getWorld, sendMessage, apiCall, modifyWorld, done, hreg, hdb, hapi]

theorem handleJoinProjectInput_pending (c : Int) (u : Nat) (text : String) (w : World)
    (user : User) (project : Project)
    (hreg : w.users.find? (fun x => x.telegramId = u) = some user)
    (hproj : w.projects.find? (fun p => p.name = text) = some project)
    (hcancel : text ≠ cancelText)
    (hmem : project.id ∉ user.projects) (hpend : project.id ∈ user.pendingProjects)
    (hdb : ∀ k, w.dbFails k = false) (hapi : ∀ k, w.apiFails k = false) :
    userController.handleJoinProjectInput c u text w
      = .ok ()
          { w with
            sessions := SessionService.clearSession w.sessions w.now u,
            dbCalls := w.dbCalls + 1 + 1,
            apiCalls := w.apiCalls + 1,
            outbox := w.outbox ++
              [⟨c, emoji.info ++ " You already have a pending request to join this project.",
                false, keyboard.mainMenuKeyboard⟩] } := by
  simp [userController.handleJoinProjectInput, tryCatchReturn, tryCatch, User.findOne,
    Project.findOne, dbCall, getWorld, sendMessage, apiCall, modifyWorld, done, hreg, hproj,
    hcancel, hmem, hpend, hdb, hapi]

theorem handleJoinProjectInput_first (c : Int) (u : Nat) (text : String) (w : World)
    (user : User) (project : Project)
    (hreg : w.users.find? (fun x => x.telegramId = u) = some user)
    (hproj : w.projects.find? (fun p => p.name = text) = some project)
    (hcancel : text ≠ cancelText)
    (hmem : project.id ∉ user.projects) (hpend : project.id ∉ user.pendingProjects)
    (hdb : ∀ k, w.dbFails k = false) (hapi : ∀ k, w.apiFails k = false) :
    userController.handleJoinProjectInput c u text w
      = .ok ()
          { w with
            sessions := SessionService.clearSession w.sessions w.now u,
            users := w.users.map (fun x =>
              if x.id = user.id then
                { user with pendingProjects := user.pendingProjects ++ [project.id] }
              else x),
            dbCalls := w.dbCalls + 1 + 1 + 1,
            apiCalls := w.apiCalls + 1 + 1,
            outbox := w.outbox ++ [joinPrompt project user] ++
              [⟨c, emoji.success ++ " Your request to join \"" ++ project.name
                  ++ "\" has been sent to the project admin. "
                  ++ "You will be notified when they respond.",
                false, keyboard.mainMenuKeyboard⟩] } := by
  simp [userController.handleJoinProjectInput, tryCatchReturn, tryCatch, User.findOne,
    Project.findOne, User.save, dbCall, getWorld, sendMessage, apiCall, modifyWorld, done, hreg,
    hproj, hcancel, hmem, hpend, hdb, hapi, joinPrompt]

theorem runAll_append (a b : List Input) (w : World) :
    runAll (a ++ b) w = runAll b (runAll a w) := by
  simp [runAll, List.foldl_append]

theorem find_after_save (users : List User) (u : Nat) (user saved : User)
    (hreg : users.find? (fun x => x.telegramId = u) = some user)
    (ht : saved.telegramId = u) :
    (users.map (fun x => if x.id = user.id then saved else x)).find?
        (fun x => x.telegramId = u) = some saved := by
  induction users with
  | nil => simp at hreg
  | cons x xs ih =>
    by_cases hx : x.telegramId = u
    · have hux : x = user := by simpa [List.find?, hx] using hreg
      subst hux
      simp [List.find?, ht]
    · have hrest : xs.find? (fun x => x.telegramId = u) = some user := by
        simpa [List.find?, hx] using hreg
      by_cases hid : x.id = user.id
      · simp [List.find?, hid, ht]
      · simp [List.find?, hid, hx, ih hrest]

/-- One join request of a registered user, run by the two listeners. -/
theorem joinRequest_run (c : Int) (u : Nat) (username : Option String) (text : String)
    (w : World) (user : User)
    (hreg : w.users.find? (fun x => x.telegramId = u) = some user)
    (hslash : startsWith text "/" = false) (hne : text ≠ "")
    (hcmd : matchedCommands text = [])
    (hdb : ∀ k, w.dbFails k = false) (hapi : ∀ k, w.apiFails k = false) :
    runAll (joinRequest c u username text) w
      = (userController.handleJoinProjectInput c u text
          { w with
            sessions := (SessionService.getSession
              (SessionService.setState w.sessions w.now u
                (some USER_STATES.WAITING_JOIN_PROJECT)).1 w.now u).1,
            dbCalls := w.dbCalls + 1,
            apiCalls := w.apiCalls + 1,
            outbox := w.outbox ++
              [⟨c, emoji.project
                  ++ " *Join Project*\n\nPlease enter the project name you want to join:",
                true, keyboard.createKeyboard [[cancelText]]⟩] }).world := by
  have hstate : (SessionService.getSession
      (SessionService.setState w.sessions w.now u
        (some USER_STATES.WAITING_JOIN_PROJECT)).1 w.now u).2.state
      = some USER_STATES.WAITING_JOIN_PROJECT := by
    rw [SessionService.getSession_of_some (SessionService.lookup_setState _ _ _ _)]
  have hroute := (route_flowStep text
    (show (USER_STATES.WAITING_JOIN_PROJECT, Route.handleJoinProjectInput) ∈ flowSteps by
      simp [flowSteps])).1
  have hjoin : matchedCommands "/join" = [.join] := by decide
  have hruns : joinRequest c u username text
      = [.message ⟨some "/join", c, u, username⟩, .command .join ⟨some "/join", c, u, username⟩,
         .message ⟨some text, c, u, username⟩] := by
    simp [joinRequest, listenerRuns, hcmd, hjoin]
  rw [hruns]
  show (onMessage ⟨some text, c, u, username⟩
    (userController.startJoinProject c u
      (onMessage ⟨some "/join", c, u, username⟩ w).world).world).world = _
  rw [onMessage_of_slash "/join" c u username (by decide)]
  simp only [pure_run, world_ok]
  rw [startJoinProject_ok c u w user hreg (hdb _) (hapi _), world_ok,
    onMessage_eq _ text rfl hslash hne]
  simp only [hstate, hroute, dispatch]

theorem joinRequests_succ (n : Nat) (c : Int) (u : Nat) (username : Option String)
    (text : String) (w : World) :
    runAll (joinRequests (n + 1) c u username text) w
      = runAll (joinRequest c u username text) (runAll (joinRequests n c u username text) w) := by
  unfold joinRequests
  rw [List.replicate_succ', List.flatten_append, runAll_append]
  simp

theorem joinRequest_before_input (c : Int) (u : Nat) (username : Option String)
    (text : String) (w : World) (user : User)
    (hreg : w.users.find? (fun x => x.telegramId = u) = some user)
    (hslash : startsWith text "/" = false) (hne : text ≠ "")
    (hcmd : matchedCommands text = [])
    (hdb : ∀ k, w.dbFails k = false) (hapi : ∀ k, w.apiFails k = false) :
    ∃ w2, runAll (joinRequest c u username text) w
          = (userController.handleJoinProjectInput c u text w2).world
        ∧ w2.users = w.users ∧ w2.projects = w.projects ∧ w2.dbFails = w.dbFails
        ∧ w2.apiFails = w.apiFails
        ∧ w2.outbox = w.outbox ++
            [⟨c, emoji.project
                ++ " *Join Project*\n\nPlease enter the project name you want to join:",
              true, keyboard.createKeyboard [[cancelText]]⟩] :=
  ⟨_, joinRequest_run c u username text w user hreg hslash hne hcmd hdb hapi,
    rfl, rfl, rfl, rfl, rfl⟩

theorem joinRequests_run (n : Nat) (c : Int) (u : Nat) (username : Option String)
    (text : String) (w : World) (user : User) (project : Project)
    (hreg : w.users.find? (fun x => x.telegramId = u) = some user)
    (hproj : w.projects.find? (fun p => p.name = text) = some project)
    (hcancel : text ≠ cancelText) (hslash : startsWith text "/" = false) (hne : text ≠ "")
    (hcmd : matchedCommands text = [])
    (hmem : project.id ∉ user.projects) (hpend : project.id ∉ user.pendingProjects)
    (hdb : ∀ k, w.dbFails k = false) (hapi : ∀ k, w.apiFails k = false) :
    (runAll (joinRequests (n + 1) c u username text) w).users
        = w.users.map (fun x =>
            if x.id = user.id then
              { user with pendingProjects := user.pendingProjects ++ [project.id] }
            else x)
      ∧ (runAll (joinRequests (n + 1) c u username text) w).projects = w.projects
      ∧ (runAll (joinRequests (n + 1) c u username text) w).dbFails = w.dbFails
      ∧ (runAll (joinRequests (n + 1) c u username text) w).apiFails = w.apiFails
      ∧ (runAll (joinRequests (n + 1) c u username text) w).outbox
          = w.outbox ++ firstReply c project user
              ++ (List.replicate n (pendingReply c)).flatten := by
  induction n with
  | zero =>
    rw [joinRequests_succ]
    have h0 : runAll (joinRequests 0 c u username text) w = w := rfl
    rw [h0]
    obtain ⟨w2, hrun, h2u, h2p, h2d, h2a, h2o⟩ :=
      joinRequest_before_input c u username text w user hreg hslash hne hcmd hdb hapi
    rw [hrun, handleJoinProjectInput_first c u text w2 user project (by rw [h2u]; exact hreg)
      (by rw [h2p]; exact hproj) hcancel hmem hpend (by rw [h2d]; exact hdb)
      (by rw [h2a]; exact hapi)]
    simp [firstReply, h2u, h2p, h2d, h2a, h2o]
  | succ n ih =>
    obtain ⟨hu, hp, hd, ha, ho⟩ := ih
    rw [joinRequests_succ]
    generalize runAll (joinRequests (n + 1) c u username text) w = w1 at hu hp hd ha ho
    have hreg1 : w1.users.find? (fun x => x.telegramId = u)
        = some { user with pendingProjects := user.pendingProjects ++ [project.id] } := by
      rw [hu]
      refine find_after_save w.users u user _ hreg ?_
      have := List.find?_some hreg
      simpa using this
    obtain ⟨w2, hrun, h2u, h2p, h2d, h2a, h2o⟩ :=
      joinRequest_before_input c u username text w1 _ hreg1 hslash hne hcmd
        (by rw [hd]; exact hdb) (by rw [ha]; exact hapi)
    rw [hrun, handleJoinProjectInput_pending c u text w2
      { user with pendingProjects := user.pendingProjects ++ [project.id] } project
      (by rw [h2u]; exact hreg1)
      (by rw [h2p, hp]; exact hproj) hcancel hmem (by simp) (by rw [h2d, hd]; exact hdb)
      (by rw [h2a, ha]; exact hapi)]
    simp only [world_ok]
    refine ⟨by rw [h2u, hu], by rw [h2p, hp], by rw [h2d, hd], by rw [h2a, ha], ?_⟩
    rw [h2o, ho, List.replicate_succ', List.flatten_append]
    simp [pendingReply]

theorem joinPrompt_isJoinPrompt (project : Project) (user : User) :
    (joinPrompt project user).isJoinPrompt = true := by
  simp [joinPrompt, Outgoing.isJoinPrompt, keyboard.createInlineKeyboard, String.append_assoc,
    startsWith_append]

theorem firstReply_prompts (c : Int) (project : Project) (user : User) :
    (firstReply c project user).filter Outgoing.isJoinPrompt = [joinPrompt project user] := by
  have h1 : ∀ (t : String) (m : Bool) (rows : List (List String)),
      Outgoing.isJoinPrompt ⟨c, t, m, keyboard.createKeyboard rows⟩ = false := fun _ _ _ => rfl
  simp only [firstReply, List.filter, joinPrompt_isJoinPrompt, h1, keyboard.mainMenuKeyboard]

theorem pendingReply_prompts (c : Int) (n : Nat) :
    ((List.replicate n (pendingReply c)).flatten).filter Outgoing.isJoinPrompt = [] := by
  induction n with
  | zero => rfl
  | succ n ih =>
    rw [List.replicate_succ, List.flatten_cons, List.filter_append, ih]
    simp [pendingReply, List.filter, Outgoing.isJoinPrompt, keyboard.createKeyboard,
      keyboard.mainMenuKeyboard]

/-- C13: a registered user who is neither a member of the project nor waiting for
it sends `n >= 1` join requests (the text `/join`, then the project name, a
text that reaches the dispatch and sets off no command), with calls that
succeed.  Afterwards the pending list of the user is the old
one followed by the project id, which occurs in it once; the `User` collection
is the one left by the first request and the `Project` collection is untouched;
the first request is answered by the prompt to the admin and the confirmation,
every later one by the "already pending" text; and the run adds exactly one
approve/reject prompt to the delivered messages. -/
theorem C13_repeated_join_requests (n : Nat) (chatId : Int) (userId : Nat)
    (username : Option String) (text : String) (w : World) (user : User) (project : Project)
    (hn : 1 ≤ n)
    (hreg : w.users.find? (fun x => x.telegramId = userId) = some user)
    (hproj : w.projects.find? (fun p => p.name = text) = some project)
    (hcancel : text ≠ cancelText) (hslash : startsWith text "/" = false) (hne : text ≠ "")
    (hcmd : matchedCommands text = [])
    (hmem : project.id ∉ user.projects) (hpend : project.id ∉ user.pendingProjects)
    (hdb : ∀ k, w.dbFails k = false) (hapi : ∀ k, w.apiFails k = false) :
    (runAll (joinRequests n chatId userId username text) w).users.find?
        (fun x => x.telegramId = userId)
        = some { user with pendingProjects := user.pendingProjects ++ [project.id] }
      ∧ (user.pendingProjects ++ [project.id]).count project.id = 1
      ∧ (runAll (joinRequests n chatId userId username text) w).users
          = (runAll (joinRequests 1 chatId userId username text) w).users
      ∧ (runAll (joinRequests n chatId userId username text) w).projects = w.projects
      ∧ (runAll (joinRequests n chatId userId username text) w).outbox
          = w.outbox ++ firstReply chatId project user
              ++ (List.replicate (n - 1) (pendingReply chatId)).flatten
      ∧ ((runAll (joinRequests n chatId userId username text) w).outbox.filter
            Outgoing.isJoinPrompt)
          = w.outbox.filter Outgoing.isJoinPrompt ++ [joinPrompt project user] := by
  obtain ⟨m, rfl⟩ : ∃ m, n = m + 1 := ⟨n - 1, by omega⟩
  obtain ⟨hu, hp, _, _, ho⟩ := joinRequests_run m chatId userId username text w user project
    hreg hproj hcancel hslash hne hcmd hmem hpend hdb hapi
  obtain ⟨hu1, _, _, _, _⟩ := joinRequests_run 0 chatId userId username text w user project
    hreg hproj hcancel hslash hne hcmd hmem hpend hdb hapi
  refine ⟨?_, ?_, by rw [hu, hu1], hp, by simpa using ho, ?_⟩
  · rw [hu]
    refine find_after_save w.users userId user _ hreg ?_
    have := List.find?_some hreg
    simpa using this
  · rw [List.count_append, List.count_eq_zero_of_not_mem hpend]
    simp
  · rw [ho, List.filter_append, List.filter_append, firstReply_prompts, pendingReply_prompts]
    simp

set_option maxRecDepth 100000 in
/-- C13, an instance: three requests of user 8 for the project `Alpha` leave one
pending entry and one prompt for the admin. -/
theorem C13_repeated_join_witness :
    (runAll (joinRequests 3 8 8 none "Alpha")
        (quietWorld [] [sampleUser [50], sampleGuest] [sampleProject 50 "Alpha"])).users.find?
        (fun x => x.telegramId = 8)
        = some { sampleGuest with pendingProjects := [50] }
      ∧ ((runAll (joinRequests 3 8 8 none "Alpha")
          (quietWorld [] [sampleUser [50], sampleGuest] [sampleProject 50 "Alpha"])).outbox.filter
            Outgoing.isJoinPrompt)
          = [joinPrompt (sampleProject 50 "Alpha") sampleGuest] :=
  ⟨(C13_repeated_join_requests 3 8 8 none "Alpha"
      (quietWorld [] [sampleUser [50], sampleGuest] [sampleProject 50 "Alpha"])
      sampleGuest (sampleProject 50 "Alpha") (by decide) rfl rfl (by decide) (by decide)
      (by decide) (by decide) (by decide) (by decide) (fun _ => rfl) (fun _ => rfl)).1,
   (C13_repeated_join_requests 3 8 8 none "Alpha"
      (quietWorld [] [sampleUser [50], sampleGuest] [sampleProject 50 "Alpha"])
      sampleGuest (sampleProject 50 "Alpha") (by decide) rfl rfl (by decide) (by decide)
      (by decide) (by decide) (by decide) (by decide) (fun _ => rfl) (fun _ => rfl)).2.2.2.2.2⟩

/-! ## The sweeps of the notification service -/

theorem lookupKey_none_iff {κ ν : Type} [DecidableEq κ] (k : κ) (l : List (κ × ν)) :
    lookupKey k l = none ↔ k ∉ l.map (fun e => e.1) := by
  induction l with
  | nil => simp [lookupKey]
  | cons hd tl ih =>
    obtain ⟨a, b⟩ := hd
    by_cases h : a = k
    · simp [lookupKey, h]
    · simp [lookupKey, h, ih, Ne.symm h]

theorem upsert_keys_new {κ ν : Type} [DecidableEq κ] (k : κ) (v : ν) (l : List (κ × ν))
    (h : lookupKey k l = none) :
    (upsert k v l).map (fun e => e.1) = l.map (fun e => e.1) ++ [k] := by
  induction l with
  | nil => simp [upsert]
  | cons hd tl ih =>
    obtain ⟨a, b⟩ := hd
    by_cases hk : a = k
    · simp [lookupKey, hk] at h
    · simp only [lookupKey, hk, if_false] at h
      simp [upsert, hk, ih h]

theorem upsert_keys_nodup {κ ν : Type} [DecidableEq κ] (k : κ) (v : ν) (l : List (κ × ν))
    (h : (l.map (fun e => e.1)).Nodup) : ((upsert k v l).map (fun e => e.1)).Nodup := by
  cases hl : lookupKey k l with
  | none =>
    rw [upsert_keys_new k v l hl]
    rw [List.nodup_append]
    refine ⟨h, by simp, ?_⟩
    intro a ha hb
    simp only [List.mem_singleton] at hb
    subst hb
    exact (lookupKey_none_iff a l).1 hl ha
  | some x =>
    rw [upsert_keys k v x l hl]
    exact h

theorem mem_iff_lookupKey {κ ν : Type} [DecidableEq κ] (l : List (κ × ν))
    (h : (l.map (fun e => e.1)).Nodup) (k : κ) (v : ν) :
    (k, v) ∈ l ↔ lookupKey k l = some v := by
  induction l with
  | nil => simp [lookupKey]
  | cons hd tl ih =>
    obtain ⟨a, b⟩ := hd
    simp only [List.map_cons, List.nodup_cons] at h
    by_cases hk : a = k
    · subst hk
      have hno : ∀ x, (a, x) ∉ tl := fun x hx => h.1 (List.mem_map_of_mem (fun e => e.1) hx)
      simp [lookupKey, hno, eq_comm]
    · simp [lookupKey, hk, ih h.2, Ne.symm hk]

theorem forInOrder_perm {α : Type} (entries : List (Nat × α)) :
    (forInOrder entries).Perm entries := by
  unfold forInOrder
  refine ((List.perm_insertionSort _ _).append_right _).trans ?_
  have h : (fun e : Nat × α => decide ¬ e.1 < 4294967295)
      = (fun e => !decide (e.1 < 4294967295)) := by
    funext e
    exact decide_not
  rw [h]
  exact List.filter_append_perm _ _

/-- The tasks filed under the Telegram id `k` by the grouping loop: those of the
list whose assignee has that id, in the order of the list. -/
theorem groupByUser_spec (w : World) (tasks : List Task) :
    ((NotificationService.groupByUser w tasks).map (fun e => e.1)).Nodup
      ∧ ∀ k, lookupKey k (NotificationService.groupByUser w tasks)
          = (if tasks.filter (fun t => assigneeOf w t = some k) = [] then none
             else some (tasks.filter (fun t => assigneeOf w t = some k))) := by
  induction tasks using List.reverseRecOn with
  | nil => simp [NotificationService.groupByUser, lookupKey]
  | append_singleton ts t ih =>
    obtain ⟨hnd, hlook⟩ := ih
    have hstep : NotificationService.groupByUser w (ts ++ [t])
        = (match populatedAssignee w t with
            | some user =>
              upsert user.telegramId
                ((lookupKey user.telegramId (NotificationService.groupByUser w ts)).getD []
                  ++ [t]) (NotificationService.groupByUser w ts)
            | none => NotificationService.groupByUser w ts) := by
      unfold NotificationService.groupByUser
      rw [List.foldl_append]
      rfl
    rw [hstep]
    cases hu : populatedAssignee w t with
    | none =>
      refine ⟨hnd, fun k => ?_⟩
      have hk : assigneeOf w t ≠ some k := by simp [assigneeOf, hu]
      simp only [hlook k, List.filter_append, List.filter_cons, List.filter_nil, hk,
        decide_False, List.append_nil]
      simp
    | some user =>
      refine ⟨upsert_keys_nodup _ _ _ hnd, fun k => ?_⟩
      have ht : assigneeOf w t = some user.telegramId := by simp [assigneeOf, hu]
      by_cases hk : k = user.telegramId
      · subst hk
        simp only
        rw [lookupKey_upsert_same, hlook]
        simp only [List.filter_append, List.filter_cons, List.filter_nil, ht, decide_True]
        by_cases he : ts.filter (fun t => assigneeOf w t = some user.telegramId) = []
        · simp [he]
        · simp [he]
      · simp only
        rw [lookupKey_upsert_ne _ _ _ _ hk, hlook]
        have hk2 : assigneeOf w t ≠ some k := by
          rw [ht]
          intro h
          exact hk (Option.some.inj h).symm
        simp only [List.filter_append, List.filter_cons, List.filter_nil, hk2, decide_False,
          List.append_nil]
        simp

theorem notifyEach_ok (message : List Task → String) (entries : List (Nat × List Task))
    (w : World) (hapi : ∀ k, w.apiFails k = false) (hne : ∀ e ∈ entries, e.2 ≠ []) :
    NotificationService.notifyEach message entries w
      = .ok ()
          { w with
            apiCalls := w.apiCalls + entries.length,
            outbox := w.outbox ++ entries.map (reminder message) } := by
  induction entries generalizing w with
  | nil => simp [NotificationService.notifyEach]
  | cons e rest ih =>
    obtain ⟨k, ts⟩ := e
    have hts : ts ≠ [] := hne (k, ts) (by simp)
    have hlen : ¬ ts.length = 0 := fun h => hts (List.length_eq_zero.1 h)
    have hrest : ∀ e ∈ rest, e.2 ≠ [] := fun e he => hne e (by simp [he])
    simp only [NotificationService.notifyEach, hlen, if_false, bind_run, tryCatch,
      sendMessage_ok _ _ _ _ w (hapi _)]
    have h2 := ih
      { w with
        apiCalls := w.apiCalls + 1,
        outbox := w.outbox ++ [⟨(k : Int), message ts, true, .none⟩] } hapi hrest
    rw [h2]
    simp [reminder, Nat.add_assoc, Nat.add_comm]
    omega

/-- The groups a sweep visits: one for each Telegram id with a task in the list,
holding the tasks of that id. -/
theorem groups_spec (w : World) (tasks : List Task) :
    ((forInOrder (NotificationService.groupByUser w tasks)).map (fun e => e.1)).Nodup
      ∧ ∀ k ts, (k, ts) ∈ forInOrder (NotificationService.groupByUser w tasks)
          ↔ ts ≠ [] ∧ ts = tasks.filter (fun t => assigneeOf w t = some k) := by
  obtain ⟨hnd, hlook⟩ := groupByUser_spec w tasks
  have hperm := forInOrder_perm (NotificationService.groupByUser w tasks)
  refine ⟨(hperm.map _).nodup_iff.2 hnd, fun k ts => ?_⟩
  rw [hperm.mem_iff, mem_iff_lookupKey _ hnd, hlook]
  by_cases he : tasks.filter (fun t => assigneeOf w t = some k) = []
  · simp only [he, if_true]
    constructor
    · intro h
      cases h
    · intro h
      exact absurd h.2 h.1
  · simp only [he, if_false, Option.some.injEq]
    constructor
    · intro h
      exact ⟨h ▸ he, h.symm⟩
    · intro h
      exact h.2.symm

/-- A sweep over the tasks picked by a filter, once the query has succeeded. -/
theorem sweep_ok (filter : Task → Bool) (message : List Task → String) (w : World)
    (hapi : ∀ k, w.apiFails k = false) :
    ∃ groups : List (Nat × List Task),
      NotificationService.notifyEach message
          (forInOrder (NotificationService.groupByUser w (w.tasks.filter filter)))
          { w with dbCalls := w.dbCalls + 1 }
        = .ok ()
            { w with
              dbCalls := w.dbCalls + 1,
              apiCalls := w.apiCalls + groups.length,
              outbox := w.outbox ++ groups.map (reminder message) }
      ∧ (groups.map (fun g => g.1)).Nodup
      ∧ ∀ k ts, (k, ts) ∈ groups
          ↔ ts ≠ []
            ∧ ts = w.tasks.filter (fun t => filter t && decide (assigneeOf w t = some k)) := by
  obtain ⟨hnd, hmem⟩ := groups_spec w (w.tasks.filter filter)
  refine ⟨forInOrder (NotificationService.groupByUser w (w.tasks.filter filter)), ?_, hnd, ?_⟩
  · exact notifyEach_ok message _ { w with dbCalls := w.dbCalls + 1 } hapi
      (fun e he => ((hmem e.1 e.2).1 he).1)
  · intro k ts
    rw [hmem, List.filter_filter]
    have h : (fun t => decide (assigneeOf w t = some k) && filter t)
        = (fun t => filter t && decide (assigneeOf w t = some k)) := by
      funext t
      exact Bool.and_comm _ _
    rw [h]

/-- The calendar day of a timestamp on some days: the first day of 1970, a leap
day, the day after it, the last day of a year and the first of the next. -/
theorem formatYMD_examples :
    formatYMD 0 = "1970-01-01" ∧ formatYMD 951782400000 = "2000-02-29"
      ∧ formatYMD 951868800000 = "2000-03-01" ∧ formatYMD 1735689599999 = "2024-12-31"
      ∧ formatYMD 1735689600000 = "2025-01-01"
      ∧ toDateString 1730764800000 = "Tue Nov 05 2024" := by
  decide

/-- C15: when the query and the sends succeed, `checkOverdueTasks` delivers one
message for each group, no two groups have the same Telegram id, and the group
of an id holds exactly the stored tasks, in stored order, that are due before
the start of today, not done, and assigned to a user with that id, a group
existing only when that list is not empty; a task due today or later is in no
group.  The text of the message of a group is the heading, the number of tasks
of the group, and one numbered entry for each task of the group, in order: its
name, the name of its project, its due date as `YYYY-MM-DD` and its status. -/
theorem C15_overdue_sweep (w : World) (hdb : w.dbFails w.dbCalls = false)
    (hapi : ∀ k, w.apiFails k = false) :
    ∃ groups : List (Nat × List Task),
      NotificationService.checkOverdueTasks w
        = .ok ()
            { w with
              dbCalls := w.dbCalls + 1,
              apiCalls := w.apiCalls + groups.length,
              outbox := w.outbox
                ++ groups.map (reminder (NotificationService.overdueMessage w)) }
      ∧ (groups.map (fun g => g.1)).Nodup
      ∧ (∀ k ts, (k, ts) ∈ groups
          ↔ ts ≠ []
            ∧ ts = w.tasks.filter (fun t =>
                NotificationService.overdueFilter (startOfDay w.now) t
                  && decide (assigneeOf w t = some k)))
      ∧ (∀ t due, t.dueDate = some due → startOfDay w.now ≤ due →
          ∀ g ∈ groups, t ∉ g.2)
      ∧ (∀ g ∈ groups, ∃ items : List String,
          (reminder (NotificationService.overdueMessage w) g).text
              = emoji.notification ++ " *Overdue Tasks Reminder*\n\n"
                ++ "You have " ++ toString g.2.length ++ " overdue task(s):\n\n"
                ++ String.join items
            ∧ items.length = g.2.length
            ∧ ∀ i t, g.2.get? i = some t →
                ∃ due, t.dueDate = some due ∧ due < startOfDay w.now ∧ t.status ≠ "done"
                  ∧ items.get? i
                    = some (toString (i + 1) ++ ". *" ++ t.name ++ "*\n"
                        ++ "   Project: "
                        ++ ((populatedProjectName w t).getD "Unknown Project") ++ "\n"
                        ++ "   Due Date: " ++ formatYMD due ++ "\n"
                        ++ "   Status: " ++ t.status ++ "\n\n")) := by
  obtain ⟨groups, hrun, hnd, hmem⟩ :=
    sweep_ok (NotificationService.overdueFilter (startOfDay w.now))
      (NotificationService.overdueMessage w) w hapi
  refine ⟨groups, ?_, hnd, hmem, ?_, ?_⟩
  · unfold NotificationService.checkOverdueTasks
    have hm : NotificationService.overdueMessage { w with dbCalls := w.dbCalls + 1 }
        = NotificationService.overdueMessage w := rfl
    have hg : NotificationService.groupByUser { w with dbCalls := w.dbCalls + 1 }
        = NotificationService.groupByUser w := rfl
    simp only [tryCatch, bind_run, getWorld, NotificationService.findTasks, dbCall_ok w hdb,
      pure_run, hm, hg, hrun]
  · intro t due hdue hle g hg ht
    obtain ⟨k, ts⟩ := g
    rw [((hmem k ts).1 hg).2] at ht
    have h := (List.mem_filter.1 ht).2
    simp [NotificationService.overdueFilter, hdue] at h
    omega
  · intro g hg
    obtain ⟨k, ts⟩ := g
    have hts := ((hmem k ts).1 hg).2
    refine ⟨ts.enum.map (fun it =>
        toString (it.1 + 1) ++ ". *" ++ it.2.name ++ "*\n"
          ++ "   Project: " ++ ((populatedProjectName w it.2).getD "Unknown Project") ++ "\n"
          ++ "   Due Date: " ++ formatYMD (it.2.dueDate.getD w.now) ++ "\n"
          ++ "   Status: " ++ it.2.status ++ "\n\n"), ?_, by simp, ?_⟩
    · show NotificationService.overdueMessage w ts = _
      unfold NotificationService.overdueMessage
      congr 1
    intro i t hi
    have hmemt : t ∈ ts := List.get?_mem hi
    rw [hts] at hmemt
    have hf := (List.mem_filter.1 hmemt).2
    cases hd : t.dueDate with
    | none => simp [NotificationService.overdueFilter, hd] at hf
    | some due =>
      simp only [NotificationService.overdueFilter, hd, Bool.and_eq_true, decide_eq_true_eq]
        at hf
      refine ⟨due, rfl, hf.1.1, hf.1.2, ?_⟩
      simp only [List.get?_eq_getElem?] at hi ⊢
      simp [List.getElem?_enum, hi, hd]

set_option maxRecDepth 100000 in
/-- C15, an instance: of five tasks, the two overdue ones of user 7 go into one
message, whose text is given in full, and the task due today is in no group. -/
theorem C15_overdue_sweep_witness :
    (∃ groups : List (Nat × List Task),
        (NotificationService.checkOverdueTasks sweepWorld).world.outbox
            = groups.map (reminder (NotificationService.overdueMessage sweepWorld))
          ∧ (groups.map (fun g => g.1)).Nodup
          ∧ ∀ g ∈ groups,
              sampleTask 61 "today" (some 1) (some (3 * 86400000)) "todo" ∉ g.2)
      ∧ (NotificationService.checkOverdueTasks sweepWorld).world.outbox
          = [reminder (NotificationService.overdueMessage sweepWorld)
              (7, [sampleTask 60 "late" (some 1) (some (2 * 86400000)) "todo",
                   sampleTask 64 "later" (some 1) (some 86400000) "todo"])]
      ∧ (NotificationService.checkOverdueTasks sweepWorld).world.outbox
          = [⟨7, "🔔 *Overdue Tasks Reminder*\n\nYou have 2 overdue task(s):\n\n"
                ++ "1. *late*\n   Project: Alpha\n   Due Date: 1970-01-03\n"
                ++ "   Status: todo\n\n"
                ++ "2. *later*\n   Project: Alpha\n   Due Date: 1970-01-02\n"
                ++ "   Status: todo\n\n", true, .none⟩] :=
  ⟨(C15_overdue_sweep sweepWorld rfl (fun _ => rfl)).elim
      (fun groups h => ⟨groups, by rw [h.1]; rfl, h.2.1,
        h.2.2.2.1 _ (3 * 86400000) rfl (by decide)⟩),
    by decide, by decide⟩

theorem startOfDay_next (now : Nat) : startOfDay (now + 86400000) = startOfDay now + 86400000 := by
  unfold startOfDay
  omega

/-- C16: when the query and the sends succeed, `checkUpcomingTasks` delivers one
message for each group of the tasks that are not done and due from the start of
tomorrow up to, but not including, the start of the day after; no two groups
have the same Telegram id; and no task passes both the overdue filter and the
upcoming filter of the same time.  The text of the message of a group is the
heading, the number of tasks of the group, and one numbered entry for each task
of the group, in order: its name, the name of its project and its status. -/
theorem C16_upcoming_sweep (w : World) (hdb : w.dbFails w.dbCalls = false)
    (hapi : ∀ k, w.apiFails k = false) :
    ∃ groups : List (Nat × List Task),
      NotificationService.checkUpcomingTasks w
        = .ok ()
            { w with
              dbCalls := w.dbCalls + 1,
              apiCalls := w.apiCalls + groups.length,
              outbox := w.outbox
                ++ groups.map (reminder (NotificationService.upcomingMessage w)) }
      ∧ (groups.map (fun g => g.1)).Nodup
      ∧ (∀ k ts, (k, ts) ∈ groups
          ↔ ts ≠ []
            ∧ ts = w.tasks.filter (fun t =>
                NotificationService.upcomingFilter (startOfDay w.now + 86400000)
                    (startOfDay w.now + 86400000 + 86400000) t
                  && decide (assigneeOf w t = some k)))
      ∧ (∀ t : Task,
          NotificationService.upcomingFilter (startOfDay w.now + 86400000)
              (startOfDay w.now + 86400000 + 86400000) t = true
            ↔ ∃ due, t.dueDate = some due ∧ startOfDay w.now + 86400000 ≤ due
                ∧ due < startOfDay w.now + 86400000 + 86400000 ∧ t.status ≠ "done")
      ∧ (∀ t : Task,
          ¬ (NotificationService.overdueFilter (startOfDay w.now) t = true
              ∧ NotificationService.upcomingFilter (startOfDay w.now + 86400000)
                  (startOfDay w.now + 86400000 + 86400000) t = true))
      ∧ (∀ g ∈ groups, ∃ items : List String,
          (reminder (NotificationService.upcomingMessage w) g).text
              = emoji.notification ++ " *Upcoming Tasks Reminder*\n\n"
                ++ "You have " ++ toString g.2.length ++ " task(s) due tomorrow:\n\n"
                ++ String.join items
            ∧ items.length = g.2.length
            ∧ ∀ i t, g.2.get? i = some t →
                items.get? i
                  = some (toString (i + 1) ++ ". *" ++ t.name ++ "*\n"
                      ++ "   Project: "
                      ++ ((populatedProjectName w t).getD "Unknown Project") ++ "\n"
                      ++ "   Status: " ++ t.status ++ "\n\n")) := by
  obtain ⟨groups, hrun, hnd, hmem⟩ :=
    sweep_ok
      (NotificationService.upcomingFilter (startOfDay w.now + 86400000)
        (startOfDay w.now + 86400000 + 86400000))
      (NotificationService.upcomingMessage w) w hapi
  refine ⟨groups, ?_, hnd, hmem, ?_, ?_, ?_⟩
  · unfold NotificationService.checkUpcomingTasks
    have hm : NotificationService.upcomingMessage { w with dbCalls := w.dbCalls + 1 }
        = NotificationService.upcomingMessage w := rfl
    have hg : NotificationService.groupByUser { w with dbCalls := w.dbCalls + 1 }
        = NotificationService.groupByUser w := rfl
    simp only [tryCatch, bind_run, getWorld, NotificationService.findTasks, dbCall_ok w hdb,
      pure_run, hm, hg, startOfDay_next, hrun]
  · intro t
    cases hd : t.dueDate with
    | none => simp [NotificationService.upcomingFilter, hd]
    | some due => simp [NotificationService.upcomingFilter, hd, and_assoc]
  · intro t h
    cases hd : t.dueDate with
    | none => simp [NotificationService.overdueFilter, hd] at h
    | some due =>
      simp [NotificationService.overdueFilter, NotificationService.upcomingFilter, hd] at h
      omega
  · intro g _
    obtain ⟨k, ts⟩ := g
    refine ⟨ts.enum.map (fun it =>
        toString (it.1 + 1) ++ ". *" ++ it.2.name ++ "*\n"
          ++ "   Project: " ++ ((populatedProjectName w it.2).getD "Unknown Project") ++ "\n"
          ++ "   Status: " ++ it.2.status ++ "\n\n"), ?_, by simp, ?_⟩
    · show NotificationService.upcomingMessage w ts = _
      unfold NotificationService.upcomingMessage
      congr 1
    · intro i t hi
      simp only [List.get?_eq_getElem?] at hi ⊢
      simp [List.getElem?_enum, hi]

set_option maxRecDepth 100000 in
/-- C16, an instance: of five tasks, the one due tomorrow is announced to its
assignee, user 8, in a message whose text is given in full. -/
theorem C16_upcoming_sweep_witness :
    (∃ groups : List (Nat × List Task),
        (NotificationService.checkUpcomingTasks sweepWorld).world.outbox
            = groups.map (reminder (NotificationService.upcomingMessage sweepWorld))
          ∧ (groups.map (fun g => g.1)).Nodup)
      ∧ (NotificationService.checkUpcomingTasks sweepWorld).world.outbox
          = [reminder (NotificationService.upcomingMessage sweepWorld)
              (8, [sampleTask 62 "soon" (some 2) (some (4 * 86400000)) "in-progress"])]
      ∧ (NotificationService.checkUpcomingTasks sweepWorld).world.outbox
          = [⟨8, "🔔 *Upcoming Tasks Reminder*\n\nYou have 1 task(s) due tomorrow:\n\n"
                ++ "1. *soon*\n   Project: Alpha\n   Status: in-progress\n\n",
              true, .none⟩] :=
  ⟨(C16_upcoming_sweep sweepWorld rfl (fun _ => rfl)).elim
      (fun groups h => ⟨groups, by rw [h.1]; rfl, h.2.1⟩),
    by decide, by decide⟩

/-! ## Registration, end to end -/

theorem textField_upsert_ne (k j : String) (v : Value) (data : List (String × Value))
    (h : j ≠ k) : textField (upsert k v data) j = textField data j := by
  simp [textField, lookupKey_upsert_ne k j v data h]

theorem User_create_ok (t : Nat) (n : String) (s r c : Option String) (w : World)
    (hn : trim n ≠ "") (hnew : w.users.find? (fun x => x.telegramId = t) = none)
    (h : w.dbFails w.dbCalls = false) :
    User.create t (some n) s r c w
      = .ok ()
          { w with
            users := w.users ++
              [{ id := w.nextId, telegramId := t, name := trim n, surname := s.map trim,
                 role := r.map trim, contact := c.map trim, projects := [],
                 pendingProjects := [], createdAt := w.now }],
            nextId := w.nextId + 1, dbCalls := w.dbCalls + 1 } := by
  have hany : ¬ ∃ x ∈ w.users, x.telegramId = t := by
    rintro ⟨x, hx, hxt⟩
    have := List.find?_eq_none.1 hnew x hx
    simp [hxt] at this
  simp [User.create, hn, dbCall_ok w h, getWorld, modifyWorld, hany]

theorem sendInTry_world (c1 c2 : Int) (t1 t2 : String) (m1 m2 : Bool) (k1 k2 : Markup)
    (w : World) :
    ∃ a o, (tryCatchReturn (sendMessage c1 t1 m1 k1 >>= fun _ => done)
        (sendMessage c2 t2 m2 k2 >>= fun _ => done) w).world
      = { w with apiCalls := a, outbox := o } := by
  rcases sendMessage_cases c1 t1 m1 k1 w with ⟨a, o, h⟩ | ⟨a, h⟩
  · exact ⟨a, o, by simp [tryCatchReturn, tryCatch, h, done]⟩
  · rcases sendMessage_cases c2 t2 m2 k2 { w with apiCalls := a } with ⟨b, o, h2⟩ | ⟨b, h2⟩
    · exact ⟨b, o, by simp [tryCatchReturn, tryCatch, h, h2, done]⟩
    · exact ⟨b, w.outbox, by simp [tryCatchReturn, tryCatch, h, h2]⟩

theorem registerUser_world (c : Int) (u : Nat) (name : Option String) (w : World)
    (hnew : w.users.find? (fun x => x.telegramId = u) = none)
    (hdb : w.dbFails w.dbCalls = false) :
    ∃ a o, (userController.registerUser c u name w).world
      = { w with
          sessions := (SessionService.setState w.sessions w.now u
            (some USER_STATES.WAITING_NAME)).1,
          dbCalls := w.dbCalls + 1, apiCalls := a, outbox := o } := by
  unfold userController.registerUser
  rw [tryCatchReturn_bind_ok _ _ _ _ _ _ (User_findOne_ok u w hdb)]
  simp only [hnew]
  rw [tryCatchReturn_bind_ok _ _ _ _ _ _ (setState_run u _ _)]
  exact sendInTry_world _ _ _ _ _ _ _ _ _

theorem handleNameInput_world (c : Int) (u : Nat) (n : String) (w : World)
    (hn : n ≠ cancelText) :
    ∃ a o, (userController.handleNameInput c u n w).world
      = { w with
          sessions := (SessionService.setData
            (SessionService.setState w.sessions w.now u
              (some USER_STATES.WAITING_SURNAME)).1 w.now u "name" (.str n)).1,
          apiCalls := a, outbox := o } := by
  unfold userController.handleNameInput
  simp only [hn, if_false, bind_run, setState_run, setData_run]
  exact sendMessage_world _ _ _ _ _

theorem handleSurnameInput_world (c : Int) (u : Nat) (s : String) (w : World)
    (hs : s ≠ cancelText) :
    ∃ a o, (userController.handleSurnameInput c u s w).world
      = { w with
          sessions := (SessionService.setData
            (SessionService.setState w.sessions w.now u
              (some USER_STATES.WAITING_ROLE)).1 w.now u "surname"
              (.str (if s = "Skip" then "" else s))).1,
          apiCalls := a, outbox := o } := by
  unfold userController.handleSurnameInput
  simp only [hs, if_false, bind_run, setState_run, setData_run]
  exact sendMessage_world _ _ _ _ _

theorem handleRoleInput_world (c : Int) (u : Nat) (r : String) (w : World)
    (hr : r ≠ cancelText) :
    ∃ a o, (userController.handleRoleInput c u r w).world
      = { w with
          sessions := (SessionService.setData
            (SessionService.setState w.sessions w.now u
              (some USER_STATES.WAITING_CONTACT)).1 w.now u "role"
              (.str (if r = "Skip" then "" else r))).1,
          apiCalls := a, outbox := o } := by
  unfold userController.handleRoleInput
  simp only [hr, if_false, bind_run, setState_run, setData_run]
  exact sendMessage_world _ _ _ _ _

theorem handleContactInput_persists (c : Int) (u : Nat) (ct : String)
    (username : Option String) (n s r : String) (w : World)
    (hc : ct ≠ cancelText)
    (hname : textField (SessionService.getSession w.sessions w.now u).2.data "name" = some n)
    (hsur : textField (SessionService.getSession w.sessions w.now u).2.data "surname" = some s)
    (hrole : textField (SessionService.getSession w.sessions w.now u).2.data "role" = some r)
    (hnew : w.users.find? (fun x => x.telegramId = u) = none) (htrim : trim n ≠ "")
    (hdb : w.dbFails w.dbCalls = false) :
    ∃ S a o, (userController.handleContactInput c u ct username w).world
        = { w with
            sessions := S,
            users := w.users ++
              [{ id := w.nextId, telegramId := u, name := trim n, surname := some (trim s),
                 role := some (trim r),
                 contact := some (trim (if ct = "Skip" then username.getD "" else ct)),
                 projects := [], pendingProjects := [], createdAt := w.now }],
            nextId := w.nextId + 1, dbCalls := w.dbCalls + 1, apiCalls := a, outbox := o }
      ∧ lookupKey u S = some { state := none, data := [], lastActivity := w.now } := by
  unfold userController.handleContactInput
  simp only [hc, if_false, bind_run, getSession_run, hname, hsur, hrole]
  have h1 := User_create_ok u n (some s) (some r)
    (some (if ct = "Skip" then username.getD "" else ct))
    { w with sessions := (SessionService.getSession w.sessions w.now u).1 } htrim hnew hdb
  have hS : lookupKey u
      (SessionService.clearSession (SessionService.getSession w.sessions w.now u).1 w.now u)
      = some { state := none, data := [], lastActivity := w.now } :=
    SessionService.lookup_clearSession (SessionService.lookup_getSession w.sessions w.now u)
  simp only [tryCatch, bind_run, h1, clearSession_run, Option.map_some']
  rcases sendMessage_cases c
      (emoji.success ++ " *Registration Successful!*\n\nWelcome, " ++ (some n).getD "undefined"
        ++ "! You can now use the task management features.")
      true keyboard.mainMenuKeyboard
      { w with
        sessions := SessionService.clearSession
          (SessionService.getSession w.sessions w.now u).1 w.now u,
        users := w.users ++
          [{ id := w.nextId, telegramId := u, name := trim n, surname := some (trim s),
             role := some (trim r),
             contact := some (trim (if ct = "Skip" then username.getD "" else ct)),
             projects := [], pendingProjects := [], createdAt := w.now }],
        nextId := w.nextId + 1, dbCalls := w.dbCalls + 1 } with ⟨a, o, h⟩ | ⟨a, h⟩
  · rw [h]
    exact ⟨_, a, o, rfl, hS⟩
  · rw [h]
    simp only
    rcases sendMessage_cases c
        (emoji.error ++ " There was an error during registration. Please try again later.")
        false .none
        { w with
          sessions := SessionService.clearSession
            (SessionService.getSession w.sessions w.now u).1 w.now u,
          users := w.users ++
            [{ id := w.nextId, telegramId := u, name := trim n, surname := some (trim s),
               role := some (trim r),
               contact := some (trim (if ct = "Skip" then username.getD "" else ct)),
               projects := [], pendingProjects := [], createdAt := w.now }],
          nextId := w.nextId + 1, dbCalls := w.dbCalls + 1, apiCalls := a }
      with ⟨b, o, h2⟩ | ⟨b, h2⟩
    · rw [h2]
      exact ⟨_, b, o, rfl, SessionService.lookup_clearSession hS⟩
    · rw [h2]
      exact ⟨_, b, w.outbox, rfl, hS⟩

/-- The session read back after a flow step has written its state and one key. -/
theorem getSession_after_step (S : Store) (now u : Nat) (st : Option String) (k : String)
    (v : Value) :
    (SessionService.getSession
        (SessionService.setData (SessionService.setState S now u st).1 now u k v).1 now u).2
      = { state := st, data := upsert k v (SessionService.getSession S now u).2.data,
          lastActivity := now } := by
  rw [SessionService.getSession_of_some (SessionService.lookup_setState_setData S now u st k v)]

/-- C17, as amended: for an unregistered user, four texts none of which is the
Cancel label, a name that is not blank and database calls that succeed
(whatever the Bot API does), the session passes the states `waiting_user_name`,
`waiting_user_surname`, `waiting_user_role`, `waiting_user_contact` in this
order and ends cleared; no user is saved before the last step, which adds
exactly one user whose texts are the trimmed inputs, `Skip` giving an empty
surname or role and the username (or the empty text) as contact. -/
theorem C17_registration_persists (w : World) (chatId : Int) (userId : Nat)
    (username : Option String) (n s r c : String)
    (hnew : w.users.find? (fun x => x.telegramId = userId) = none)
    (hn : n ≠ cancelText) (hs : s ≠ cancelText) (hr : r ≠ cancelText) (hc : c ≠ cancelText)
    (htrim : trim n ≠ "") (hdb : ∀ k, w.dbFails k = false) :
    (registrationWorlds chatId userId username n s r c w).map (stateOf userId)
        = [some (some USER_STATES.WAITING_NAME), some (some USER_STATES.WAITING_SURNAME),
           some (some USER_STATES.WAITING_ROLE), some (some USER_STATES.WAITING_CONTACT),
           some none]
      ∧ (registrationWorlds chatId userId username n s r c w).map (fun x => x.users)
          = [w.users, w.users, w.users, w.users,
             w.users ++
              [{ id := w.nextId, telegramId := userId, name := trim n,
                 surname := some (trim (if s = "Skip" then "" else s)),
                 role := some (trim (if r = "Skip" then "" else r)),
                 contact := some (trim (if c = "Skip" then username.getD "" else c)),
                 projects := [], pendingProjects := [], createdAt := w.now }]]
      ∧ (registrationWorlds chatId userId username n s r c w).getLast?.map
            (fun x => lookupKey userId x.sessions)
          = some (some { state := none, data := [], lastActivity := w.now }) := by
  simp only [registrationWorlds]
  obtain ⟨a1, o1, e1⟩ := registerUser_world chatId userId username w hnew (hdb _)
  generalize (userController.registerUser chatId userId username w).world = w1 at e1 ⊢
  obtain ⟨a2, o2, e2⟩ := handleNameInput_world chatId userId n w1 hn
  generalize (userController.handleNameInput chatId userId n w1).world = w2 at e2 ⊢
  obtain ⟨a3, o3, e3⟩ := handleSurnameInput_world chatId userId s w2 hs
  generalize (userController.handleSurnameInput chatId userId s w2).world = w3 at e3 ⊢
  obtain ⟨a4, o4, e4⟩ := handleRoleInput_world chatId userId r w3 hr
  generalize (userController.handleRoleInput chatId userId r w3).world = w4 at e4 ⊢
  have hnow : w4.now = w.now := by rw [e4, e3, e2, e1]
  have husers : w4.users = w.users := by rw [e4, e3, e2, e1]
  have hnext : w4.nextId = w.nextId := by rw [e4, e3, e2, e1]
  have hfails : w4.dbFails = w.dbFails := by rw [e4, e3, e2, e1]
  have hdata : (SessionService.getSession w4.sessions w4.now userId).2.data
      = upsert "role" (.str (if r = "Skip" then "" else r))
          (upsert "surname" (.str (if s = "Skip" then "" else s))
            (upsert "name" (.str n) (SessionService.getSession w1.sessions w1.now userId).2.data))
      := by
    rw [e4]
    simp only
    rw [getSession_after_step, e3]
    simp only
    rw [getSession_after_step, e2]
    simp only
    rw [getSession_after_step]
  obtain ⟨S, a5, o5, e5, hS⟩ := handleContactInput_persists chatId userId c username n
    (if s = "Skip" then "" else s) (if r = "Skip" then "" else r) w4 hc
    (by
      rw [hdata, textField_upsert_ne _ _ _ _ (by decide),
        textField_upsert_ne _ _ _ _ (by decide), textField_upsert])
    (by rw [hdata, textField_upsert_ne _ _ _ _ (by decide), textField_upsert])
    (by rw [hdata, textField_upsert])
    (by rw [husers]; exact hnew) htrim (by rw [hfails]; exact hdb _)
  generalize (userController.handleContactInput chatId userId c username w4).world = w5
    at e5 ⊢
  refine ⟨?_, ?_, ?_⟩
  · simp only [List.map_cons, List.map_nil, stateOf]
    rw [e5, e4, e3, e2, e1]
    simp only [SessionService.lookup_setState, SessionService.lookup_setState_setData, hS,
      Option.map_some']
  · simp only [List.map_cons, List.map_nil]
    rw [e5, husers, hnext, hnow, e4, e3, e2, e1]
  · simp only [List.getLast?, List.getLast, Option.map_some']
    rw [e5]
    simp only [hS, hnow]

/-- C17, an instance: `Ada`, `Skip`, `Developer`, `Skip` with the username `ada`. -/
theorem C17_registration_witness :
    (registrationWorlds 7 7 (some "ada") "Ada" "Skip" "Developer" "Skip"
        (quietWorld [] [] [])).map (fun x => x.users)
      = [[], [], [], [],
         [{ id := 100, telegramId := 7, name := "Ada", surname := some "",
            role := some "Developer", contact := some "ada", projects := [],
            pendingProjects := [], createdAt := 1000 }]] :=
  (C17_registration_persists (quietWorld [] [] []) 7 7 (some "ada") "Ada" "Skip" "Developer"
    "Skip" rfl (by decide) (by decide) (by decide) (by decide) (by decide) (fun _ => rfl)).2.1

set_option maxRecDepth 100000 in
/-- C17, as stated, fails: the name ` Ada` and the surname `Lovelace ` are saved
without the blanks, and a name made of one blank saves no user although the
four steps are passed and the session ends cleared. -/
theorem C17_texts_are_trimmed :
    (registrationWorlds 7 7 none " Ada" "Lovelace " "Dev" "a@b"
        (quietWorld [] [] [])).getLast?.map
        (fun x => x.users.map (fun u => (u.name, u.surname)))
      = some [("Ada", some "Lovelace")]
      ∧ (registrationWorlds 7 7 none " " "Lovelace" "Dev" "a@b"
          (quietWorld [] [] [])).map (fun x => x.users) = [[], [], [], [], []]
      ∧ (registrationWorlds 7 7 none " " "Lovelace" "Dev" "a@b"
          (quietWorld [] [] [])).map (stateOf 7)
        = [some (some USER_STATES.WAITING_NAME), some (some USER_STATES.WAITING_SURNAME),
           some (some USER_STATES.WAITING_ROLE), some (some USER_STATES.WAITING_CONTACT),
           some none] := by
  decide

/-! ## The session service: the sweep and the other users -/

theorem lookupKey_filter {κ ν : Type} [DecidableEq κ] (p : ν → Bool) (k : κ)
    (l : List (κ × ν)) (h : (l.map (fun e => e.1)).Nodup) :
    lookupKey k (l.filter (fun e => p e.2)) = (lookupKey k l).filter p := by
  induction l with
  | nil => simp [lookupKey, Option.filter]
  | cons hd tl ih =>
    obtain ⟨a, b⟩ := hd
    simp only [List.map_cons, List.nodup_cons] at h
    by_cases hk : a = k
    · subst hk
      have hno : lookupKey a (tl.filter (fun e => p e.2)) = none := by
        rw [lookupKey_none_iff]
        intro hm
        rw [List.mem_map] at hm
        obtain ⟨e, he, hea⟩ := hm
        exact h.1 (List.mem_map.2 ⟨e, (List.mem_filter.1 he).1, hea⟩)
      cases hp : p b with
      | true => simp [List.filter, hp, lookupKey, Option.filter]
      | false => simp [List.filter, hp, lookupKey, Option.filter, hno]
    · cases hp : p b with
      | true => simp [List.filter, hp, lookupKey, hk, ih h.2]
      | false => simp [List.filter, hp, lookupKey, hk, ih h.2]

/-- C21: after `cleanupSessions(maxAge)` the store holds exactly the entries of the
old store with `now - lastActivity <= maxAge`, each as it was and in the old
order; so an entry whose age is exactly `maxAge` is kept and every older one is
gone.  When no user id occurs twice in the store, the session read for a user
afterwards is the one read before if it is recent enough, and none otherwise. -/
theorem C21_cleanupSessions_keeps_recent (sessions : Store) (now maxAge : Nat) :
    (∀ e, e ∈ SessionService.cleanupSessions sessions now maxAge
        ↔ e ∈ sessions ∧ now - e.2.lastActivity ≤ maxAge)
      ∧ (SessionService.cleanupSessions sessions now maxAge).Sublist sessions
      ∧ ((sessions.map (fun e => e.1)).Nodup →
          ∀ u, lookupKey u (SessionService.cleanupSessions sessions now maxAge)
            = (lookupKey u sessions).filter (fun s => now - s.lastActivity ≤ maxAge)) := by
  refine ⟨?_, ?_, ?_⟩
  · intro e
    simp [SessionService.cleanupSessions, List.mem_filter]
  · exact List.filter_sublist _
  · intro hnd u
    have h := lookupKey_filter (fun s : Session => decide (now - s.lastActivity ≤ maxAge)) u
      sessions hnd
    rw [← h]
    unfold SessionService.cleanupSessions
    congr 1
    apply List.filter_congr
    intro e _
    simp

theorem cleanupSessions_example :
    SessionService.cleanupSessions
        [(1, { state := none, data := [], lastActivity := 100 }),
         (2, { state := some USER_STATES.WAITING_ROLE, data := [("name", .str "Ada")],
               lastActivity := 99 }),
         (3, { state := none, data := [], lastActivity := 500 })] 1100 1000
      = [(1, { state := none, data := [], lastActivity := 100 }),
         (3, { state := none, data := [], lastActivity := 500 })] := by
  decide

/-- C26: for distinct user ids `u` and `v`, the session read for `v` after
`getSession(u)`, `setState(u, s)`, `setData(u, k, x)` or `clearSession(u)` is
the session read before: absent if it was absent, otherwise with the same
state, data and `lastActivity`. -/
theorem C26_other_sessions_untouched (sessions : Store) (now u v : Nat) (s : Option String)
    (k : String) (x : Value) (h : u ≠ v) :
    lookupKey v (SessionService.getSession sessions now u).1 = lookupKey v sessions
      ∧ lookupKey v (SessionService.setState sessions now u s).1 = lookupKey v sessions
      ∧ lookupKey v (SessionService.setData sessions now u k x).1 = lookupKey v sessions
      ∧ lookupKey v (SessionService.clearSession sessions now u) = lookupKey v sessions := by
  have hv : v ≠ u := Ne.symm h
  have hg : lookupKey v (SessionService.getSession sessions now u).1 = lookupKey v sessions := by
    unfold SessionService.getSession
    cases hl : lookupKey u sessions with
    | none => simp [lookupKey_upsert_same, lookupKey_upsert_ne _ _ _ _ hv]
    | some y => simp [hl, lookupKey_upsert_ne _ _ _ _ hv]
  refine ⟨hg, ?_, ?_, ?_⟩
  · simp [SessionService.setState, lookupKey_upsert_ne _ _ _ _ hv, hg]
  · simp [SessionService.setData, lookupKey_upsert_ne _ _ _ _ hv, hg]
  · unfold SessionService.clearSession
    cases hl : lookupKey u sessions with
    | none => rfl
    | some y => simp [lookupKey_upsert_ne _ _ _ _ hv]

/-- C26, an instance: writing a key for user 7 leaves the session of user 3 as it
was. -/
theorem C26_other_sessions_witness :
    lookupKey 3
        (SessionService.setData
          [(3, sessionIn USER_STATES.WAITING_ROLE [("name", .str "Ada")])] 1000 7 "name"
          (.str "Bob")).1
      = some (sessionIn USER_STATES.WAITING_ROLE [("name", .str "Ada")]) :=
  (C26_other_sessions_untouched
    [(3, sessionIn USER_STATES.WAITING_ROLE [("name", .str "Ada")])] 1000 7 3 none "name"
    (.str "Bob") (by decide)).2.2.1

/-! ## The sweeps when sends fail -/

theorem mem_delivered {α : Type} (fails : Nat → Bool) (first : Nat) (l : List α) (e : α) :
    e ∈ delivered fails first l ↔ ∃ i, l.get? i = some e ∧ fails (first + i) = false := by
  induction l generalizing first with
  | nil => simp [delivered]
  | cons a rest ih =>
    unfold delivered
    constructor
    · intro h
      by_cases hf : fails first = true
      · rw [if_pos hf] at h
        obtain ⟨i, hi, hfi⟩ := (ih (first + 1)).1 h
        exact ⟨i + 1, by simpa using hi, by rw [← hfi]; congr 1; omega⟩
      · rw [if_neg hf] at h
        rcases List.mem_cons.1 h with h | h
        · exact ⟨0, by simp [h], by simpa using hf⟩
        · obtain ⟨i, hi, hfi⟩ := (ih (first + 1)).1 h
          exact ⟨i + 1, by simpa using hi, by rw [← hfi]; congr 1; omega⟩
    · rintro ⟨i, hi, hfi⟩
      cases i with
      | zero =>
        have hf : ¬ fails first = true := by simpa using hfi
        rw [if_neg hf]
        simp only [List.get?_cons_zero, Option.some.injEq] at hi
        simp [hi]
      | succ j =>
        have hm : e ∈ delivered fails (first + 1) rest :=
          (ih (first + 1)).2 ⟨j, by simpa using hi, by rw [← hfi]; congr 1; omega⟩
        by_cases hf : fails first = true
        · rw [if_pos hf]
          exact hm
        · rw [if_neg hf]
          exact List.mem_cons_of_mem _ hm

theorem delivered_sublist {α : Type} (fails : Nat → Bool) (first : Nat) (l : List α) :
    (delivered fails first l).Sublist l := by
  induction l generalizing first with
  | nil => exact List.Sublist.slnil
  | cons a rest ih =>
    unfold delivered
    split
    · exact (ih _).cons _
    · exact (ih _).cons₂ _

/-- The loop over the groups, whatever the Bot API does: it returns, every send
has been tried once, and the messages delivered are those of the groups whose
send was accepted. -/
theorem notifyEach_run (message : List Task → String) (entries : List (Nat × List Task))
    (w : World) (hne : ∀ e ∈ entries, e.2 ≠ []) :
    NotificationService.notifyEach message entries w
      = .ok ()
          { w with
            apiCalls := w.apiCalls + entries.length,
            outbox := w.outbox
              ++ (delivered w.apiFails w.apiCalls entries).map (reminder message) } := by
  induction entries generalizing w with
  | nil => simp [NotificationService.notifyEach, delivered]
  | cons e rest ih =>
    obtain ⟨k, ts⟩ := e
    have hts : ts ≠ [] := hne (k, ts) (by simp)
    have hlen : ¬ ts.length = 0 := fun h => hts (List.length_eq_zero.1 h)
    have hrest : ∀ e ∈ rest, e.2 ≠ [] := fun e he => hne e (by simp [he])
    by_cases hf : w.apiFails w.apiCalls = true
    · have hs : sendMessage (k : Int) (message ts) true .none w
          = .thrown { w with apiCalls := w.apiCalls + 1 } := by
        simp [sendMessage, apiCall, hf]
      simp only [NotificationService.notifyEach, hlen, if_false, bind_run, tryCatch, hs,
        pure_run]
      have h2 := ih { w with apiCalls := w.apiCalls + 1 } hrest
      rw [h2]
      simp [delivered, hf, Nat.add_assoc, Nat.add_comm]
      omega
    · have hf2 : w.apiFails w.apiCalls = false := by simpa using hf
      simp only [NotificationService.notifyEach, hlen, if_false, bind_run, tryCatch,
        sendMessage_ok _ _ _ _ w hf2]
      have h2 := ih
        { w with
          apiCalls := w.apiCalls + 1,
          outbox := w.outbox ++ [⟨(k : Int), message ts, true, .none⟩] } hrest
      rw [h2]
      simp [delivered, hf2, reminder, Nat.add_assoc, Nat.add_comm]
      omega

theorem sweep_nonempty (w : World) (tasks : List Task) :
    ∀ e ∈ forInOrder (NotificationService.groupByUser w tasks), e.2 ≠ [] :=
  fun e he => (((groups_spec w tasks).2 e.1 e.2).1 he).1

/-- C24: both sweeps return normally in every world, whatever calls fail.  When the
query succeeds, a sweep makes one send per recipient, in order, and the outbox
gains the aggregated message of exactly those recipients whose send did not
fail: the recipient at position `i` is served if and only if the Bot API call
number `apiCalls + i` succeeds. -/
theorem C24_sweeps_survive_failed_sends (w : World) :
    (∃ w1, NotificationService.checkOverdueTasks w = .ok () w1)
      ∧ (∃ w1, NotificationService.checkUpcomingTasks w = .ok () w1)
      ∧ (w.dbFails w.dbCalls = false →
          NotificationService.checkOverdueTasks w
            = .ok ()
                { w with
                  dbCalls := w.dbCalls + 1,
                  apiCalls := w.apiCalls
                    + (forInOrder (NotificationService.groupByUser w
                        (w.tasks.filter
                          (NotificationService.overdueFilter (startOfDay w.now))))).length,
                  outbox := w.outbox
                    ++ (delivered w.apiFails w.apiCalls
                        (forInOrder (NotificationService.groupByUser w
                          (w.tasks.filter
                            (NotificationService.overdueFilter (startOfDay w.now)))))).map
                        (reminder (NotificationService.overdueMessage w)) })
      ∧ (w.dbFails w.dbCalls = false →
          NotificationService.checkUpcomingTasks w
            = .ok ()
                { w with
                  dbCalls := w.dbCalls + 1,
                  apiCalls := w.apiCalls
                    + (forInOrder (NotificationService.groupByUser w
                        (w.tasks.filter
                          (NotificationService.upcomingFilter (startOfDay w.now + 86400000)
                            (startOfDay w.now + 86400000 + 86400000))))).length,
                  outbox := w.outbox
                    ++ (delivered w.apiFails w.apiCalls
                        (forInOrder (NotificationService.groupByUser w
                          (w.tasks.filter
                            (NotificationService.upcomingFilter (startOfDay w.now + 86400000)
                              (startOfDay w.now + 86400000 + 86400000)))))).map
                        (reminder (NotificationService.upcomingMessage w)) })
      ∧ (∀ (groups : List (Nat × List Task)) (g : Nat × List Task),
          g ∈ delivered w.apiFails w.apiCalls groups
            ↔ ∃ i, groups.get? i = some g ∧ w.apiFails (w.apiCalls + i) = false) := by
  have hg : NotificationService.groupByUser { w with dbCalls := w.dbCalls + 1 }
      = NotificationService.groupByUser w := rfl
  have ho : w.dbFails w.dbCalls = false →
      NotificationService.checkOverdueTasks w
        = .ok ()
            { w with
              dbCalls := w.dbCalls + 1,
              apiCalls := w.apiCalls
                + (forInOrder (NotificationService.groupByUser w
                    (w.tasks.filter
                      (NotificationService.overdueFilter (startOfDay w.now))))).length,
              outbox := w.outbox
                ++ (delivered w.apiFails w.apiCalls
                    (forInOrder (NotificationService.groupByUser w
                      (w.tasks.filter
                        (NotificationService.overdueFilter (startOfDay w.now)))))).map
                    (reminder (NotificationService.overdueMessage w)) } := by
    intro hdb
    have hm : NotificationService.overdueMessage { w with dbCalls := w.dbCalls + 1 }
        = NotificationService.overdueMessage w := rfl
    have hrun := notifyEach_run (NotificationService.overdueMessage w) _
      { w with dbCalls := w.dbCalls + 1 }
      (sweep_nonempty w (w.tasks.filter (NotificationService.overdueFilter (startOfDay w.now))))
    unfold NotificationService.checkOverdueTasks
    simp only [tryCatch, bind_run, getWorld, NotificationService.findTasks, dbCall_ok w hdb,
      pure_run, hm, hg, hrun]
  have hu : w.dbFails w.dbCalls = false →
      NotificationService.checkUpcomingTasks w
        = .ok ()
            { w with
              dbCalls := w.dbCalls + 1,
              apiCalls := w.apiCalls
                + (forInOrder (NotificationService.groupByUser w
                    (w.tasks.filter
                      (NotificationService.upcomingFilter (startOfDay w.now + 86400000)
                        (startOfDay w.now + 86400000 + 86400000))))).length,
              outbox := w.outbox
                ++ (delivered w.apiFails w.apiCalls
                    (forInOrder (NotificationService.groupByUser w
                      (w.tasks.filter
                        (NotificationService.upcomingFilter (startOfDay w.now + 86400000)
                          (startOfDay w.now + 86400000 + 86400000)))))).map
                    (reminder (NotificationService.upcomingMessage w)) } := by
    intro hdb
    have hm : NotificationService.upcomingMessage { w with dbCalls := w.dbCalls + 1 }
        = NotificationService.upcomingMessage w := rfl
    have hrun := notifyEach_run (NotificationService.upcomingMessage w) _
      { w with dbCalls := w.dbCalls + 1 }
      (sweep_nonempty w (w.tasks.filter
        (NotificationService.upcomingFilter (startOfDay w.now + 86400000)
          (startOfDay w.now + 86400000 + 86400000))))
    unfold NotificationService.checkUpcomingTasks
    simp only [tryCatch, bind_run, getWorld, NotificationService.findTasks, dbCall_ok w hdb,
      pure_run, hm, hg, startOfDay_next, hrun]
  refine ⟨?_, ?_, ho, hu, fun groups g => mem_delivered _ _ _ _⟩
  · by_cases hdb : w.dbFails w.dbCalls = true
    · exact ⟨{ w with dbCalls := w.dbCalls + 1 }, by
        simp [NotificationService.checkOverdueTasks, tryCatch, getWorld,
          NotificationService.findTasks, dbCall, hdb]⟩
    · exact ⟨_, ho (by simpa using hdb)⟩
  · by_cases hdb : w.dbFails w.dbCalls = true
    · exact ⟨{ w with dbCalls := w.dbCalls + 1 }, by
        simp [NotificationService.checkUpcomingTasks, tryCatch, getWorld,
          NotificationService.findTasks, dbCall, hdb]⟩
    · exact ⟨_, hu (by simpa using hdb)⟩

set_option maxRecDepth 100000 in
/-- C24, an instance: the send to the first recipient fails and the second recipient
still gets the message. -/
theorem C24_failed_send_witness :
    (NotificationService.checkOverdueTasks flakyWorld).world.outbox
      = [reminder (NotificationService.overdueMessage flakyWorld)
          (8, [sampleTask 65 "old" (some 2) (some 86400000) "todo"])] := by
  rw [(C24_sweeps_survive_failed_sends flakyWorld).2.2.1 rfl]
  decide

/-! ## Task status and completion date -/

theorem Task_findById_ok (tid : String) (id : Nat) (w : World) (hid : parseId tid = some id)
    (h : w.dbFails w.dbCalls = false) :
    Task.findById (some tid) w
      = .ok (w.tasks.find? (fun t => t.id = id)) { w with dbCalls := w.dbCalls + 1 } := by
  simp [Task.findById, hid, dbCall_ok w h, getWorld]

theorem Project_findByObjectId_ok (id : Nat) (w : World) (h : w.dbFails w.dbCalls = false) :
    Project.findByObjectId id w
      = .ok (w.projects.find? (fun p => p.id = id)) { w with dbCalls := w.dbCalls + 1 } := by
  simp [Project.findByObjectId, dbCall_ok w h, getWorld]

theorem Task_save_ok (task : Task) (w : World)
    (hs : task.status ∈ ["todo", "in-progress", "done"]) (h : w.dbFails w.dbCalls = false) :
    Task.save task w
      = .ok ()
          { w with
            tasks := w.tasks.map (fun t => if t.id = task.id then task else t),
            dbCalls := w.dbCalls + 1 } := by
  simp only [Task.save, hs, if_true, bind_run, dbCall_ok w h, modifyWorld]

theorem quiet_tasks : Quiet (Same (fun w => w.tasks)) :=
  quiet_same _ (fun _ _ => rfl) (fun _ _ => rfl) (fun _ _ => rfl) (fun _ _ => rfl)

/-- The task written by an authorised status change, when the four database
calls succeed. -/
theorem updateTaskStatus_saves (c : Int) (u : Nat) (tid new : String) (id : Nat) (w : World)
    (task : Task) (user : User) (project : Project)
    (hid : parseId tid = some id)
    (htask : w.tasks.find? (fun t => t.id = id) = some task)
    (huser : w.users.find? (fun x => x.telegramId = u) = some user)
    (hproject : w.projects.find? (fun p => p.id = task.projectId) = some project)
    (hmember : task.projectId ∈ user.projects)
    (hright : project.adminId = u ∨ task.assignedTo = some user.id)
    (hnew : new ∈ ["todo", "in-progress", "done"])
    (hdb : ∀ k, w.dbFails k = false) :
    (taskController.updateTaskStatus c u (some tid) (some new) w).world.tasks
      = w.tasks.map (fun t =>
          if t.id = task.id then taskController.withStatus task (some new) w.now else t) := by
  have hq := quiet_tasks
  unfold taskController.updateTaskStatus
  rw [tryCatchReturn_bind_ok _ _ _ _ _ _ (Task_findById_ok tid id w hid (hdb _))]
  simp only [htask]
  rw [tryCatchReturn_bind_ok _ _ _ _ _ _
    (User_findOne_ok u { w with dbCalls := w.dbCalls + 1 } (hdb _))]
  rw [tryCatchReturn_bind_ok _ _ _ _ _ _
    (Project_findByObjectId_ok task.projectId { w with dbCalls := w.dbCalls + 1 + 1 } (hdb _))]
  have hno : ¬ ((¬ (decide (project.adminId = u)) = true)
      ∧ (¬ (decide (task.assignedTo = some user.id)) = true)) := by
    rcases hright with h | h
    · simp [h]
    · simp [h]
  simp only [huser, hproject, hmember, not_true_eq_false, if_false, hno]
  rw [tryCatchReturn_bind_ok _ _ _ _ _ _ (show getWorld _ = .ok _ _ from rfl)]
  have hsave := Task_save_ok (taskController.withStatus task (some new) w.now)
    { w with dbCalls := w.dbCalls + 1 + 1 + 1 } (by simpa [taskController.withStatus] using hnew)
    (hdb _)
  rw [tryCatchReturn_bind_ok _ _ _ _ _ _ hsave]
  refine ((step_tryCatchReturn hq ?_ ?_).keeps _).trans rfl
  · refine stepRet_bind hq (step_showTaskDetails hq _ _ _) (fun _ => ?_)
    split
    · exact stepRet_bind hq
        (step_tryCatch hq (step_sendMessage hq _ _ _ _) (step_pure hq _))
        (fun _ => stepRet_done hq)
    · exact stepRet_bind hq (step_pure hq _) (fun _ => stepRet_done hq)
  · exact stepRet_bind hq (step_sendMessage hq _ _ _ _) (fun _ => stepRet_done hq)

/-- C29: for a task found by the payload, a registered caller who is a member of
the project and its admin or the assignee, a new status among `todo`,
`in-progress` and `done`, and database calls that succeed, `updateTaskStatus`
replaces the task by the task with the new status; if `completedAt` was set
exactly when the status was `done`, this holds again; a change to another
status than `done` clears `completedAt`, a change into `done` sets it to the
current time, and `done` to `done` keeps it. -/
theorem C29_status_change_keeps_completion_invariant (chatId : Int) (userId : Nat)
    (taskId new : String) (id : Nat) (w : World) (task : Task) (user : User)
    (project : Project)
    (hid : parseId taskId = some id)
    (htask : w.tasks.find? (fun t => t.id = id) = some task)
    (huser : w.users.find? (fun x => x.telegramId = userId) = some user)
    (hproject : w.projects.find? (fun p => p.id = task.projectId) = some project)
    (hmember : task.projectId ∈ user.projects)
    (hright : project.adminId = userId ∨ task.assignedTo = some user.id)
    (hnew : new ∈ ["todo", "in-progress", "done"])
    (hdb : ∀ k, w.dbFails k = false)
    (hinv : task.completedAt.isSome = true ↔ task.status = "done") :
    (taskController.updateTaskStatus chatId userId (some taskId) (some new) w).world.tasks
        = w.tasks.map (fun t =>
            if t.id = task.id then taskController.withStatus task (some new) w.now else t)
      ∧ ((taskController.withStatus task (some new) w.now).completedAt.isSome = true
          ↔ (taskController.withStatus task (some new) w.now).status = "done")
      ∧ (taskController.withStatus task (some new) w.now).status = new
      ∧ (new ≠ "done" → (taskController.withStatus task (some new) w.now).completedAt = none)
      ∧ (new = "done" → task.status ≠ "done" →
          (taskController.withStatus task (some new) w.now).completedAt = some w.now)
      ∧ (new = "done" → task.status = "done" →
          (taskController.withStatus task (some new) w.now).completedAt = task.completedAt) := by
  refine ⟨updateTaskStatus_saves chatId userId taskId new id w task user project hid htask huser
    hproject hmember hright hnew hdb, ?_, rfl, ?_, ?_, ?_⟩
  · by_cases hd : new = "done"
    · by_cases ho : task.status = "done"
      · simp [taskController.withStatus, hd, ho, hinv]
      · simp [taskController.withStatus, hd, ho]
    · simp [taskController.withStatus, hd]
  · intro hd
    simp [taskController.withStatus, hd]
  · intro hd ho
    simp [taskController.withStatus, hd, ho]
  · intro hd ho
    simp [taskController.withStatus, hd, ho]

set_option maxRecDepth 100000 in
/-- C29, an instance: the admin marks task 60 as done. -/
theorem C29_status_change_witness :
    (taskController.updateTaskStatus 7 7 (some (renderId 60)) (some "done")
        sweepWorld).world.tasks.map (fun t => (t.id, t.status, t.completedAt))
      = [(60, "done", some (3 * 86400000 + 5000)), (61, "todo", none),
         (62, "in-progress", none), (63, "done", none), (64, "todo", none)] := by
  rw [(C29_status_change_keeps_completion_invariant 7 7 (renderId 60) "done" 60 sweepWorld
    (sampleTask 60 "late" (some 1) (some (2 * 86400000)) "todo") (sampleUser [50])
    (sampleProject 50 "Alpha") (by decide) (by decide) (by decide) (by decide) (by decide)
    (by decide) (by decide) (fun _ => rfl) (by decide)).1]
  decide

/-! ## The buttons of the program and the callback router -/

theorem isPrefixOf_append_of_mismatch (p a y : List Char) (h1 : p.isPrefixOf a = false)
    (h2 : a.isPrefixOf p = false) : p.isPrefixOf (a ++ y) = false := by
  induction p generalizing a with
  | nil => simp at h1
  | cons c cs ih =>
    cases a with
    | nil => simp at h2
    | cons d ds =>
      by_cases hcd : c = d
      · subst hcd
        simp only [List.isPrefixOf, beq_self_eq_true, Bool.true_and] at h1 h2
        simp only [List.cons_append, List.isPrefixOf, beq_self_eq_true, Bool.true_and]
        exact ih ds h1 h2
      · simp [List.isPrefixOf, hcd]

theorem startsWith_stem_false (stem p x : String) (h1 : p.data.isPrefixOf stem.data = false)
    (h2 : stem.data.isPrefixOf p.data = false) : startsWith (stem ++ x) p = false := by
  unfold startsWith
  rw [String.data_append]
  exact isPrefixOf_append_of_mismatch _ _ _ h1 h2

theorem stem_append_ne (stem p x : String) (h : stem.data.isPrefixOf p.data = false) :
    stem ++ x ≠ p := by
  intro e
  have hp : stem.data.isPrefixOf p.data = true := by
    rw [← e, String.data_append]
    simp
  rw [h] at hp
  cases hp

theorem route_view_tasks (x : String) : callbackRoute ("view_tasks:" ++ x) = .notImplemented := by
  unfold callbackRoute
  simp (disch := decide) only [startsWith_stem_false, stem_append_ne, or_self, if_false,
    Bool.false_eq_true]

theorem route_stems (stem x : String) (h : stem ∈ payloadStems) (hv : stem ≠ "view_tasks:") :
    callbackRoute (stem ++ x) ≠ .notImplemented := by
  simp only [payloadStems, List.mem_cons, List.mem_singleton, List.not_mem_nil, or_false] at h
  rcases h with h | h | h | h | h | h | h | h | h | h | h | h | h | h | h | h | h | h <;>
    subst h <;>
    first
      | exact absurd rfl hv
      | (unfold callbackRoute
         simp (disch := decide) only [startsWith_append, startsWith_stem_false, stem_append_ne,
           or_self, or_true, true_or, or_false, false_or, if_true, if_false, Bool.false_eq_true,
           ne_eq, not_false_eq_true, reduceCtorEq])

theorem route_fixed (p : String) (h : p ∈ fixedPayloads) :
    callbackRoute p ≠ .notImplemented := by
  simp only [fixedPayloads, List.mem_cons, List.mem_singleton, List.not_mem_nil, or_false] at h
  rcases h with h | h | h | h <;> subst h <;> decide

theorem route_taskDetailsButtons (task : Task) (isAdmin isAssignee : Bool) :
    ∀ row ∈ taskController.taskDetailsButtons task isAdmin isAssignee, ∀ b ∈ row,
      callbackRoute b.2 = .task := by
  have hs : ∀ x : String, callbackRoute ("task_status:" ++ x) = .task := by
    intro x
    unfold callbackRoute
    simp (disch := decide) only [startsWith_append, startsWith_stem_false, stem_append_ne,
      or_self, or_true, true_or, or_false, false_or, if_true, if_false, Bool.false_eq_true]
  have he : ∀ x : String, callbackRoute ("edit_task:" ++ x) = .task := by
    intro x
    unfold callbackRoute
    simp (disch := decide) only [startsWith_append, startsWith_stem_false, stem_append_ne,
      or_self, or_true, true_or, or_false, false_or, if_true, if_false, Bool.false_eq_true]
  have hd : ∀ x : String, callbackRoute ("delete_task:" ++ x) = .task := by
    intro x
    unfold callbackRoute
    simp (disch := decide) only [startsWith_append, startsWith_stem_false, stem_append_ne,
      or_self, or_true, true_or, or_false, false_or, if_true, if_false, Bool.false_eq_true]
  have hb : callbackRoute "back_to_tasks" = .task := by decide
  intro row hrow b hb2
  have key : (∃ x, b.2 = "task_status:" ++ x) ∨ (∃ x, b.2 = "edit_task:" ++ x)
      ∨ (∃ x, b.2 = "delete_task:" ++ x) ∨ b.2 = "back_to_tasks" := by
    unfold taskController.taskDetailsButtons at hrow
    by_cases h1 : task.status = "todo" <;> by_cases h2 : task.status = "in-progress" <;>
      by_cases h3 : task.status = "done" <;> cases isAdmin <;> cases isAssignee <;>
      simp [h1, h2, h3, String.append_assoc] at hrow <;>
      aesop
  rcases key with ⟨x, h⟩ | ⟨x, h⟩ | ⟨x, h⟩ | h
  · rw [h]
    exact hs x
  · rw [h]
    exact he x
  · rw [h]
    exact hd x
  · rw [h]
    exact hb

set_option maxRecDepth 100000 in
/-- C30, what the code does: the "View Tasks" button of the project card carries
`view_tasks:<project id>`, and no payload with that prefix is matched by the
three groups of the callback router, so the button gets the "not implemented"
answer.  Every other payload template of the controllers and every fixed
payload is matched by a group, and all buttons of the task card go to the task
group. -/
theorem C30_view_tasks_button_is_not_routed :
    (∀ x : String, callbackRoute ("view_tasks:" ++ x) = .notImplemented)
      ∧ (∀ stem ∈ payloadStems, stem ≠ "view_tasks:" →
          ∀ x : String, callbackRoute (stem ++ x) ≠ .notImplemented)
      ∧ (∀ p ∈ fixedPayloads, callbackRoute p ≠ .notImplemented)
      ∧ (∀ (task : Task) (isAdmin isAssignee : Bool),
          ∀ row ∈ taskController.taskDetailsButtons task isAdmin isAssignee, ∀ b ∈ row,
            callbackRoute b.2 = .task)
      ∧ (projectController.showProjectDetails 7 7 (emoji.project ++ " Alpha")
            (quietWorld [] [sampleUser [50]] [sampleProject 50 "Alpha"])).world.outbox.map
          (fun o => o.markup)
          = [.inline
              [[(emoji.editProject ++ " Edit", "edit_project:" ++ renderId 50),
                (emoji.deleteProject ++ " Delete", "delete_project:" ++ renderId 50)],
               [(emoji.team ++ " View Team", "view_team:" ++ renderId 50),
                (emoji.tasks ++ " View Tasks", "view_tasks:" ++ renderId 50)]]]
      ∧ (onCallbackQuery ⟨"q1", "view_tasks:" ++ renderId 50, 7, 7⟩
            (quietWorld [] [sampleUser [50]] [sampleProject 50 "Alpha"])).world.answers
          = [⟨"q1", some "This button is not implemented yet."⟩] :=
  ⟨route_view_tasks, fun stem h hv x => route_stems stem x h hv, route_fixed,
    route_taskDetailsButtons, by decide, by decide⟩

/-! ## Project creation: the second write fails -/

theorem User_save_thrown (user : User) (w : World) (h : w.dbFails w.dbCalls = true) :
    User.save user w = .thrown { w with dbCalls := w.dbCalls + 1 } := by
  simp [User.save, dbCall, h]

/-- The projects menu only ever adds to the outbox, whatever fails. -/
theorem showProjectsMenu_outbox_grows (c : Int) (u : Nat) (w : World) :
    ∃ l, (projectController.showProjectsMenu c u w).world.outbox = w.outbox ++ l := by
  unfold projectController.showProjectsMenu
  by_cases h1 : w.dbFails w.dbCalls = true
  · exact ⟨[], by simp [User.findOne, dbCall, h1, Res.world]⟩
  · have h1 : w.dbFails w.dbCalls = false := by simpa using h1
    cases hu : w.users.find? (fun x => x.telegramId = u) with
    | none =>
      by_cases ha : w.apiFails w.apiCalls = true
      · exact ⟨[], by simp [User.findOne, dbCall, h1, hu, sendMessage, apiCall, ha, getWorld,
          Res.world]⟩
      · exact ⟨_, by simp [User.findOne, dbCall, h1, hu, sendMessage, apiCall, ha, getWorld,
          modifyWorld, Res.world]; rfl⟩
    | some user =>
      by_cases hp : user.projects.length > 0
      · by_cases h2 : w.dbFails (w.dbCalls + 1) = true
        · exact ⟨[], by simp [User.findOne, dbCall, h1, hu, hp, Project.findIn, h2, getWorld,
            Res.world]⟩
        · by_cases ha : w.apiFails w.apiCalls = true
          · exact ⟨[], by simp [User.findOne, dbCall, h1, hu, hp, Project.findIn, h2, getWorld,
              sendMessage, apiCall, ha, Res.world]⟩
          · exact ⟨_, by simp [User.findOne, dbCall, h1, hu, hp, Project.findIn, h2, getWorld,
              sendMessage, apiCall, ha, modifyWorld, Res.world]; rfl⟩
      · by_cases ha : w.apiFails w.apiCalls = true
        · exact ⟨[], by simp [User.findOne, dbCall, h1, hu, hp, getWorld,
            sendMessage, apiCall, ha, Res.world]⟩
        · exact ⟨_, by simp [User.findOne, dbCall, h1, hu, hp, getWorld,
            sendMessage, apiCall, ha, modifyWorld, Res.world]; rfl⟩

/-- C23: at the project-description step of a registered user whose session holds a
project name that is not blank, if the user lookup and the save of the project
succeed, the save of the user fails and the error message can be sent, then
the new project is in the collection, the `User` collection is as it was, the
error message is the next message in the outbox, and the session of the user
is `{state: null, data: {}}`. -/
theorem C23_failed_member_write_keeps_project (c : Int) (u : Nat) (t n : String) (w : World)
    (user : User) (htext : t ≠ cancelText)
    (hreg : w.users.find? (fun x => x.telegramId = u) = some user)
    (hname : textField (SessionService.getSession w.sessions w.now u).2.data "projectName"
      = some n)
    (htrim : trim n ≠ "")
    (hfind : w.dbFails w.dbCalls = false)
    (hcreate : w.dbFails (w.dbCalls + 1) = false)
    (hsave : w.dbFails (w.dbCalls + 2) = true)
    (hsend : w.apiFails w.apiCalls = false) :
    (projectController.handleProjectDescriptionInput c u t w).world.projects
        = w.projects ++
          [{ id := w.nextId, name := trim n,
             description := trim (if t = "Skip" ∨ toLowerCase t = "skip" then "" else t),
             adminId := u, createdAt := w.now,
             workDays := ["Monday", "Tuesday", "Wednesday", "Thursday", "Friday"] }]
      ∧ (projectController.handleProjectDescriptionInput c u t w).world.users = w.users
      ∧ (∃ later, (projectController.handleProjectDescriptionInput c u t w).world.outbox
          = w.outbox ++
            ⟨c, emoji.error ++ " There was an error creating your project. Please try again later.",
              false, .none⟩ :: later)
      ∧ lookupKey u (projectController.handleProjectDescriptionInput c u t w).world.sessions
          = some { state := none, data := [], lastActivity := w.now } := by
  unfold projectController.handleProjectDescriptionInput
  simp only [htext, if_false, bind_run, getSession_run, hname]
  generalize (if t = "Skip" ∨ toLowerCase t = "skip" then "" else t) = d
  have h1 := User_findOne_ok u
    { w with sessions := (SessionService.getSession w.sessions w.now u).1 } hfind
  rw [tryCatchReturn_bind_ok _ _ _ _ _ _ h1]
  simp only [hreg]
  have h2 := Project_create_ok n d u
    { w with sessions := (SessionService.getSession w.sessions w.now u).1,
             dbCalls := w.dbCalls + 1 } htrim hcreate
  rw [tryCatchReturn_bind_ok _ _ _ _ _ _ h2]
  have h3 := User_save_thrown { user with projects := user.projects ++ [w.nextId] }
    { w with sessions := (SessionService.getSession w.sessions w.now u).1,
             projects := w.projects ++
               [{ id := w.nextId, name := trim n, description := trim d, adminId := u,
                  createdAt := w.now,
                  workDays := ["Monday", "Tuesday", "Wednesday", "Thursday", "Friday"] }],
             nextId := w.nextId + 1, dbCalls := w.dbCalls + 1 + 1 } hsave
  rw [tryCatchReturn_bind_thrown _ _ _ _ _ h3]
  have h4 := sendMessage_ok c
    (emoji.error ++ " There was an error creating your project. Please try again later.")
    false .none
    { w with sessions := (SessionService.getSession w.sessions w.now u).1,
             projects := w.projects ++
               [{ id := w.nextId, name := trim n, description := trim d, adminId := u,
                  createdAt := w.now,
                  workDays := ["Monday", "Tuesday", "Wednesday", "Thursday", "Friday"] }],
             nextId := w.nextId + 1, dbCalls := w.dbCalls + 1 + 1 + 1 } hsend
  simp only [bind_run, h4, clearSession_run, pure_run]
  have hq := quiet_and (quiet_keepsCleared u) quiet_atMostSessions
  have hmenu := (step_showProjectsMenu hq c u
    (fun w => ⟨keepsCleared_setState_none u w, atMostSessions_sessions w _⟩)).keeps
    { w with
      sessions := SessionService.clearSession
        (SessionService.getSession w.sessions w.now u).1 w.now u,
      projects := w.projects ++
        [{ id := w.nextId, name := trim n, description := trim d, adminId := u,
           createdAt := w.now,
           workDays := ["Monday", "Tuesday", "Wednesday", "Thursday", "Friday"] }],
      nextId := w.nextId + 1, dbCalls := w.dbCalls + 1 + 1 + 1,
      apiCalls := w.apiCalls + 1,
      outbox := w.outbox ++
        [⟨c, emoji.error ++ " There was an error creating your project. Please try again later.",
          false, .none⟩] }
  obtain ⟨l, hl⟩ := showProjectsMenu_outbox_grows c u
    { w with
      sessions := SessionService.clearSession
        (SessionService.getSession w.sessions w.now u).1 w.now u,
      projects := w.projects ++
        [{ id := w.nextId, name := trim n, description := trim d, adminId := u,
           createdAt := w.now,
           workDays := ["Monday", "Tuesday", "Wednesday", "Thursday", "Friday"] }],
      nextId := w.nextId + 1, dbCalls := w.dbCalls + 1 + 1 + 1,
      apiCalls := w.apiCalls + 1,
      outbox := w.outbox ++
        [⟨c, emoji.error ++ " There was an error creating your project. Please try again later.",
          false, .none⟩] }
  obtain ⟨⟨_, hc⟩, S, dd, a, o, ans, e⟩ := hmenu
  refine ⟨?_, ?_, ⟨l, ?_⟩, ?_⟩
  · rw [e]
  · rw [e]
  · rw [hl]; simp
  · have hs := hc (SessionService.lookup_clearSession
      (SessionService.lookup_getSession w.sessions w.now u))
    exact hs

set_option maxRecDepth 100000 in
/-- C23, an instance: the third database call fails; project `Alpha` is saved, the
user has no project, the session is cleared. -/
theorem C23_failed_member_write_witness :
    (projectController.handleProjectDescriptionInput 7 7 "for tests" brokenSaveWorld).world.projects
        = [{ id := 100, name := "Alpha", description := "for tests", adminId := 7,
             createdAt := 1000,
             workDays := ["Monday", "Tuesday", "Wednesday", "Thursday", "Friday"] }]
      ∧ (projectController.handleProjectDescriptionInput 7 7 "for tests"
          brokenSaveWorld).world.users = [sampleUser []]
      ∧ lookupKey 7 (projectController.handleProjectDescriptionInput 7 7 "for tests"
          brokenSaveWorld).world.sessions
          = some { state := none, data := [], lastActivity := 1000 } := by
  have h := C23_failed_member_write_keeps_project 7 7 "for tests" "Alpha" brokenSaveWorld
    (sampleUser []) (by decide) (by decide) (by decide) (by decide) rfl rfl rfl rfl
  refine ⟨?_, h.2.1, h.2.2.2⟩
  rw [h.1]
  decide

/-! ## Join requests resolved by somebody who is not the admin -/

theorem resolveJoinRequest_refused (approve : Bool) (c : Int) (a : Nat) (pid : String)
    (p : Nat) (project : Project) (r : Option Int) (w : World)
    (hid : parseId pid = some p)
    (hfound : w.projects.find? (fun x => x.id = p) = some project)
    (hadmin : project.adminId ≠ a) :
    (userController.resolveJoinRequest approve c a (some pid) r w).world
      = { w with
          dbCalls := w.dbCalls + 1, apiCalls := w.apiCalls + 1,
          outbox :=
            if w.apiFails w.apiCalls then w.outbox
            else w.outbox ++
              [⟨c,
                if w.dbFails w.dbCalls then
                  emoji.error
                    ++ " There was an error processing your request. Please try again later."
                else
                  emoji.error ++ " Only the project admin can "
                    ++ (if approve then "approve" else "reject") ++ " join requests.",
                false, .none⟩] } := by
  unfold userController.resolveJoinRequest
  by_cases hdb : w.dbFails w.dbCalls = true
  · have h1 : Project.findById (some pid) w = .thrown { w with dbCalls := w.dbCalls + 1 } := by
      simp [Project.findById, hid, Project.findByObjectId, dbCall, hdb]
    rw [tryCatchReturn_bind_thrown _ _ _ _ _ h1]
    by_cases ha : w.apiFails w.apiCalls = true
    · simp [sendMessage, apiCall, ha, hdb, Res.world]
    · simp [sendMessage, apiCall, ha, hdb, modifyWorld, done, Res.world]
  · have hdb : w.dbFails w.dbCalls = false := by simpa using hdb
    have h1 : Project.findById (some pid) w
        = .ok (some project) { w with dbCalls := w.dbCalls + 1 } := by
      simp [Project.findById, hid, Project_findByObjectId_ok p w hdb, hfound]
    rw [tryCatchReturn_bind_ok _ _ _ _ _ _ h1]
    by_cases ha : w.apiFails w.apiCalls = true
    · simp [tryCatchReturn, tryCatch, hadmin, sendMessage, apiCall, ha, hdb, Res.world]
    · simp [tryCatchReturn, tryCatch, hadmin, sendMessage, apiCall, ha, hdb, modifyWorld,
        Res.world]

/-- C25: when `approveJoinRequest` or `rejectJoinRequest` is called for a project
that exists and whose admin is not the caller, then, whatever fails, the `User`,
`Project` and `Task` collections and the session store are as they were.  If
the lookup and the send succeed the caller gets the "Only the project admin
can ..." message; if the lookup fails and the send succeeds the caller gets the
general error message. -/
theorem C25_only_the_admin_resolves_requests (c : Int) (a : Nat) (pid : String)
    (p : Nat) (project : Project) (r : Option Int) (w : World)
    (hid : parseId pid = some p)
    (hfound : w.projects.find? (fun x => x.id = p) = some project)
    (hadmin : project.adminId ≠ a) :
    (∀ m, m ∈ [userController.approveJoinRequest c a (some pid) r,
               userController.rejectJoinRequest c a (some pid) r] →
        (m w).world.users = w.users ∧ (m w).world.sessions = w.sessions
          ∧ (m w).world.projects = w.projects ∧ (m w).world.tasks = w.tasks)
      ∧ (w.dbFails w.dbCalls = false → w.apiFails w.apiCalls = false →
          (userController.approveJoinRequest c a (some pid) r w).world.outbox
              = w.outbox ++
                [⟨c, emoji.error ++ " Only the project admin can approve join requests.",
                  false, .none⟩]
            ∧ (userController.rejectJoinRequest c a (some pid) r w).world.outbox
              = w.outbox ++
                [⟨c, emoji.error ++ " Only the project admin can reject join requests.",
                  false, .none⟩])
      ∧ (w.dbFails w.dbCalls = true → w.apiFails w.apiCalls = false →
          ∀ m, m ∈ [userController.approveJoinRequest c a (some pid) r,
                    userController.rejectJoinRequest c a (some pid) r] →
            (m w).world.outbox
              = w.outbox ++
                [⟨c, emoji.error
                    ++ " There was an error processing your request. Please try again later.",
                  false, .none⟩]) := by
  have h1 := resolveJoinRequest_refused true c a pid p project r w hid hfound hadmin
  have h2 := resolveJoinRequest_refused false c a pid p project r w hid hfound hadmin
  refine ⟨?_, ?_, ?_⟩
  · intro m hm
    simp only [List.mem_cons, List.mem_singleton, List.not_mem_nil, or_false] at hm
    rcases hm with rfl | rfl
    · unfold userController.approveJoinRequest; rw [h1]; exact ⟨rfl, rfl, rfl, rfl⟩
    · unfold userController.rejectJoinRequest; rw [h2]; exact ⟨rfl, rfl, rfl, rfl⟩
  · intro hdb ha
    unfold userController.approveJoinRequest userController.rejectJoinRequest
    rw [h1, h2]
    simp only [hdb, ha, if_true, Bool.false_eq_true, if_false]
    have e1 : emoji.error ++ " Only the project admin can " ++ "approve" ++ " join requests."
        = emoji.error ++ " Only the project admin can approve join requests." := by decide
    have e2 : emoji.error ++ " Only the project admin can " ++ "reject" ++ " join requests."
        = emoji.error ++ " Only the project admin can reject join requests." := by decide
    rw [e1, e2]
    exact ⟨rfl, rfl⟩
  · intro hdb ha m hm
    simp only [List.mem_cons, List.mem_singleton, List.not_mem_nil, or_false] at hm
    rcases hm with rfl | rfl
    · unfold userController.approveJoinRequest; rw [h1]; simp [hdb, ha]
    · unfold userController.rejectJoinRequest; rw [h2]; simp [hdb, ha]

set_option maxRecDepth 100000 in
/-- C25, an instance: user 8 presses Approve on their own request for project 50 of
user 7: nothing changes and user 8 is told that only the admin can approve. -/
theorem C25_only_the_admin_witness :
    (userController.approveJoinRequest 8 8 (some (renderId 50)) (some 8) pendingWorld).world.users
        = [sampleUser [50], { sampleGuest with pendingProjects := [50] }]
      ∧ (userController.approveJoinRequest 8 8 (some (renderId 50)) (some 8)
          pendingWorld).world.sessions = []
      ∧ (userController.approveJoinRequest 8 8 (some (renderId 50)) (some 8)
          pendingWorld).world.outbox
        = [⟨8, emoji.error ++ " Only the project admin can approve join requests.",
            false, .none⟩] := by
  have h := C25_only_the_admin_resolves_requests 8 8 (renderId 50) 50 (sampleProject 50 "Alpha")
    (some 8) pendingWorld (by decide) (by decide) (by decide)
  exact ⟨(h.1 _ (List.mem_cons_self _ _)).1, (h.1 _ (List.mem_cons_self _ _)).2.1,
    (h.2.1 rfl rfl).1⟩

/-! ## Entering a flow -/

theorem dataOf_setState (u : Nat) (s : Option String) (w : World) :
    dataOf u { w with sessions := (SessionService.setState w.sessions w.now u s).1 }
      = dataOf u w := by
  unfold dataOf
  simp only [SessionService.lookup_setState]
  cases h : lookupKey u w.sessions with
  | none => simp [SessionService.getSession_of_none h]
  | some x => simp [SessionService.getSession_of_some h]

theorem dataOf_setData (u : Nat) (k : String) (v : Value) (w : World) :
    dataOf u { w with sessions := (SessionService.setData w.sessions w.now u k v).1 }
      = upsert k v (dataOf u w) := by
  unfold dataOf
  simp only [SessionService.lookup_setData]
  cases h : lookupKey u w.sessions with
  | none => simp [SessionService.getSession_of_none h]
  | some x => simp [SessionService.getSession_of_some h]

theorem quiet_dataOf (u : Nat) : Quiet (Same (dataOf u)) :=
  quiet_same _ (fun _ _ => rfl) (fun _ _ => rfl) (fun _ _ => rfl) (fun _ _ => rfl)

/-- Every key but `projectId` reads the same in the session of `u`. -/
theorem quiet_otherKeys (u : Nat) :
    Quiet (fun w w1 => ∀ k, k ≠ "projectId" →
      lookupKey k (dataOf u w1) = lookupKey k (dataOf u w)) where
  refl := fun _ _ _ => rfl
  trans := fun _ _ _ hab hbc k hk => (hbc k hk).trans (hab k hk)
  dbCalls := fun _ _ _ _ => rfl
  apiCalls := fun _ _ _ _ => rfl
  outbox := fun _ _ _ _ => rfl
  answers := fun _ _ _ _ => rfl

section entries
variable {R : World → World → Prop}

theorem entry_registerUser (hq : Quiet R) (c : Int) (u : Nat) (o : Option String)
    (hs : ∀ w s, R w { w with sessions := (SessionService.setState w.sessions w.now u s).1 }) :
    Step R (userController.registerUser c u o) := by
  unfold userController.registerUser
  repeat (first
    | with_reducible exact stepRet_done hq
    | with_reducible exact step_sendMessage hq _ _ _ _
    | with_reducible exact step_User_findOne hq _
    | with_reducible exact step_setState_of (fun w => hs w _)
    | with_reducible apply step_tryCatchReturn hq
    | with_reducible apply stepRet_pure hq
    | with_reducible apply stepRet_bind hq
    | with_reducible apply step_bind hq
    | intro _
    | split
    | dsimp only)

theorem entry_startJoinProject (hq : Quiet R) (c : Int) (u : Nat)
    (hs : ∀ w s, R w { w with sessions := (SessionService.setState w.sessions w.now u s).1 }) :
    Step R (userController.startJoinProject c u) := by
  unfold userController.startJoinProject
  repeat (first
    | with_reducible exact stepRet_done hq
    | with_reducible exact step_sendMessage hq _ _ _ _
    | with_reducible exact step_User_findOne hq _
    | with_reducible exact step_setState_of (fun w => hs w _)
    | with_reducible apply step_tryCatchReturn hq
    | with_reducible apply stepRet_pure hq
    | with_reducible apply stepRet_bind hq
    | with_reducible apply step_bind hq
    | intro _
    | split
    | dsimp only)

theorem entry_startProjectCreation (hq : Quiet R) (c : Int) (u : Nat)
    (hs : ∀ w s, R w { w with sessions := (SessionService.setState w.sessions w.now u s).1 }) :
    Step R (projectController.startProjectCreation c u) := by
  unfold projectController.startProjectCreation
  exact step_bind hq (step_setState_of (fun w => hs w _))
    (fun _ => step_sendMessage hq _ _ _ _)

theorem entry_startTaskCreation (hq : Quiet R) (c : Int) (u : Nat)
    (hs : ∀ w s, R w { w with sessions := (SessionService.setState w.sessions w.now u s).1 })
    (hd : ∀ w v, R w { w with
      sessions := (SessionService.setData w.sessions w.now u "projectId" v).1 }) :
    Step R (taskController.startTaskCreation c u) := by
  unfold taskController.startTaskCreation
  repeat (first
    | with_reducible exact stepRet_done hq
    | with_reducible exact step_sendMessage hq _ _ _ _
    | with_reducible exact step_askTaskName hq _
    | with_reducible exact step_User_findOne hq _
    | with_reducible exact step_Project_findIn hq _
    | with_reducible exact step_setState_of (fun w => hs w _)
    | with_reducible exact step_setData_of (fun w => hd w _)
    | with_reducible apply step_tryCatchReturn hq
    | with_reducible apply stepRet_pure hq
    | with_reducible apply stepRet_bind hq
    | with_reducible apply step_bind hq
    | intro _
    | split
    | dsimp only)

end entries

/-- The entry of the task flow through a project button. -/
theorem entry_createTaskCallback {R : World → World → Prop} (hq : Quiet R) (q : CallbackQuery)
    (hdata : startsWith q.data "create_task:" = true)
    (hs : ∀ w s, R w { w with
      sessions := (SessionService.setState w.sessions w.now q.userId s).1 })
    (hd : ∀ w v, R w { w with
      sessions := (SessionService.setData w.sessions w.now q.userId "projectId" v).1 }) :
    Step R (taskController.handleTaskCallback q) := by
  unfold taskController.handleTaskCallback
  refine step_bind hq (step_answerCallbackQuery hq _ _) (fun _ => ?_)
  rw [if_pos hdata]
  exact step_bind hq (step_setState_of (fun w => hs w _))
    (fun _ => step_bind hq (step_setData_of (fun w => hd w _))
      (fun _ => step_askTaskName hq _))

/-- A step of a flow writes one key, whatever else the data holds and whatever
the send does. -/
theorem dataOf_written (u : Nat) (st : Option String) (k : String) (v : Value) (w : World) :
    dataOf u
        { w with
          sessions := (SessionService.setData
            (SessionService.setState w.sessions w.now u st).1 w.now u k v).1 }
      = upsert k v (dataOf u w) :=
  (dataOf_setData u k v
    { w with sessions := (SessionService.setState w.sessions w.now u st).1 }).trans
    (congrArg _ (dataOf_setState u st w))

theorem handleNameInput_data (c : Int) (u : Nat) (t : String) (w : World)
    (h : t ≠ cancelText) :
    dataOf u (userController.handleNameInput c u t w).world
      = upsert "name" (.str t) (dataOf u w) := by
  unfold userController.handleNameInput
  simp only [h, if_false, bind_run, setState_run, setData_run]
  exact ((step_sendMessage (quiet_dataOf u) _ _ _ _).keeps _).trans (dataOf_written u _ _ _ w)

theorem handleSurnameInput_data (c : Int) (u : Nat) (t : String) (w : World)
    (h : t ≠ cancelText) :
    dataOf u (userController.handleSurnameInput c u t w).world
      = upsert "surname" (.str (if t = "Skip" then "" else t)) (dataOf u w) := by
  unfold userController.handleSurnameInput
  simp only [h, if_false, bind_run, setState_run, setData_run]
  exact ((step_sendMessage (quiet_dataOf u) _ _ _ _).keeps _).trans (dataOf_written u _ _ _ w)

theorem handleRoleInput_data (c : Int) (u : Nat) (t : String) (w : World)
    (h : t ≠ cancelText) :
    dataOf u (userController.handleRoleInput c u t w).world
      = upsert "role" (.str (if t = "Skip" then "" else t)) (dataOf u w) := by
  unfold userController.handleRoleInput
  simp only [h, if_false, bind_run, setState_run, setData_run]
  exact ((step_sendMessage (quiet_dataOf u) _ _ _ _).keeps _).trans (dataOf_written u _ _ _ w)

theorem handleProjectNameInput_data (c : Int) (u : Nat) (t : String) (w : World)
    (h : t ≠ cancelText) :
    dataOf u (projectController.handleProjectNameInput c u t w).world
      = upsert "projectName" (.str t) (dataOf u w) := by
  unfold projectController.handleProjectNameInput
  simp only [h, if_false, bind_run, setState_run, setData_run]
  exact ((step_sendMessage (quiet_dataOf u) _ _ _ _).keeps _).trans (dataOf_written u _ _ _ w)

/-- C22, as amended: entering a flow writes the state and leaves the `data` of the
session as it was, whatever fails: `registerUser`, `startProjectCreation` and
`startJoinProject` do not change it, `startTaskCreation` and the `create_task:`
button change at most the key `projectId`, and the two menus, which reset the
state, do not change it either.  The steps of a flow write their key when they
are answered: after the name, surname and role steps the fields `name`,
`surname` and `role` read as the texts just given, and after the project-name
step `projectName` does, whatever the data held before; these are the fields
the last steps of the registration and of the project creation read. -/
theorem C22_entering_a_flow_keeps_the_data (c : Int) (u : Nat) (o : Option String)
    (w : World) :
    dataOf u (userController.registerUser c u o w).world = dataOf u w
      ∧ dataOf u (projectController.startProjectCreation c u w).world = dataOf u w
      ∧ dataOf u (userController.startJoinProject c u w).world = dataOf u w
      ∧ (∀ k, k ≠ "projectId" →
          lookupKey k (dataOf u (taskController.startTaskCreation c u w).world)
            = lookupKey k (dataOf u w))
      ∧ dataOf u (projectController.showProjectsMenu c u w).world = dataOf u w
      ∧ dataOf u (taskController.showTasksMenu c u w).world = dataOf u w
      ∧ (∀ q : CallbackQuery, q.userId = u → startsWith q.data "create_task:" = true →
          ∀ k, k ≠ "projectId" →
            lookupKey k (dataOf u (taskController.handleTaskCallback q w).world)
              = lookupKey k (dataOf u w))
      ∧ (∀ name surname role : String,
          name ≠ cancelText → surname ≠ cancelText → role ≠ cancelText →
          textField
              (dataOf u (userController.handleRoleInput c u role
                (userController.handleSurnameInput c u surname
                  (userController.handleNameInput c u name w).world).world).world) "name"
              = some name
            ∧ textField
              (dataOf u (userController.handleRoleInput c u role
                (userController.handleSurnameInput c u surname
                  (userController.handleNameInput c u name w).world).world).world) "surname"
              = some (if surname = "Skip" then "" else surname)
            ∧ textField
              (dataOf u (userController.handleRoleInput c u role
                (userController.handleSurnameInput c u surname
                  (userController.handleNameInput c u name w).world).world).world) "role"
              = some (if role = "Skip" then "" else role))
      ∧ (∀ name : String, name ≠ cancelText →
          textField (dataOf u (projectController.handleProjectNameInput c u name w).world)
              "projectName"
            = some name) := by
  have hs : ∀ (w : World) (s : Option String),
      Same (dataOf u) w
        { w with sessions := (SessionService.setState w.sessions w.now u s).1 } :=
    fun w s => dataOf_setState u s w
  have hs2 : ∀ (w : World) (s : Option String) (k : String), k ≠ "projectId" →
      lookupKey k
          (dataOf u { w with sessions := (SessionService.setState w.sessions w.now u s).1 })
        = lookupKey k (dataOf u w) := by
    intro w s k _
    rw [dataOf_setState]
  have hd2 : ∀ (w : World) (v : Value) (k : String), k ≠ "projectId" →
      lookupKey k
          (dataOf u { w with
            sessions := (SessionService.setData w.sessions w.now u "projectId" v).1 })
        = lookupKey k (dataOf u w) := by
    intro w v k hk
    rw [dataOf_setData]
    exact lookupKey_upsert_ne _ _ _ _ hk
  refine ⟨(entry_registerUser (quiet_dataOf u) c u o hs).keeps w,
    (entry_startProjectCreation (quiet_dataOf u) c u hs).keeps w,
    (entry_startJoinProject (quiet_dataOf u) c u hs).keeps w,
    (entry_startTaskCreation (quiet_otherKeys u) c u hs2 hd2).keeps w,
    (step_showProjectsMenu (quiet_dataOf u) c u (fun w => hs w none)).keeps w,
    (step_showTasksMenu (quiet_dataOf u) c u (fun w => hs w none)).keeps w, ?_, ?_, ?_⟩
  · intro q hu hdata
    subst hu
    exact (entry_createTaskCallback (quiet_otherKeys q.userId) q hdata hs2 hd2).keeps w
  · intro name surname role hn hsn hr
    rw [handleRoleInput_data c u role _ hr, handleSurnameInput_data c u surname _ hsn,
      handleNameInput_data c u name w hn]
    refine ⟨?_, ?_, ?_⟩
    · rw [textField_upsert_ne _ _ _ _ (by decide), textField_upsert_ne _ _ _ _ (by decide),
        textField_upsert]
    · rw [textField_upsert_ne _ _ _ _ (by decide), textField_upsert]
    · rw [textField_upsert]
  · intro name hn
    rw [handleProjectNameInput_data c u name w hn, textField_upsert]

set_option maxRecDepth 100000 in
/-- C22, as stated, fails: a registered user who starts a project, gives the name
`Alpha` and then sends `/join` is in the first step of the join flow with
`projectName` still in the data; and one who instead opens the tasks menu and
presses Create New Task is in the first step of the task flow with
`projectName` next to `projectId`. -/
theorem C22_stale_key_at_flow_entry :
    sessionView 7 (runAll interruptedCreation (quietWorld [] [sampleUser []] []))
        = some (some USER_STATES.WAITING_JOIN_PROJECT, [("projectName", .str "Alpha")])
      ∧ USER_STATES.WAITING_JOIN_PROJECT ∈ flowEntries
      ∧ sessionView 7 (runAll interruptedForTask (quietWorld [] [sampleUser [50]] []))
        = some (some TASK_STATES.WAITING_NAME,
            [("projectName", .str "Alpha"), ("projectId", .objectId 50)])
      ∧ TASK_STATES.WAITING_NAME ∈ flowEntries := by
  decide

/-! ## Handlers and the keys collected by the flows -/

section careful
set_option linter.unreachableTactic false
set_option linter.unusedTactic false
variable {R : World → World → Prop}

theorem step_opener {α : Type} (hq : Quiet R) {u : Nat} {s : Option String} {k : String}
    {v : Value} {f : Unit → M α}
    (hp : ∀ w, R w { w with
      sessions := (SessionService.setData
        (SessionService.setState w.sessions w.now u s).1 w.now u k v).1 })
    (hf : ∀ x, Step R (f x)) :
    Step R (sessionService.setState u s >>= fun _ => sessionService.setData u k v >>= f) := by
  refine ⟨fun w => ?_⟩
  have h := (hf ()).keeps
    { w with
      sessions := (SessionService.setData
        (SessionService.setState w.sessions w.now u s).1 w.now u k v).1 }
  exact hq.trans _ _ _ (hp w) h

theorem stepRet_opener {α : Type} (hq : Quiet R) {u : Nat} {s : Option String} {k : String}
    {v : Value} {f : Unit → M (M α)}
    (hp : ∀ w, R w { w with
      sessions := (SessionService.setData
        (SessionService.setState w.sessions w.now u s).1 w.now u k v).1 })
    (hf : ∀ x, StepRet R (f x)) :
    StepRet R (sessionService.setState u s >>= fun _ => sessionService.setData u k v >>= f) :=
  ⟨step_opener hq hp (fun x => (hf x).block), fun _ rest w1 h => (hf ()).rest _ rest w1 h⟩

theorem careful_registerUser (hc : Careful R) (c : Int) (u : Nat) (o : Option String) :
    Step R (userController.registerUser c u o) := by
  have hq := hc.toQuiet
  unfold userController.registerUser
  repeat (first
    | with_reducible exact step_pure hq _
    | with_reducible exact step_raise hq
    | with_reducible exact stepRet_done hq
    | with_reducible exact stepRet_raise hq
    | with_reducible exact step_getWorld hq
    | with_reducible exact step_sendMessage hq _ _ _ _
    | with_reducible exact step_answerCallbackQuery hq _ _
    | with_reducible exact step_User_findOne hq _
    | with_reducible exact step_User_findNotIn hq _
    | with_reducible exact step_User_countDocuments hq _
    | with_reducible exact step_Project_findIn hq _
    | with_reducible exact step_Project_findOne hq _
    | with_reducible exact step_Project_findByObjectId hq _
    | with_reducible exact step_Project_findById hq _
    | with_reducible exact step_Task_findAssigned hq _ _
    | with_reducible exact step_Task_findById hq _
    | with_reducible exact step_findUserByNumber hq _
    | with_reducible exact step_getSession_of (fun w => hc.getSession w _)
    | with_reducible exact step_clearSession_of (fun w => hc.clearSession w _)
    | with_reducible exact step_setState_of (fun w => hc.setFree w _ _ (by decide))
    | with_reducible exact step_setData_of (fun w => hc.setText w _ _ _)
    | with_reducible exact step_setData_of (fun w => hc.setOther w _ _ _ (by decide))
    | with_reducible refine step_opener hq (fun w => hc.openerText w _ _ _ _ (by decide)) ?_
    | with_reducible refine step_opener hq (fun w => hc.openerOther w _ _ _ _ (by decide) (by decide)) ?_
    | with_reducible refine stepRet_opener hq (fun w => hc.openerText w _ _ _ _ (by decide)) ?_
    | with_reducible refine stepRet_opener hq (fun w => hc.openerOther w _ _ _ _ (by decide) (by decide)) ?_
    | with_reducible exact step_User_save hq hc.users _
    | with_reducible exact step_User_create hq hc.users _ _ _ _ _
    | with_reducible exact step_Project_create hq hc.projects _ _ _
    | with_reducible exact step_Task_save hq hc.taskSave _
    | with_reducible apply step_tryCatchReturn hq
    | with_reducible apply step_tryCatch hq
    | with_reducible apply stepRet_pure hq
    | with_reducible apply stepRet_bind hq
    | with_reducible apply step_bind hq
    | intro _
    | split
    | dsimp only)

theorem careful_registrationCancelled (hc : Careful R) (c : Int) (u : Nat) :
    Step R (userController.registrationCancelled c u) := by
  have hq := hc.toQuiet
  unfold userController.registrationCancelled
  repeat (first
    | with_reducible exact step_pure hq _
    | with_reducible exact step_raise hq
    | with_reducible exact stepRet_done hq
    | with_reducible exact stepRet_raise hq
    | with_reducible exact step_getWorld hq
    | with_reducible exact step_sendMessage hq _ _ _ _
    | with_reducible exact step_answerCallbackQuery hq _ _
    | with_reducible exact step_User_findOne hq _
    | with_reducible exact step_User_findNotIn hq _
    | with_reducible exact step_User_countDocuments hq _
    | with_reducible exact step_Project_findIn hq _
    | with_reducible exact step_Project_findOne hq _
    | with_reducible exact step_Project_findByObjectId hq _
    | with_reducible exact step_Project_findById hq _
    | with_reducible exact step_Task_findAssigned hq _ _
    | with_reducible exact step_Task_findById hq _
    | with_reducible exact step_findUserByNumber hq _
    | with_reducible exact step_getSession_of (fun w => hc.getSession w _)
    | with_reducible exact step_clearSession_of (fun w => hc.clearSession w _)
    | with_reducible exact step_setState_of (fun w => hc.setFree w _ _ (by decide))
    | with_reducible exact step_setData_of (fun w => hc.setText w _ _ _)
    | with_reducible exact step_setData_of (fun w => hc.setOther w _ _ _ (by decide))
    | with_reducible refine step_opener hq (fun w => hc.openerText w _ _ _ _ (by decide)) ?_
    | with_reducible refine step_opener hq (fun w => hc.openerOther w _ _ _ _ (by decide) (by decide)) ?_
    | with_reducible refine stepRet_opener hq (fun w => hc.openerText w _ _ _ _ (by decide)) ?_
    | with_reducible refine stepRet_opener hq (fun w => hc.openerOther w _ _ _ _ (by decide) (by decide)) ?_
    | with_reducible exact step_User_save hq hc.users _
    | with_reducible exact step_User_create hq hc.users _ _ _ _ _
    | with_reducible exact step_Project_create hq hc.projects _ _ _
    | with_reducible exact step_Task_save hq hc.taskSave _
    | with_reducible apply step_tryCatchReturn hq
    | with_reducible apply step_tryCatch hq
    | with_reducible apply stepRet_pure hq
    | with_reducible apply stepRet_bind hq
    | with_reducible apply step_bind hq
    | intro _
    | split
    | dsimp only)

theorem careful_handleNameInput (hc : Careful R) (c : Int) (u : Nat) (t : String) :
    Step R (userController.handleNameInput c u t) := by
  have hq := hc.toQuiet
  unfold userController.handleNameInput
  repeat (first
    | with_reducible exact careful_registrationCancelled hc _ _
    | with_reducible exact step_pure hq _
    | with_reducible exact step_raise hq
    | with_reducible exact stepRet_done hq
    | with_reducible exact stepRet_raise hq
    | with_reducible exact step_getWorld hq
    | with_reducible exact step_sendMessage hq _ _ _ _
    | with_reducible exact step_answerCallbackQuery hq _ _
    | with_reducible exact step_User_findOne hq _
    | with_reducible exact step_User_findNotIn hq _
    | with_reducible exact step_User_countDocuments hq _
    | with_reducible exact step_Project_findIn hq _
    | with_reducible exact step_Project_findOne hq _
    | with_reducible exact step_Project_findByObjectId hq _
    | with_reducible exact step_Project_findById hq _
    | with_reducible exact step_Task_findAssigned hq _ _
    | with_reducible exact step_Task_findById hq _
    | with_reducible exact step_findUserByNumber hq _
    | with_reducible exact step_getSession_of (fun w => hc.getSession w _)
    | with_reducible exact step_clearSession_of (fun w => hc.clearSession w _)
    | with_reducible exact step_setState_of (fun w => hc.setFree w _ _ (by decide))
    | with_reducible exact step_setData_of (fun w => hc.setText w _ _ _)
    | with_reducible exact step_setData_of (fun w => hc.setOther w _ _ _ (by decide))
    | with_reducible refine step_opener hq (fun w => hc.openerText w _ _ _ _ (by decide)) ?_
    | with_reducible refine step_opener hq (fun w => hc.openerOther w _ _ _ _ (by decide) (by decide)) ?_
    | with_reducible refine stepRet_opener hq (fun w => hc.openerText w _ _ _ _ (by decide)) ?_
    | with_reducible refine stepRet_opener hq (fun w => hc.openerOther w _ _ _ _ (by decide) (by decide)) ?_
    | with_reducible exact step_User_save hq hc.users _
    | with_reducible exact step_User_create hq hc.users _ _ _ _ _
    | with_reducible exact step_Project_create hq hc.projects _ _ _
    | with_reducible exact step_Task_save hq hc.taskSave _
    | with_reducible apply step_tryCatchReturn hq
    | with_reducible apply step_tryCatch hq
    | with_reducible apply stepRet_pure hq
    | with_reducible apply stepRet_bind hq
    | with_reducible apply step_bind hq
    | intro _
    | split
    | dsimp only)

theorem careful_handleContactInput (hc : Careful R) (c : Int) (u : Nat) (t : String) (o : Option String) :
    Step R (userController.handleContactInput c u t o) := by
  have hq := hc.toQuiet
  unfold userController.handleContactInput
  repeat (first
    | with_reducible exact careful_registrationCancelled hc _ _
    | with_reducible exact step_pure hq _
    | with_reducible exact step_raise hq
    | with_reducible exact stepRet_done hq
    | with_reducible exact stepRet_raise hq
    | with_reducible exact step_getWorld hq
    | with_reducible exact step_sendMessage hq _ _ _ _
    | with_reducible exact step_answerCallbackQuery hq _ _
    | with_reducible exact step_User_findOne hq _
    | with_reducible exact step_User_findNotIn hq _
    | with_reducible exact step_User_countDocuments hq _
    | with_reducible exact step_Project_findIn hq _
    | with_reducible exact step_Project_findOne hq _
    | with_reducible exact step_Project_findByObjectId hq _
    | with_reducible exact step_Project_findById hq _
    | with_reducible exact step_Task_findAssigned hq _ _
    | with_reducible exact step_Task_findById hq _
    | with_reducible exact step_findUserByNumber hq _
    | with_reducible exact step_getSession_of (fun w => hc.getSession w _)
    | with_reducible exact step_clearSession_of (fun w => hc.clearSession w _)
    | with_reducible exact step_setState_of (fun w => hc.setFree w _ _ (by decide))
    | with_reducible exact step_setData_of (fun w => hc.setText w _ _ _)
    | with_reducible exact step_setData_of (fun w => hc.setOther w _ _ _ (by decide))
    | with_reducible refine step_opener hq (fun w => hc.openerText w _ _ _ _ (by decide)) ?_
    | with_reducible refine step_opener hq (fun w => hc.openerOther w _ _ _ _ (by decide) (by decide)) ?_
    | with_reducible refine stepRet_opener hq (fun w => hc.openerText w _ _ _ _ (by decide)) ?_
    | with_reducible refine stepRet_opener hq (fun w => hc.openerOther w _ _ _ _ (by decide) (by decide)) ?_
    | with_reducible exact step_User_save hq hc.users _
    | with_reducible exact step_User_create hq hc.users _ _ _ _ _
    | with_reducible exact step_Project_create hq hc.projects _ _ _
    | with_reducible exact step_Task_save hq hc.taskSave _
    | with_reducible apply step_tryCatchReturn hq
    | with_reducible apply step_tryCatch hq
    | with_reducible apply stepRet_pure hq
    | with_reducible apply stepRet_bind hq
    | with_reducible apply step_bind hq
    | intro _
    | split
    | dsimp only)

theorem careful_startJoinProject (hc : Careful R) (c : Int) (u : Nat) :
    Step R (userController.startJoinProject c u) := by
  have hq := hc.toQuiet
  unfold userController.startJoinProject
  repeat (first
    | with_reducible exact step_pure hq _
    | with_reducible exact step_raise hq
    | with_reducible exact stepRet_done hq
    | with_reducible exact stepRet_raise hq
    | with_reducible exact step_getWorld hq
    | with_reducible exact step_sendMessage hq _ _ _ _
    | with_reducible exact step_answerCallbackQuery hq _ _
    | with_reducible exact step_User_findOne hq _
    | with_reducible exact step_User_findNotIn hq _
    | with_reducible exact step_User_countDocuments hq _
    | with_reducible exact step_Project_findIn hq _
    | with_reducible exact step_Project_findOne hq _
    | with_reducible exact step_Project_findByObjectId hq _
    | with_reducible exact step_Project_findById hq _
    | with_reducible exact step_Task_findAssigned hq _ _
    | with_reducible exact step_Task_findById hq _
    | with_reducible exact step_findUserByNumber hq _
    | with_reducible exact step_getSession_of (fun w => hc.getSession w _)
    | with_reducible exact step_clearSession_of (fun w => hc.clearSession w _)
    | with_reducible exact step_setState_of (fun w => hc.setFree w _ _ (by decide))
    | with_reducible exact step_setData_of (fun w => hc.setText w _ _ _)
    | with_reducible exact step_setData_of (fun w => hc.setOther w _ _ _ (by decide))
    | with_reducible refine step_opener hq (fun w => hc.openerText w _ _ _ _ (by decide)) ?_
    | with_reducible refine step_opener hq (fun w => hc.openerOther w _ _ _ _ (by decide) (by decide)) ?_
    | with_reducible refine stepRet_opener hq (fun w => hc.openerText w _ _ _ _ (by decide)) ?_
    | with_reducible refine stepRet_opener hq (fun w => hc.openerOther w _ _ _ _ (by decide) (by decide)) ?_
    | with_reducible exact step_User_save hq hc.users _
    | with_reducible exact step_User_create hq hc.users _ _ _ _ _
    | with_reducible exact step_Project_create hq hc.projects _ _ _
    | with_reducible exact step_Task_save hq hc.taskSave _
    | with_reducible apply step_tryCatchReturn hq
    | with_reducible apply step_tryCatch hq
    | with_reducible apply stepRet_pure hq
    | with_reducible apply stepRet_bind hq
    | with_reducible apply step_bind hq
    | intro _
    | split
    | dsimp only)

theorem careful_handleJoinProjectInput (hc : Careful R) (c : Int) (u : Nat) (t : String) :
    Step R (userController.handleJoinProjectInput c u t) := by
  have hq := hc.toQuiet
  unfold userController.handleJoinProjectInput
  repeat (first
    | with_reducible exact step_pure hq _
    | with_reducible exact step_raise hq
    | with_reducible exact stepRet_done hq
    | with_reducible exact stepRet_raise hq
    | with_reducible exact step_getWorld hq
    | with_reducible exact step_sendMessage hq _ _ _ _
    | with_reducible exact step_answerCallbackQuery hq _ _
    | with_reducible exact step_User_findOne hq _
    | with_reducible exact step_User_findNotIn hq _
    | with_reducible exact step_User_countDocuments hq _
    | with_reducible exact step_Project_findIn hq _
    | with_reducible exact step_Project_findOne hq _
    | with_reducible exact step_Project_findByObjectId hq _
    | with_reducible exact step_Project_findById hq _
    | with_reducible exact step_Task_findAssigned hq _ _
    | with_reducible exact step_Task_findById hq _
    | with_reducible exact step_findUserByNumber hq _
    | with_reducible exact step_getSession_of (fun w => hc.getSession w _)
    | with_reducible exact step_clearSession_of (fun w => hc.clearSession w _)
    | with_reducible exact step_setState_of (fun w => hc.setFree w _ _ (by decide))
    | with_reducible exact step_setData_of (fun w => hc.setText w _ _ _)
    | with_reducible exact step_setData_of (fun w => hc.setOther w _ _ _ (by decide))
    | with_reducible refine step_opener hq (fun w => hc.openerText w _ _ _ _ (by decide)) ?_
    | with_reducible refine step_opener hq (fun w => hc.openerOther w _ _ _ _ (by decide) (by decide)) ?_
    | with_reducible refine stepRet_opener hq (fun w => hc.openerText w _ _ _ _ (by decide)) ?_
    | with_reducible refine stepRet_opener hq (fun w => hc.openerOther w _ _ _ _ (by decide) (by decide)) ?_
    | with_reducible exact step_User_save hq hc.users _
    | with_reducible exact step_User_create hq hc.users _ _ _ _ _
    | with_reducible exact step_Project_create hq hc.projects _ _ _
    | with_reducible exact step_Task_save hq hc.taskSave _
    | with_reducible apply step_tryCatchReturn hq
    | with_reducible apply step_tryCatch hq
    | with_reducible apply stepRet_pure hq
    | with_reducible apply stepRet_bind hq
    | with_reducible apply step_bind hq
    | intro _
    | split
    | dsimp only)

theorem careful_resolveJoinRequest (hc : Careful R) (b : Bool) (c : Int) (u : Nat) (o : Option String) (z : Option Int) :
    Step R (userController.resolveJoinRequest b c u o z) := by
  have hq := hc.toQuiet
  unfold userController.resolveJoinRequest
  repeat (first
    | with_reducible exact step_pure hq _
    | with_reducible exact step_raise hq
    | with_reducible exact stepRet_done hq
    | with_reducible exact stepRet_raise hq
    | with_reducible exact step_getWorld hq
    | with_reducible exact step_sendMessage hq _ _ _ _
    | with_reducible exact step_answerCallbackQuery hq _ _
    | with_reducible exact step_User_findOne hq _
    | with_reducible exact step_User_findNotIn hq _
    | with_reducible exact step_User_countDocuments hq _
    | with_reducible exact step_Project_findIn hq _
    | with_reducible exact step_Project_findOne hq _
    | with_reducible exact step_Project_findByObjectId hq _
    | with_reducible exact step_Project_findById hq _
    | with_reducible exact step_Task_findAssigned hq _ _
    | with_reducible exact step_Task_findById hq _
    | with_reducible exact step_findUserByNumber hq _
    | with_reducible exact step_getSession_of (fun w => hc.getSession w _)
    | with_reducible exact step_clearSession_of (fun w => hc.clearSession w _)
    | with_reducible exact step_setState_of (fun w => hc.setFree w _ _ (by decide))
    | with_reducible exact step_setData_of (fun w => hc.setText w _ _ _)
    | with_reducible exact step_setData_of (fun w => hc.setOther w _ _ _ (by decide))
    | with_reducible refine step_opener hq (fun w => hc.openerText w _ _ _ _ (by decide)) ?_
    | with_reducible refine step_opener hq (fun w => hc.openerOther w _ _ _ _ (by decide) (by decide)) ?_
    | with_reducible refine stepRet_opener hq (fun w => hc.openerText w _ _ _ _ (by decide)) ?_
    | with_reducible refine stepRet_opener hq (fun w => hc.openerOther w _ _ _ _ (by decide) (by decide)) ?_
    | with_reducible exact step_User_save hq hc.users _
    | with_reducible exact step_User_create hq hc.users _ _ _ _ _
    | with_reducible exact step_Project_create hq hc.projects _ _ _
    | with_reducible exact step_Task_save hq hc.taskSave _
    | with_reducible apply step_tryCatchReturn hq
    | with_reducible apply step_tryCatch hq
    | with_reducible apply stepRet_pure hq
    | with_reducible apply stepRet_bind hq
    | with_reducible apply step_bind hq
    | intro _
    | split
    | dsimp only)

theorem careful_handleUserCallback (hc : Careful R) (q : CallbackQuery) :
    Step R (userController.handleUserCallback q) := by
  have hq := hc.toQuiet
  unfold userController.handleUserCallback userController.approveJoinRequest userController.rejectJoinRequest
  repeat (first
    | with_reducible exact careful_resolveJoinRequest hc _ _ _ _ _
    | with_reducible exact step_startAddMember hq _ _ _
    | with_reducible exact step_pure hq _
    | with_reducible exact step_raise hq
    | with_reducible exact stepRet_done hq
    | with_reducible exact stepRet_raise hq
    | with_reducible exact step_getWorld hq
    | with_reducible exact step_sendMessage hq _ _ _ _
    | with_reducible exact step_answerCallbackQuery hq _ _
    | with_reducible exact step_User_findOne hq _
    | with_reducible exact step_User_findNotIn hq _
    | with_reducible exact step_User_countDocuments hq _
    | with_reducible exact step_Project_findIn hq _
    | with_reducible exact step_Project_findOne hq _
    | with_reducible exact step_Project_findByObjectId hq _
    | with_reducible exact step_Project_findById hq _
    | with_reducible exact step_Task_findAssigned hq _ _
    | with_reducible exact step_Task_findById hq _
    | with_reducible exact step_findUserByNumber hq _
    | with_reducible exact step_getSession_of (fun w => hc.getSession w _)
    | with_reducible exact step_clearSession_of (fun w => hc.clearSession w _)
    | with_reducible exact step_setState_of (fun w => hc.setFree w _ _ (by decide))
    | with_reducible exact step_setData_of (fun w => hc.setText w _ _ _)
    | with_reducible exact step_setData_of (fun w => hc.setOther w _ _ _ (by decide))
    | with_reducible refine step_opener hq (fun w => hc.openerText w _ _ _ _ (by decide)) ?_
    | with_reducible refine step_opener hq (fun w => hc.openerOther w _ _ _ _ (by decide) (by decide)) ?_
    | with_reducible refine stepRet_opener hq (fun w => hc.openerText w _ _ _ _ (by decide)) ?_
    | with_reducible refine stepRet_opener hq (fun w => hc.openerOther w _ _ _ _ (by decide) (by decide)) ?_
    | with_reducible exact step_User_save hq hc.users _
    | with_reducible exact step_User_create hq hc.users _ _ _ _ _
    | with_reducible exact step_Project_create hq hc.projects _ _ _
    | with_reducible exact step_Task_save hq hc.taskSave _
    | with_reducible apply step_tryCatchReturn hq
    | with_reducible apply step_tryCatch hq
    | with_reducible apply stepRet_pure hq
    | with_reducible apply stepRet_bind hq
    | with_reducible apply step_bind hq
    | intro _
    | split
    | dsimp only)

theorem careful_startProjectCreation (hc : Careful R) (c : Int) (u : Nat) :
    Step R (projectController.startProjectCreation c u) := by
  have hq := hc.toQuiet
  unfold projectController.startProjectCreation
  repeat (first
    | with_reducible exact step_pure hq _
    | with_reducible exact step_raise hq
    | with_reducible exact stepRet_done hq
    | with_reducible exact stepRet_raise hq
    | with_reducible exact step_getWorld hq
    | with_reducible exact step_sendMessage hq _ _ _ _
    | with_reducible exact step_answerCallbackQuery hq _ _
    | with_reducible exact step_User_findOne hq _
    | with_reducible exact step_User_findNotIn hq _
    | with_reducible exact step_User_countDocuments hq _
    | with_reducible exact step_Project_findIn hq _
    | with_reducible exact step_Project_findOne hq _
    | with_reducible exact step_Project_findByObjectId hq _
    | with_reducible exact step_Project_findById hq _
    | with_reducible exact step_Task_findAssigned hq _ _
    | with_reducible exact step_Task_findById hq _
    | with_reducible exact step_findUserByNumber hq _
    | with_reducible exact step_getSession_of (fun w => hc.getSession w _)
    | with_reducible exact step_clearSession_of (fun w => hc.clearSession w _)
    | with_reducible exact step_setState_of (fun w => hc.setFree w _ _ (by decide))
    | with_reducible exact step_setData_of (fun w => hc.setText w _ _ _)
    | with_reducible exact step_setData_of (fun w => hc.setOther w _ _ _ (by decide))
    | with_reducible refine step_opener hq (fun w => hc.openerText w _ _ _ _ (by decide)) ?_
    | with_reducible refine step_opener hq (fun w => hc.openerOther w _ _ _ _ (by decide) (by decide)) ?_
    | with_reducible refine stepRet_opener hq (fun w => hc.openerText w _ _ _ _ (by decide)) ?_
    | with_reducible refine stepRet_opener hq (fun w => hc.openerOther w _ _ _ _ (by decide) (by decide)) ?_
    | with_reducible exact step_User_save hq hc.users _
    | with_reducible exact step_User_create hq hc.users _ _ _ _ _
    | with_reducible exact step_Project_create hq hc.projects _ _ _
    | with_reducible exact step_Task_save hq hc.taskSave _
    | with_reducible apply step_tryCatchReturn hq
    | with_reducible apply step_tryCatch hq
    | with_reducible apply stepRet_pure hq
    | with_reducible apply stepRet_bind hq
    | with_reducible apply step_bind hq
    | intro _
    | split
    | dsimp only)

theorem careful_handleProjectNameInput (hc : Careful R) (c : Int) (u : Nat) (t : String) :
    Step R (projectController.handleProjectNameInput c u t) := by
  have hq := hc.toQuiet
  unfold projectController.handleProjectNameInput
  repeat (first
    | with_reducible exact step_showProjectsMenu hq _ _ (fun w => hc.setFree w _ none (by decide))
    | with_reducible exact step_pure hq _
    | with_reducible exact step_raise hq
    | with_reducible exact stepRet_done hq
    | with_reducible exact stepRet_raise hq
    | with_reducible exact step_getWorld hq
    | with_reducible exact step_sendMessage hq _ _ _ _
    | with_reducible exact step_answerCallbackQuery hq _ _
    | with_reducible exact step_User_findOne hq _
    | with_reducible exact step_User_findNotIn hq _
    | with_reducible exact step_User_countDocuments hq _
    | with_reducible exact step_Project_findIn hq _
    | with_reducible exact step_Project_findOne hq _
    | with_reducible exact step_Project_findByObjectId hq _
    | with_reducible exact step_Project_findById hq _
    | with_reducible exact step_Task_findAssigned hq _ _
    | with_reducible exact step_Task_findById hq _
    | with_reducible exact step_findUserByNumber hq _
    | with_reducible exact step_getSession_of (fun w => hc.getSession w _)
    | with_reducible exact step_clearSession_of (fun w => hc.clearSession w _)
    | with_reducible exact step_setState_of (fun w => hc.setFree w _ _ (by decide))
    | with_reducible exact step_setData_of (fun w => hc.setText w _ _ _)
    | with_reducible exact step_setData_of (fun w => hc.setOther w _ _ _ (by decide))
    | with_reducible refine step_opener hq (fun w => hc.openerText w _ _ _ _ (by decide)) ?_
    | with_reducible refine step_opener hq (fun w => hc.openerOther w _ _ _ _ (by decide) (by decide)) ?_
    | with_reducible refine stepRet_opener hq (fun w => hc.openerText w _ _ _ _ (by decide)) ?_
    | with_reducible refine stepRet_opener hq (fun w => hc.openerOther w _ _ _ _ (by decide) (by decide)) ?_
    | with_reducible exact step_User_save hq hc.users _
    | with_reducible exact step_User_create hq hc.users _ _ _ _ _
    | with_reducible exact step_Project_create hq hc.projects _ _ _
    | with_reducible exact step_Task_save hq hc.taskSave _
    | with_reducible apply step_tryCatchReturn hq
    | with_reducible apply step_tryCatch hq
    | with_reducible apply stepRet_pure hq
    | with_reducible apply stepRet_bind hq
    | with_reducible apply step_bind hq
    | intro _
    | split
    | dsimp only)

theorem careful_handleProjectDescriptionInput (hc : Careful R) (c : Int) (u : Nat) (t : String) :
    Step R (projectController.handleProjectDescriptionInput c u t) := by
  have hq := hc.toQuiet
  unfold projectController.handleProjectDescriptionInput
  repeat (first
    | with_reducible exact step_showProjectsMenu hq _ _ (fun w => hc.setFree w _ none (by decide))
    | with_reducible exact step_pure hq _
    | with_reducible exact step_raise hq
    | with_reducible exact stepRet_done hq
    | with_reducible exact stepRet_raise hq
    | with_reducible exact step_getWorld hq
    | with_reducible exact step_sendMessage hq _ _ _ _
    | with_reducible exact step_answerCallbackQuery hq _ _
    | with_reducible exact step_User_findOne hq _
    | with_reducible exact step_User_findNotIn hq _
    | with_reducible exact step_User_countDocuments hq _
    | with_reducible exact step_Project_findIn hq _
    | with_reducible exact step_Project_findOne hq _
    | with_reducible exact step_Project_findByObjectId hq _
    | with_reducible exact step_Project_findById hq _
    | with_reducible exact step_Task_findAssigned hq _ _
    | with_reducible exact step_Task_findById hq _
    | with_reducible exact step_findUserByNumber hq _
    | with_reducible exact step_getSession_of (fun w => hc.getSession w _)
    | with_reducible exact step_clearSession_of (fun w => hc.clearSession w _)
    | with_reducible exact step_setState_of (fun w => hc.setFree w _ _ (by decide))
    | with_reducible exact step_setData_of (fun w => hc.setText w _ _ _)
    | with_reducible exact step_setData_of (fun w => hc.setOther w _ _ _ (by decide))
    | with_reducible refine step_opener hq (fun w => hc.openerText w _ _ _ _ (by decide)) ?_
    | with_reducible refine step_opener hq (fun w => hc.openerOther w _ _ _ _ (by decide) (by decide)) ?_
    | with_reducible refine stepRet_opener hq (fun w => hc.openerText w _ _ _ _ (by decide)) ?_
    | with_reducible refine stepRet_opener hq (fun w => hc.openerOther w _ _ _ _ (by decide) (by decide)) ?_
    | with_reducible exact step_User_save hq hc.users _
    | with_reducible exact step_User_create hq hc.users _ _ _ _ _
    | with_reducible exact step_Project_create hq hc.projects _ _ _
    | with_reducible exact step_Task_save hq hc.taskSave _
    | with_reducible apply step_tryCatchReturn hq
    | with_reducible apply step_tryCatch hq
    | with_reducible apply stepRet_pure hq
    | with_reducible apply stepRet_bind hq
    | with_reducible apply step_bind hq
    | intro _
    | split
    | dsimp only)

theorem careful_handleProjectCallback (hc : Careful R) (q : CallbackQuery) :
    Step R (projectController.handleProjectCallback q) := by
  have hq := hc.toQuiet
  unfold projectController.handleProjectCallback projectController.startProjectEdit projectController.confirmProjectDeletion projectController.adminStep
  repeat (first
    | with_reducible exact step_pure hq _
    | with_reducible exact step_raise hq
    | with_reducible exact stepRet_done hq
    | with_reducible exact stepRet_raise hq
    | with_reducible exact step_getWorld hq
    | with_reducible exact step_sendMessage hq _ _ _ _
    | with_reducible exact step_answerCallbackQuery hq _ _
    | with_reducible exact step_User_findOne hq _
    | with_reducible exact step_User_findNotIn hq _
    | with_reducible exact step_User_countDocuments hq _
    | with_reducible exact step_Project_findIn hq _
    | with_reducible exact step_Project_findOne hq _
    | with_reducible exact step_Project_findByObjectId hq _
    | with_reducible exact step_Project_findById hq _
    | with_reducible exact step_Task_findAssigned hq _ _
    | with_reducible exact step_Task_findById hq _
    | with_reducible exact step_findUserByNumber hq _
    | with_reducible exact step_getSession_of (fun w => hc.getSession w _)
    | with_reducible exact step_clearSession_of (fun w => hc.clearSession w _)
    | with_reducible exact step_setState_of (fun w => hc.setFree w _ _ (by decide))
    | with_reducible exact step_setData_of (fun w => hc.setText w _ _ _)
    | with_reducible exact step_setData_of (fun w => hc.setOther w _ _ _ (by decide))
    | with_reducible refine step_opener hq (fun w => hc.openerText w _ _ _ _ (by decide)) ?_
    | with_reducible refine step_opener hq (fun w => hc.openerOther w _ _ _ _ (by decide) (by decide)) ?_
    | with_reducible refine stepRet_opener hq (fun w => hc.openerText w _ _ _ _ (by decide)) ?_
    | with_reducible refine stepRet_opener hq (fun w => hc.openerOther w _ _ _ _ (by decide) (by decide)) ?_
    | with_reducible exact step_User_save hq hc.users _
    | with_reducible exact step_User_create hq hc.users _ _ _ _ _
    | with_reducible exact step_Project_create hq hc.projects _ _ _
    | with_reducible exact step_Task_save hq hc.taskSave _
    | with_reducible apply step_tryCatchReturn hq
    | with_reducible apply step_tryCatch hq
    | with_reducible apply stepRet_pure hq
    | with_reducible apply stepRet_bind hq
    | with_reducible apply step_bind hq
    | intro _
    | split
    | dsimp only)

theorem careful_startTaskCreation (hc : Careful R) (c : Int) (u : Nat) :
    Step R (taskController.startTaskCreation c u) := by
  have hq := hc.toQuiet
  unfold taskController.startTaskCreation
  repeat (first
    | with_reducible exact step_showTasksMenu hq _ _ (fun w => hc.setFree w _ none (by decide))
    | with_reducible exact step_askTaskName hq _
    | with_reducible exact step_pure hq _
    | with_reducible exact step_raise hq
    | with_reducible exact stepRet_done hq
    | with_reducible exact stepRet_raise hq
    | with_reducible exact step_getWorld hq
    | with_reducible exact step_sendMessage hq _ _ _ _
    | with_reducible exact step_answerCallbackQuery hq _ _
    | with_reducible exact step_User_findOne hq _
    | with_reducible exact step_User_findNotIn hq _
    | with_reducible exact step_User_countDocuments hq _
    | with_reducible exact step_Project_findIn hq _
    | with_reducible exact step_Project_findOne hq _
    | with_reducible exact step_Project_findByObjectId hq _
    | with_reducible exact step_Project_findById hq _
    | with_reducible exact step_Task_findAssigned hq _ _
    | with_reducible exact step_Task_findById hq _
    | with_reducible exact step_findUserByNumber hq _
    | with_reducible exact step_getSession_of (fun w => hc.getSession w _)
    | with_reducible exact step_clearSession_of (fun w => hc.clearSession w _)
    | with_reducible exact step_setState_of (fun w => hc.setFree w _ _ (by decide))
    | with_reducible exact step_setData_of (fun w => hc.setText w _ _ _)
    | with_reducible exact step_setData_of (fun w => hc.setOther w _ _ _ (by decide))
    | with_reducible refine step_opener hq (fun w => hc.openerText w _ _ _ _ (by decide)) ?_
    | with_reducible refine step_opener hq (fun w => hc.openerOther w _ _ _ _ (by decide) (by decide)) ?_
    | with_reducible refine stepRet_opener hq (fun w => hc.openerText w _ _ _ _ (by decide)) ?_
    | with_reducible refine stepRet_opener hq (fun w => hc.openerOther w _ _ _ _ (by decide) (by decide)) ?_
    | with_reducible exact step_User_save hq hc.users _
    | with_reducible exact step_User_create hq hc.users _ _ _ _ _
    | with_reducible exact step_Project_create hq hc.projects _ _ _
    | with_reducible exact step_Task_save hq hc.taskSave _
    | with_reducible apply step_tryCatchReturn hq
    | with_reducible apply step_tryCatch hq
    | with_reducible apply stepRet_pure hq
    | with_reducible apply stepRet_bind hq
    | with_reducible apply step_bind hq
    | intro _
    | split
    | dsimp only)

theorem careful_storeDueDate (hc : Careful R) (c : Int) (u : Nat) (v : Value) :
    Step R (taskController.storeDueDate c u v) := by
  have hq := hc.toQuiet
  unfold taskController.storeDueDate
  repeat (first
    | with_reducible exact step_pure hq _
    | with_reducible exact step_raise hq
    | with_reducible exact stepRet_done hq
    | with_reducible exact stepRet_raise hq
    | with_reducible exact step_getWorld hq
    | with_reducible exact step_sendMessage hq _ _ _ _
    | with_reducible exact step_answerCallbackQuery hq _ _
    | with_reducible exact step_User_findOne hq _
    | with_reducible exact step_User_findNotIn hq _
    | with_reducible exact step_User_countDocuments hq _
    | with_reducible exact step_Project_findIn hq _
    | with_reducible exact step_Project_findOne hq _
    | with_reducible exact step_Project_findByObjectId hq _
    | with_reducible exact step_Project_findById hq _
    | with_reducible exact step_Task_findAssigned hq _ _
    | with_reducible exact step_Task_findById hq _
    | with_reducible exact step_findUserByNumber hq _
    | with_reducible exact step_getSession_of (fun w => hc.getSession w _)
    | with_reducible exact step_clearSession_of (fun w => hc.clearSession w _)
    | with_reducible exact step_setState_of (fun w => hc.setFree w _ _ (by decide))
    | with_reducible exact step_setData_of (fun w => hc.setText w _ _ _)
    | with_reducible exact step_setData_of (fun w => hc.setOther w _ _ _ (by decide))
    | with_reducible refine step_opener hq (fun w => hc.openerText w _ _ _ _ (by decide)) ?_
    | with_reducible refine step_opener hq (fun w => hc.openerOther w _ _ _ _ (by decide) (by decide)) ?_
    | with_reducible refine stepRet_opener hq (fun w => hc.openerText w _ _ _ _ (by decide)) ?_
    | with_reducible refine stepRet_opener hq (fun w => hc.openerOther w _ _ _ _ (by decide) (by decide)) ?_
    | with_reducible exact step_User_save hq hc.users _
    | with_reducible exact step_User_create hq hc.users _ _ _ _ _
    | with_reducible exact step_Project_create hq hc.projects _ _ _
    | with_reducible exact step_Task_save hq hc.taskSave _
    | with_reducible apply step_tryCatchReturn hq
    | with_reducible apply step_tryCatch hq
    | with_reducible apply stepRet_pure hq
    | with_reducible apply stepRet_bind hq
    | with_reducible apply step_bind hq
    | intro _
    | split
    | dsimp only)

theorem careful_handleTaskDueDateInput (hc : Careful R) (c : Int) (u : Nat) (t : String) :
    Step R (taskController.handleTaskDueDateInput c u t) := by
  have hq := hc.toQuiet
  unfold taskController.handleTaskDueDateInput
  repeat (first
    | with_reducible exact step_showTasksMenu hq _ _ (fun w => hc.setFree w _ none (by decide))
    | with_reducible exact step_askTaskName hq _
    | with_reducible exact careful_storeDueDate hc _ _ _
    | with_reducible exact step_pure hq _
    | with_reducible exact step_raise hq
    | with_reducible exact stepRet_done hq
    | with_reducible exact stepRet_raise hq
    | with_reducible exact step_getWorld hq
    | with_reducible exact step_sendMessage hq _ _ _ _
    | with_reducible exact step_answerCallbackQuery hq _ _
    | with_reducible exact step_User_findOne hq _
    | with_reducible exact step_User_findNotIn hq _
    | with_reducible exact step_User_countDocuments hq _
    | with_reducible exact step_Project_findIn hq _
    | with_reducible exact step_Project_findOne hq _
    | with_reducible exact step_Project_findByObjectId hq _
    | with_reducible exact step_Project_findById hq _
    | with_reducible exact step_Task_findAssigned hq _ _
    | with_reducible exact step_Task_findById hq _
    | with_reducible exact step_findUserByNumber hq _
    | with_reducible exact step_getSession_of (fun w => hc.getSession w _)
    | with_reducible exact step_clearSession_of (fun w => hc.clearSession w _)
    | with_reducible exact step_setState_of (fun w => hc.setFree w _ _ (by decide))
    | with_reducible exact step_setData_of (fun w => hc.setText w _ _ _)
    | with_reducible exact step_setData_of (fun w => hc.setOther w _ _ _ (by decide))
    | with_reducible refine step_opener hq (fun w => hc.openerText w _ _ _ _ (by decide)) ?_
    | with_reducible refine step_opener hq (fun w => hc.openerOther w _ _ _ _ (by decide) (by decide)) ?_
    | with_reducible refine stepRet_opener hq (fun w => hc.openerText w _ _ _ _ (by decide)) ?_
    | with_reducible refine stepRet_opener hq (fun w => hc.openerOther w _ _ _ _ (by decide) (by decide)) ?_
    | with_reducible exact step_User_save hq hc.users _
    | with_reducible exact step_User_create hq hc.users _ _ _ _ _
    | with_reducible exact step_Project_create hq hc.projects _ _ _
    | with_reducible exact step_Task_save hq hc.taskSave _
    | with_reducible apply step_tryCatchReturn hq
    | with_reducible apply step_tryCatch hq
    | with_reducible apply stepRet_pure hq
    | with_reducible apply stepRet_bind hq
    | with_reducible apply step_bind hq
    | intro _
    | split
    | dsimp only)

theorem careful_updateTaskStatus (hc : Careful R) (c : Int) (u : Nat) (o : Option String) (n : Option String) :
    Step R (taskController.updateTaskStatus c u o n) := by
  have hq := hc.toQuiet
  unfold taskController.updateTaskStatus
  repeat (first
    | with_reducible exact step_showTaskDetails hq _ _ _
    | with_reducible exact step_pure hq _
    | with_reducible exact step_raise hq
    | with_reducible exact stepRet_done hq
    | with_reducible exact stepRet_raise hq
    | with_reducible exact step_getWorld hq
    | with_reducible exact step_sendMessage hq _ _ _ _
    | with_reducible exact step_answerCallbackQuery hq _ _
    | with_reducible exact step_User_findOne hq _
    | with_reducible exact step_User_findNotIn hq _
    | with_reducible exact step_User_countDocuments hq _
    | with_reducible exact step_Project_findIn hq _
    | with_reducible exact step_Project_findOne hq _
    | with_reducible exact step_Project_findByObjectId hq _
    | with_reducible exact step_Project_findById hq _
    | with_reducible exact step_Task_findAssigned hq _ _
    | with_reducible exact step_Task_findById hq _
    | with_reducible exact step_findUserByNumber hq _
    | with_reducible exact step_getSession_of (fun w => hc.getSession w _)
    | with_reducible exact step_clearSession_of (fun w => hc.clearSession w _)
    | with_reducible exact step_setState_of (fun w => hc.setFree w _ _ (by decide))
    | with_reducible exact step_setData_of (fun w => hc.setText w _ _ _)
    | with_reducible exact step_setData_of (fun w => hc.setOther w _ _ _ (by decide))
    | with_reducible refine step_opener hq (fun w => hc.openerText w _ _ _ _ (by decide)) ?_
    | with_reducible refine step_opener hq (fun w => hc.openerOther w _ _ _ _ (by decide) (by decide)) ?_
    | with_reducible refine stepRet_opener hq (fun w => hc.openerText w _ _ _ _ (by decide)) ?_
    | with_reducible refine stepRet_opener hq (fun w => hc.openerOther w _ _ _ _ (by decide) (by decide)) ?_
    | with_reducible exact step_User_save hq hc.users _
    | with_reducible exact step_User_create hq hc.users _ _ _ _ _
    | with_reducible exact step_Project_create hq hc.projects _ _ _
    | with_reducible exact step_Task_save hq hc.taskSave _
    | with_reducible apply step_tryCatchReturn hq
    | with_reducible apply step_tryCatch hq
    | with_reducible apply stepRet_pure hq
    | with_reducible apply stepRet_bind hq
    | with_reducible apply step_bind hq
    | intro _
    | split
    | dsimp only)

theorem careful_handleTaskCallback (hc : Careful R) (q : CallbackQuery) :
    Step R (taskController.handleTaskCallback q) := by
  have hq := hc.toQuiet
  unfold taskController.handleTaskCallback
  repeat (first
    | with_reducible exact step_showTasksMenu hq _ _ (fun w => hc.setFree w _ none (by decide))
    | with_reducible exact step_askTaskName hq _
    | with_reducible exact careful_updateTaskStatus hc _ _ _ _
    | with_reducible exact step_pure hq _
    | with_reducible exact step_raise hq
    | with_reducible exact stepRet_done hq
    | with_reducible exact stepRet_raise hq
    | with_reducible exact step_getWorld hq
    | with_reducible exact step_sendMessage hq _ _ _ _
    | with_reducible exact step_answerCallbackQuery hq _ _
    | with_reducible exact step_User_findOne hq _
    | with_reducible exact step_User_findNotIn hq _
    | with_reducible exact step_User_countDocuments hq _
    | with_reducible exact step_Project_findIn hq _
    | with_reducible exact step_Project_findOne hq _
    | with_reducible exact step_Project_findByObjectId hq _
    | with_reducible exact step_Project_findById hq _
    | with_reducible exact step_Task_findAssigned hq _ _
    | with_reducible exact step_Task_findById hq _
    | with_reducible exact step_findUserByNumber hq _
    | with_reducible exact step_getSession_of (fun w => hc.getSession w _)
    | with_reducible exact step_clearSession_of (fun w => hc.clearSession w _)
    | with_reducible exact step_setState_of (fun w => hc.setFree w _ _ (by decide))
    | with_reducible exact step_setData_of (fun w => hc.setText w _ _ _)
    | with_reducible exact step_setData_of (fun w => hc.setOther w _ _ _ (by decide))
    | with_reducible refine step_opener hq (fun w => hc.openerText w _ _ _ _ (by decide)) ?_
    | with_reducible refine step_opener hq (fun w => hc.openerOther w _ _ _ _ (by decide) (by decide)) ?_
    | with_reducible refine stepRet_opener hq (fun w => hc.openerText w _ _ _ _ (by decide)) ?_
    | with_reducible refine stepRet_opener hq (fun w => hc.openerOther w _ _ _ _ (by decide) (by decide)) ?_
    | with_reducible exact step_User_save hq hc.users _
    | with_reducible exact step_User_create hq hc.users _ _ _ _ _
    | with_reducible exact step_Project_create hq hc.projects _ _ _
    | with_reducible exact step_Task_save hq hc.taskSave _
    | with_reducible apply step_tryCatchReturn hq
    | with_reducible apply step_tryCatch hq
    | with_reducible apply stepRet_pure hq
    | with_reducible apply stepRet_bind hq
    | with_reducible apply step_bind hq
    | intro _
    | split
    | dsimp only)

theorem careful_onCommand (hc : Careful R) (k : Command) (msg : Message) :
    Step R (onCommand k msg) := by
  have hq := hc.toQuiet
  unfold onCommand
  repeat (first
    | with_reducible exact careful_registerUser hc _ _ _
    | with_reducible exact step_showProjectsMenu hq _ _ (fun w => hc.setFree w _ none (by decide))
    | with_reducible exact step_showTasksMenu hq _ _ (fun w => hc.setFree w _ none (by decide))
    | with_reducible exact step_showTodayTasks hq _ _
    | with_reducible exact step_showUserProfile hq _ _
    | with_reducible exact careful_startJoinProject hc _ _
    | with_reducible exact step_pure hq _
    | with_reducible exact step_raise hq
    | with_reducible exact stepRet_done hq
    | with_reducible exact stepRet_raise hq
    | with_reducible exact step_getWorld hq
    | with_reducible exact step_sendMessage hq _ _ _ _
    | with_reducible exact step_answerCallbackQuery hq _ _
    | with_reducible exact step_User_findOne hq _
    | with_reducible exact step_User_findNotIn hq _
    | with_reducible exact step_User_countDocuments hq _
    | with_reducible exact step_Project_findIn hq _
    | with_reducible exact step_Project_findOne hq _
    | with_reducible exact step_Project_findByObjectId hq _
    | with_reducible exact step_Project_findById hq _
    | with_reducible exact step_Task_findAssigned hq _ _
    | with_reducible exact step_Task_findById hq _
    | with_reducible exact step_findUserByNumber hq _
    | with_reducible exact step_getSession_of (fun w => hc.getSession w _)
    | with_reducible exact step_clearSession_of (fun w => hc.clearSession w _)
    | with_reducible exact step_setState_of (fun w => hc.setFree w _ _ (by decide))
    | with_reducible exact step_setData_of (fun w => hc.setText w _ _ _)
    | with_reducible exact step_setData_of (fun w => hc.setOther w _ _ _ (by decide))
    | with_reducible refine step_opener hq (fun w => hc.openerText w _ _ _ _ (by decide)) ?_
    | with_reducible refine step_opener hq (fun w => hc.openerOther w _ _ _ _ (by decide) (by decide)) ?_
    | with_reducible refine stepRet_opener hq (fun w => hc.openerText w _ _ _ _ (by decide)) ?_
    | with_reducible refine stepRet_opener hq (fun w => hc.openerOther w _ _ _ _ (by decide) (by decide)) ?_
    | with_reducible exact step_User_save hq hc.users _
    | with_reducible exact step_User_create hq hc.users _ _ _ _ _
    | with_reducible exact step_Project_create hq hc.projects _ _ _
    | with_reducible exact step_Task_save hq hc.taskSave _
    | with_reducible apply step_tryCatchReturn hq
    | with_reducible apply step_tryCatch hq
    | with_reducible apply stepRet_pure hq
    | with_reducible apply stepRet_bind hq
    | with_reducible apply step_bind hq
    | intro _
    | split
    | dsimp only)

theorem careful_onCallbackQuery (hc : Careful R) (q : CallbackQuery) :
    Step R (onCallbackQuery q) := by
  have hq := hc.toQuiet
  unfold onCallbackQuery
  repeat (first
    | with_reducible exact careful_handleProjectCallback hc _
    | with_reducible exact careful_handleUserCallback hc _
    | with_reducible exact careful_handleTaskCallback hc _
    | with_reducible exact step_pure hq _
    | with_reducible exact step_raise hq
    | with_reducible exact stepRet_done hq
    | with_reducible exact stepRet_raise hq
    | with_reducible exact step_getWorld hq
    | with_reducible exact step_sendMessage hq _ _ _ _
    | with_reducible exact step_answerCallbackQuery hq _ _
    | with_reducible exact step_User_findOne hq _
    | with_reducible exact step_User_findNotIn hq _
    | with_reducible exact step_User_countDocuments hq _
    | with_reducible exact step_Project_findIn hq _
    | with_reducible exact step_Project_findOne hq _
    | with_reducible exact step_Project_findByObjectId hq _
    | with_reducible exact step_Project_findById hq _
    | with_reducible exact step_Task_findAssigned hq _ _
    | with_reducible exact step_Task_findById hq _
    | with_reducible exact step_findUserByNumber hq _
    | with_reducible exact step_getSession_of (fun w => hc.getSession w _)
    | with_reducible exact step_clearSession_of (fun w => hc.clearSession w _)
    | with_reducible exact step_setState_of (fun w => hc.setFree w _ _ (by decide))
    | with_reducible exact step_setData_of (fun w => hc.setText w _ _ _)
    | with_reducible exact step_setData_of (fun w => hc.setOther w _ _ _ (by decide))
    | with_reducible refine step_opener hq (fun w => hc.openerText w _ _ _ _ (by decide)) ?_
    | with_reducible refine step_opener hq (fun w => hc.openerOther w _ _ _ _ (by decide) (by decide)) ?_
    | with_reducible refine stepRet_opener hq (fun w => hc.openerText w _ _ _ _ (by decide)) ?_
    | with_reducible refine stepRet_opener hq (fun w => hc.openerOther w _ _ _ _ (by decide) (by decide)) ?_
    | with_reducible exact step_User_save hq hc.users _
    | with_reducible exact step_User_create hq hc.users _ _ _ _ _
    | with_reducible exact step_Project_create hq hc.projects _ _ _
    | with_reducible exact step_Task_save hq hc.taskSave _
    | with_reducible apply step_tryCatchReturn hq
    | with_reducible apply step_tryCatch hq
    | with_reducible apply stepRet_pure hq
    | with_reducible apply stepRet_bind hq
    | with_reducible apply step_bind hq
    | intro _
    | split
    | dsimp only)

end careful

/-! ## The state determines the keys that are set -/

namespace SessionService

theorem lookup_other_getSession (sessions : Store) (now : Nat) {u v : Nat} (h : v ≠ u) :
    lookupKey v (getSession sessions now u).1 = lookupKey v sessions := by
  unfold getSession
  cases hl : lookupKey u sessions with
  | none => simp [lookupKey_upsert_same, lookupKey_upsert_ne _ _ _ _ h]
  | some y => simp [hl, lookupKey_upsert_ne _ _ _ _ h]

theorem lookup_other_setState (sessions : Store) (now : Nat) {u v : Nat} (s : Option String)
    (h : v ≠ u) : lookupKey v (setState sessions now u s).1 = lookupKey v sessions := by
  simp [setState, lookupKey_upsert_ne _ _ _ _ h, lookup_other_getSession sessions now h]

theorem lookup_other_setData (sessions : Store) (now : Nat) {u v : Nat} (k : String)
    (x : Value) (h : v ≠ u) :
    lookupKey v (setData sessions now u k x).1 = lookupKey v sessions := by
  simp [setData, lookupKey_upsert_ne _ _ _ _ h, lookup_other_getSession sessions now h]

theorem lookup_other_clearSession (sessions : Store) (now : Nat) {u v : Nat} (h : v ≠ u) :
    lookupKey v (clearSession sessions now u) = lookupKey v sessions := by
  unfold clearSession
  cases hl : lookupKey u sessions with
  | none => rfl
  | some y => simp [lookupKey_upsert_ne _ _ _ _ h]

theorem lookup_clearSession_cases (sessions : Store) (now u : Nat) :
    lookupKey u (clearSession sessions now u) = none
      ∨ lookupKey u (clearSession sessions now u)
          = some { state := none, data := [], lastActivity := now } := by
  cases hl : lookupKey u sessions with
  | none => exact Or.inl (by simp [clearSession, hl])
  | some y => exact Or.inr (lookup_clearSession hl)

/-- The session handed out by `getSession` is the stored one with a new
`lastActivity`, or the fresh one. -/
theorem getSession_cases (sessions : Store) (now u : Nat) :
    (∃ x, lookupKey u sessions = some x
        ∧ (getSession sessions now u).2 = { x with lastActivity := now })
      ∨ (lookupKey u sessions = none
        ∧ (getSession sessions now u).2 = { state := none, data := [], lastActivity := now }) := by
  cases hl : lookupKey u sessions with
  | none => exact Or.inr ⟨rfl, getSession_of_none hl⟩
  | some y => exact Or.inl ⟨y, rfl, by rw [getSession_of_some hl]⟩

end SessionService

theorem complete_of_free {s : Session} (h : requiredKeys s.state = []) :
    s.complete = true := by
  simp [Session.complete, h]

theorem complete_iff (s : Session) :
    s.complete = true ↔ ∀ k ∈ requiredKeys s.state, s.holds k = true := by
  simp [Session.complete, List.all_eq_true]

/-- Writing a text keeps every key set, and sets the key written. -/
theorem holds_upsert_text {st st1 : Option String} {now now1 : Nat} {k j t : String}
    {d : List (String × Value)}
    (h : j ≠ k → Session.holds ⟨st, d, now⟩ j = true) :
    Session.holds ⟨st1, upsert k (.str t) d, now1⟩ j = true := by
  unfold Session.holds at *
  by_cases hj : j = k
  · subst hj
    simp [textField_upsert, lookupKey_upsert_same]
  · simpa [textField_upsert_ne _ _ _ _ hj, lookupKey_upsert_ne _ _ _ _ hj] using h hj

/-- Writing a value under a key that is not a text field keeps every key set,
and sets the key written. -/
theorem holds_upsert_other {st st1 : Option String} {now now1 : Nat} {k j : String}
    {v : Value} {d : List (String × Value)} (hk : k ∉ textKeys)
    (h : j ≠ k → Session.holds ⟨st, d, now⟩ j = true) :
    Session.holds ⟨st1, upsert k v d, now1⟩ j = true := by
  unfold Session.holds at *
  by_cases hj : j = k
  · subst hj
    simp [hk, lookupKey_upsert_same]
  · simpa [textField_upsert_ne _ _ _ _ hj, lookupKey_upsert_ne _ _ _ _ hj] using h hj

/-- The session handed out by `getSession` is complete when the store is. -/
theorem getSession_complete {w : World} (h : StateDeterminesKeys w) (u : Nat) :
    (SessionService.getSession w.sessions w.now u).2.complete = true := by
  rcases SessionService.getSession_cases w.sessions w.now u with ⟨x, hx, e⟩ | ⟨_, e⟩
  · rw [e]
    exact h u x hx
  · rw [e]
    rfl

theorem inv_getSession {w : World} (h : StateDeterminesKeys w) (u : Nat) :
    StateDeterminesKeys
      { w with sessions := (SessionService.getSession w.sessions w.now u).1 } := by
  intro v s hs
  by_cases hv : v = u
  · subst hv
    rw [SessionService.lookup_getSession] at hs
    cases hs
    exact getSession_complete h v
  · rw [SessionService.lookup_other_getSession _ _ hv] at hs
    exact h v s hs

theorem inv_clearSession {w : World} (h : StateDeterminesKeys w) (u : Nat) :
    StateDeterminesKeys
      { w with sessions := SessionService.clearSession w.sessions w.now u } := by
  intro v s hs
  by_cases hv : v = u
  · subst hv
    rcases SessionService.lookup_clearSession_cases w.sessions w.now v with e | e
    · rw [e] at hs
      cases hs
    · rw [e] at hs
      cases hs
      rfl
  · rw [SessionService.lookup_other_clearSession _ _ hv] at hs
    exact h v s hs

/-- Writing one key: the new value is a text, or the key is not a text field. -/
theorem inv_setData {w : World} (h : StateDeterminesKeys w) (u : Nat) (k : String)
    (x : Value) (hx : (∃ t, x = .str t) ∨ k ∉ textKeys) :
    StateDeterminesKeys
      { w with sessions := (SessionService.setData w.sessions w.now u k x).1 } := by
  intro v s hs
  by_cases hv : v = u
  · subst hv
    rw [SessionService.lookup_setData] at hs
    cases hs
    have hc := (complete_iff _).1 (getSession_complete h v)
    refine (complete_iff _).2 (fun j hj => ?_)
    rcases hx with ⟨t, rfl⟩ | hk
    · exact holds_upsert_text (fun _ => hc j hj)
    · exact holds_upsert_other hk (fun _ => hc j hj)
  · rw [SessionService.lookup_other_setData _ _ _ _ hv] at hs
    exact h v s hs

theorem inv_setFree {w : World} (h : StateDeterminesKeys w) (u : Nat) (st : Option String)
    (hfree : requiredKeys st = []) :
    StateDeterminesKeys
      { w with sessions := (SessionService.setState w.sessions w.now u st).1 } := by
  intro v s hs
  by_cases hv : v = u
  · subst hv
    rw [SessionService.lookup_setState] at hs
    cases hs
    exact complete_of_free hfree
  · rw [SessionService.lookup_other_setState _ _ _ hv] at hs
    exact h v s hs

/-- A step of a flow: the state is written, then one key.  The other keys the
new state requires are those already set. -/
theorem inv_pair {w : World} (h : StateDeterminesKeys w) (u : Nat) (st : Option String)
    (k : String) (x : Value) (hx : (∃ t, x = .str t) ∨ k ∉ textKeys)
    (hrest : ∀ j ∈ requiredKeys st, j ≠ k →
      (SessionService.getSession w.sessions w.now u).2.holds j = true) :
    StateDeterminesKeys
      { w with
        sessions := (SessionService.setData
          (SessionService.setState w.sessions w.now u st).1 w.now u k x).1 } := by
  intro v s hs
  by_cases hv : v = u
  · subst hv
    rw [SessionService.lookup_setState_setData] at hs
    cases hs
    refine (complete_iff _).2 (fun j hj => ?_)
    rcases hx with ⟨t, rfl⟩ | hk
    · exact holds_upsert_text (hrest j hj)
    · exact holds_upsert_other hk (hrest j hj)
  · rw [SessionService.lookup_other_setData _ _ _ _ hv,
      SessionService.lookup_other_setState _ _ _ hv] at hs
    exact h v s hs

theorem careful_inv :
    Careful (fun w w1 => StateDeterminesKeys w → StateDeterminesKeys w1) where
  refl := fun _ h => h
  trans := fun _ _ _ hab hbc h => hbc (hab h)
  dbCalls := fun _ _ h => h
  apiCalls := fun _ _ h => h
  outbox := fun _ _ h => h
  answers := fun _ _ h => h
  users := fun _ _ _ h => h
  projects := fun _ _ _ h => h
  taskSave := fun _ _ h => h
  getSession := fun _ u h => inv_getSession h u
  clearSession := fun _ u h => inv_clearSession h u
  setText := fun _ u k t h => inv_setData h u k (.str t) (Or.inl ⟨t, rfl⟩)
  setOther := fun _ u k v hk h => inv_setData h u k v (Or.inr hk)
  setFree := fun _ u s hs h => inv_setFree h u s hs
  openerText := fun _ u s k t hs h => inv_pair h u s k (.str t) (Or.inl ⟨t, rfl⟩)
    (fun j hj hne => by
      rw [hs] at hj
      exact absurd (List.mem_singleton.1 hj) hne)
  openerOther := fun _ u s k v hs hk h => inv_pair h u s k v (Or.inr hk)
    (fun j hj hne => by
      rw [hs] at hj
      exact absurd (List.mem_singleton.1 hj) hne)

/-! ## The steps that rely on the state they are dispatched in -/

/-- A step of a flow entered in a state whose keys, with the key written now, are
those of the next state. -/
theorem inv_pair_after {w : World} (h : StateDeterminesKeys w) (u : Nat)
    (st : Option String) (k t : String) {s1 : Session}
    (hs1 : lookupKey u w.sessions = some s1)
    (hsub : ∀ j ∈ requiredKeys st, j ≠ k → j ∈ requiredKeys s1.state) :
    StateDeterminesKeys
      { w with
        sessions := (SessionService.setData
          (SessionService.setState w.sessions w.now u st).1 w.now u k (.str t)).1 } := by
  refine inv_pair h u st k (.str t) (Or.inl ⟨t, rfl⟩) (fun j hj hne => ?_)
  rw [SessionService.getSession_of_some hs1]
  exact (complete_iff s1).1 (h u s1 hs1) j (hsub j hj hne)

theorem inv_handleSurnameInput (c : Int) (u : Nat) (t : String) {w : World} {s1 : Session}
    (h : StateDeterminesKeys w) (hs1 : lookupKey u w.sessions = some s1)
    (hst : s1.state = some USER_STATES.WAITING_SURNAME) :
    StateDeterminesKeys (userController.handleSurnameInput c u t w).world := by
  unfold userController.handleSurnameInput
  split
  · exact (careful_registrationCancelled careful_inv c u).keeps w h
  · simp only [bind_run, setState_run, setData_run]
    refine (step_sendMessage careful_inv.toQuiet _ _ _ _).keeps _
      (inv_pair_after h u _ _ _ hs1 ?_)
    rw [hst]
    decide

theorem inv_handleRoleInput (c : Int) (u : Nat) (t : String) {w : World} {s1 : Session}
    (h : StateDeterminesKeys w) (hs1 : lookupKey u w.sessions = some s1)
    (hst : s1.state = some USER_STATES.WAITING_ROLE) :
    StateDeterminesKeys (userController.handleRoleInput c u t w).world := by
  unfold userController.handleRoleInput
  split
  · exact (careful_registrationCancelled careful_inv c u).keeps w h
  · simp only [bind_run, setState_run, setData_run]
    refine (step_sendMessage careful_inv.toQuiet _ _ _ _).keeps _
      (inv_pair_after h u _ _ _ hs1 ?_)
    rw [hst]
    decide

theorem inv_cancelTask (c : Int) (u : Nat) {w : World} (h : StateDeterminesKeys w) :
    StateDeterminesKeys
      ((sessionService.clearSession u >>= fun _ => taskController.showTasksMenu c u) w).world :=
  (step_bind careful_inv.toQuiet
    (step_clearSession_of (fun w => careful_inv.clearSession w u))
    (fun _ => step_showTasksMenu careful_inv.toQuiet c u
      (fun w => careful_inv.setFree w u none (by decide)))).keeps w h

theorem inv_handleTaskNameInput (c : Int) (u : Nat) (t : String) {w : World} {s1 : Session}
    (h : StateDeterminesKeys w) (hs1 : lookupKey u w.sessions = some s1)
    (hst : s1.state = some TASK_STATES.WAITING_NAME) :
    StateDeterminesKeys (taskController.handleTaskNameInput c u t w).world := by
  unfold taskController.handleTaskNameInput
  split
  · exact inv_cancelTask c u h
  · simp only [bind_run, setState_run, setData_run]
    refine (step_sendMessage careful_inv.toQuiet _ _ _ _).keeps _
      (inv_pair_after h u _ _ _ hs1 ?_)
    rw [hst]
    decide

theorem inv_handleTaskDescriptionInput (c : Int) (u : Nat) (t : String) {w : World}
    {s1 : Session} (h : StateDeterminesKeys w) (hs1 : lookupKey u w.sessions = some s1)
    (hst : s1.state = some TASK_STATES.WAITING_DESCRIPTION) :
    StateDeterminesKeys (taskController.handleTaskDescriptionInput c u t w).world := by
  unfold taskController.handleTaskDescriptionInput
  split
  · exact inv_cancelTask c u h
  · simp only [bind_run, setState_run, setData_run]
    refine (step_sendMessage careful_inv.toQuiet _ _ _ _).keeps _
      (inv_pair_after h u _ _ _ hs1 ?_)
    rw [hst]
    decide

theorem ite_route_ne {c : Prop} [Decidable c] {a b r : Route} (ha : a ≠ r) (hb : b ≠ r) :
    (if c then a else b) ≠ r := by
  split <;> assumption

/-- The router hands a text to a step only in the state of that step. -/
theorem route_state {st : Option String} {text : String} :
    (route st text = .handleSurnameInput → st = some USER_STATES.WAITING_SURNAME)
      ∧ (route st text = .handleRoleInput → st = some USER_STATES.WAITING_ROLE)
      ∧ (route st text = .handleTaskNameInput → st = some TASK_STATES.WAITING_NAME)
      ∧ (route st text = .handleTaskDescriptionInput
          → st = some TASK_STATES.WAITING_DESCRIPTION) := by
  refine ⟨?_, ?_, ?_, ?_⟩ <;>
  · intro hr
    by_contra hne
    revert hr
    unfold route
    rw [if_neg hne]
    repeat (first | exact (by decide) | refine ite_route_ne (by decide) ?_)

theorem inv_dispatch (st : Option String) (text : String) (c : Int) (u : Nat)
    (o : Option String) {w : World} {s1 : Session} (h : StateDeterminesKeys w)
    (hs1 : lookupKey u w.sessions = some s1) (hst : s1.state = st) :
    StateDeterminesKeys (dispatch (route st text) c u text o w).world := by
  have hc := careful_inv
  have hq := careful_inv.toQuiet
  have hr := @route_state st text
  generalize route st text = r at hr
  cases r with
  | handleNameInput => exact (careful_handleNameInput hc c u text).keeps w h
  | handleSurnameInput => exact inv_handleSurnameInput c u text h hs1 (hst.trans (hr.1 rfl))
  | handleRoleInput => exact inv_handleRoleInput c u text h hs1 (hst.trans (hr.2.1 rfl))
  | handleContactInput => exact (careful_handleContactInput hc c u text o).keeps w h
  | handleJoinProjectInput => exact (careful_handleJoinProjectInput hc c u text).keeps w h
  | handleProjectNameInput => exact (careful_handleProjectNameInput hc c u text).keeps w h
  | handleProjectDescriptionInput =>
    exact (careful_handleProjectDescriptionInput hc c u text).keeps w h
  | handleTaskNameInput =>
    exact inv_handleTaskNameInput c u text h hs1 (hst.trans (hr.2.2.1 rfl))
  | handleTaskDescriptionInput =>
    exact inv_handleTaskDescriptionInput c u text h hs1 (hst.trans (hr.2.2.2 rfl))
  | handleTaskDueDateInput => exact (careful_handleTaskDueDateInput hc c u text).keeps w h
  | showProjectsMenu =>
    exact (step_showProjectsMenu hq c u (fun w => hc.setFree w u none (by decide))).keeps w h
  | showTasksMenu =>
    exact (step_showTasksMenu hq c u (fun w => hc.setFree w u none (by decide))).keeps w h
  | showMyTasks => exact (step_showMyTasks hq c u).keeps w h
  | startTaskCreation => exact (careful_startTaskCreation hc c u).keeps w h
  | startProjectCreation => exact (careful_startProjectCreation hc c u).keeps w h
  | showProjectDetails => exact (step_showProjectDetails hq c u text).keeps w h
  | backToMenu =>
    exact (step_bind hq (step_clearSession_of (fun w => hc.clearSession w u))
      (fun _ => step_sendMessage hq _ _ _ _)).keeps w h
  | unrecognized => exact (step_sendMessage hq _ _ _ _).keeps w h

theorem inv_onMessage (msg : Message) {w : World} (h : StateDeterminesKeys w) :
    StateDeterminesKeys (onMessage msg w).world := by
  unfold onMessage
  cases msg.text with
  | none => exact h
  | some text =>
    dsimp only
    by_cases h1 : startsWith text "/" = true
    · rw [if_pos h1]
      exact h
    · rw [if_neg h1]
      by_cases h2 : text = ""
      · rw [if_pos h2]
        exact h
      · rw [if_neg h2]
        simp only [bind_run, getSession_run]
        exact inv_dispatch _ _ _ _ _ (inv_getSession h msg.userId)
          (SessionService.lookup_getSession w.sessions w.now msg.userId) rfl

theorem inv_handle (i : Input) {w : World} (h : StateDeterminesKeys w) :
    StateDeterminesKeys (handle i w).world := by
  cases i with
  | message msg => exact inv_onMessage msg h
  | command k msg => exact (careful_onCommand careful_inv k msg).keeps w h
  | callbackQuery q => exact (careful_onCallbackQuery careful_inv q).keeps w h

theorem inv_runAll (inputs : List Input) {w : World} (h : StateDeterminesKeys w) :
    StateDeterminesKeys (runAll inputs w) := by
  induction inputs generalizing w with
  | nil => exact h
  | cons i rest ih => exact ih (inv_handle i h)

/-- C28: start from a store without sessions and run any sequence of commands,
callback queries and messages, whatever fails on the way.  Then in every
session of the store every key required by the state is set: a text field
(`name`, `surname`, `role`, `projectName`, `taskName`, `taskDescription`) reads
as a text and `projectId` has a value.  Hence the registration step
`waiting_user_contact` reads `name`, `surname` and `role`, and the project
step `waiting_project_description` reads `projectName`.  Each listener run is
taken as a whole: the handlers make the two writes of a step without waiting
in between. -/
theorem C28_state_determines_keys (inputs : List Input) (w : World) (u : Nat) (s : Session)
    (hempty : w.sessions = [])
    (hs : lookupKey u (runAll inputs w).sessions = some s) :
    (∀ k ∈ requiredKeys s.state, s.holds k = true)
      ∧ (s.state = some USER_STATES.WAITING_CONTACT →
          (textField s.data "name").isSome = true
            ∧ (textField s.data "surname").isSome = true
            ∧ (textField s.data "role").isSome = true)
      ∧ (s.state = some PROJECT_STATES.WAITING_DESCRIPTION →
          (textField s.data "projectName").isSome = true) := by
  have h0 : StateDeterminesKeys w := by
    intro v x hx
    rw [hempty] at hx
    cases hx
  have hall := (complete_iff s).1 (inv_runAll inputs h0 u s hs)
  refine ⟨hall, fun hst => ?_, fun hst => ?_⟩
  · rw [hst] at hall
    exact ⟨hall "name" (by decide), hall "surname" (by decide), hall "role" (by decide)⟩
  · rw [hst] at hall
    exact hall "projectName" (by decide)

set_option maxRecDepth 1000000 in
/-- C28, an instance: a registration, a project creation and a task creation up to
the due date leave the session with `projectId`, `taskName` and
`taskDescription`. -/
theorem C28_state_determines_keys_witness :
    lookupKey 7 (runAll threeFlows (quietWorld [] [] [])).sessions
        = some ⟨some TASK_STATES.WAITING_DUE_DATE,
            [("projectId", .objectId 101), ("taskName", .str "write"),
             ("taskDescription", .str "")], 1000⟩
      ∧ ∀ k ∈ requiredKeys (some TASK_STATES.WAITING_DUE_DATE),
          Session.holds ⟨some TASK_STATES.WAITING_DUE_DATE,
            [("projectId", .objectId 101), ("taskName", .str "write"),
             ("taskDescription", .str "")], 1000⟩ k = true :=
  ⟨by decide,
   (C28_state_determines_keys threeFlows (quietWorld [] [] []) 7
      ⟨some TASK_STATES.WAITING_DUE_DATE,
        [("projectId", .objectId 101), ("taskName", .str "write"),
         ("taskDescription", .str "")], 1000⟩ rfl (by decide)).1⟩

/-! ## The text of an object id -/

theorem hexValue_hexDigit (d : Nat) (h : d < 16) : hexValue (hexDigit d) = some d := by
  interval_cases d <;> decide

theorem readDigits_render (id : Nat) (n acc : Nat) :
    readDigits 16 hexValue
        ((List.range n).map (fun i => hexDigit (id / 16 ^ (n - 1 - i) % 16))) acc
      = some (acc * 16 ^ n + id % 16 ^ n) := by
  induction n generalizing acc with
  | zero => simp [readDigits, Nat.mod_one]
  | succ n ih =>
    rw [List.range_succ_eq_map, List.map_cons, List.map_map]
    have hf : ((fun i => hexDigit (id / 16 ^ (n + 1 - 1 - i) % 16)) ∘ Nat.succ)
        = fun i => hexDigit (id / 16 ^ (n - 1 - i) % 16) := by
      funext i
      have e : n + 1 - 1 - (i + 1) = n - 1 - i := by omega
      simp only [Function.comp, Nat.succ_eq_add_one, e]
    rw [hf]
    simp only [readDigits, Nat.add_sub_cancel, Nat.sub_zero,
      hexValue_hexDigit _ (Nat.mod_lt _ (by decide : 16 > 0)), ih]
    congr 1
    rw [Nat.mod_pow_succ]
    ring

theorem parseId_renderId (id : Nat) : parseId (renderId id) = some (id % 16 ^ 24) := by
  unfold parseId renderId renderIdChars
  simp only [List.length_map, List.length_range, if_true]
  have h := readDigits_render id 24 0
  simpa using h

theorem renderId_mod (id : Nat) : renderId (id % 16 ^ 24) = renderId id := by
  unfold renderId renderIdChars
  congr 1
  apply List.map_congr_left
  intro i hi
  have hi : i < 24 := List.mem_range.1 hi
  congr 1
  have e : (16 : Nat) ^ 24 = 16 ^ (23 - i) * 16 ^ (i + 1) := by
    rw [← pow_add]
    congr 1
    omega
  rw [e, Nat.mod_mul_right_div_self]
  exact Nat.mod_mod_of_dvd _ (dvd_pow_self 16 (by omega))

/-- The text the bot writes for an id is canonical. -/
theorem canonical_renderId (id : Nat) : Canonical (renderId id) := by
  intro q hq
  rw [parseId_renderId] at hq
  cases hq
  exact renderId_mod id

/-! ## The membership lists -/

theorem Project_findOne_cases (n : String) (w : World) :
    Project.findOne n w
        = .ok (w.projects.find? (fun p => p.name = n)) { w with dbCalls := w.dbCalls + 1 }
      ∨ Project.findOne n w = .thrown { w with dbCalls := w.dbCalls + 1 } := by
  by_cases h : w.dbFails w.dbCalls = true
  · exact Or.inr (by simp [Project.findOne, dbCall, h])
  · exact Or.inl (by simp [Project.findOne, dbCall, h, getWorld])

theorem Project_findById_cases (pid : String) (w : World) :
    (∃ id, parseId pid = some id ∧ Project.findById (some pid) w
        = .ok (w.projects.find? (fun p => p.id = id)) { w with dbCalls := w.dbCalls + 1 })
      ∨ (∃ d, Project.findById (some pid) w = .thrown { w with dbCalls := d }) := by
  cases hp : parseId pid with
  | none => exact Or.inr ⟨w.dbCalls, by simp [Project.findById, hp, raise]⟩
  | some id =>
    by_cases h : w.dbFails w.dbCalls = true
    · exact Or.inr ⟨w.dbCalls + 1, by
        simp [Project.findById, hp, Project.findByObjectId, dbCall, h]⟩
    · exact Or.inl ⟨id, rfl, by
        simp [Project.findById, hp, Project.findByObjectId, dbCall, h, getWorld]⟩

theorem findUserByNumber_cases (z : Option Int) (w : World) :
    (∃ n, z = some n ∧ userController.findUserByNumber z w
        = .ok (w.users.find? (fun u => (u.telegramId : Int) = n))
            { w with dbCalls := w.dbCalls + 1 })
      ∨ (∃ d, userController.findUserByNumber z w = .thrown { w with dbCalls := d }) := by
  unfold userController.findUserByNumber
  cases z with
  | none => exact Or.inr ⟨w.dbCalls, rfl⟩
  | some n =>
    by_cases h : w.dbFails w.dbCalls = true
    · exact Or.inr ⟨w.dbCalls + 1, by simp [dbCall, h]⟩
    · exact Or.inl ⟨n, rfl, by simp [dbCall, h, getWorld]⟩

theorem User_save_cases (user : User) (w : World) :
    User.save user w
        = .ok () { w with
            users := w.users.map (fun x => if x.id = user.id then user else x),
            dbCalls := w.dbCalls + 1 }
      ∨ User.save user w = .thrown { w with dbCalls := w.dbCalls + 1 } := by
  by_cases h : w.dbFails w.dbCalls = true
  · exact Or.inr (User_save_thrown user w h)
  · exact Or.inl (User_save_ok user w (by simpa using h))

theorem Project_create_cases (n : Option String) (d : String) (u : Nat) (w : World) :
    (∃ p, p.id = w.nextId ∧ Project.create n d u w
        = .ok p { w with
            projects := w.projects ++ [p], nextId := w.nextId + 1,
            dbCalls := w.dbCalls + 1 })
      ∨ (∃ k, Project.create n d u w = .thrown { w with dbCalls := k }) := by
  unfold Project.create
  cases n with
  | none => exact Or.inr ⟨w.dbCalls, rfl⟩
  | some n =>
    by_cases hn : trim n = ""
    · exact Or.inr ⟨w.dbCalls, by simp [hn, raise]⟩
    · by_cases h : w.dbFails w.dbCalls = true
      · exact Or.inr ⟨w.dbCalls + 1, by simp [hn, dbCall, h]⟩
      · exact Or.inl
          ⟨{ id := w.nextId, name := trim n, description := trim d, adminId := u,
             createdAt := w.now,
             workDays := ["Monday", "Tuesday", "Wednesday", "Thursday", "Friday"] },
            rfl, by simp [hn, dbCall, h, getWorld, modifyWorld]⟩

theorem quiet_membershipOk : Quiet (fun w w1 => MembershipOk w → MembershipOk w1) where
  refl := fun _ h => h
  trans := fun _ _ _ hab hbc h => hbc (hab h)
  dbCalls := fun _ _ h => h
  apiCalls := fun _ _ h => h
  outbox := fun _ _ h => h
  answers := fun _ _ h => h

theorem membershipOk_sessions (w : World) (s : Store) :
    MembershipOk w → MembershipOk { w with sessions := s } := fun h => h

/-- Saving a document whose lists are clean and hold known ids. -/
theorem membershipOk_save {w : World} (h : MembershipOk w) (user : User) (d : Nat)
    (h1 : user.projects.Nodup) (h2 : user.pendingProjects.Nodup)
    (h3 : ∀ i ∈ user.projects, i ∉ user.pendingProjects)
    (h4 : ∀ i ∈ user.projects ++ user.pendingProjects, i < w.nextId) :
    MembershipOk { w with
      users := w.users.map (fun x => if x.id = user.id then user else x),
      dbCalls := d } := by
  refine ⟨fun x hx => ?_, fun x hx => ?_, h.2.2⟩
  · obtain ⟨y, hy, rfl⟩ := List.mem_map.1 hx
    by_cases e : y.id = user.id
    · simp only [e, if_true]
      exact ⟨h1, h2, h3⟩
    · simp only [e, if_false]
      exact h.1 y hy
  · obtain ⟨y, hy, rfl⟩ := List.mem_map.1 hx
    by_cases e : y.id = user.id
    · simp only [e, if_true]
      exact h4
    · simp only [e, if_false]
      exact h.2.1 y hy

/-- A new project takes the next id. -/
theorem membershipOk_create {w : World} (h : MembershipOk w) (p : Project) (d : Nat)
    (hp : p.id = w.nextId) :
    MembershipOk { w with
      projects := w.projects ++ [p], nextId := w.nextId + 1, dbCalls := d } := by
  refine ⟨h.1, fun x hx i hi => Nat.lt_succ_of_lt (h.2.1 x hx i hi), fun q hq => ?_⟩
  rcases List.mem_append.1 hq with hq | hq
  · exact Nat.lt_succ_of_lt (h.2.2 q hq)
  · rw [List.mem_singleton.1 hq, hp]
    exact Nat.lt_succ_self _

section membership
variable {R : World → World → Prop}

/-- The `catch` block of the last step of the project creation. -/
theorem stepRet_catchCreate (hq : Quiet R) (hs : ∀ w s, R w { w with sessions := s })
    (c : Int) (u : Nat) (t : String) (m : Bool) (k : Markup) :
    StepRet R (sendMessage c t m k >>= fun _ => sessionService.clearSession u >>= fun _ =>
      pure (projectController.showProjectsMenu c u)) :=
  stepRet_bind hq (step_sendMessage hq _ _ _ _)
    (fun _ => stepRet_bind hq (step_clearSession hs u)
      (fun _ => stepRet_pure hq (step_showProjectsMenu hq c u (fun w => hs w _))))

/-- The `catch` block of the join request. -/
theorem stepRet_catchJoin (hq : Quiet R) (hs : ∀ w s, R w { w with sessions := s })
    (c : Int) (u : Nat) (t : String) (m : Bool) (k : Markup) :
    StepRet R (sendMessage c t m k >>= fun _ => sessionService.clearSession u >>= fun _ =>
      done) :=
  stepRet_bind hq (step_sendMessage hq _ _ _ _)
    (fun _ => stepRet_bind hq (step_clearSession hs u) (fun _ => stepRet_done hq))

/-- A `catch` block that sends one message. -/
theorem stepRet_catchSend (hq : Quiet R) (c : Int) (t : String) (m : Bool) (k : Markup) :
    StepRet R (sendMessage c t m k >>= fun _ => done) :=
  stepRet_bind hq (step_sendMessage hq _ _ _ _) (fun _ => stepRet_done hq)

end membership

/-! ## The operations on the membership lists, whatever fails -/

theorem find_mem {α : Type} {p : α → Bool} {l : List α} {a : α} (h : l.find? p = some a) :
    a ∈ l := List.mem_of_find?_eq_some h

theorem membershipOk_handleProjectDescriptionInput (c : Int) (u : Nat) (t : String)
    {w : World} (h : MembershipOk w) :
    MembershipOk (projectController.handleProjectDescriptionInput c u t w).world := by
  have hq := quiet_membershipOk
  have hs := membershipOk_sessions
  unfold projectController.handleProjectDescriptionInput
  split
  · exact (step_bind hq (step_clearSession hs u)
      (fun _ => step_showProjectsMenu hq c u (fun w => hs w _))).keeps w h
  · simp only [bind_run, getSession_run]
    have h0 : MembershipOk
        { w with sessions := (SessionService.getSession w.sessions w.now u).1 } := h
    generalize ({ w with sessions := (SessionService.getSession w.sessions w.now u).1 } : World)
      = W0 at h0 ⊢
    rcases User_findOne_cases u W0 with h1 | h1
    · rw [tryCatchReturn_bind_ok _ _ _ _ _ _ h1]
      cases hu : W0.users.find? (fun x => x.telegramId = u) with
      | none =>
        exact (step_tryCatchReturn hq
          (stepRet_bind hq (step_clearSession hs u)
            (fun _ => stepRet_pure hq (step_sendMessage hq _ _ _ _)))
          (stepRet_catchCreate hq hs c u _ _ _)).keeps _ h0
      | some user =>
        dsimp only
        have hmem := find_mem hu
        rcases Project_create_cases
          (textField (SessionService.getSession w.sessions w.now u).2.data "projectName")
          (if t = "Skip" ∨ toLowerCase t = "skip" then "" else t) u
          { W0 with dbCalls := W0.dbCalls + 1 } with ⟨p, hp, h2⟩ | ⟨k, h2⟩
        · rw [tryCatchReturn_bind_ok _ _ _ _ _ _ h2]
          have hp : p.id = W0.nextId := hp
          have hW2 := membershipOk_create h0 p (W0.dbCalls + 1 + 1) hp
          rcases User_save_cases { user with projects := user.projects ++ [p.id] }
            { W0 with
              projects := W0.projects ++ [p], nextId := W0.nextId + 1,
              dbCalls := W0.dbCalls + 1 + 1 } with h3 | h3
          · rw [tryCatchReturn_bind_ok _ _ _ _ _ _ h3]
            have hg := h0.1 user hmem
            have hb := h0.2.1 user hmem
            have hfresh : p.id ∉ user.projects ∧ p.id ∉ user.pendingProjects := by
              constructor
              · intro hi
                have := hb p.id (List.mem_append_left _ hi)
                omega
              · intro hi
                have := hb p.id (List.mem_append_right _ hi)
                omega
            have hW3 := membershipOk_save hW2
              { user with projects := user.projects ++ [p.id] } (W0.dbCalls + 1 + 1 + 1)
              (List.Nodup.append hg.1 (List.nodup_singleton _)
                (by
                  intro i hi hj
                  rw [List.mem_singleton.1 hj] at hi
                  exact hfresh.1 hi))
              hg.2.1
              (by
                intro i hi
                rcases List.mem_append.1 hi with hi | hi
                · exact hg.2.2 i hi
                · rw [List.mem_singleton.1 hi]
                  exact hfresh.2)
              (by
                intro i hi
                simp only [List.mem_append, List.mem_singleton] at hi
                rcases hi with (hi | hi) | hi
                · exact Nat.lt_succ_of_lt (hb i (List.mem_append_left _ hi))
                · rw [hi, hp]
                  exact Nat.lt_succ_self _
                · exact Nat.lt_succ_of_lt (hb i (List.mem_append_right _ hi)))
            exact (step_tryCatchReturn hq
              (stepRet_bind hq (step_clearSession hs u)
                (fun _ => stepRet_bind hq (step_sendMessage hq _ _ _ _)
                  (fun _ => stepRet_pure hq
                    (step_showProjectsMenu hq c u (fun w => hs w _)))))
              (stepRet_catchCreate hq hs c u _ _ _)).keeps _ hW3
          · rw [tryCatchReturn_bind_thrown _ _ _ _ _ h3]
            exact (step_runRet hq (stepRet_catchCreate hq hs c u _ _ _)).keeps _ hW2
        · rw [tryCatchReturn_bind_thrown _ _ _ _ _ h2]
          exact (step_runRet hq (stepRet_catchCreate hq hs c u _ _ _)).keeps _ h0
    · rw [tryCatchReturn_bind_thrown _ _ _ _ _ h1]
      exact (step_runRet hq (stepRet_catchCreate hq hs c u _ _ _)).keeps _ h0

theorem membershipOk_handleJoinProjectInput (c : Int) (u : Nat) (t : String)
    {w : World} (h : MembershipOk w) :
    MembershipOk (userController.handleJoinProjectInput c u t w).world := by
  have hq := quiet_membershipOk
  have hs := membershipOk_sessions
  unfold userController.handleJoinProjectInput
  split
  · exact (step_bind hq (step_clearSession hs u)
      (fun _ => step_sendMessage hq _ _ _ _)).keeps w h
  · rcases Project_findOne_cases t w with h1 | h1
    · rw [tryCatchReturn_bind_ok _ _ _ _ _ _ h1]
      cases hp : w.projects.find? (fun p => p.name = t) with
      | none =>
        exact (step_tryCatchReturn hq (stepRet_pure hq (step_sendMessage hq _ _ _ _))
          (stepRet_catchJoin hq hs c u _ _ _)).keeps _ h
      | some project =>
        dsimp only
        have hpid : project.id < ({ w with dbCalls := w.dbCalls + 1 } : World).nextId :=
          h.2.2 project (find_mem hp)
        have h0 : MembershipOk { w with dbCalls := w.dbCalls + 1 } := h
        generalize ({ w with dbCalls := w.dbCalls + 1 } : World) = W1 at h0 hpid ⊢
        rcases User_findOne_cases u W1 with h2 | h2
        · rw [tryCatchReturn_bind_ok _ _ _ _ _ _ h2]
          cases hu : W1.users.find? (fun x => x.telegramId = u) with
          | none =>
            exact (step_tryCatchReturn hq (stepRet_raise hq)
              (stepRet_catchJoin hq hs c u _ _ _)).keeps _ h0
          | some user =>
            dsimp only
            have hmem := find_mem hu
            by_cases hm : project.id ∈ user.projects
            · rw [if_pos hm]
              exact (step_tryCatchReturn hq
                (stepRet_bind hq (step_clearSession hs u)
                  (fun _ => stepRet_pure hq (step_sendMessage hq _ _ _ _)))
                (stepRet_catchJoin hq hs c u _ _ _)).keeps _ h0
            · rw [if_neg hm]
              by_cases hpend : project.id ∈ user.pendingProjects
              · rw [if_pos hpend]
                exact (step_tryCatchReturn hq
                  (stepRet_bind hq (step_clearSession hs u)
                    (fun _ => stepRet_pure hq (step_sendMessage hq _ _ _ _)))
                  (stepRet_catchJoin hq hs c u _ _ _)).keeps _ h0
              · rw [if_neg hpend]
                rcases User_save_cases
                  { user with pendingProjects := user.pendingProjects ++ [project.id] }
                  { W1 with dbCalls := W1.dbCalls + 1 } with h3 | h3
                · rw [tryCatchReturn_bind_ok _ _ _ _ _ _ h3]
                  have hg := h0.1 user hmem
                  have hb := h0.2.1 user hmem
                  have hW3 := membershipOk_save h0
                    { user with pendingProjects := user.pendingProjects ++ [project.id] }
                    (W1.dbCalls + 1 + 1) hg.1
                    (List.Nodup.append hg.2.1 (List.nodup_singleton _)
                      (by
                        intro i hi hj
                        rw [List.mem_singleton.1 hj] at hi
                        exact hpend hi))
                    (by
                      intro i hi hj
                      rcases List.mem_append.1 hj with hj | hj
                      · exact hg.2.2 i hi hj
                      · rw [List.mem_singleton.1 hj] at hi
                        exact hm hi)
                    (by
                      intro i hi
                      simp only [List.mem_append, List.mem_singleton] at hi
                      rcases hi with hi | hi | hi
                      · exact hb i (List.mem_append_left _ hi)
                      · exact hb i (List.mem_append_right _ hi)
                      · rw [hi]
                        exact hpid)
                  exact (step_tryCatchReturn hq
                    (stepRet_bind hq
                      (step_tryCatch hq (step_sendMessage hq _ _ _ _) (step_pure hq ()))
                      (fun _ => stepRet_bind hq (step_clearSession hs u)
                        (fun _ => stepRet_bind hq (step_sendMessage hq _ _ _ _)
                          (fun _ => stepRet_done hq))))
                    (stepRet_catchJoin hq hs c u _ _ _)).keeps _ hW3
                · rw [tryCatchReturn_bind_thrown _ _ _ _ _ h3]
                  exact (step_runRet hq (stepRet_catchJoin hq hs c u _ _ _)).keeps _ h0
        · rw [tryCatchReturn_bind_thrown _ _ _ _ _ h2]
          exact (step_runRet hq (stepRet_catchJoin hq hs c u _ _ _)).keeps _ h0
    · rw [tryCatchReturn_bind_thrown _ _ _ _ _ h1]
      exact (step_runRet hq (stepRet_catchJoin hq hs c u _ _ _)).keeps _ h

theorem membershipOk_resolveJoinRequest (approve : Bool) (c : Int) (a : Nat) (pid : String)
    (r : Option Int) (hcanon : Canonical pid) {w : World} (h : MembershipOk w) :
    MembershipOk (userController.resolveJoinRequest approve c a (some pid) r w).world := by
  have hq := quiet_membershipOk
  unfold userController.resolveJoinRequest
  rcases Project_findById_cases pid w with ⟨id, hid, h1⟩ | ⟨d, h1⟩
  · rw [tryCatchReturn_bind_ok _ _ _ _ _ _ h1]
    cases hp : w.projects.find? (fun p => p.id = id) with
    | none =>
      exact (step_tryCatchReturn hq (stepRet_pure hq (step_sendMessage hq _ _ _ _))
        (stepRet_catchSend hq c _ _ _)).keeps _ h
    | some project =>
      dsimp only
      have hpid : project.id = id := by simpa using List.find?_some hp
      have hrender : renderId project.id = pid := by
        rw [hpid]
        exact hcanon id hid
      by_cases hadm : project.adminId ≠ a
      · rw [if_pos hadm]
        exact (step_tryCatchReturn hq (stepRet_pure hq (step_sendMessage hq _ _ _ _))
          (stepRet_catchSend hq c _ _ _)).keeps _ h
      · rw [if_neg hadm]
        have h0 : MembershipOk { w with dbCalls := w.dbCalls + 1 } := h
        generalize ({ w with dbCalls := w.dbCalls + 1 } : World) = W1 at h0 ⊢
        rcases findUserByNumber_cases r W1 with ⟨n, hn, h2⟩ | ⟨d, h2⟩
        · rw [tryCatchReturn_bind_ok _ _ _ _ _ _ h2]
          cases hu : W1.users.find? (fun x => (x.telegramId : Int) = n) with
          | none =>
            exact (step_tryCatchReturn hq (stepRet_pure hq (step_sendMessage hq _ _ _ _))
              (stepRet_catchSend hq c _ _ _)).keeps _ h0
          | some user =>
            dsimp only
            have hmem := find_mem hu
            by_cases hpen : project.id ∉ user.pendingProjects
            · rw [if_pos hpen]
              exact (step_tryCatchReturn hq (stepRet_pure hq (step_sendMessage hq _ _ _ _))
                (stepRet_catchSend hq c _ _ _)).keeps _ h0
            · rw [if_neg hpen]
              have hpen : project.id ∈ user.pendingProjects := by simpa using hpen
              have hg := h0.1 user hmem
              have hb := h0.2.1 user hmem
              have hnot : project.id ∉ user.projects := fun hi => hg.2.2 _ hi hpen
              have hgone : project.id ∉
                  user.pendingProjects.filter (fun p => some (renderId p) ≠ some pid) := by
                simp [hrender]
              have hgood : MembershipOk
                  { W1 with
                    users := W1.users.map (fun x =>
                      if x.id = user.id then
                        (if approve then
                          { user with
                            pendingProjects := user.pendingProjects.filter
                              (fun p => some (renderId p) ≠ some pid),
                            projects := user.projects ++ [project.id] }
                        else
                          { user with
                            pendingProjects := user.pendingProjects.filter
                              (fun p => some (renderId p) ≠ some pid) })
                      else x),
                    dbCalls := W1.dbCalls + 1 + 1 } := by
                have e : (W1.users.map (fun x =>
                      if x.id = user.id then
                        (if approve then
                          { user with
                            pendingProjects := user.pendingProjects.filter
                              (fun p => some (renderId p) ≠ some pid),
                            projects := user.projects ++ [project.id] }
                        else
                          { user with
                            pendingProjects := user.pendingProjects.filter
                              (fun p => some (renderId p) ≠ some pid) })
                      else x))
                    = W1.users.map (fun x =>
                        if x.id = (if approve then
                          { user with
                            pendingProjects := user.pendingProjects.filter
                              (fun p => some (renderId p) ≠ some pid),
                            projects := user.projects ++ [project.id] }
                        else
                          { user with
                            pendingProjects := user.pendingProjects.filter
                              (fun p => some (renderId p) ≠ some pid) }).id then
                        (if approve then
                          { user with
                            pendingProjects := user.pendingProjects.filter
                              (fun p => some (renderId p) ≠ some pid),
                            projects := user.projects ++ [project.id] }
                        else
                          { user with
                            pendingProjects := user.pendingProjects.filter
                              (fun p => some (renderId p) ≠ some pid) })
                      else x) := by
                  cases approve <;> rfl
                rw [e]
                refine membershipOk_save h0 _ _ ?_ ?_ ?_ ?_
                · cases approve
                  · exact hg.1
                  · exact List.Nodup.append hg.1 (List.nodup_singleton _)
                      (by
                        intro i hi hj
                        rw [List.mem_singleton.1 hj] at hi
                        exact hnot hi)
                · cases approve <;> exact hg.2.1.filter _
                · cases approve
                  · intro i hi hj
                    exact hg.2.2 i hi (List.mem_of_mem_filter hj)
                  · intro i hi hj
                    rcases List.mem_append.1 hi with hi | hi
                    · exact hg.2.2 i hi (List.mem_of_mem_filter hj)
                    · rw [List.mem_singleton.1 hi] at hj
                      exact hgone hj
                · cases approve
                  · intro i hi
                    rcases List.mem_append.1 hi with hi | hi
                    · exact hb i (List.mem_append_left _ hi)
                    · exact hb i (List.mem_append_right _ (List.mem_of_mem_filter hi))
                  · intro i hi
                    rcases List.mem_append.1 hi with hi | hi
                    · rcases List.mem_append.1 hi with hi | hi
                      · exact hb i (List.mem_append_left _ hi)
                      · rw [List.mem_singleton.1 hi]
                        exact hb _ (List.mem_append_right _ hpen)
                    · exact hb i (List.mem_append_right _ (List.mem_of_mem_filter hi))
              rcases User_save_cases
                (if approve then
                  { user with
                    pendingProjects := user.pendingProjects.filter
                      (fun p => some (renderId p) ≠ some pid),
                    projects := user.projects ++ [project.id] }
                else
                  { user with
                    pendingProjects := user.pendingProjects.filter
                      (fun p => some (renderId p) ≠ some pid) })
                { W1 with dbCalls := W1.dbCalls + 1 } with h3 | h3
              · rw [tryCatchReturn_bind_ok _ _ _ _ _ _ h3]
                refine (step_tryCatchReturn hq
                  (stepRet_bind hq (step_sendMessage hq _ _ _ _)
                    (fun _ => stepRet_bind hq
                      (step_tryCatch hq (step_sendMessage hq _ _ _ _) (step_pure hq ()))
                      (fun _ => stepRet_done hq)))
                  (stepRet_catchSend hq c _ _ _)).keeps _ ?_
                cases approve <;> exact hgood
              · rw [tryCatchReturn_bind_thrown _ _ _ _ _ h3]
                exact (step_runRet hq (stepRet_catchSend hq c _ _ _)).keeps _ h0
        · rw [tryCatchReturn_bind_thrown _ _ _ _ _ h2]
          exact (step_runRet hq (stepRet_catchSend hq c _ _ _)).keeps _ h0
  · rw [tryCatchReturn_bind_thrown _ _ _ _ _ h1]
    exact (step_runRet hq (stepRet_catchSend hq c _ _ _)).keeps _ h

/-! ## Sequences of operations on the membership lists -/

theorem membershipOk_op (op : MemberOp) {w : World} (h : MembershipOk w) :
    MembershipOk (op.run w).world := by
  cases op with
  | create c u t => exact membershipOk_handleProjectDescriptionInput c u t h
  | request c u t => exact membershipOk_handleJoinProjectInput c u t h
  | approve c a p r =>
    exact membershipOk_resolveJoinRequest true c a (renderId p) r (canonical_renderId p) h
  | reject c a p r =>
    exact membershipOk_resolveJoinRequest false c a (renderId p) r (canonical_renderId p) h

theorem membershipOk_runOps (ops : List MemberOp) {w : World} (h : MembershipOk w) :
    MembershipOk (runOps ops w) := by
  induction ops generalizing w with
  | nil => exact h
  | cons op rest ih => exact ih (membershipOk_op op h)

theorem quiet_users : Quiet (Same (fun w => w.users)) :=
  quiet_same _ (fun _ _ => rfl) (fun _ _ => rfl) (fun _ _ => rfl) (fun _ _ => rfl)

/-- An approval that goes through: the document of the requesting user is saved
with the project moved from the pending list to the projects list. -/
theorem approve_moves (c : Int) (a p : Nat) (n : Int) (w : World) (project : Project)
    (user : User) (hp : p < 16 ^ 24) (hdb : ∀ k, w.dbFails k = false)
    (hproject : w.projects.find? (fun x => x.id = p) = some project)
    (hadmin : project.adminId = a)
    (huser : w.users.find? (fun x => (x.telegramId : Int) = n) = some user)
    (hpending : p ∈ user.pendingProjects) :
    ((MemberOp.approve c a p (some n)).run w).world.users
      = w.users.map (fun x =>
          if x.id = user.id then
            { user with
              pendingProjects := user.pendingProjects.filter
                (fun q => some (renderId q) ≠ some (renderId p)),
              projects := user.projects ++ [p] }
          else x) := by
  have hq := quiet_users
  have hid : parseId (renderId p) = some p := by
    rw [parseId_renderId, Nat.mod_eq_of_lt hp]
  have hpid : project.id = p := by simpa using List.find?_some hproject
  show (userController.approveJoinRequest c a (some (renderId p)) (some n) w).world.users = _
  unfold userController.approveJoinRequest userController.resolveJoinRequest
  have h1 : Project.findById (some (renderId p)) w
      = .ok (some project) { w with dbCalls := w.dbCalls + 1 } := by
    simp [Project.findById, hid, Project_findByObjectId_ok p w (hdb _), hproject]
  rw [tryCatchReturn_bind_ok _ _ _ _ _ _ h1]
  dsimp only
  rw [if_neg (by simpa using hadmin)]
  have h2 : userController.findUserByNumber (some n) { w with dbCalls := w.dbCalls + 1 }
      = .ok (some user) { w with dbCalls := w.dbCalls + 1 + 1 } := by
    simp [userController.findUserByNumber, dbCall, hdb, getWorld, huser]
  rw [tryCatchReturn_bind_ok _ _ _ _ _ _ h2]
  dsimp only
  rw [if_neg (by simpa [hpid] using hpending)]
  have h3 := User_save_ok
    (if true = true then
      { user with
        pendingProjects := user.pendingProjects.filter
          (fun q => some (renderId q) ≠ some (renderId p)),
        projects := user.projects ++ [project.id] }
    else
      { user with
        pendingProjects := user.pendingProjects.filter
          (fun q => some (renderId q) ≠ some (renderId p)) })
    { w with dbCalls := w.dbCalls + 1 + 1 } (hdb _)
  rw [tryCatchReturn_bind_ok _ _ _ _ _ _ h3]
  refine Eq.trans ((step_tryCatchReturn hq
    (stepRet_bind hq (step_sendMessage hq _ _ _ _)
      (fun _ => stepRet_bind hq
        (step_tryCatch hq (step_sendMessage hq _ _ _ _) (step_pure hq ()))
        (fun _ => stepRet_done hq)))
    (stepRet_catchSend hq c _ _ _)).keeps _) ?_
  simp [hpid]

/-- C27: let every user have duplicate-free `projects` and `pendingProjects` lists
that share no id, and let the next id be fresh (above every id in these lists
and every project id).  Then after any sequence of project creations (last
step), join requests, and presses of the Approve and Reject buttons, whatever
fails on the way, the lists are again duplicate-free and share no id, and the
next id is again fresh.  In particular an approval that goes through (ids are
below `16^24`, the caller is the admin, the request is pending, the database
calls succeed) saves the user with the project removed from `pendingProjects`
and appended to `projects`.  The buttons carry the id as the bot writes it. -/
theorem C27_membership_lists_stay_clean (ops : List MemberOp) (w : World)
    (hclean : ListsClean w) (hfresh : IdsBelowNext w) :
    ListsClean (runOps ops w) ∧ IdsBelowNext (runOps ops w)
      ∧ ∀ (c : Int) (a p : Nat) (n : Int) (project : Project) (user : User),
          p < 16 ^ 24 → (∀ k, (runOps ops w).dbFails k = false) →
          (runOps ops w).projects.find? (fun x => x.id = p) = some project →
          project.adminId = a →
          (runOps ops w).users.find? (fun x => (x.telegramId : Int) = n) = some user →
          p ∈ user.pendingProjects →
          ((MemberOp.approve c a p (some n)).run (runOps ops w)).world.users
              = (runOps ops w).users.map (fun x =>
                  if x.id = user.id then
                    { user with
                      pendingProjects := user.pendingProjects.filter
                        (fun q => some (renderId q) ≠ some (renderId p)),
                      projects := user.projects ++ [p] }
                  else x)
            ∧ p ∉ user.pendingProjects.filter
                (fun q => some (renderId q) ≠ some (renderId p))
            ∧ p ∈ user.projects ++ [p] := by
  have h := membershipOk_runOps ops (show MembershipOk w from ⟨hclean, hfresh⟩)
  refine ⟨h.1, h.2, ?_⟩
  intro c a p n project user hp hdb hproject hadmin huser hpending
  exact ⟨approve_moves c a p n _ project user hp hdb hproject hadmin huser hpending,
    by simp, by simp⟩

set_option maxRecDepth 1000000 in
/-- C27, an instance: user 8 creates a project, users 8 and 9 ask to join project
50, the first request is approved and the second rejected. -/
theorem C27_membership_story_witness :
    memberLists (runOps (membershipStory.take 3) storyWorld)
        = [(7, [50], []), (8, [100], [50]), (9, [], [50])]
      ∧ memberLists (runOps membershipStory storyWorld)
        = [(7, [50], []), (8, [100, 50], []), (9, [], [])]
      ∧ ListsClean (runOps membershipStory storyWorld) :=
  ⟨by decide, by decide,
    (C27_membership_lists_stay_clean membershipStory storyWorld
      (by unfold ListsClean; decide) (by unfold IdsBelowNext; decide)).1⟩

end HoldMyTask
